import Mathlib

/-! # terraform-provider-sakuracloud: resource handlers and their remote-call traces

A shallow embedding of the lifecycle handlers under `sakuracloud/`.  A handler is a
function over an explicit run state: the remote API is an oracle over a world state
`σ`, every remote call and every `sakuraMutexKV.Lock` / `Unlock` is appended to a
trace, and Go's `defer` is a stack that the function boundary unwinds.
-/

namespace Sakura

/-! ## Values shared by all handlers -/

/-- Go `error` value: the message and, when the error is an API error, its HTTP response code. -/
structure Err where
  msg : String
  code : Option Nat
deriving DecidableEq, Repr

/-- Test `err.(api.Error)` together with `ResponseCode() == 404` (and `sacloud.IsNotFoundError`). -/
def Err.isNotFound (e : Err) : Bool := e.code == some 404

/-- Formatting `fmt.Errorf(pfx + "%s", err)`: a plain error whose text ends with the cause. -/
def wrapErr (pfx : String) (e : Err) : Err := ⟨pfx ++ e.msg, none⟩

/-- Plain `errors.New(msg)`. -/
def newErr (msg : String) : Err := ⟨msg, none⟩

/-- The text of `e` occurs inside the text of `E`. -/
def Err.Mentions (E e : Err) : Prop := ∃ a b : String, E.msg = a ++ e.msg ++ b

/-- Scalar attribute values inside a nested block. -/
inductive Prim where
  | str (s : String)
  | int (i : Int)
  | bool (b : Bool)
deriving DecidableEq, Repr

/-- Attribute values as the plugin SDK hands them over (`interface{}`); `null` is Go `nil`. -/
inductive Value where
  | null
  | str (s : String)
  | int (i : Int)
  | bool (b : Bool)
  | strs (xs : List String)
  | optStrs (xs : List (Option String))
  | recs (rows : List (List (String × Prim)))
deriving DecidableEq, Repr

/-- Outcome of running Go code: a value, a returned `error`, or a runtime panic. -/
inductive Res (α : Type) where
  | ok (a : α)
  | err (e : Err)
  | panic
deriving DecidableEq, Repr

/-! ## `hasTagResourceCustomizeDiff` (customize_diff_func.go) -/

/-- The operations of `*schema.ResourceDiff` used by the provider, over a diff type `Δ`. -/
structure DiffOps (Δ : Type) where
  HasChange : Δ → String → Bool
  GetChange : Δ → String → Value × Value
  Clear : Δ → String → Option Err × Δ

/-- Sorting `sort.Strings`: ascending order of the strings. -/
def sortStrings (xs : List String) : List String :=
  xs.insertionSort (fun a b => a ≤ b)

/-- The type assertion `v.([]interface{})` on a list of strings; anything else panics. -/
def asStringList : Value → Option (List String)
  | .strs xs => some xs
  | _ => none

/-- Embedding of `hasTagResourceCustomizeDiff`; `expandStringList` (not part of the sources
at hand) is a parameter.  Returns the function's result and the diff afterwards. -/
def hasTagResourceCustomizeDiff {Δ : Type} (ops : DiffOps Δ)
    (expandStringList : List String → List String) (d : Δ) : Res (Option Err) × Δ :=
  if ops.HasChange d "tags" then
    let o := (ops.GetChange d "tags").1
    let n := (ops.GetChange d "tags").2
    if o ≠ .null ∧ n ≠ .null then
      match asStringList o, asStringList n with
      | some ol, some nl =>
        let os := sortStrings (expandStringList ol)
        let ns := sortStrings (expandStringList nl)
        if os = ns then ((Res.ok (ops.Clear d "tags").1), (ops.Clear d "tags").2)
        else (.ok none, d)
      | _, _ => (.panic, d)
    else (.ok none, d)
  else (.ok none, d)

/-- A diff that holds the `tags` change only, for concrete runs. -/
structure TagDiff where
  changed : Bool
  old : Value
  new : Value
deriving DecidableEq, Repr

/-- The diff operations on `TagDiff`; `Clear` drops the change. -/
def tagDiffOps : DiffOps TagDiff :=
  { HasChange := fun d key => key == "tags" && d.changed
    GetChange := fun d key => if key = "tags" then (d.old, d.new) else (.null, .null)
    Clear := fun d key =>
      (none, if key = "tags" then { d with changed := false, new := d.old } else d) }

/-- Tags `a, b` reordered to `b, a`. -/
def reorderedTags : TagDiff :=
  { changed := true, old := .strs ["a", "b"], new := .strs ["b", "a"] }

/-! ## Resource data of the plugin SDK (`*schema.ResourceData`) -/

/-- Zero value test behind `GetOk`: an attribute counts as set when it is not the zero value. -/
def Value.isZero : Value → Bool
  | .null => true
  | .str s => s == ""
  | .int i => i == 0
  | .bool b => !b
  | .strs xs => xs.isEmpty
  | .optStrs xs => xs.isEmpty
  | .recs rows => rows.isEmpty

/-- Type assertion `.(string)` on a schema-typed value (an unset attribute is the zero value). -/
def Value.asString : Value → String
  | .str s => s
  | _ => ""

/-- Type assertion `.(int)`. -/
def Value.asInt : Value → Int
  | .int i => i
  | _ => 0

/-- Type assertion `.(bool)`. -/
def Value.asBool : Value → Bool
  | .bool b => b
  | _ => false

/-- Type assertion `.([]interface{})` on a list of strings. -/
def Value.asStrings : Value → List String
  | .strs xs => xs
  | _ => []

/-- Type assertion `.([]interface{})` on a list of strings whose entries may be nil. -/
def Value.asOptStrings : Value → List (Option String)
  | .strs xs => xs.map some
  | .optStrs xs => xs
  | _ => []

/-- Type assertion `.([]interface{})` on a list of nested blocks. -/
def Value.asRecs : Value → List (List (String × Prim))
  | .recs rows => rows
  | _ => []

/-- Field of a nested block as a string (`values["k"].(string)`). -/
def rowStr (row : List (String × Prim)) (k : String) : String :=
  match row.lookup k with
  | some (.str s) => s
  | _ => ""

/-- Field of a nested block as an int. -/
def rowInt (row : List (String × Prim)) (k : String) : Int :=
  match row.lookup k with
  | some (.int i) => i
  | _ => 0

/-- Field of a nested block as a bool. -/
def rowBool (row : List (String × Prim)) (k : String) : Bool :=
  match row.lookup k with
  | some (.bool b) => b
  | _ => false

/-- The handler's view of a resource: its ID, the prior state, the planned values, the
attributes written with `Set` so far (in call order), and the keys for which `Set` is
rejected by the SDK. -/
structure ResourceData where
  id : String
  state : List (String × Value)
  config : List (String × Value)
  sets : List (String × Value)
  setFails : List (String × Err)
deriving DecidableEq, Repr

namespace ResourceData

/-- Reading `d.Get(key)`: the planned value, nil for a key that is not present. -/
def Get (d : ResourceData) (key : String) : Value := (d.config.lookup key).getD .null

/-- Reading `d.GetOk(key)`: the value and whether it differs from the zero value. -/
def GetOk (d : ResourceData) (key : String) : Value × Bool :=
  (d.Get key, !(d.Get key).isZero)

/-- Reading `d.GetChange(key)`: prior and planned value. -/
def GetChange (d : ResourceData) (key : String) : Value × Value :=
  ((d.state.lookup key).getD .null, d.Get key)

/-- Test `d.HasChange(key)`: prior and planned value differ (two zero values are equal). -/
def HasChange (d : ResourceData) (key : String) : Bool :=
  !((d.GetChange key).1 == (d.GetChange key).2 ||
    ((d.GetChange key).1.isZero && (d.GetChange key).2.isZero))

/-- Test `d.HasChanges(keys...)`: some key has a change. -/
def HasChanges (d : ResourceData) (keys : List String) : Bool := keys.any d.HasChange

end ResourceData

/-! ## Handler runs: trace, world and deferred unlocks -/

/-- One entry of the trace of a handler run: a mutex operation, a remote call with its
outcome, or a fixed `time.Sleep`. -/
inductive Event (κ : Type) where
  | lock (key : String)
  | unlock (key : String)
  | call (c : κ) (err : Option Err)
  | sleep (seconds : Nat)
deriving DecidableEq, Repr

/-- Run state: the remote world, the resource data, the trace so far and the pending
`defer sakuraMutexKV.Unlock(key)` statements of the running function, latest first. -/
structure St (κ σ : Type) where
  world : σ
  d : ResourceData
  trace : List (Event κ)
  defers : List String
deriving Repr

/-- A piece of handler code: runs from a state to an outcome and the state afterwards. -/
def Go (κ σ α : Type) : Type := St κ σ → Res α × St κ σ

namespace Go

variable {κ σ α β : Type}

/-- Plain `return`-free continuation with a value. -/
protected def pure (a : α) : Go κ σ α := fun s => (.ok a, s)

/-- Sequencing: an error or a panic ends the function, the state is kept. -/
protected def bind (m : Go κ σ α) (f : α → Go κ σ β) : Go κ σ β := fun s =>
  match m s with
  | (.ok a, s') => f a s'
  | (.err e, s') => (.err e, s')
  | (.panic, s') => (.panic, s')

instance : Monad (Go κ σ) where
  pure := Go.pure
  bind := Go.bind

/-- Statement `return err`. -/
def fail (e : Err) : Go κ σ α := fun s => (.err e, s)

/-- A runtime panic (index out of range, nil dereference). -/
def crash : Go κ σ α := fun s => (.panic, s)

/-- The resource data `d`. -/
def getData : Go κ σ ResourceData := fun s => (.ok s.d, s)

/-- Statement `d.SetId(id)`. -/
def SetId (id : String) : Go κ σ Unit := fun s => (.ok (), { s with d := { s.d with id := id } })

/-- Statement `d.Set(key, v)`: records the attribute, or returns the SDK's error. -/
def Set (key : String) (v : Value) : Go κ σ (Option Err) := fun s =>
  match s.d.setFails.lookup key with
  | some e => (.ok (some e), s)
  | none => (.ok none, { s with d := { s.d with sets := s.d.sets ++ [(key, v)] } })

/-- Statement `if err := d.Set(key, v); err != nil { return err }`. -/
def SetOrReturn (key : String) (v : Value) : Go κ σ Unit := fun s =>
  match s.d.setFails.lookup key with
  | some e => (.err e, s)
  | none => (.ok (), { s with d := { s.d with sets := s.d.sets ++ [(key, v)] } })

/-- Statement `if err := d.Set(key, v); err != nil { return fmt.Errorf(pfx + "%s", err) }`. -/
def SetOrWrap (pfx key : String) (v : Value) : Go κ σ Unit := fun s =>
  match s.d.setFails.lookup key with
  | some e => (.err (wrapErr pfx e), s)
  | none => (.ok (), { s with d := { s.d with sets := s.d.sets ++ [(key, v)] } })

/-- A remote API call `c` answered by the oracle `f`; the outcome is handed back as a value
(`x, err := ...`) and logged. -/
def callE (c : κ) (f : κ → σ → Except Err α × σ) : Go κ σ (Except Err α) := fun s =>
  match f c s.world with
  | (.ok a, w) => (.ok (.ok a), { s with world := w, trace := s.trace ++ [.call c none] })
  | (.error e, w) =>
    (.ok (.error e), { s with world := w, trace := s.trace ++ [.call c (some e)] })

/-- A remote call followed by `if err != nil { return fmt.Errorf(pfx + "%s", err) }`. -/
def call (pfx : String) (c : κ) (f : κ → σ → Except Err α × σ) : Go κ σ α := fun s =>
  match f c s.world with
  | (.ok a, w) => (.ok a, { s with world := w, trace := s.trace ++ [.call c none] })
  | (.error e, w) =>
    (.err (wrapErr pfx e), { s with world := w, trace := s.trace ++ [.call c (some e)] })

/-- A remote call followed by `if err != nil { return err }`. -/
def callRaw (c : κ) (f : κ → σ → Except Err α × σ) : Go κ σ α := fun s =>
  match f c s.world with
  | (.ok a, w) => (.ok a, { s with world := w, trace := s.trace ++ [.call c none] })
  | (.error e, w) => (.err e, { s with world := w, trace := s.trace ++ [.call c (some e)] })

/-- Statement `sakuraMutexKV.Lock(key)`. -/
def Lock (key : String) : Go κ σ Unit := fun s =>
  (.ok (), { s with trace := s.trace ++ [.lock key] })

/-- Statement `defer sakuraMutexKV.Unlock(key)`: the key is evaluated now, the unlock runs
when the surrounding function returns. -/
def deferUnlock (key : String) : Go κ σ Unit := fun s =>
  (.ok (), { s with defers := key :: s.defers })

/-- Statement `time.Sleep(seconds)`. -/
def Sleep (seconds : Nat) : Go κ σ Unit := fun s =>
  (.ok (), { s with trace := s.trace ++ [.sleep seconds] })

/-- A Go function body: its deferred unlocks run, latest first, when it returns or panics. -/
def func (body : Go κ σ α) : Go κ σ α := fun s =>
  match body { s with defers := [] } with
  | (r, s') => (r, { s' with trace := s'.trace ++ s'.defers.map Event.unlock, defers := s.defers })

end Go

/-- Start of a handler run: the given world and resource data, nothing logged. -/
def St.init {κ σ : Type} (w : σ) (d : ResourceData) : St κ σ :=
  { world := w, d := d, trace := [], defers := [] }

/-- The event is a remote call that returned an error. -/
def Event.failed {κ : Type} : Event κ → Bool
  | .call _ (some _) => true
  | _ => false

/-- The event is a remote call. -/
def Event.isCall {κ : Type} : Event κ → Bool
  | .call _ _ => true
  | _ => false

/-- Stack discipline of the mutex operations in a trace: `Lock` pushes its key, `Unlock`
must name the key on top and pops it.  Returns the keys still held. -/
def lockStack {κ : Type} : List (Event κ) → List String → Option (List String)
  | [], held => some held
  | .lock k :: rest, held => lockStack rest (k :: held)
  | .unlock k :: rest, held =>
    match held with
    | top :: below => if top = k then lockStack rest below else none
    | [] => none
  | _ :: rest, held => lockStack rest held

/-- Every `Lock` in the trace is matched by exactly one later `Unlock` of the same key, and
nothing else is unlocked. -/
def Balanced {κ : Type} (tr : List (Event κ)) : Prop := lockStack tr [] = some []

/-! ## MobileGateway (resource_sakuracloud_mobile_gateway.go) -/

/-- Library type `sacloud.Subnet`, the part the handlers read. -/
structure Subnet where
  NetworkMaskLen : Int
deriving DecidableEq, Repr

/-- Library type `sacloud.Switch`, the part the handlers read. -/
structure Switch where
  ID : Int
  Subnet : Option Subnet
deriving DecidableEq, Repr

/-- Library type `sacloud.Interface`: a NIC as reported by the API. -/
structure Interface where
  IPAddress : String
  Switch : Option Switch
deriving DecidableEq, Repr

/-- Library type `sacloud.MGWInterface`: the private interface inside the settings. -/
structure MGWInterface where
  IPAddress : List String
  NetworkMaskLen : Int
deriving DecidableEq, Repr

/-- Library type `sacloud.MGWStaticRoute`. -/
structure MGWStaticRoute where
  Prefix : String
  NextHop : String
deriving DecidableEq, Repr

/-- Library type `sacloud.MobileGatewaySetting` (`Settings.MobileGateway`). -/
structure MobileGatewaySetting where
  InternetConnectionEnabled : String
  Interfaces : List (Option MGWInterface)
  StaticRoutes : List MGWStaticRoute
deriving DecidableEq, Repr

/-- Library type `sacloud.MobileGateway`, the fields the handlers touch. -/
structure MobileGateway where
  ID : Int
  Name : String
  Description : String
  Tags : List String
  Icon : Option Int
  InstanceStatus : String
  Availability : String
  Interfaces : List Interface
  Settings : MobileGatewaySetting
deriving DecidableEq, Repr

/-- Library type `sacloud.TrafficMonitoringNotifySlack`. -/
structure TrafficMonitoringNotifySlack where
  Enabled : Bool
  IncomingWebhooksURL : String
deriving DecidableEq, Repr

/-- Library type `sacloud.TrafficMonitoringConfig`; `EMailConfig` holds its `Enabled` flag. -/
structure TrafficMonitoringConfig where
  TrafficQuotaInMB : Int
  BandWidthLimitInKbps : Int
  EMailConfig : Option Bool
  SlackConfig : Option TrafficMonitoringNotifySlack
  AutoTrafficShaping : Bool
deriving DecidableEq, Repr

/-- Library type `sacloud.MobileGatewayResolver` (`SimGroup.DNS1`, `SimGroup.DNS2`). -/
structure MobileGatewayResolver where
  DNS1 : String
  DNS2 : String
deriving DecidableEq, Repr

/-- Library type `sacloud.SIMInfo`, the fields the handlers read. -/
structure SIMInfo where
  ResourceID : String
  Activated : Bool
deriving DecidableEq, Repr

/-- Remote calls of the MobileGateway handlers, with their arguments.  `handleShutdown` is a
helper of the provider that is not part of the sources at hand; it is one remote step. -/
inductive MGWCall where
  | Create (m : MobileGateway)
  | SleepWhileCopying (id : Int)
  | Read (id : Int)
  | Update (id : Int) (m : MobileGateway)
  | UpdateSetting (id : Int) (m : MobileGateway)
  | handleShutdown (id : Int)
  | SleepUntilDown (id : Int)
  | SleepUntilUp (id : Int)
  | DisconnectFromSwitch (id : Int)
  | ConnectToSwitch (id : Int) (switchID : Int)
  | Config (id : Int)
  | Boot (id : Int)
  | SetTrafficMonitoringConfig (id : Int) (tc : TrafficMonitoringConfig)
  | DisableTrafficMonitoringConfig (id : Int)
  | GetTrafficMonitoringConfig (id : Int)
  | SetDNS (id : Int) (dns : MobileGatewayResolver)
  | GetDNS (id : Int)
  | ListSIM (id : Int)
  | SIMDeactivate (sim : Int)
  | SIMClearIP (sim : Int)
  | DeleteSIM (id : Int) (sim : Int)
  | Delete (id : Int)
deriving DecidableEq, Repr

/-- What the MobileGateway handlers use from outside the file: helper functions of the
provider, methods of the API library and the rendering of a string by the verb `%q` of the
package `fmt` (`Quote`), all pure, and the remote API as oracles over the world `σ`, one per
result type. -/
structure MGWClient (σ : Type) where
  toSakuraCloudID : String → Int
  GetStrID : Int → String
  expandTags : List String → List String
  getListFromResource : ResourceData → String → List (List (String × Prim)) × Bool
  expandMobileGatewayStaticRoute : List (String × Prim) → MGWStaticRoute
  setPowerManageTimeoutValueToState : ResourceData → ResourceData
  IsUp : MobileGateway → Bool
  IsFailed : MobileGateway → Bool
  HasStaticRoutes : MobileGateway → Bool
  SetIconByID : MobileGateway → Int → MobileGateway
  ClearIcon : MobileGateway → MobileGateway
  GetIconStrID : MobileGateway → String
  SetPrivateInterface : MobileGateway → String → Int → MobileGateway
  ClearPrivateInterface : MobileGateway → MobileGateway
  Quote : String → String
  mgw : MGWCall → σ → Except Err MobileGateway × σ
  unit : MGWCall → σ → Except Err Unit × σ
  tc : MGWCall → σ → Except Err (Option TrafficMonitoringConfig) × σ
  dns : MGWCall → σ → Except Err MobileGatewayResolver × σ
  sims : MGWCall → σ → Except Err (List SIMInfo) × σ

section MobileGateway

variable {σ : Type}

open Go

/-- Lines 176-194 and 356-374: the switch ID, private IP address and mask length of the
desired state, or the validation error. -/
def mgwSwitchParams (cl : MGWClient σ) (d : ResourceData) : Except Err (Int × String × Int) :=
  if (d.GetOk "switch_id").2 then
    let strSwitchID := (d.GetOk "switch_id").1.asString
    if strSwitchID ≠ "" then
      let switchID := cl.toSakuraCloudID strSwitchID
      let ip := if (d.GetOk "private_ipaddress").2
        then (d.GetOk "private_ipaddress").1.asString else ""
      let nwMaskLen := if (d.GetOk "private_nw_mask_len").2
        then (d.GetOk "private_nw_mask_len").1.asInt else 0
      if ip = "" ∨ nwMaskLen = 0 then
        .error (newErr
          "MobileGateway needs private_ipaddress and private_nw_mask_len when switch_id is specified")
      else .ok (switchID, ip, nwMaskLen)
    else .ok (0, "", 0)
  else .ok (0, "", 0)

/-- The `traffic_control` block of the desired state as a `TrafficMonitoringConfig`
(lines 258-270 and 468-480). -/
def expandTrafficControl (values : List (String × Prim)) : TrafficMonitoringConfig :=
  { TrafficQuotaInMB := rowInt values "quota"
    BandWidthLimitInKbps := rowInt values "band_width_limit"
    EMailConfig := some (rowBool values "enable_email")
    SlackConfig := some
      { Enabled := rowBool values "enable_slack"
        IncomingWebhooksURL := rowStr values "slack_webhook" }
    AutoTrafficShaping := rowBool values "auto_traffic_shaping" }

/-- The static-route loop (lines 289-301 and 509-520): every desired route is appended to
the routes collected so far unless one of them has the same prefix; the error is
`fmt.Errorf("prefix %q already exists", sr.Prefix)`. -/
def appendStaticRoutes (cl : MGWClient σ) :
    List (List (String × Prim)) → List MGWStaticRoute → Except Err (List MGWStaticRoute)
  | [], acc => .ok acc
  | rawStaticRoutes :: rest, acc =>
    let staticRoute := cl.expandMobileGatewayStaticRoute rawStaticRoutes
    match acc.find? (fun sr => sr.Prefix == staticRoute.Prefix) with
    | some sr => .error (newErr ("prefix " ++ cl.Quote sr.Prefix ++ " already exists"))
    | none => appendStaticRoutes cl rest (acc ++ [staticRoute])

/-- The flattened `traffic_control` entry (lines 626-642). -/
def flattenTrafficControl (tc : TrafficMonitoringConfig) : List (String × Prim) :=
  [("quota", .int tc.TrafficQuotaInMB),
   ("band_width_limit", .int tc.BandWidthLimitInKbps),
   ("auto_traffic_shaping", .bool tc.AutoTrafficShaping),
   ("enable_email", .bool (match tc.EMailConfig with
      | none => false
      | some enabled => enabled)),
   ("enable_slack", .bool (match tc.SlackConfig with
      | none => false
      | some slack => slack.Enabled)),
   ("slack_webhook", .str (match tc.SlackConfig with
      | none => ""
      | some slack => slack.IncomingWebhooksURL))]

/-- The `static_route` state value (lines 654-662). -/
def flattenStaticRoutes (cl : MGWClient σ) (data : MobileGateway) : List (List (String × Prim)) :=
  if cl.HasStaticRoutes data then
    data.Settings.StaticRoutes.map
      (fun r => [("prefix", Prim.str r.Prefix), ("next_hop", Prim.str r.NextHop)])
  else []

/-- Embedding of `setMobileGatewayResourceData`.  The gateway value carries its settings:
`Settings`, `Settings.MobileGateway` and `InternetConnection` of the library value are taken
to be present. -/
def setMobileGatewayResourceData (cl : MGWClient σ) (data : MobileGateway) :
    Go MGWCall σ Unit :=
  if cl.IsFailed data then do
    SetId ""
    fail (newErr ("MobileGateway[" ++ toString data.ID ++ "] state is failed"))
  else
    match data.Interfaces with
    | [] => crash
    | if0 :: others => do
      let _ ← Set "public_ipaddress" (.str if0.IPAddress)
      match if0.Switch.bind (fun sw => sw.Subnet) with
      | none => crash
      | some subnet => do
        let _ ← Set "public_nw_mask_len" (.int subnet.NetworkMaskLen)
        let _ ← Set "internet_connection"
          (.bool (data.Settings.InternetConnectionEnabled.toLower == "true"))
        (match others.head?.bind (fun if1 => if1.Switch) with
          | some sw => do
            let _ ← Set "switch_id" (.str (cl.GetStrID sw.ID))
            match (data.Settings.Interfaces.get? 1).join.bind
                (fun nic => nic.IPAddress.head?.map (fun ip => (ip, nic.NetworkMaskLen))) with
            | none => crash
            | some (ip, len) =>
              let _ ← Set "private_ipaddress" (.str ip)
              let _ ← Set "private_nw_mask_len" (.int len)
          | none => do
            let _ ← Set "switch_id" (.str "")
            let _ ← Set "private_ipaddress" (.str "")
            let _ ← Set "private_nw_mask_len" (.str "") : Go MGWCall σ Unit)
        let tc ← (do
          match ← callE (.GetTrafficMonitoringConfig data.ID) cl.tc with
          | .error e =>
            if e.code.isSome ∧ e.code ≠ some 404 then
              fail (wrapErr
                "Error reading SakuraCloud MobileGateway resource(traffic-control): " e)
            else pure none
          | .ok tc => pure tc : Go MGWCall σ (Option TrafficMonitoringConfig))
        (match tc with
          | some tc => do
            let _ ← Set "traffic_control" (.recs [flattenTrafficControl tc])
          | none => pure () : Go MGWCall σ Unit)
        let resolver ← call "Error reading SakuraCloud MobileGateway resource(dns-resolver): "
          (.GetDNS data.ID) cl.dns
        let _ ← Set "dns_server1" (.str resolver.DNS1)
        let _ ← Set "dns_server2" (.str resolver.DNS2)
        let _ ← Set "static_route" (.recs (flattenStaticRoutes cl data))
        let _ ← Set "name" (.str data.Name)
        let _ ← Set "icon_id" (.str (cl.GetIconStrID data))
        let _ ← Set "description" (.str data.Description)
        let _ ← Set "tags" (.strs data.Tags)
        let sims ← call "Error reading SakuraCloud MobileGateway resource(dns-resolver): "
          (.ListSIM data.ID) cl.sims
        let _ ← Set "sim_ids" (.strs (sims.map (fun sim => sim.ResourceID)))
        fun s => (.ok (), { s with d := cl.setPowerManageTimeoutValueToState s.d })

/-- Embedding of `resourceSakuraCloudMobileGatewayRead`. -/
def resourceSakuraCloudMobileGatewayRead (cl : MGWClient σ) : Go MGWCall σ Unit := do
  let d ← getData
  match ← callE (.Read (cl.toSakuraCloudID d.id)) cl.mgw with
  | .error e =>
    if e.isNotFound then SetId ""
    else fail (wrapErr "Couldn't find SakuraCloud MobileGateway resource: " e)
  | .ok mgw => setMobileGatewayResourceData cl mgw

/-- Lines 376-408: the metadata of the desired state written into the gateway value. -/
def mgwApplyMetadata (cl : MGWClient σ) (d : ResourceData) (mgw : MobileGateway) :
    MobileGateway :=
  let mgw := if d.HasChange "name" then { mgw with Name := (d.Get "name").asString } else mgw
  let mgw := if d.HasChange "icon_id" then
      (if (d.GetOk "icon_id").2
        then cl.SetIconByID mgw (cl.toSakuraCloudID (d.GetOk "icon_id").1.asString)
        else cl.ClearIcon mgw)
    else mgw
  let mgw := if d.HasChange "description" then
      (if (d.GetOk "description").2
        then { mgw with Description := (d.GetOk "description").1.asString }
        else { mgw with Description := "" })
    else mgw
  let mgw := if d.HasChange "tags" then
      (if d.Get "tags" ≠ .null
        then { mgw with Tags := cl.expandTags (d.Get "tags").asStrings }
        else { mgw with Tags := cl.expandTags [] })
    else mgw
  if d.HasChange "internet_connection" then
    { mgw with Settings := { mgw.Settings with
        InternetConnectionEnabled :=
          if (d.Get "internet_connection").asBool then "True" else "False" } }
  else mgw

/-- Lines 415-463: the network settings block.  Returns the gateway value and
`needRestart`. -/
def mgwUpdateNetwork (cl : MGWClient σ) (d : ResourceData) (switchID : Int) (ip : String)
    (nwMaskLen : Int) (mgw : MobileGateway) : Go MGWCall σ (MobileGateway × Bool) :=
  if d.HasChanges ["switch_id", "private_ipaddress", "private_nw_mask_len"] then do
    let needRestart ← (if cl.IsUp mgw then do
        call "Error updating SakuraCloud MobileGateway resource: "
          (.handleShutdown mgw.ID) cl.unit
        call "Error updating SakuraCloud MobileGateway resource: "
          (.SleepUntilDown mgw.ID) cl.unit
        pure true
      else pure false : Go MGWCall σ Bool)
    (if d.HasChange "switch_id" ∧ (mgw.Interfaces.get? 1).any (fun nic => nic.Switch.isSome) then
        call "Error updating SakuraCloud MobileGateway resource: "
          (.DisconnectFromSwitch mgw.ID) cl.unit
      else pure () : Go MGWCall σ Unit)
    let mgw ← (if switchID > 0 then do
        call "Error updating SakuraCloud MobileGateway resource: "
          (.ConnectToSwitch mgw.ID switchID) cl.unit
        let mgw := if mgw.Settings.Interfaces.length = 0
          then { mgw with Settings := { mgw.Settings with
                  Interfaces := mgw.Settings.Interfaces ++ [none] } }
          else mgw
        pure (cl.SetPrivateInterface mgw ip nwMaskLen)
      else pure (cl.ClearPrivateInterface mgw) : Go MGWCall σ MobileGateway)
    let mgw ← call "MobileGatewayInterfaceConnect is failed: " (.Update mgw.ID mgw) cl.mgw
    call "MobileGatewayInterfaceConnect is failed: " (.Config mgw.ID) cl.unit
    pure (mgw, needRestart)
  else pure (mgw, false)

/-- Lines 465-492: the traffic-control block. -/
def mgwUpdateTrafficControl (cl : MGWClient σ) (d : ResourceData) (mgw : MobileGateway) :
    Go MGWCall σ Unit :=
  if d.HasChange "traffic_control" then
    match (d.Get "traffic_control").asRecs with
    | values :: _ =>
      call "Failed to enable traffic-control on SakuraCloud MobileGateway: "
        (.SetTrafficMonitoringConfig mgw.ID (expandTrafficControl values)) cl.unit
    | [] => do
      match ← callE (.DisableTrafficMonitoringConfig mgw.ID) cl.unit with
      | .error e =>
        if ¬ e.code.isSome ∨ e.code ≠ some 404 then
          fail (wrapErr "Failed to disable traffic-control on SakuraCloud MobileGateway: " e)
        else pure ()
      | .ok _ => pure ()
  else pure ()

/-- Lines 494-503: the DNS block. -/
def mgwUpdateDNS (cl : MGWClient σ) (d : ResourceData) (mgw : MobileGateway) :
    Go MGWCall σ Unit :=
  if d.HasChanges ["dns1", "dns2"] then
    let dns1 := (d.Get "dns_server1").asString
    let dns2 := (d.Get "dns_server2").asString
    if dns1 ≠ "" ∨ dns2 ≠ "" then
      call "Failed to wait SakuraCloud MobileGateway boot: "
        (.SetDNS mgw.ID ⟨dns1, dns2⟩) cl.unit
    else pure ()
  else pure ()

/-- Lines 505-531: the static-route block.  Returns the gateway value. -/
def mgwUpdateStaticRoute (cl : MGWClient σ) (d : ResourceData) (mgw : MobileGateway) :
    Go MGWCall σ MobileGateway :=
  if d.HasChange "static_route" then do
    let mgw := { mgw with Settings := { mgw.Settings with StaticRoutes := [] } }
    let mgw ← (if (cl.getListFromResource d "static_route").2 ∧
                  (cl.getListFromResource d "static_route").1.length > 0 then
        match appendStaticRoutes cl (cl.getListFromResource d "static_route").1
            mgw.Settings.StaticRoutes with
        | .error e => fail e
        | .ok routes => pure { mgw with Settings := { mgw.Settings with StaticRoutes := routes } }
      else pure mgw : Go MGWCall σ MobileGateway)
    let mgw ← call "Failed to enable SakuraCloud MobileGatewayStaticRoute resource: "
      (.UpdateSetting mgw.ID mgw) cl.mgw
    call "Couldn'd apply SakuraCloud MobileGateway config: " (.Config mgw.ID) cl.unit
    pure mgw
  else pure mgw

/-- Lines 533-542: boot again when the gateway was shut down. -/
def mgwRestart (cl : MGWClient σ) (needRestart : Bool) (mgw : MobileGateway) :
    Go MGWCall σ Unit :=
  if needRestart then do
    call "Error updating SakuraCloud MobileGateway resource: " (.Boot mgw.ID) cl.unit
    call "Error updating SakuraCloud MobileGateway resource: " (.SleepUntilUp mgw.ID) cl.unit
  else pure ()

/-- Lines 356-544 of `resourceSakuraCloudMobileGatewayUpdate`: what follows the initial Read
of the gateway `mgw`. -/
def mgwUpdateAfterRead (cl : MGWClient σ) (d : ResourceData) (mgw : MobileGateway) :
    Go MGWCall σ Unit :=
  match mgwSwitchParams cl d with
  | .error e => fail e
  | .ok (switchID, ip, nwMaskLen) => do
    let mgw ← call "Error updating SakuraCloud MobileGateway resource: "
      (.Update mgw.ID (mgwApplyMetadata cl d mgw)) cl.mgw
    let r ← mgwUpdateNetwork cl d switchID ip nwMaskLen mgw
    mgwUpdateTrafficControl cl d r.1
    mgwUpdateDNS cl d r.1
    let mgw ← mgwUpdateStaticRoute cl d r.1
    mgwRestart cl r.2 mgw
    resourceSakuraCloudMobileGatewayRead cl

/-- The body of `resourceSakuraCloudMobileGatewayUpdate` after the lock is taken
(lines 351-544); `d` is the resource data of the call. -/
def mgwUpdateBody (cl : MGWClient σ) (d : ResourceData) : Go MGWCall σ Unit := do
  let mgw ← call "Couldn't find SakuraCloud MobileGateway resource: "
    (.Read (cl.toSakuraCloudID d.id)) cl.mgw
  mgwUpdateAfterRead cl d mgw

/-- Embedding of `resourceSakuraCloudMobileGatewayUpdate`. -/
def resourceSakuraCloudMobileGatewayUpdate (cl : MGWClient σ) : Go MGWCall σ Unit :=
  func do
    let d ← getData
    Lock d.id
    deferUnlock d.id
    mgwUpdateBody cl d

/-- The SIM loop of `resourceSakuraCloudMobileGatewayDelete` (lines 573-588). -/
def mgwDeleteSIMs (cl : MGWClient σ) (mgw : MobileGateway) : List SIMInfo → Go MGWCall σ Unit
  | [] => pure ()
  | sim :: rest => do
    (if sim.Activated then
        call "Failed to deactivate SakuraCloud SIM resource: "
          (.SIMDeactivate (cl.toSakuraCloudID sim.ResourceID)) cl.unit
      else pure () : Go MGWCall σ Unit)
    call "Failed to ClearIP SakuraCloud SIM resource: "
      (.SIMClearIP (cl.toSakuraCloudID sim.ResourceID)) cl.unit
    call "Error deleting SakuraCloud MobileGateway resource: "
      (.DeleteSIM mgw.ID (cl.toSakuraCloudID sim.ResourceID)) cl.unit
    mgwDeleteSIMs cl mgw rest

/-- The body of `resourceSakuraCloudMobileGatewayDelete` after the lock is taken
(lines 553-595). -/
def mgwDeleteBody (cl : MGWClient σ) (d : ResourceData) : Go MGWCall σ Unit := do
  match ← callE (.Read (cl.toSakuraCloudID d.id)) cl.mgw with
  | .error e =>
    if e.isNotFound then SetId ""
    else fail (wrapErr "Couldn't find SakuraCloud MobileGateway resource: " e)
  | .ok mgw =>
    call "Error stopping SakuraCloud MobileGateway resource: "
      (.handleShutdown (cl.toSakuraCloudID d.id)) cl.unit
    let sims ← call "Error deleting SakuraCloud MobileGateway resource: "
      (.ListSIM mgw.ID) cl.sims
    mgwDeleteSIMs cl mgw sims
    call "Error deleting SakuraCloud MobileGateway resource: "
      (.Delete (cl.toSakuraCloudID d.id)) cl.unit

/-- Embedding of `resourceSakuraCloudMobileGatewayDelete`. -/
def resourceSakuraCloudMobileGatewayDelete (cl : MGWClient σ) : Go MGWCall σ Unit :=
  func do
    let d ← getData
    Lock d.id
    deferUnlock d.id
    mgwDeleteBody cl d

end MobileGateway

/-- The calls that change the power state or wait for it: shutdown, boot and the two waits. -/
def MGWCall.isPower : MGWCall → Bool
  | .handleShutdown _ => true
  | .SleepUntilDown _ => true
  | .SleepUntilUp _ => true
  | .Boot _ => true
  | _ => false

/-- The calls that only read remote state. -/
def MGWCall.isReadOnly : MGWCall → Bool
  | .Read _ => true
  | .GetTrafficMonitoringConfig _ => true
  | .GetDNS _ => true
  | .ListSIM _ => true
  | _ => false

/-- The event is a remote call other than a power call. -/
def MGWNoPower : Event MGWCall → Prop
  | .call c _ => c.isPower = false
  | _ => False

/-- The event is a power-state wait (`SleepUntilDown` or `SleepUntilUp`). -/
def isPowerWait : Event MGWCall → Bool
  | .call (.SleepUntilDown _) _ => true
  | .call (.SleepUntilUp _) _ => true
  | _ => false

/-- Failed calls after which the MobileGateway handlers go on on purpose: a not-found reply
to `DisableTrafficMonitoringConfig` (lines 486-490) and a not-found reply to
`GetTrafficMonitoringConfig` (lines 618-623). -/
def mgwContinues : Event MGWCall → Prop
  | .call (.DisableTrafficMonitoringConfig _) (some e) => e.isNotFound = true
  | .call (.GetTrafficMonitoringConfig _) (some e) => e.isNotFound = true
  | _ => False

/-- The failed call that the read-back goes on after although it is no not-found reply:
`GetTrafficMonitoringConfig` failing with an error that is not an API error.  The test of
line 620 is `ok && e.ResponseCode() != http.StatusNotFound` where the sibling test of
line 487 is `!ok || ...`. -/
def mgwSwallowed : Event MGWCall → Prop
  | .call (.GetTrafficMonitoringConfig _) (some e) => e.code = none
  | _ => False

/-- Failed calls after which the code of the MobileGateway handlers goes on, on purpose or
not. -/
def mgwGoesOn (x : Event MGWCall) : Prop := mgwContinues x ∨ mgwSwallowed x

/-- Failed calls that end a handler with a nil result: a not-found reply to `Read` in
`resourceSakuraCloudMobileGatewayRead`. -/
def mgwEndsQuietly : MGWCall → Err → Prop
  | .Read _, e => e.isNotFound = true
  | _, _ => False

/-- The failed call `c` with error `e`, issued after the events `pre`, is one the update
handler tolerates on purpose: a not-found reply after which it goes on, or the not-found
reply to the final Read (a Read that is not the first remote call), which ends it with
nil. -/
def mgwTolerated (pre : List (Event MGWCall)) (c : MGWCall) (e : Err) : Prop :=
  mgwContinues (Event.call c (some e)) ∨
    (mgwEndsQuietly c e ∧ ∃ x ∈ pre, x.isCall = true)

/-! ### Scripted worlds for concrete MobileGateway runs -/

/-- A scripted oracle over a call counter: the `n`-th remote call (from 0) fails with the
error listed for `n`, every other call returns `a`. -/
def scripted {κ α : Type} (fails : List (Nat × Err)) (a : α) : κ → Nat → Except Err α × Nat :=
  fun _ n =>
    (match fails.lookup n with
      | some e => Except.error e
      | none => Except.ok a, n + 1)

/-- ID parsing on the sample IDs. -/
def sampleID : String → Int
  | "100" => 100
  | "101" => 101
  | _ => 0

/-- ID rendering on the sample IDs. -/
def sampleStrID (i : Int) : String :=
  if i = 100 then "100" else if i = 101 then "101" else ""

/-- A gateway that is up, with its public interface only. -/
def sampleGateway : MobileGateway :=
  { ID := 100
    Name := "mgw"
    Description := "before"
    Tags := []
    Icon := none
    InstanceStatus := "up"
    Availability := "available"
    Interfaces := [{ IPAddress := "203.0.113.10", Switch := some { ID := 1, Subnet := some ⟨28⟩ } }]
    Settings := { InternetConnectionEnabled := "False", Interfaces := [], StaticRoutes := [] } }

/-- The verb `%q` on text without double quote, backslash and non-printable character, as the
sample prefixes are: the text in double quotes. -/
def sampleQuote (s : String) : String := "\"" ++ s ++ "\""

/-- A client whose remote side always reports `gw` and fails on the scripted calls. -/
def scriptedMGW (gw : MobileGateway) (fails : List (Nat × Err)) : MGWClient Nat :=
  { toSakuraCloudID := sampleID
    GetStrID := sampleStrID
    expandTags := fun tags => tags
    getListFromResource := fun d key => ((d.Get key).asRecs, (d.GetOk key).2)
    expandMobileGatewayStaticRoute := fun row => ⟨rowStr row "prefix", rowStr row "next_hop"⟩
    setPowerManageTimeoutValueToState := fun d => d
    IsUp := fun m => m.InstanceStatus == "up"
    IsFailed := fun m => m.Availability == "failed"
    HasStaticRoutes := fun m => !m.Settings.StaticRoutes.isEmpty
    SetIconByID := fun m icon => { m with Icon := some icon }
    ClearIcon := fun m => { m with Icon := none }
    GetIconStrID := fun m => match m.Icon with
      | some icon => sampleStrID icon
      | none => ""
    SetPrivateInterface := fun m ip len =>
      { m with Settings := { m.Settings with Interfaces := [none, some ⟨[ip], len⟩] } }
    ClearPrivateInterface := fun m =>
      { m with Settings := { m.Settings with Interfaces := [none] } }
    Quote := sampleQuote
    mgw := scripted fails gw
    unit := scripted fails ()
    tc := scripted fails none
    dns := scripted fails ⟨"", ""⟩
    sims := scripted fails [] }

/-- Resource data of gateway 100 with the given prior and planned values. -/
def sampleData (state config : List (String × Value)) : ResourceData :=
  { id := "100", state := state, config := config, sets := [], setFails := [] }

/-- Gateway 100 with only `description` changed from "before" to "after". -/
def descriptionChange : ResourceData :=
  sampleData [("description", .str "before")] [("description", .str "after")]

/-- Gateway 100 with a desired state identical to the prior state. -/
def unchangedData : ResourceData :=
  sampleData [("name", .str "mgw"), ("description", .str "before")]
    [("name", .str "mgw"), ("description", .str "before")]

/-- Gateway 100 to be connected to switch 101 with a private address. -/
def connectSwitch : ResourceData :=
  sampleData [("switch_id", .str ""), ("private_ipaddress", .str "")]
    [("switch_id", .str "101"), ("private_ipaddress", .str "192.168.1.10"),
     ("private_nw_mask_len", .int 24)]

/-- Gateway 100 whose `traffic_control` block is removed. -/
def removeTrafficControl : ResourceData :=
  sampleData [("traffic_control", .recs [[("quota", .int 512)]])] [("traffic_control", .recs [])]

/-- A not-found reply of the API. -/
def notFound : Err := ⟨"404 Not Found", some 404⟩

/-- An internal error of the API. -/
def serverError : Err := ⟨"503 Service Unavailable", some 503⟩

/-! ### MobileGateway: Create -/

/-- Library type `sacloud.CreateMobileGatewayValue`. -/
structure CreateMobileGatewayValue where
  Name : String
  IconID : Int
  Description : String
  Tags : List String
deriving DecidableEq, Repr

section MobileGatewayCreate

variable {σ : Type}

open Go

/-- Lines 196-208: the creation options read from the desired state. -/
def mgwCreateOpts (cl : MGWClient σ) (d : ResourceData) : CreateMobileGatewayValue :=
  { Name := (d.Get "name").asString
    IconID := if (d.GetOk "icon_id").2
      then cl.toSakuraCloudID (d.GetOk "icon_id").1.asString else 0
    Description := if (d.GetOk "description").2
      then (d.GetOk "description").1.asString else ""
    Tags := if (d.GetOk "tags").2 ∧ (d.GetOk "tags").1 ≠ .null
      then cl.expandTags (d.GetOk "tags").1.asStrings else [] }

/-- Lines 234-254: connecting the new gateway to the switch. -/
def mgwCreateConnect (cl : MGWClient σ) (switchID : Int) (ip : String) (nwMaskLen : Int)
    (mgw : MobileGateway) : Go MGWCall σ MobileGateway :=
  if switchID > 0 then do
    call "Failed to create SakuraCloud MobileGateway resource: "
      (.ConnectToSwitch mgw.ID switchID) cl.unit
    let mgw := if mgw.Settings.Interfaces.length = 0
      then { mgw with Settings := { mgw.Settings with
              Interfaces := mgw.Settings.Interfaces ++ [none] } }
      else mgw
    let mgw ← call "MobileGatewayInterfaceConnect is failed: "
      (.Update mgw.ID (cl.SetPrivateInterface mgw ip nwMaskLen)) cl.mgw
    call "MobileGatewayInterfaceConnect is failed: " (.Config mgw.ID) cl.unit
    pure mgw
  else pure mgw

/-- Lines 256-275: traffic control of the new gateway. -/
def mgwCreateTrafficControl (cl : MGWClient σ) (d : ResourceData) (mgw : MobileGateway) :
    Go MGWCall σ Unit :=
  match (d.Get "traffic_control").asRecs with
  | values :: _ =>
    call "Failed to enable traffic-control on SakuraCloud MobileGateway: "
      (.SetTrafficMonitoringConfig mgw.ID (expandTrafficControl values)) cl.unit
  | [] => pure ()

/-- Lines 277-285: the resolver of the new gateway. -/
def mgwCreateDNS (cl : MGWClient σ) (d : ResourceData) (mgw : MobileGateway) :
    Go MGWCall σ Unit :=
  let dns1 := (d.Get "dns_server1").asString
  let dns2 := (d.Get "dns_server2").asString
  if dns1 ≠ "" ∨ dns2 ≠ "" then
    call "Failed to wait SakuraCloud MobileGateway boot: "
      (.SetDNS mgw.ID ⟨dns1, dns2⟩) cl.unit
  else pure ()

/-- Lines 287-311: the static routes of the new gateway and the settings update. -/
def mgwCreateStaticRoute (cl : MGWClient σ) (d : ResourceData) (mgw : MobileGateway) :
    Go MGWCall σ MobileGateway := do
  let mgw ← (if (cl.getListFromResource d "static_route").2 ∧
                (cl.getListFromResource d "static_route").1.length > 0 then
      match appendStaticRoutes cl (cl.getListFromResource d "static_route").1
          mgw.Settings.StaticRoutes with
      | .error e => fail e
      | .ok routes => pure { mgw with Settings := { mgw.Settings with StaticRoutes := routes } }
    else pure mgw : Go MGWCall σ MobileGateway)
  let mgw ← call "Failed to enable SakuraCloud MobileGatewayStaticRoute resource: "
    (.UpdateSetting mgw.ID mgw) cl.mgw
  call "Couldn'd apply SakuraCloud MobileGateway config: " (.Config mgw.ID) cl.unit
  pure mgw

/-- Lines 196-327 of `resourceSakuraCloudMobileGatewayCreate`: what follows the validation
of the switch parameters.  `CreateNewMobileGateway` is the library constructor. -/
def mgwCreateAfterValidation (cl : MGWClient σ)
    (CreateNewMobileGateway : CreateMobileGatewayValue → String → Except Err MobileGateway)
    (d : ResourceData) (switchID : Int) (ip : String) (nwMaskLen : Int) :
    Go MGWCall σ Unit :=
  match CreateNewMobileGateway (mgwCreateOpts cl d)
      (if (d.Get "internet_connection").asBool then "True" else "False") with
  | .error e => fail (wrapErr "Failed to create SakuraCloud MobileGateway resource: " e)
  | .ok createMgw => do
    let mgw ← call "Failed to create SakuraCloud MobileGateway resource: "
      (.Create createMgw) cl.mgw
    call "Failed to create SakuraCloud MobileGateway resource: "
      (.SleepWhileCopying mgw.ID) cl.unit
    let mgw ← mgwCreateConnect cl switchID ip nwMaskLen mgw
    mgwCreateTrafficControl cl d mgw
    mgwCreateDNS cl d mgw
    let mgw ← mgwCreateStaticRoute cl d mgw
    Sleep 90
    call "Failed to wait SakuraCloud MobileGateway boot: " (.Boot mgw.ID) cl.unit
    call "Failed to wait SakuraCloud MobileGateway boot: " (.SleepUntilUp mgw.ID) cl.unit
    SetId (cl.GetStrID mgw.ID)
    resourceSakuraCloudMobileGatewayRead cl

/-- Embedding of `resourceSakuraCloudMobileGatewayCreate`. -/
def resourceSakuraCloudMobileGatewayCreate (cl : MGWClient σ)
    (CreateNewMobileGateway : CreateMobileGatewayValue → String → Except Err MobileGateway) :
    Go MGWCall σ Unit := do
  let d ← getData
  match mgwSwitchParams cl d with
  | .error e => fail e
  | .ok (switchID, ip, nwMaskLen) =>
    mgwCreateAfterValidation cl CreateNewMobileGateway d switchID ip nwMaskLen

end MobileGatewayCreate

/-- The library constructor on the sample data: the options become the gateway value. -/
def sampleCreateNewMobileGateway (opts : CreateMobileGatewayValue) (enabled : String) :
    Except Err MobileGateway :=
  .ok { sampleGateway with
    Name := opts.Name
    Description := opts.Description
    Tags := opts.Tags
    Icon := if opts.IconID = 0 then none else some opts.IconID
    InstanceStatus := "down"
    Settings := { sampleGateway.Settings with InternetConnectionEnabled := enabled } }

/-- Gateway 100 with a switch but without a private address. -/
def switchWithoutAddress : ResourceData :=
  sampleData [] [("name", .str "mgw"), ("switch_id", .str "101")]

/-! ## Attributes written by the read-back -/

/-- The value of attribute `key` among the attributes written so far: the value of the last
`Set` for `key`. -/
def ResourceData.written (d : ResourceData) (key : String) : Option Value :=
  d.sets.reverse.lookup key

/-- The `traffic_control` block with the given values of its six fields. -/
def trafficControlBlock (quota bandWidthLimit : Int) (enableEmail enableSlack : Bool)
    (slackWebhook : String) (autoTrafficShaping : Bool) : List (String × Prim) :=
  [("quota", .int quota), ("band_width_limit", .int bandWidthLimit),
   ("enable_email", .bool enableEmail), ("enable_slack", .bool enableSlack),
   ("slack_webhook", .str slackWebhook), ("auto_traffic_shaping", .bool autoTrafficShaping)]

/-- The state entry of one static route as the specification words it: the prefix and the
next hop of the route. -/
def staticRouteEntry (r : MGWStaticRoute) : List (String × Prim) :=
  [("prefix", .str r.Prefix), ("next_hop", .str r.NextHop)]

namespace Go
variable {κ σ α : Type}

/-- The code leaves the keys that the SDK rejects as they are; with `noCall` set it also
leaves the world as it is, that is, it issues no remote call. -/
structure Quiet (noCall : Bool) (m : Go κ σ α) : Prop where
  run : ∀ s, (m s).2.d.setFails = s.d.setFails ∧ (noCall = true → (m s).2.world = s.world)

/-- The code leaves the written value of attribute `key` as it is. -/
structure Keeps (key : String) (m : Go κ σ α) : Prop where
  run : ∀ s, (m s).2.d.written key = s.d.written key

/-- Every successful run of the code that starts in a world satisfying `W`, with `key`
accepted by the SDK, ends with the value `v` written for `key`. -/
structure Writes (W : σ → Prop) (key : String) (v : Value) (m : Go κ σ α) : Prop where
  run : ∀ s a s', W s.world → s.d.setFails.lookup key = none → m s = (Res.ok a, s') →
    s'.d.written key = some v

end Go

/-! ## DNS (resource_sakuracloud_dns.go) -/

/-- Library type `sacloud.DNS`, the fields the handlers read. -/
structure DNS where
  ID : Int
  Name : String
  IconID : Int
  Description : String
  DNSNameServers : List String
  Tags : List String
deriving DecidableEq, Repr

/-- Remote calls of the DNS handlers; request bodies are the values built by the `expand`
helpers. -/
inductive DNSCall where
  | Read (id : Int)
  | Update (id : Int) (req : Value)
  | Delete (id : Int)
deriving DecidableEq, Repr

/-- Helpers of the provider used by the DNS handlers and the DNS API as oracles. -/
structure DNSClient (σ : Type) where
  sakuraCloudID : String → Int
  idString : Int → String
  expandDNSUpdateRequest : ResourceData → DNS → Value
  flattenDNSRecords : DNS → Value
  dns : DNSCall → σ → Except Err DNS × σ
  unit : DNSCall → σ → Except Err Unit × σ

section DNS

variable {σ : Type}

open Go

/-- Embedding of `setDNSResourceData`. -/
def setDNSResourceData (cl : DNSClient σ) (data : DNS) : Go DNSCall σ Unit := do
  let _ ← Set "zone" (.str data.Name)
  let _ ← Set "icon_id" (.str (cl.idString data.IconID))
  let _ ← Set "description" (.str data.Description)
  SetOrReturn "dns_servers" (.strs data.DNSNameServers)
  SetOrReturn "record" (cl.flattenDNSRecords data)
  SetOrReturn "tags" (.strs data.Tags)

/-- Embedding of `resourceSakuraCloudDNSRead`. -/
def resourceSakuraCloudDNSRead (cl : DNSClient σ) : Go DNSCall σ Unit := do
  let d ← getData
  match ← callE (.Read (cl.sakuraCloudID d.id)) cl.dns with
  | .error e =>
    if e.isNotFound then SetId ""
    else fail (wrapErr ("could not read SakuraCloud DNS[" ++ d.id ++ "]: ") e)
  | .ok dns => setDNSResourceData cl dns

/-- The body of `resourceSakuraCloudDNSUpdate` after the lock is taken. -/
def dnsUpdateBody (cl : DNSClient σ) (d : ResourceData) : Go DNSCall σ Unit := do
  let dns ← call ("could not read SakuraCloud DNS[" ++ d.id ++ "]: ")
    (.Read (cl.sakuraCloudID d.id)) cl.dns
  let _ ← call ("updating SakuraCloud DNS[" ++ d.id ++ "] is failed: ")
    (.Update dns.ID (cl.expandDNSUpdateRequest d dns)) cl.dns
  resourceSakuraCloudDNSRead cl

/-- Embedding of `resourceSakuraCloudDNSUpdate`. -/
def resourceSakuraCloudDNSUpdate (cl : DNSClient σ) : Go DNSCall σ Unit :=
  func do
    let d ← getData
    Lock d.id
    deferUnlock d.id
    dnsUpdateBody cl d

/-- The body of `resourceSakuraCloudDNSDelete` after the lock is taken. -/
def dnsDeleteBody (cl : DNSClient σ) (d : ResourceData) : Go DNSCall σ Unit := do
  match ← callE (.Read (cl.sakuraCloudID d.id)) cl.dns with
  | .error e =>
    if e.isNotFound then SetId ""
    else fail (wrapErr ("could not read SakuraCloud DNS[" ++ d.id ++ "]: ") e)
  | .ok dns =>
    call ("deleting SakuraCloud DNS[" ++ d.id ++ "] is failed: ") (.Delete dns.ID) cl.unit

/-- Embedding of `resourceSakuraCloudDNSDelete`. -/
def resourceSakuraCloudDNSDelete (cl : DNSClient σ) : Go DNSCall σ Unit :=
  func do
    let d ← getData
    Lock d.id
    deferUnlock d.id
    dnsDeleteBody cl d

end DNS

/-! ## Note (resource_sakuracloud_note.go) -/

/-- Library type `sacloud.Note`, the fields the handlers read. -/
structure Note where
  ID : Int
  Name : String
  Content : String
  Class : String
  IconID : Int
  Description : String
  Tags : List String
deriving DecidableEq, Repr

/-- Remote calls of the Note handlers. -/
inductive NoteCall where
  | Read (id : Int)
  | Update (id : Int) (req : Value)
  | Delete (id : Int)
deriving DecidableEq, Repr

/-- Helpers of the provider used by the Note handlers and the Note API as oracles. -/
structure NoteClient (σ : Type) where
  sakuraCloudID : String → Int
  idString : Int → String
  expandNoteUpdateRequest : ResourceData → Value
  note : NoteCall → σ → Except Err Note × σ
  unit : NoteCall → σ → Except Err Unit × σ

section Note

variable {σ : Type}

open Go

/-- Embedding of `setNoteResourceData`. -/
def setNoteResourceData (cl : NoteClient σ) (data : Note) : Go NoteCall σ Unit := do
  let _ ← Set "name" (.str data.Name)
  let _ ← Set "content" (.str data.Content)
  let _ ← Set "class" (.str data.Class)
  let _ ← Set "icon_id" (.str (cl.idString data.IconID))
  let _ ← Set "description" (.str data.Description)
  SetOrReturn "tags" (.strs data.Tags)

/-- Embedding of `resourceSakuraCloudNoteRead`. -/
def resourceSakuraCloudNoteRead (cl : NoteClient σ) : Go NoteCall σ Unit := do
  let d ← getData
  match ← callE (.Read (cl.sakuraCloudID d.id)) cl.note with
  | .error e =>
    if e.isNotFound then SetId ""
    else fail (wrapErr ("could not read SakuraCloud Note[" ++ d.id ++ "]: ") e)
  | .ok note => setNoteResourceData cl note

/-- Embedding of `resourceSakuraCloudNoteUpdate`. -/
def resourceSakuraCloudNoteUpdate (cl : NoteClient σ) : Go NoteCall σ Unit := do
  let d ← getData
  let note ← call ("could not read SakuraCloud Note[" ++ d.id ++ "]: ")
    (.Read (cl.sakuraCloudID d.id)) cl.note
  let _ ← call ("updating SakuraCloud Note[" ++ d.id ++ "] is failed: ")
    (.Update note.ID (cl.expandNoteUpdateRequest d)) cl.note
  resourceSakuraCloudNoteRead cl

/-- Embedding of `resourceSakuraCloudNoteDelete`. -/
def resourceSakuraCloudNoteDelete (cl : NoteClient σ) : Go NoteCall σ Unit := do
  let d ← getData
  match ← callE (.Read (cl.sakuraCloudID d.id)) cl.note with
  | .error e =>
    if e.isNotFound then SetId ""
    else fail (wrapErr ("could not read SakuraCloud Note[" ++ d.id ++ "]: ") e)
  | .ok note =>
    call ("deleting SakuraCloud Note[" ++ d.id ++ "] is failed: ") (.Delete note.ID) cl.unit

end Note

/-! ## SimpleMonitor (resource_sakuracloud_simple_monitor.go) -/

/-- Library type `sacloud.SimpleMonitor`, the fields the handlers read. -/
structure SimpleMonitor where
  ID : Int
  Target : String
  DelayLoop : Int
  IconID : Int
  Description : String
  Enabled : Bool
  NotifyEmailEnabled : Bool
  NotifyEmailHTML : Bool
  NotifySlackEnabled : Bool
  SlackWebhooksURL : String
  Tags : List String
deriving DecidableEq, Repr

/-- Remote calls of the SimpleMonitor handlers. -/
inductive SimpleMonitorCall where
  | Read (id : Int)
  | Update (id : Int) (req : Value)
  | Delete (id : Int)
deriving DecidableEq, Repr

/-- Helpers of the provider used by the SimpleMonitor handlers and the API as oracles;
`sakuraCloudClient` is the error the helper of that name returns, if any. -/
structure SimpleMonitorClient (σ : Type) where
  sakuraCloudClient : ResourceData → Option Err
  sakuraCloudID : String → Int
  idString : Int → String
  expandSimpleMonitorUpdateRequest : ResourceData → Value
  flattenSimpleMonitorNotifyInterval : SimpleMonitor → Value
  flattenSimpleMonitorHealthCheck : SimpleMonitor → Value
  flattenTags : List String → List String
  monitor : SimpleMonitorCall → σ → Except Err SimpleMonitor × σ
  unit : SimpleMonitorCall → σ → Except Err Unit × σ

section SimpleMonitor

variable {σ : Type}

open Go

/-- Statement `client, _, err := sakuraCloudClient(d, meta); if err != nil { return err }`. -/
def clientOrReturn {κ : Type} (err : Option Err) : Go κ σ Unit :=
  match err with
  | some e => fail e
  | none => pure ()

/-- Embedding of `setSimpleMonitorResourceData`; it issues no remote call and serves the
resource and the data source alike. -/
def setSimpleMonitorResourceData {κ : Type} (cl : SimpleMonitorClient σ)
    (data : SimpleMonitor) : Go κ σ Unit := do
  let _ ← Set "target" (.str data.Target)
  let _ ← Set "delay_loop" (.int data.DelayLoop)
  let _ ← Set "icon_id" (.str (cl.idString data.IconID))
  let _ ← Set "description" (.str data.Description)
  let _ ← Set "enabled" (.bool data.Enabled)
  let _ ← Set "notify_email_enabled" (.bool data.NotifyEmailEnabled)
  let _ ← Set "notify_email_html" (.bool data.NotifyEmailHTML)
  let _ ← Set "notify_slack_enabled" (.bool data.NotifySlackEnabled)
  let _ ← Set "notify_slack_webhook" (.str data.SlackWebhooksURL)
  let _ ← Set "notify_interval" (cl.flattenSimpleMonitorNotifyInterval data)
  SetOrReturn "health_check" (cl.flattenSimpleMonitorHealthCheck data)
  SetOrReturn "tags" (.strs (cl.flattenTags data.Tags))

/-- Embedding of `resourceSakuraCloudSimpleMonitorRead`. -/
def resourceSakuraCloudSimpleMonitorRead (cl : SimpleMonitorClient σ) :
    Go SimpleMonitorCall σ Unit := do
  let d ← getData
  clientOrReturn (cl.sakuraCloudClient d)
  match ← callE (.Read (cl.sakuraCloudID d.id)) cl.monitor with
  | .error e =>
    if e.isNotFound then SetId ""
    else fail (wrapErr ("could not read SimpleMonitor[" ++ d.id ++ "]: ") e)
  | .ok simpleMonitor => setSimpleMonitorResourceData cl simpleMonitor

/-- Embedding of `resourceSakuraCloudSimpleMonitorUpdate`.  When the remote Update fails the
handler formats its error from `simpleMonitor.ID`, and `simpleMonitor` is then the nil result
of the failed call: a nil dereference. -/
def resourceSakuraCloudSimpleMonitorUpdate (cl : SimpleMonitorClient σ) :
    Go SimpleMonitorCall σ Unit := do
  let d ← getData
  clientOrReturn (cl.sakuraCloudClient d)
  let simpleMonitor ← call ("could not read SimpleMonitor[" ++ d.id ++ "]: ")
    (.Read (cl.sakuraCloudID d.id)) cl.monitor
  match ← callE (.Update simpleMonitor.ID (cl.expandSimpleMonitorUpdateRequest d))
      cl.monitor with
  | .error _ => crash
  | .ok _ => resourceSakuraCloudSimpleMonitorRead cl

/-- Embedding of `resourceSakuraCloudSimpleMonitorDelete`. -/
def resourceSakuraCloudSimpleMonitorDelete (cl : SimpleMonitorClient σ) :
    Go SimpleMonitorCall σ Unit := do
  let d ← getData
  clientOrReturn (cl.sakuraCloudClient d)
  match ← callE (.Read (cl.sakuraCloudID d.id)) cl.monitor with
  | .error e =>
    if e.isNotFound then SetId ""
    else fail (wrapErr ("could not read SimpleMonitor[" ++ d.id ++ "]: ") e)
  | .ok simpleMonitor =>
    call ("deleting SimpleMonitor[" ++ cl.idString simpleMonitor.ID ++ "] is failed: ")
      (.Delete simpleMonitor.ID) cl.unit

end SimpleMonitor

/-! ## NFS (resource_sakuracloud_nfs.go) -/

/-- Library type `sacloud.NFS`, the fields the handlers read. -/
structure NFS where
  ID : Int
  Name : String
  IconID : Int
  Description : String
  Tags : List String
  PlanID : Int
  Availability : String
deriving DecidableEq, Repr

/-- Remote calls of the NFS handlers.  `ShutdownNFS` is the library's `power.ShutdownNFS`,
`FlattenDiskPlan` the plan lookup behind `flattenNFSDiskPlan`; each is one remote step. -/
inductive NFSCall where
  | Read (id : Int)
  | Update (id : Int) (req : Value)
  | ShutdownNFS (id : Int)
  | Delete (id : Int)
  | FlattenDiskPlan (planID : Int)
deriving DecidableEq, Repr

/-- Helpers of the provider used by the NFS handlers and the API as oracles. -/
structure NFSClient (σ : Type) where
  sakuraCloudClient : ResourceData → Option Err
  sakuraCloudID : String → Int
  idString : Int → String
  expandNFSUpdateRequest : ResourceData → Value
  flattenNFSNetworkInterface : NFS → Value
  flattenTags : List String → List String
  getZone : ResourceData → String
  IsFailed : NFS → Bool
  nfs : NFSCall → σ → Except Err NFS × σ
  unit : NFSCall → σ → Except Err Unit × σ
  plan : NFSCall → σ → Except Err (String × Int) × σ

section NFS

variable {σ : Type}

open Go

/-- Embedding of `setNFSResourceData`. -/
def setNFSResourceData (cl : NFSClient σ) (data : NFS) : Go NFSCall σ Unit :=
  if cl.IsFailed data then do
    SetId ""
    fail (newErr ("got unexpected state: NFS[" ++ toString data.ID ++ "].Availability is failed"))
  else do
    let planSize ← callRaw (.FlattenDiskPlan data.PlanID) cl.plan
    let _ ← Set "plan" (.str planSize.1)
    let _ ← Set "size" (.int planSize.2)
    SetOrReturn "network_interface" (cl.flattenNFSNetworkInterface data)
    let _ ← Set "name" (.str data.Name)
    let _ ← Set "icon_id" (.str (cl.idString data.IconID))
    let _ ← Set "description" (.str data.Description)
    let d ← getData
    let _ ← Set "zone" (.str (cl.getZone d))
    SetOrReturn "tags" (.strs (cl.flattenTags data.Tags))

/-- Embedding of `resourceSakuraCloudNFSRead`. -/
def resourceSakuraCloudNFSRead (cl : NFSClient σ) : Go NFSCall σ Unit := do
  let d ← getData
  clientOrReturn (cl.sakuraCloudClient d)
  match ← callE (.Read (cl.sakuraCloudID d.id)) cl.nfs with
  | .error e =>
    if e.isNotFound then SetId ""
    else fail (wrapErr ("could not read SakuraCloud NFS[" ++ d.id ++ "]: ") e)
  | .ok nfs => setNFSResourceData cl nfs

/-- Embedding of `resourceSakuraCloudNFSUpdate`. -/
def resourceSakuraCloudNFSUpdate (cl : NFSClient σ) : Go NFSCall σ Unit := do
  let d ← getData
  clientOrReturn (cl.sakuraCloudClient d)
  let nfs ← call ("could not read SakuraCloud NFS[" ++ d.id ++ "]: ")
    (.Read (cl.sakuraCloudID d.id)) cl.nfs
  let _ ← call ("updating SakuraCloud NFS[" ++ d.id ++ "] is failed: ")
    (.Update nfs.ID (cl.expandNFSUpdateRequest d)) cl.nfs
  resourceSakuraCloudNFSRead cl

/-- Embedding of `resourceSakuraCloudNFSDelete`. -/
def resourceSakuraCloudNFSDelete (cl : NFSClient σ) : Go NFSCall σ Unit := do
  let d ← getData
  clientOrReturn (cl.sakuraCloudClient d)
  match ← callE (.Read (cl.sakuraCloudID d.id)) cl.nfs with
  | .error e =>
    if e.isNotFound then SetId ""
    else fail (wrapErr ("could not read SakuraCloud NFS[" ++ d.id ++ "]: ") e)
  | .ok nfs =>
    callRaw (.ShutdownNFS nfs.ID) cl.unit
    call ("deleting SakuraCloud NFS[" ++ d.id ++ "] is failed: ") (.Delete nfs.ID) cl.unit

end NFS

/-! ## ProxyLB (resource_sakuracloud_proxylb.go) -/

/-- Library type `sacloud.ProxyLB`, the fields the handlers read; `LetsEncrypt` is the
optional Let's Encrypt setting. -/
structure ProxyLB where
  ID : Int
  Name : String
  Plan : Int
  UseVIPFailover : Bool
  Region : String
  FQDN : String
  VirtualIPAddress : String
  ProxyNetworks : List String
  IconID : Int
  Description : String
  Tags : List String
  LetsEncrypt : Option Value
deriving DecidableEq, Repr

/-- Library type `sacloud.ProxyLBCertificates` as built by `expandProxyLBCerts`. -/
structure ProxyLBCertificates where
  PrimaryCert : Value
  AdditionalCerts : Value
deriving DecidableEq, Repr

/-- Remote calls of the ProxyLB handlers. -/
inductive ProxyLBCall where
  | Read (id : Int)
  | Update (id : Int) (req : Value)
  | ChangePlan (id : Int) (plan : Int)
  | DeleteCertificates (id : Int)
  | SetCertificates (id : Int) (certs : ProxyLBCertificates)
  | GetCertificates (id : Int)
  | Delete (id : Int)
deriving DecidableEq, Repr

/-- Helpers of the provider used by the ProxyLB handlers and the API as oracles;
`flattenProxyLB key` stands for the `flattenProxyLB...` helper behind attribute `key`. -/
structure ProxyLBClient (σ : Type) where
  sakuraCloudClient : ResourceData → Option Err
  sakuraCloudID : String → Int
  idString : Int → String
  expandProxyLBUpdateRequest : ResourceData → Value
  expandProxyLBCerts : ResourceData → Option ProxyLBCertificates
  flattenProxyLB : String → ProxyLB → Value
  flattenProxyLBCerts : Option ProxyLBCertificates → Value
  flattenTags : List String → List String
  lb : ProxyLBCall → σ → Except Err ProxyLB × σ
  unit : ProxyLBCall → σ → Except Err Unit × σ
  certs : ProxyLBCall → σ → Except Err (Option ProxyLBCertificates) × σ

section ProxyLB

variable {σ : Type}

open Go

/-- Embedding of `setProxyLBResourceData`. -/
def setProxyLBResourceData (cl : ProxyLBClient σ) (data : ProxyLB) : Go ProxyLBCall σ Unit := do
  let certs ← callRaw (.GetCertificates data.ID) cl.certs
  let _ ← Set "name" (.str data.Name)
  let _ ← Set "plan" (.int data.Plan)
  let _ ← Set "vip_failover" (.bool data.UseVIPFailover)
  let _ ← Set "sticky_session" (cl.flattenProxyLB "sticky_session" data)
  let _ ← Set "timeout" (cl.flattenProxyLB "timeout" data)
  let _ ← Set "region" (.str data.Region)
  let _ ← Set "fqdn" (.str data.FQDN)
  let _ ← Set "vip" (.str data.VirtualIPAddress)
  let _ ← Set "proxy_networks" (.strs data.ProxyNetworks)
  let _ ← Set "icon_id" (.str (cl.idString data.IconID))
  let _ ← Set "description" (.str data.Description)
  SetOrReturn "bind_port" (cl.flattenProxyLB "bind_port" data)
  SetOrReturn "health_check" (cl.flattenProxyLB "health_check" data)
  SetOrReturn "sorry_server" (cl.flattenProxyLB "sorry_server" data)
  SetOrReturn "server" (cl.flattenProxyLB "server" data)
  SetOrReturn "rule" (cl.flattenProxyLB "rule" data)
  SetOrReturn "certificate" (cl.flattenProxyLBCerts certs)
  SetOrReturn "tags" (.strs (cl.flattenTags data.Tags))

/-- Embedding of `resourceSakuraCloudProxyLBRead`. -/
def resourceSakuraCloudProxyLBRead (cl : ProxyLBClient σ) : Go ProxyLBCall σ Unit := do
  let d ← getData
  clientOrReturn (cl.sakuraCloudClient d)
  match ← callE (.Read (cl.sakuraCloudID d.id)) cl.lb with
  | .error e =>
    if e.isNotFound then SetId ""
    else fail (wrapErr ("could not read SakuraCloud ProxyLB[" ++ d.id ++ "]: ") e)
  | .ok proxyLB => setProxyLBResourceData cl proxyLB

/-- Lines 405-415 of `resourceSakuraCloudProxyLBUpdate`: the plan change, which replaces the
resource and stores the new ID.  Returns the current `proxyLB`. -/
def proxyLBChangePlan (cl : ProxyLBClient σ) (d : ResourceData) (proxyLB : ProxyLB) :
    Go ProxyLBCall σ ProxyLB :=
  if d.HasChange "plan" then do
    let upd ← call ("changing ProxyLB[" ++ d.id ++ "] plan is failed: ")
      (.ChangePlan proxyLB.ID (d.Get "plan").asInt) cl.lb
    SetId (cl.idString upd.ID)
    pure upd
  else pure proxyLB

/-- Lines 417-431 of `resourceSakuraCloudProxyLBUpdate`: the certificates; the error texts
are formatted with the ID that `d` holds at that point. -/
def proxyLBUpdateCerts (cl : ProxyLBClient σ) (d : ResourceData) (proxyLB : ProxyLB) :
    Go ProxyLBCall σ Unit :=
  if proxyLB.LetsEncrypt = none ∧ d.HasChange "certificate" then do
    let now ← getData
    match cl.expandProxyLBCerts d with
    | none =>
      call ("deleting Certificates of ProxyLB[" ++ now.id ++ "] is failed: ")
        (.DeleteCertificates proxyLB.ID) cl.unit
    | some certs => do
      let _ ← call ("setting Certificates to ProxyLB[" ++ now.id ++ "] is failed: ")
        (.SetCertificates proxyLB.ID certs) cl.certs
  else pure ()

/-- The body of `resourceSakuraCloudProxyLBUpdate` after the lock is taken. -/
def proxyLBUpdateBody (cl : ProxyLBClient σ) (d : ResourceData) : Go ProxyLBCall σ Unit := do
  let proxyLB ← call ("could not read SakuraCloud ProxyLB[" ++ d.id ++ "]: ")
    (.Read (cl.sakuraCloudID d.id)) cl.lb
  let proxyLB ← call ("updating SakuraCloud ProxyLB[" ++ d.id ++ "] is failed: ")
    (.Update proxyLB.ID (cl.expandProxyLBUpdateRequest d)) cl.lb
  let proxyLB ← proxyLBChangePlan cl d proxyLB
  proxyLBUpdateCerts cl d proxyLB
  resourceSakuraCloudProxyLBRead cl

/-- Embedding of `resourceSakuraCloudProxyLBUpdate`: the client lookup comes before the
lock. -/
def resourceSakuraCloudProxyLBUpdate (cl : ProxyLBClient σ) : Go ProxyLBCall σ Unit :=
  func do
    let d ← getData
    match cl.sakuraCloudClient d with
    | some e => fail e
    | none => do
      Lock d.id
      deferUnlock d.id
      proxyLBUpdateBody cl d

/-- The body of `resourceSakuraCloudProxyLBDelete` after the lock is taken. -/
def proxyLBDeleteBody (cl : ProxyLBClient σ) (d : ResourceData) : Go ProxyLBCall σ Unit := do
  match ← callE (.Read (cl.sakuraCloudID d.id)) cl.lb with
  | .error e =>
    if e.isNotFound then SetId ""
    else fail (wrapErr ("could not read SakuraCloud ProxyLB[" ++ d.id ++ "]: ") e)
  | .ok proxyLB =>
    call ("deleting ProxyLB[" ++ d.id ++ "] is failed: ") (.Delete proxyLB.ID) cl.unit

/-- Embedding of `resourceSakuraCloudProxyLBDelete`. -/
def resourceSakuraCloudProxyLBDelete (cl : ProxyLBClient σ) : Go ProxyLBCall σ Unit :=
  func do
    let d ← getData
    match cl.sakuraCloudClient d with
    | some e => fail e
    | none => do
      Lock d.id
      deferUnlock d.id
      proxyLBDeleteBody cl d

end ProxyLB

/-! ## PacketFilter rules (resource_sakuracloud_packet_filter_rules.go) -/

/-- Library type `sacloud.PacketFilter`; its expressions are read through
`flattenPacketFilterExpressions` only. -/
structure PacketFilter where
  ID : Int
  Expression : Value
deriving DecidableEq, Repr

/-- Remote calls of the PacketFilter rules handlers. -/
inductive PacketFilterCall where
  | Read (id : Int)
  | Update (id : Int) (req : Value)
deriving DecidableEq, Repr

/-- Helpers of the provider used by the PacketFilter rules handlers and the API as
oracles. -/
structure PacketFilterClient (σ : Type) where
  sakuraCloudClient : ResourceData → Option Err
  sakuraCloudID : String → Int
  expandPacketFilterRulesUpdateRequest : ResourceData → PacketFilter → Value
  expandPacketFilterRulesDeleteRequest : ResourceData → PacketFilter → Value
  flattenPacketFilterExpressions : PacketFilter → Value
  getZone : ResourceData → String
  pf : PacketFilterCall → σ → Except Err PacketFilter × σ

section PacketFilterRules

variable {σ : Type}

open Go

/-- Embedding of `setPacketFilterRulesResourceData`. -/
def setPacketFilterRulesResourceData (cl : PacketFilterClient σ) (data : PacketFilter) :
    Go PacketFilterCall σ Unit := do
  let d ← getData
  let _ ← Set "zone" (.str (cl.getZone d))
  SetOrReturn "expression" (cl.flattenPacketFilterExpressions data)

/-- Embedding of `resourceSakuraCloudPacketFilterRulesRead`. -/
def resourceSakuraCloudPacketFilterRulesRead (cl : PacketFilterClient σ) :
    Go PacketFilterCall σ Unit := do
  let d ← getData
  clientOrReturn (cl.sakuraCloudClient d)
  let pfID := (d.Get "packet_filter_id").asString
  match ← callE (.Read (cl.sakuraCloudID pfID)) cl.pf with
  | .error e =>
    if e.isNotFound then SetId ""
    else fail (wrapErr ("could not read SakuraCloud PacketFilter[" ++ pfID ++ "]: ") e)
  | .ok pf => setPacketFilterRulesResourceData cl pf

/-- The body of `resourceSakuraCloudPacketFilterRulesUpdate` after the lock is taken. -/
def packetFilterRulesUpdateBody (cl : PacketFilterClient σ) (d : ResourceData) :
    Go PacketFilterCall σ Unit := do
  let pfID := (d.Get "packet_filter_id").asString
  let pf ← call ("could not read SakuraCloud PacketFilter[" ++ pfID ++ "]: ")
    (.Read (cl.sakuraCloudID pfID)) cl.pf
  let _ ← call ("updating SakuraCloud PacketFilter[" ++ pfID ++ "] is failed: ")
    (.Update pf.ID (cl.expandPacketFilterRulesUpdateRequest d pf)) cl.pf
  SetId pfID
  resourceSakuraCloudPacketFilterRulesRead cl

/-- Embedding of `resourceSakuraCloudPacketFilterRulesUpdate`, which is also the Create
handler of the resource. -/
def resourceSakuraCloudPacketFilterRulesUpdate (cl : PacketFilterClient σ) :
    Go PacketFilterCall σ Unit :=
  func do
    let d ← getData
    match cl.sakuraCloudClient d with
    | some e => fail e
    | none => do
      Lock (d.Get "packet_filter_id").asString
      deferUnlock (d.Get "packet_filter_id").asString
      packetFilterRulesUpdateBody cl d

/-- The body of `resourceSakuraCloudPacketFilterRulesDelete` after the lock is taken. -/
def packetFilterRulesDeleteBody (cl : PacketFilterClient σ) (d : ResourceData) :
    Go PacketFilterCall σ Unit := do
  let pfID := (d.Get "packet_filter_id").asString
  match ← callE (.Read (cl.sakuraCloudID pfID)) cl.pf with
  | .error e =>
    if e.isNotFound then SetId ""
    else fail (wrapErr ("could not read SakuraCloud PacketFilter[" ++ pfID ++ "]: ") e)
  | .ok pf => do
    let _ ← call ("updating SakuraCloud PacketFilter[" ++ pfID ++ "] is failed: ")
      (.Update pf.ID (cl.expandPacketFilterRulesDeleteRequest d pf)) cl.pf

/-- Embedding of `resourceSakuraCloudPacketFilterRulesDelete`. -/
def resourceSakuraCloudPacketFilterRulesDelete (cl : PacketFilterClient σ) :
    Go PacketFilterCall σ Unit :=
  func do
    let d ← getData
    match cl.sakuraCloudClient d with
    | some e => fail e
    | none => do
      Lock (d.Get "packet_filter_id").asString
      deferUnlock (d.Get "packet_filter_id").asString
      packetFilterRulesDeleteBody cl d

end PacketFilterRules

/-! ## SSHKey (resource_sakuracloud_ssh_key.go) -/

/-- Library type `sacloud.SSHKey`, the fields the handlers touch. -/
structure SSHKey where
  ID : Int
  Name : String
  PublicKey : String
  Fingerprint : String
  Description : String
deriving DecidableEq, Repr

/-- Remote calls of the SSHKey handlers. -/
inductive SSHKeyCall where
  | Read (id : Int)
  | Update (id : Int) (key : SSHKey)
  | Delete (id : Int)
deriving DecidableEq, Repr

/-- Helper of the provider used by the SSHKey handlers and the API as an oracle. -/
structure SSHKeyClient (σ : Type) where
  toSakuraCloudID : String → Int
  key : SSHKeyCall → σ → Except Err SSHKey × σ

section SSHKey

variable {σ : Type}

open Go

/-- Embedding of `setSSHKeyResourceData`. -/
def setSSHKeyResourceData (data : SSHKey) : Go SSHKeyCall σ Unit := do
  let _ ← Set "name" (.str data.Name)
  let _ ← Set "public_key" (.str data.PublicKey)
  let _ ← Set "fingerprint" (.str data.Fingerprint)
  let _ ← Set "description" (.str data.Description)

/-- Embedding of `resourceSakuraCloudSSHKeyRead`. -/
def resourceSakuraCloudSSHKeyRead (cl : SSHKeyClient σ) : Go SSHKeyCall σ Unit := do
  let d ← getData
  match ← callE (.Read (cl.toSakuraCloudID d.id)) cl.key with
  | .error e =>
    if e.isNotFound then SetId ""
    else fail (wrapErr "Couldn't find SakuraCloud SSHKey resource: " e)
  | .ok key => setSSHKeyResourceData key

/-- Lines 102-114 of `resourceSakuraCloudSSHKeyUpdate`: the changed attributes written into
the key value.  The branch for `public_key` assigns `key.Name` (lines 105-107); `public_key`
is ForceNew in the schema, so the SDK replaces the resource on such a change and does not
call Update with it. -/
def sshKeyApplyChanges (d : ResourceData) (key : SSHKey) : SSHKey :=
  let key := if d.HasChange "name" then { key with Name := (d.Get "name").asString } else key
  let key := if d.HasChange "public_key"
    then { key with Name := (d.Get "public_key").asString } else key
  if d.HasChange "description" then
    (if (d.GetOk "description").2
      then { key with Description := (d.GetOk "description").1.asString }
      else { key with Description := "" })
  else key

/-- Embedding of `resourceSakuraCloudSSHKeyUpdate`. -/
def resourceSakuraCloudSSHKeyUpdate (cl : SSHKeyClient σ) : Go SSHKeyCall σ Unit := do
  let d ← getData
  let key ← call "Couldn't find SakuraCloud SSHKey resource: "
    (.Read (cl.toSakuraCloudID d.id)) cl.key
  let _ ← call "Error updating SakuraCloud SSHKey resource: "
    (.Update key.ID (sshKeyApplyChanges d key)) cl.key
  resourceSakuraCloudSSHKeyRead cl

/-- Embedding of `resourceSakuraCloudSSHKeyDelete`. -/
def resourceSakuraCloudSSHKeyDelete (cl : SSHKeyClient σ) : Go SSHKeyCall σ Unit := do
  let d ← getData
  let _ ← call "Error deleting SakuraCloud SSHKey resource: "
    (.Delete (cl.toSakuraCloudID d.id)) cl.key

end SSHKey

/-! ## ServerConnector (resource_sakuracloud_server_connector.go) -/

/-- A NIC of a server: its ID and the ID of the attached packet filter, if any. -/
structure ServerNIC where
  ID : Int
  PacketFilter : Option Int
deriving DecidableEq, Repr

/-- Library type `sacloud.Server`, the fields the handlers read: the IDs of the connected
disks, the NICs, and the ID of the inserted CD-ROM (`Instance.CDROM`), if any. -/
structure Server where
  ID : Int
  InstanceStatus : String
  Disks : List Int
  Interfaces : List ServerNIC
  CDROM : Option Int
deriving DecidableEq, Repr

/-- Remote calls of the ServerConnector handlers.  `stopServer` and `bootServer` are helpers
of the provider that are not part of the sources at hand; each is one remote step. -/
inductive ServerCall where
  | Read (id : Int)
  | stopServer (id : Int)
  | bootServer (id : Int)
  | DiskDisconnectFromServer (disk : Int)
  | DiskConnectToServer (disk : Int) (server : Int)
  | InterfaceDisconnectFromPacketFilter (nic : Int)
  | InterfaceConnectToPacketFilter (nic : Int) (filter : Int)
  | EjectCDROM (server : Int) (cdrom : Int)
  | InsertCDROM (server : Int) (cdrom : Int)
deriving DecidableEq, Repr

/-- Helpers of the provider and library methods used by the ServerConnector handlers, and
the API as oracles. -/
structure ServerClient (σ : Type) where
  toSakuraCloudID : String → Int
  GetStrID : Int → String
  expandStringList : List String → List String
  flattenDisks : List Int → Value
  flattenPacketFilters : List ServerNIC → Value
  setPowerManageTimeoutValueToState : ResourceData → ResourceData
  IsUp : Server → Bool
  Zone : String
  server : ServerCall → σ → Except Err Server × σ
  unit : ServerCall → σ → Except Err Unit × σ

section ServerConnector

variable {σ : Type}

open Go

/-- Loop `for _, disk := range server.Disks` disconnecting every old disk. -/
def serverDisconnectDisks (cl : ServerClient σ) : List Int → Go ServerCall σ Unit
  | [] => pure ()
  | disk :: rest => do
    call "Error disconnecting disk from SakuraCloud ServerConnector resource: "
      (.DiskDisconnectFromServer disk) cl.unit
    serverDisconnectDisks cl rest

/-- Loop `for _, diskID := range newDisks` connecting every new disk. -/
def serverConnectDisks (cl : ServerClient σ) (server : Server) :
    List String → Go ServerCall σ Unit
  | [] => pure ()
  | diskID :: rest => do
    call "Error connecting disk to SakuraCloud ServerConnector resource: "
      (.DiskConnectToServer (cl.toSakuraCloudID diskID) server.ID) cl.unit
    serverConnectDisks cl server rest

/-- Loop `for i, filterID := range packetFilterIDs` (lines 123-142, 272-291), from
index `i` on. -/
def serverPacketFilterLoop (cl : ServerClient σ) (server : Server) :
    List (Option String) → Nat → Go ServerCall σ Unit
  | [], _ => pure ()
  | filterID :: rest, i => do
    (match server.Interfaces.get? i with
      | some nic => do
        (if nic.PacketFilter.isSome then
            call "Error disconnecting packet filter: "
              (.InterfaceDisconnectFromPacketFilter nic.ID) cl.unit
          else pure () : Go ServerCall σ Unit)
        (if filterID.getD "" ≠ "" then
            call "Error connecting packet filter: "
              (.InterfaceConnectToPacketFilter nic.ID
                (cl.toSakuraCloudID (filterID.getD ""))) cl.unit
          else pure () : Go ServerCall σ Unit)
      | none => pure () : Go ServerCall σ Unit)
    serverPacketFilterLoop cl server rest (i + 1)

/-- Loops over NICs that only disconnect an attached packet filter (lines 144-156 and
160-168). -/
def serverDisconnectFilters (cl : ServerClient σ) : List ServerNIC → Go ServerCall σ Unit
  | [] => pure ()
  | nic :: rest => do
    (if nic.PacketFilter.isSome then
        call "Error disconnecting packet filter: "
          (.InterfaceDisconnectFromPacketFilter nic.ID) cl.unit
      else pure () : Go ServerCall σ Unit)
    serverDisconnectFilters cl rest

/-- The packet-filter reconciliation of Create and Update (lines 121-171, 271-322). -/
def serverReconcilePacketFilters (cl : ServerClient σ) (d : ResourceData) (server : Server) :
    Go ServerCall σ Unit :=
  if (d.GetOk "packet_filter_ids").2 then do
    serverPacketFilterLoop cl server (d.GetOk "packet_filter_ids").1.asOptStrings 0
    serverDisconnectFilters cl
      (server.Interfaces.drop (d.GetOk "packet_filter_ids").1.asOptStrings.length)
  else serverDisconnectFilters cl server.Interfaces

/-- Embedding of `resourceSakuraCloudServerConnectorRead`. -/
def resourceSakuraCloudServerConnectorRead (cl : ServerClient σ) : Go ServerCall σ Unit := do
  let d ← getData
  match ← callE (.Read (cl.toSakuraCloudID d.id)) cl.server with
  | .error e =>
    if e.isNotFound then SetId ""
    else fail (wrapErr "Couldn't find SakuraCloud ServerConnector resource: " e)
  | .ok data => do
    SetOrWrap "error setting disks: " "disks" (cl.flattenDisks data.Disks)
    (match data.CDROM with
      | some cdrom =>
        if cdrom > 0 then do
          let _ ← Set "cdrom_id" (.str (cl.GetStrID cdrom))
        else pure ()
      | none => pure () : Go ServerCall σ Unit)
    SetOrWrap "error setting packet_filter_ids: " "packet_filter_ids"
      (cl.flattenPacketFilters data.Interfaces)
    (fun s => (.ok (), { s with d := cl.setPowerManageTimeoutValueToState s.d }) :
      Go ServerCall σ Unit)
    let _ ← Set "zone" (.str cl.Zone)

/-- Embedding of `resourceSakuraCloudServerConnectorCreate`. -/
def resourceSakuraCloudServerConnectorCreate (cl : ServerClient σ) : Go ServerCall σ Unit := do
  let d ← getData
  let server ← call "Couldn't find SakuraCloud ServerConnector resource: "
    (.Read (cl.toSakuraCloudID (d.Get "server_id").asString)) cl.server
  SetId (cl.GetStrID server.ID)
  let hasDisk := (d.GetOk "disks").2
  let isNeedRestart := hasDisk
  let isRunning := cl.IsUp server
  (if isNeedRestart ∧ isRunning then
      call "Error stopping SakuraCloud ServerConnector resource: "
        (.stopServer (cl.toSakuraCloudID (cl.GetStrID server.ID))) cl.unit
    else pure () : Go ServerCall σ Unit)
  (if hasDisk then do
      serverDisconnectDisks cl server.Disks
      serverConnectDisks cl server (cl.expandStringList (d.GetOk "disks").1.asStrings)
    else pure () : Go ServerCall σ Unit)
  serverReconcilePacketFilters cl d server
  (if (d.GetOk "cdrom_id").2 then do
      (match server.CDROM with
        | some cdrom => call "Error Ejecting CDROM: " (.EjectCDROM server.ID cdrom) cl.unit
        | none => pure () : Go ServerCall σ Unit)
      call "Error Inserting CDROM: "
        (.InsertCDROM server.ID (cl.toSakuraCloudID (d.GetOk "cdrom_id").1.asString)) cl.unit
    else pure () : Go ServerCall σ Unit)
  (if isNeedRestart ∧ isRunning then
      call "Error booting SakuraCloud ServerConnector resource: "
        (.bootServer (cl.toSakuraCloudID (cl.GetStrID server.ID))) cl.unit
    else pure () : Go ServerCall σ Unit)
  resourceSakuraCloudServerConnectorRead cl

/-- Embedding of `resourceSakuraCloudServerConnectorUpdate`. -/
def resourceSakuraCloudServerConnectorUpdate (cl : ServerClient σ) : Go ServerCall σ Unit := do
  let d ← getData
  let server ← call "Couldn't find SakuraCloud ServerConnector resource: "
    (.Read (cl.toSakuraCloudID d.id)) cl.server
  let isNeedRestart := d.HasChange "disks"
  let isRunning := cl.IsUp server
  (if isNeedRestart ∧ isRunning then
      call "Error stopping SakuraCloud ServerConnector resource: "
        (.stopServer (cl.toSakuraCloudID d.id)) cl.unit
    else pure () : Go ServerCall σ Unit)
  (if d.HasChange "disks" then do
      serverDisconnectDisks cl server.Disks
      (if d.Get "disks" ≠ .null then
          serverConnectDisks cl server (cl.expandStringList (d.Get "disks").asStrings)
        else pure () : Go ServerCall σ Unit)
    else pure () : Go ServerCall σ Unit)
  (if d.HasChange "packet_filter_ids" then serverReconcilePacketFilters cl d server
    else pure () : Go ServerCall σ Unit)
  (if d.HasChange "cdrom_id" then do
      (match server.CDROM with
        | some cdrom => call "Error Ejecting CDROM: " (.EjectCDROM server.ID cdrom) cl.unit
        | none => pure () : Go ServerCall σ Unit)
      (if (d.GetOk "cdrom_id").2 then
          call "Error Inserting CDROM: "
            (.InsertCDROM server.ID (cl.toSakuraCloudID (d.GetOk "cdrom_id").1.asString))
            cl.unit
        else pure () : Go ServerCall σ Unit)
    else pure () : Go ServerCall σ Unit)
  (if isNeedRestart ∧ isRunning then
      call "Error booting SakuraCloud ServerConnector resource: "
        (.bootServer (cl.toSakuraCloudID d.id)) cl.unit
    else pure () : Go ServerCall σ Unit)
  resourceSakuraCloudServerConnectorRead cl

/-- Inner loop `for _, id := range ids` of the disk disconnection in Delete: the type
assertion `id.(string)` panics on a nil entry. -/
def serverDeleteDiskIDs (cl : ServerClient σ) (disk : Int) :
    List (Option String) → Go ServerCall σ Unit
  | [] => pure ()
  | id :: rest =>
    match id with
    | none => crash
    | some id => do
      (if cl.GetStrID disk = id then
          call "Error disconnecting disk from SakuraCloud ServerConnector resource: "
            (.DiskDisconnectFromServer (cl.toSakuraCloudID id)) cl.unit
        else pure () : Go ServerCall σ Unit)
      serverDeleteDiskIDs cl disk rest

/-- Outer loop `for _, disk := range server.Disks` in Delete. -/
def serverDeleteDisks (cl : ServerClient σ) (ids : List (Option String)) :
    List Int → Go ServerCall σ Unit
  | [] => pure ()
  | disk :: rest => do
    serverDeleteDiskIDs cl disk ids
    serverDeleteDisks cl ids rest

/-- Inner loop `for _, id := range ids` of the packet-filter disconnection in Delete; the
type assertion is reached only for a NIC with a packet filter. -/
def serverDeleteFilterIDs (cl : ServerClient σ) (nic : ServerNIC) :
    List (Option String) → Go ServerCall σ Unit
  | [] => pure ()
  | id :: rest =>
    match nic.PacketFilter with
    | none => serverDeleteFilterIDs cl nic rest
    | some filter =>
      match id with
      | none => crash
      | some id => do
        (if cl.GetStrID filter = id then
            call "Error disconnecting packet filter: "
              (.InterfaceDisconnectFromPacketFilter nic.ID) cl.unit
          else pure () : Go ServerCall σ Unit)
        serverDeleteFilterIDs cl nic rest

/-- Outer loop `for _, nic := range server.Interfaces` in Delete. -/
def serverDeleteFilters (cl : ServerClient σ) (ids : List (Option String)) :
    List ServerNIC → Go ServerCall σ Unit
  | [] => pure ()
  | nic :: rest => do
    serverDeleteFilterIDs cl nic ids
    serverDeleteFilters cl ids rest

/-- Embedding of `resourceSakuraCloudServerConnectorDelete`. -/
def resourceSakuraCloudServerConnectorDelete (cl : ServerClient σ) : Go ServerCall σ Unit := do
  let d ← getData
  let server ← call "Couldn't find SakuraCloud ServerConnector resource: "
    (.Read (cl.toSakuraCloudID d.id)) cl.server
  let isRunning := cl.IsUp server
  (if isRunning then
      call "Error stopping SakuraCloud ServerConnector resource: "
        (.stopServer (cl.toSakuraCloudID d.id)) cl.unit
    else pure () : Go ServerCall σ Unit)
  (if d.Get "disks" ≠ .null then
      serverDeleteDisks cl (d.Get "disks").asOptStrings server.Disks
    else pure () : Go ServerCall σ Unit)
  (if d.Get "packet_filter_ids" ≠ .null then
      serverDeleteFilters cl (d.Get "packet_filter_ids").asOptStrings server.Interfaces
    else pure () : Go ServerCall σ Unit)
  (match server.CDROM with
    | some cdrom => call "Error Ejecting CDROM: " (.EjectCDROM server.ID cdrom) cl.unit
    | none => pure () : Go ServerCall σ Unit)
  (if isRunning then
      call "Error booting SakuraCloud ServerConnector resource: "
        (.bootServer (cl.toSakuraCloudID d.id)) cl.unit
    else pure () : Go ServerCall σ Unit)

end ServerConnector

/-! ## VPCRouterInterface (resource_sakuracloud_vpc_router_interface.go) -/

/-- Library type `sacloud.VPCRouterInterface`: one interface inside the router settings. -/
structure VPCRouterInterface where
  VirtualIPAddress : String
  IPAddress : List String
  NetworkMaskLen : Int
deriving DecidableEq, Repr

/-- Library type `sacloud.VPCRouterSetting` (`Settings.Router`); the entries of `Interfaces`
are pointers and may be nil. -/
structure VPCRouterSetting where
  Interfaces : List (Option VPCRouterInterface)
deriving DecidableEq, Repr

/-- Library type `sacloud.VPCRouterSettings` (`Settings`); `Router` is a pointer. -/
structure VPCRouterSettings where
  Router : Option VPCRouterSetting
deriving DecidableEq, Repr

/-- Library type `sacloud.VPCRouter`, the fields the handlers read; `Settings` is a
pointer. -/
structure VPCRouter where
  ID : Int
  InstanceStatus : String
  Plan : Int
  Settings : Option VPCRouterSettings
  Interfaces : List Interface
deriving DecidableEq, Repr

/-- Remote calls of the VPCRouterInterface handlers; `handleShutdown` is one remote step. -/
inductive VPCRouterCall where
  | Read (id : Int)
  | handleShutdown (id : Int)
  | AddStandardInterfaceAt (id : Int) (switchID : Int) (ip : String) (nwMaskLen : Int)
      (index : Int)
  | AddPremiumInterfaceAt (id : Int) (switchID : Int) (ips : List String) (nwMaskLen : Int)
      (vip : String) (index : Int)
  | DeleteInterfaceAt (id : Int) (index : Int)
  | Config (id : Int)
  | Boot (id : Int)
  | SleepUntilUp (id : Int)
deriving DecidableEq, Repr

/-- Helpers of the provider and library methods used by the VPCRouterInterface handlers
(`hashcode` is `hashcode.String`), and the API as oracles. -/
structure VPCRouterClient (σ : Type) where
  toSakuraCloudID : String → Int
  GetStrID : Int → String
  getVPCRouterPowerAPILockKey : Int → String
  hashcode : String → Int
  IsUp : VPCRouter → Bool
  IsDown : VPCRouter → Bool
  IsStandardPlan : VPCRouter → Bool
  Zone : String
  router : VPCRouterCall → σ → Except Err VPCRouter × σ
  unit : VPCRouterCall → σ → Except Err Unit × σ

section VPCRouterInterface

variable {σ : Type}

open Go

/-- Embedding of `vpcRouterInterfaceIDHash`. -/
def vpcRouterInterfaceIDHash (cl : VPCRouterClient σ) (routerID : String) (index : Int) :
    String :=
  "interface-" ++ toString (cl.hashcode (routerID ++ toString index))

/-- Lines 138-155 of `resourceSakuraCloudVPCRouterInterfaceRead`: the state is filled from
interface `index` of the router; an index outside a list and a nil pointer on the access
path are runtime panics. -/
def vpcRouterInterfaceSetData (cl : VPCRouterClient σ) (vpcRouter : VPCRouter) (index : Int) :
    Go VPCRouterCall σ Unit :=
  match vpcRouter.Settings.bind (fun settings => settings.Router) with
  | none => crash
  | some routerSetting =>
    if index < routerSetting.Interfaces.length then
      if index < 0 then crash
      else
        match routerSetting.Interfaces.get? index.toNat with
        | none => crash
        | some vpcInterface => do
          let _ ← Set "vpc_router_id" (.str (cl.GetStrID vpcRouter.ID))
          let _ ← Set "index" (.int index)
          match (vpcRouter.Interfaces.get? index.toNat).bind (fun nic => nic.Switch) with
          | none => crash
          | some sw =>
            let _ ← Set "switch_id" (.str (cl.GetStrID sw.ID))
            match vpcInterface with
            | none => crash
            | some vpcInterface =>
              let _ ← Set "vip" (.str vpcInterface.VirtualIPAddress)
              let _ ← Set "ipaddress" (.strs vpcInterface.IPAddress)
              let _ ← Set "nw_mask_len" (.int vpcInterface.NetworkMaskLen)
              let _ ← Set "zone" (.str cl.Zone)
    else SetId ""

/-- Embedding of `resourceSakuraCloudVPCRouterInterfaceRead`. -/
def resourceSakuraCloudVPCRouterInterfaceRead (cl : VPCRouterClient σ) :
    Go VPCRouterCall σ Unit := do
  let d ← getData
  match ← callE (.Read (cl.toSakuraCloudID (d.Get "vpc_router_id").asString)) cl.router with
  | .error e =>
    if e.isNotFound then SetId ""
    else fail (wrapErr "Couldn't find SakuraCloud VPCRouterInterface resource: " e)
  | .ok vpcRouter => vpcRouterInterfaceSetData cl vpcRouter (d.Get "index").asInt

/-- The stop loop (lines 57-68 and 178-189): `vpcRouter, err := ...Read(...)` declares the
loop's own `vpcRouter` and `err`, so the result of `handleShutdown` is assigned to the
loop's `err` and is gone with the iteration; `n` is the number of iterations left. -/
def vpcRouterStopLoop (cl : VPCRouterClient σ) (routerID : String) :
    Nat → Go VPCRouterCall σ Unit
  | 0 => pure ()
  | n + 1 => do
    let vpcRouter ← call "Couldn't find SakuraCloud VPCRouter resource: "
      (.Read (cl.toSakuraCloudID routerID)) cl.router
    if cl.IsDown vpcRouter then pure ()
    else do
      let _ ← callE (.handleShutdown vpcRouter.ID) cl.unit
      vpcRouterStopLoop cl routerID n

/-- Lines 50-72 and 171-193: when the router is up, the power lock is taken and the stop
loop runs; the function's `err` is nil when the loop starts and the loop does not assign
it, so the check after the loop reads nil. -/
def vpcRouterStop (cl : VPCRouterClient σ) (routerID : String) (vpcRouter : VPCRouter) :
    Go VPCRouterCall σ Unit :=
  if cl.IsUp vpcRouter then do
    Lock (cl.getVPCRouterPowerAPILockKey vpcRouter.ID)
    deferUnlock (cl.getVPCRouterPowerAPILockKey vpcRouter.ID)
    let err : Option Err := none
    vpcRouterStopLoop cl routerID 10
    match err with
    | some e => fail (wrapErr "Error stopping SakuraCloud VPCRouter resource: " e)
    | none => pure ()
  else pure ()

/-- Lines 97-107 and 202-212: boot again when the router was up. -/
def vpcRouterRestart (cl : VPCRouterClient σ) (isNeedRestart : Bool) (vpcRouter : VPCRouter) :
    Go VPCRouterCall σ Unit :=
  if isNeedRestart then do
    call "Failed to boot SakuraCloud VPCRouterInterface resource: "
      (.Boot vpcRouter.ID) cl.unit
    call "Failed to boot SakuraCloud VPCRouterInterface resource: "
      (.SleepUntilUp vpcRouter.ID) cl.unit
  else pure ()

/-- The body of `resourceSakuraCloudVPCRouterInterfaceCreate` after the lock on the router
ID is taken. -/
def vpcRouterInterfaceCreateBody (cl : VPCRouterClient σ) (d : ResourceData) :
    Go VPCRouterCall σ Unit := do
  let routerID := (d.Get "vpc_router_id").asString
  let vpcRouter ← call "Couldn't find SakuraCloud VPCRouter resource: "
    (.Read (cl.toSakuraCloudID routerID)) cl.router
  let isNeedRestart := cl.IsUp vpcRouter
  vpcRouterStop cl routerID vpcRouter
  let index := (d.Get "index").asInt
  let switchID := (d.Get "switch_id").asString
  let vip := if (d.GetOk "vip").2 then (d.GetOk "vip").1.asString else ""
  let nwMaskLen := (d.Get "nw_mask_len").asInt
  let ipaddresses := if (d.GetOk "ipaddress").2 then (d.GetOk "ipaddress").1.asStrings else []
  match ipaddresses with
  | [] => fail (newErr "SakuraCloud VPCRouterInterface: ipaddresses is required ")
  | ip :: _ => do
    let vpcRouter ← (if cl.IsStandardPlan vpcRouter then
        callRaw (.AddStandardInterfaceAt vpcRouter.ID (cl.toSakuraCloudID switchID) ip
          nwMaskLen index) cl.router
      else
        callRaw (.AddPremiumInterfaceAt vpcRouter.ID (cl.toSakuraCloudID switchID)
          ipaddresses nwMaskLen vip index) cl.router : Go VPCRouterCall σ VPCRouter)
    call "Couldn'd apply SakuraCloud VPCRouter config: " (.Config vpcRouter.ID) cl.unit
    vpcRouterRestart cl isNeedRestart vpcRouter
    SetId (vpcRouterInterfaceIDHash cl (cl.GetStrID vpcRouter.ID) index)
    resourceSakuraCloudVPCRouterInterfaceRead cl

/-- Embedding of `resourceSakuraCloudVPCRouterInterfaceCreate`. -/
def resourceSakuraCloudVPCRouterInterfaceCreate (cl : VPCRouterClient σ) :
    Go VPCRouterCall σ Unit :=
  func do
    let d ← getData
    Lock (d.Get "vpc_router_id").asString
    deferUnlock (d.Get "vpc_router_id").asString
    vpcRouterInterfaceCreateBody cl d

/-- The body of `resourceSakuraCloudVPCRouterInterfaceDelete` after the lock on the router
ID is taken. -/
def vpcRouterInterfaceDeleteBody (cl : VPCRouterClient σ) (d : ResourceData) :
    Go VPCRouterCall σ Unit := do
  let routerID := (d.Get "vpc_router_id").asString
  let vpcRouter ← call "Couldn't find SakuraCloud VPCRouter resource: "
    (.Read (cl.toSakuraCloudID routerID)) cl.router
  let isNeedRestart := cl.IsUp vpcRouter
  vpcRouterStop cl routerID vpcRouter
  let index := (d.Get "index").asInt
  let _ ← call ("Error deleting SakuraCloud VPCRouter interface[" ++ toString index ++ "]: ")
    (.DeleteInterfaceAt vpcRouter.ID index) cl.router
  vpcRouterRestart cl isNeedRestart vpcRouter

/-- Embedding of `resourceSakuraCloudVPCRouterInterfaceDelete`. -/
def resourceSakuraCloudVPCRouterInterfaceDelete (cl : VPCRouterClient σ) :
    Go VPCRouterCall σ Unit :=
  func do
    let d ← getData
    Lock (d.Get "vpc_router_id").asString
    deferUnlock (d.Get "vpc_router_id").asString
    vpcRouterInterfaceDeleteBody cl d

end VPCRouterInterface

/-! ## Disk plans (structure_disk.go) -/

/-- Library type `sacloud.Disk`, the field `flattenDiskPlan` reads. -/
structure Disk where
  DiskPlanID : Int
deriving DecidableEq, Repr

/-- Library value `types.DiskPlans`: the IDs of the SSD plan and of the HDD plan. -/
structure DiskPlans where
  SSD : Int
  HDD : Int
deriving DecidableEq, Repr

/-- Embedding of `flattenDiskPlan`; a Go `switch` takes the first case that matches. -/
def flattenDiskPlan (plans : DiskPlans) (data : Disk) : String :=
  if data.DiskPlanID = plans.SSD then "ssd"
  else if data.DiskPlanID = plans.HDD then "hdd"
  else ""

/-- Embedding of `expandDiskPlan`; the zero value of `types.ID` is 0. -/
def expandDiskPlan (plans : DiskPlans) (d : ResourceData) : Int :=
  if (d.Get "plan").asString = "ssd" then plans.SSD
  else if (d.Get "plan").asString = "hdd" then plans.HDD
  else 0

/-! ## Data sources (data_source_sakuracloud_server.go, data_source_sakuracloud_simple_monitor.go,
data_source_sakuracloud_archive.go) -/

/-- Library type of a search result (`sacloud.ServerFindResult` and its siblings): the
count that the API reports and the resources found. -/
structure FindResult (α : Type) where
  Count : Int
  Items : List α
deriving DecidableEq, Repr

/-- Library type `sacloud.Server` of the API library v2 as the data source uses it: the
handler reads the ID; the value as a whole goes to `setServerResourceData`. -/
structure ServerInfo where
  ID : Int
  Name : String
deriving DecidableEq, Repr

/-- Library type `sacloud.Archive`, the fields the data source reads. -/
structure Archive where
  ID : Int
  Name : String
  SizeMB : Int
  IconID : Int
  Description : String
  Tags : List String
deriving DecidableEq, Repr

/-- Remote calls of the data sources: `Find` with the zone (none for a global resource) and
the search filter (none when `filter` is not set), and `query.FindArchiveByOSType`. -/
inductive SearchCall where
  | Find (zone : Option String) (filter : Option Value)
  | FindArchiveByOSType (zone : String) (osType : String)
deriving DecidableEq, Repr

/-- Helpers of the provider used by the data sources (`sakuraCloudClient` gives the zone or
an error, `filterNoResultErr` is the error of that helper, `idString` is `types.ID.String`)
and the search of the API as an oracle; a nil result is `none`. -/
structure SearchClient (σ α : Type) where
  sakuraCloudClient : ResourceData → Except Err String
  filterAttrName : String
  expandSearchFilter : Value → Value
  filterNoResultErr : Err
  idString : Int → String
  find : SearchCall → σ → Except Err (Option (FindResult α)) × σ

/-- Helpers and library methods used by the Archive data source only. -/
structure ArchiveClient (σ : Type) where
  GetSizeGB : Archive → Int
  flattenTags : List String → Value
  getZone : ResourceData → String
  findByOSType : SearchCall → σ → Except Err (Option Archive) × σ

section DataSources

variable {σ α : Type}

open Go

/-- The search condition: the expanded `filter` attribute when it is set. -/
def findCondition (cl : SearchClient σ α) (d : ResourceData) : Option Value :=
  if (d.GetOk cl.filterAttrName).2 then some (cl.expandSearchFilter (d.GetOk cl.filterAttrName).1)
  else none

/-- Embedding of `dataSourceSakuraCloudServerRead`; `setServerResourceData` is not part of
the sources at hand and is a parameter. -/
def dataSourceSakuraCloudServerRead (cl : SearchClient σ ServerInfo)
    (setServerResourceData : ServerInfo → Go SearchCall σ Unit) : Go SearchCall σ Unit := do
  let d ← getData
  match cl.sakuraCloudClient d with
  | .error e => fail e
  | .ok zone => do
    let res ← call "could not find SakuraCloud Server resource: "
      (.Find (some zone) (findCondition cl d)) cl.find
    match res with
    | none => fail cl.filterNoResultErr
    | some res =>
      if res.Count = 0 ∨ res.Items.length = 0 then fail cl.filterNoResultErr
      else
        match res.Items with
        | [] => crash
        | target :: _ => do
          SetId (cl.idString target.ID)
          setServerResourceData target

/-- Embedding of `dataSourceSakuraCloudSimpleMonitorRead`. -/
def dataSourceSakuraCloudSimpleMonitorRead (cl : SearchClient σ SimpleMonitor)
    (monitor : SimpleMonitorClient σ) : Go SearchCall σ Unit := do
  let d ← getData
  match cl.sakuraCloudClient d with
  | .error e => fail e
  | .ok _ => do
    let res ← call "could not find SakuraCloud SimpleMonitor resource: "
      (.Find none (findCondition cl d)) cl.find
    match res with
    | none => fail cl.filterNoResultErr
    | some res =>
      if res.Count = 0 ∨ res.Items.length = 0 then fail cl.filterNoResultErr
      else
        match res.Items with
        | [] => crash
        | target :: _ => do
          SetId (cl.idString target.ID)
          setSimpleMonitorResourceData monitor target

/-- Lines 95-105 of `dataSourceSakuraCloudArchiveRead`: the state is filled from the
archive `data`, if there is one. -/
def archiveSetData (cl : SearchClient σ Archive) (archive : ArchiveClient σ)
    (data : Option Archive) : Go SearchCall σ Unit :=
  match data with
  | some data => do
    SetId (cl.idString data.ID)
    let _ ← Set "name" (.str data.Name)
    let _ ← Set "size" (.int (archive.GetSizeGB data))
    let _ ← Set "icon_id" (.str (cl.idString data.IconID))
    let _ ← Set "description" (.str data.Description)
    SetOrReturn "tags" (archive.flattenTags data.Tags)
    let d ← getData
    let _ ← Set "zone" (.str (archive.getZone d))
  | none => pure ()

/-- Embedding of `dataSourceSakuraCloudArchiveRead`. -/
def dataSourceSakuraCloudArchiveRead (cl : SearchClient σ Archive)
    (archive : ArchiveClient σ) : Go SearchCall σ Unit := do
  let d ← getData
  match cl.sakuraCloudClient d with
  | .error e => fail e
  | .ok zone => do
    let data ← (if (d.GetOk "os_type").2 then
        (if (d.GetOk "os_type").1.asString ≠ "" then
            callRaw (.FindArchiveByOSType zone (d.GetOk "os_type").1.asString)
              archive.findByOSType
          else pure none)
      else do
        let res ← call "could not find SakuraCloud Archive resource: "
          (.Find (some zone) (findCondition cl d)) cl.find
        match res with
        | none => fail cl.filterNoResultErr
        | some res =>
          if res.Count = 0 then fail cl.filterNoResultErr
          else
            match res.Items with
            | [] => fail cl.filterNoResultErr
            | target :: _ => pure (some target) : Go SearchCall σ (Option Archive))
    archiveSetData cl archive data

/-- Outcome of a data source whose search `find`, issued from the state `s`, was answered
with `res` in the world `w`: the no-result error with the resource data as before when
`res` is nil, has count 0 or has no element; otherwise the outcome of `populate` on the
first element, run after the search. -/
def FirstSelected (noResult : Err) (find : SearchCall) (res : Option (FindResult α))
    (w : σ) (populate : α → Go SearchCall σ Unit) (s : St SearchCall σ)
    (run : Res Unit × St SearchCall σ) : Prop :=
  ((res = none ∨ ∃ r, res = some r ∧ (r.Count = 0 ∨ r.Items = [])) →
    run = (Res.err noResult,
      { s with world := w, trace := s.trace ++ [Event.call find none] })) ∧
  (∀ r target rest, res = some r → r.Count ≠ 0 → r.Items = target :: rest →
    run = populate target { s with world := w, trace := s.trace ++ [Event.call find none] })

end DataSources

/-! ### Scripted worlds for concrete runs of the other handlers -/

/-- A DNS zone as the scripted API reports it. -/
def sampleDNS : DNS :=
  { ID := 100, Name := "example.com", IconID := 0, Description := "", DNSNameServers := [],
    Tags := [] }

/-- A DNS client whose remote side always reports `sampleDNS` and fails on the scripted
calls. -/
def scriptedDNS (fails : List (Nat × Err)) : DNSClient Nat :=
  { sakuraCloudID := sampleID
    idString := sampleStrID
    expandDNSUpdateRequest := fun _ _ => .null
    flattenDNSRecords := fun _ => .recs []
    dns := scripted fails sampleDNS
    unit := scripted fails () }

/-- A note as the scripted API reports it. -/
def sampleNote : Note :=
  { ID := 100, Name := "note", Content := "#!/bin/sh", Class := "shell", IconID := 0,
    Description := "", Tags := [] }

/-- A Note client whose remote side always reports `sampleNote` and fails on the scripted
calls. -/
def scriptedNote (fails : List (Nat × Err)) : NoteClient Nat :=
  { sakuraCloudID := sampleID
    idString := sampleStrID
    expandNoteUpdateRequest := fun _ => .null
    note := scripted fails sampleNote
    unit := scripted fails () }

/-- A simple monitor as the scripted API reports it. -/
def sampleMonitor : SimpleMonitor :=
  { ID := 100, Target := "192.0.2.1", DelayLoop := 60, IconID := 0, Description := "",
    Enabled := true, NotifyEmailEnabled := true, NotifyEmailHTML := false,
    NotifySlackEnabled := false, SlackWebhooksURL := "", Tags := [] }

/-- A SimpleMonitor client whose remote side always reports `sampleMonitor` and fails on the
scripted calls. -/
def scriptedMonitor (fails : List (Nat × Err)) : SimpleMonitorClient Nat :=
  { sakuraCloudClient := fun _ => none
    sakuraCloudID := sampleID
    idString := sampleStrID
    expandSimpleMonitorUpdateRequest := fun _ => .null
    flattenSimpleMonitorNotifyInterval := fun _ => .int 2
    flattenSimpleMonitorHealthCheck := fun _ => .recs []
    flattenTags := fun tags => tags
    monitor := scripted fails sampleMonitor
    unit := scripted fails () }

/-- An NFS appliance as the scripted API reports it. -/
def sampleNFS : NFS :=
  { ID := 100, Name := "nfs", IconID := 0, Description := "", Tags := [], PlanID := 1,
    Availability := "available" }

/-- An NFS client whose remote side always reports `sampleNFS` and fails on the scripted
calls. -/
def scriptedNFS (fails : List (Nat × Err)) : NFSClient Nat :=
  { sakuraCloudClient := fun _ => none
    sakuraCloudID := sampleID
    idString := sampleStrID
    expandNFSUpdateRequest := fun _ => .null
    flattenNFSNetworkInterface := fun _ => .recs []
    flattenTags := fun tags => tags
    getZone := fun _ => "is1a"
    IsFailed := fun nfs => nfs.Availability == "failed"
    nfs := scripted fails sampleNFS
    unit := scripted fails ()
    plan := scripted fails ("hdd", 100) }

/-- A ProxyLB as the scripted API reports it. -/
def sampleProxyLB : ProxyLB :=
  { ID := 100, Name := "lb", Plan := 100, UseVIPFailover := false, Region := "is1",
    FQDN := "", VirtualIPAddress := "", ProxyNetworks := [], IconID := 0, Description := "",
    Tags := [], LetsEncrypt := none }

/-- A ProxyLB client whose remote side reports `sampleProxyLB` for the ID asked for, answers
a plan change with the replacement resource 101, and fails on the scripted calls. -/
def scriptedProxyLB (fails : List (Nat × Err)) : ProxyLBClient Nat :=
  { sakuraCloudClient := fun _ => none
    sakuraCloudID := sampleID
    idString := sampleStrID
    expandProxyLBUpdateRequest := fun _ => .null
    expandProxyLBCerts := fun _ => none
    flattenProxyLB := fun _ _ => .null
    flattenProxyLBCerts := fun _ => .null
    flattenTags := fun tags => tags
    lb := fun c n =>
      (match fails.lookup n with
        | some e => Except.error e
        | none =>
          match c with
          | .ChangePlan _ plan => Except.ok { sampleProxyLB with ID := 101, Plan := plan }
          | .Read id => Except.ok { sampleProxyLB with ID := id }
          | .Update id _ => Except.ok { sampleProxyLB with ID := id }
          | _ => Except.ok sampleProxyLB, n + 1)
    unit := scripted fails ()
    certs := scripted fails none }

/-- A packet filter as the scripted API reports it. -/
def samplePacketFilter : PacketFilter := { ID := 100, Expression := .recs [] }

/-- A PacketFilter client whose remote side always reports `samplePacketFilter` and fails on
the scripted calls. -/
def scriptedPacketFilter (fails : List (Nat × Err)) : PacketFilterClient Nat :=
  { sakuraCloudClient := fun _ => none
    sakuraCloudID := sampleID
    expandPacketFilterRulesUpdateRequest := fun _ _ => .null
    expandPacketFilterRulesDeleteRequest := fun _ _ => .null
    flattenPacketFilterExpressions := fun pf => pf.Expression
    getZone := fun _ => "is1a"
    pf := scripted fails samplePacketFilter }

/-- An SSH key as the scripted API reports it. -/
def sampleSSHKey : SSHKey :=
  { ID := 100, Name := "key", PublicKey := "ssh-rsa AAAA", Fingerprint := "00:11",
    Description := "" }

/-- An SSHKey client whose remote side always reports `sampleSSHKey` and fails on the
scripted calls. -/
def scriptedSSHKey (fails : List (Nat × Err)) : SSHKeyClient Nat :=
  { toSakuraCloudID := sampleID
    key := scripted fails sampleSSHKey }

/-- A stopped server without disks, NICs or CD-ROM. -/
def sampleServer : Server :=
  { ID := 100, InstanceStatus := "down", Disks := [], Interfaces := [], CDROM := none }

/-- A ServerConnector client whose remote side always reports `sampleServer` and fails on the
scripted calls. -/
def scriptedServer (fails : List (Nat × Err)) : ServerClient Nat :=
  { toSakuraCloudID := sampleID
    GetStrID := sampleStrID
    expandStringList := fun xs => xs
    flattenDisks := fun disks => .strs (disks.map sampleStrID)
    flattenPacketFilters := fun _ => .strs []
    setPowerManageTimeoutValueToState := fun d => d
    IsUp := fun server => server.InstanceStatus == "up"
    Zone := "is1a"
    server := scripted fails sampleServer
    unit := scripted fails () }

/-- A standard-plan router that is up and keeps reporting up, with a second interface on
switch 101. -/
def sampleRouter : VPCRouter :=
  { ID := 100
    InstanceStatus := "up"
    Plan := 1
    Settings := some { Router := some { Interfaces :=
      [none, some { VirtualIPAddress := "", IPAddress := ["192.168.1.1"],
                    NetworkMaskLen := 24 }] } }
    Interfaces := [{ IPAddress := "203.0.113.20", Switch := some { ID := 1, Subnet := none } },
                   { IPAddress := "", Switch := some { ID := 101, Subnet := none } }] }

/-- The error of a shutdown request that the API rejects. -/
def shutdownRefused : Err := ⟨"409 Conflict: still running", some 409⟩

/-- A VPCRouter client whose remote side always reports `sampleRouter` (up, never down),
rejects every shutdown request when `refuse` is set, and fails on the scripted calls. -/
def scriptedRouter (refuse : Bool) (fails : List (Nat × Err)) : VPCRouterClient Nat :=
  { toSakuraCloudID := sampleID
    GetStrID := sampleStrID
    getVPCRouterPowerAPILockKey := fun id => "power:" ++ sampleStrID id
    hashcode := fun _ => 7
    IsUp := fun router => router.InstanceStatus == "up"
    IsDown := fun router => router.InstanceStatus == "down"
    IsStandardPlan := fun router => router.Plan == 1
    Zone := "is1a"
    router := scripted fails sampleRouter
    unit := fun c n =>
      (match fails.lookup n with
        | some e => Except.error e
        | none =>
          match c with
          | .handleShutdown _ => if refuse then Except.error shutdownRefused else Except.ok ()
          | _ => Except.ok (), n + 1) }

/-- Resource data of interface 1 of router 100 on switch 101. -/
def routerInterfaceData : ResourceData :=
  { id := "interface-7"
    state := []
    config := [("vpc_router_id", .str "100"), ("index", .int 1), ("switch_id", .str "101"),
               ("ipaddress", .strs ["192.168.1.1"]), ("nw_mask_len", .int 24)]
    sets := []
    setFails := [] }

/-- Resource data of resource 100 without any attribute. -/
def bareData : ResourceData := sampleData [] []

/-- Resource data of the rules of packet filter 100. -/
def packetFilterData : ResourceData :=
  sampleData [("packet_filter_id", .str "100")] [("packet_filter_id", .str "100")]

/-! ### A router that reacts to power requests -/

/-- A VPCRouter client over a world that records whether router 100 is down: a shutdown
request stops the router, a boot request starts it, and every call succeeds. -/
def stoppableRouter : VPCRouterClient Bool :=
  { scriptedRouter false [] with
    router := fun _ down =>
      (Except.ok (if down then { sampleRouter with InstanceStatus := "down" } else sampleRouter),
       down)
    unit := fun c down =>
      (Except.ok (),
       match c with
       | .handleShutdown _ => true
       | .Boot _ => false
       | _ => down) }

/-- Resource data of interface 1 of router 100 on switch 101 with an empty address list. -/
def routerInterfaceNoAddress : ResourceData :=
  { id := ""
    state := []
    config := [("vpc_router_id", .str "100"), ("index", .int 1), ("switch_id", .str "101"),
               ("ipaddress", .strs []), ("nw_mask_len", .int 24)]
    sets := []
    setFails := [] }

/-- ProxyLB 100 whose plan changes from 100 to 500. -/
def planChange : ResourceData := sampleData [("plan", .int 100)] [("plan", .int 500)]

/-- Gateway 100 whose first DNS server changes from 8.8.8.8 to 1.1.1.1. -/
def dnsChange : ResourceData :=
  sampleData [("dns_server1", .str "8.8.8.8")] [("dns_server1", .str "1.1.1.1")]

/-- An error that is not an API error: the connection timed out. -/
def ioTimeout : Err := ⟨"dial tcp: i/o timeout", none⟩

/-- A gateway in the failed state. -/
def failedGateway : MobileGateway := { sampleGateway with Availability := "failed" }

/-- An NFS appliance in the failed state. -/
def failedNFS : NFS := { sampleNFS with Availability := "failed" }

/-- A gateway that is up and whose interface 1 is attached to switch 101. -/
def attachedGateway : MobileGateway :=
  { sampleGateway with
    Interfaces := [{ IPAddress := "203.0.113.10", Switch := some { ID := 1, Subnet := some ⟨28⟩ } },
                   { IPAddress := "", Switch := some { ID := 101, Subnet := none } }]
    Settings := { InternetConnectionEnabled := "False"
                  Interfaces := [none, some ⟨["192.168.1.10"], 24⟩]
                  StaticRoutes := [] } }

/-- Gateway 100 on switch 101 whose private address changes; the switch stays. -/
def addressChange : ResourceData :=
  sampleData
    [("switch_id", .str "101"), ("private_ipaddress", .str "192.168.1.10"),
     ("private_nw_mask_len", .int 24)]
    [("switch_id", .str "101"), ("private_ipaddress", .str "192.168.1.20"),
     ("private_nw_mask_len", .int 24)]

/-- Gateway 100 that moves from switch 100 to switch 101. -/
def switchChange : ResourceData :=
  sampleData
    [("switch_id", .str "100"), ("private_ipaddress", .str "192.168.1.10"),
     ("private_nw_mask_len", .int 24)]
    [("switch_id", .str "101"), ("private_ipaddress", .str "192.168.1.10"),
     ("private_nw_mask_len", .int 24)]

/-- Gateway 100 that moves from switch 100 to switch 101 and gets two static routes with the
same prefix. -/
def duplicateRoutes : ResourceData :=
  sampleData
    [("switch_id", .str "100"), ("private_ipaddress", .str "192.168.1.10"),
     ("private_nw_mask_len", .int 24)]
    [("switch_id", .str "101"), ("private_ipaddress", .str "192.168.1.10"),
     ("private_nw_mask_len", .int 24),
     ("static_route", .recs [[("prefix", .str "10.0.0.0/8"), ("next_hop", .str "192.168.1.1")],
                             [("prefix", .str "10.0.0.0/8"), ("next_hop", .str "192.168.1.2")]])]

/-! ### Sample data for the read-back, the SSH key, the router interface and the disk plan -/

/-- The `traffic_control` block of the acceptance test. -/
def sampleTrafficControl : List (String × Prim) :=
  trafficControlBlock 256 64 true true "https://hooks.slack.com/services/xxx/xxx/xxx" true

/-- Gateway 100 with the three static routes of the acceptance test. -/
def routedGateway : MobileGateway :=
  { sampleGateway with
    Settings := { sampleGateway.Settings with
      StaticRoutes := [⟨"192.168.10.0/24", "192.168.11.1"⟩, ⟨"192.168.10.0/25", "192.168.11.2"⟩,
                       ⟨"192.168.10.0/26", "192.168.11.3"⟩] } }

/-- A client whose remote side reports `routedGateway` with the traffic control of the
acceptance test; every call succeeds. -/
def monitoredMGW : MGWClient Nat :=
  { scriptedMGW routedGateway [] with
    tc := scripted [] (some (expandTrafficControl sampleTrafficControl)) }

/-- The plan IDs of the API library: SSD is plan 4, HDD is plan 2. -/
def sampleDiskPlans : DiskPlans := { SSD := 4, HDD := 2 }

/-- Resource data of a disk with the desired plan `plan`. -/
def diskData (plan : String) : ResourceData := sampleData [] [("plan", .str plan)]

/-- SSH key 100 renamed from "key" to "renamed" and given the description "deploy key"; the
public key stays. -/
def keyRename : ResourceData :=
  sampleData [("name", .str "key"), ("public_key", .str "ssh-rsa AAAA")]
    [("name", .str "renamed"), ("public_key", .str "ssh-rsa AAAA"),
     ("description", .str "deploy key")]

/-- A router whose settings list two interfaces while the API reports one NIC. -/
def routerOneNIC : VPCRouter :=
  { sampleRouter with
    Interfaces := [{ IPAddress := "203.0.113.20", Switch := some { ID := 1, Subnet := none } }] }

/-- A router whose settings hold no entry for interface 1 while NIC 1 is attached to
switch 101. -/
def routerNilSetting : VPCRouter :=
  { sampleRouter with
    Settings := some { Router := some { Interfaces :=
      [none, none, some { VirtualIPAddress := "", IPAddress := ["192.168.2.1"],
                          NetworkMaskLen := 24 }] } } }

/-- A router without settings. -/
def routerNoSettings : VPCRouter := { sampleRouter with Settings := none }

/-- A VPCRouter client whose remote side always reports `router`; every call succeeds. -/
def routerReporting (router : VPCRouter) : VPCRouterClient Nat :=
  { scriptedRouter false [] with router := scripted [] router }

/-- The event is an `UpdateSetting` call. -/
def isSettingUpdate : Event MGWCall → Bool
  | .call (.UpdateSetting _ _) _ => true
  | _ => false

/-- Gateway 100 whose desired static routes are the three routes of the acceptance test. -/
def distinctRoutes : ResourceData :=
  sampleData []
    [("static_route", .recs [[("prefix", .str "192.168.10.0/24"), ("next_hop", .str "192.168.11.1")],
                             [("prefix", .str "192.168.10.0/25"), ("next_hop", .str "192.168.11.2")],
                             [("prefix", .str "192.168.10.0/26"), ("next_hop", .str "192.168.11.3")]])]

/-- A new gateway named "mgw" without switch, traffic control, resolver or static route. -/
def newGateway : ResourceData :=
  { id := "", state := [], config := [("name", .str "mgw")], sets := [], setFails := [] }

/-- A server with three NICs: NIC 1 and NIC 3 have a packet filter, NIC 2 has none. -/
def serverThreeNICs : Server :=
  { ID := 100, InstanceStatus := "down", Disks := []
    Interfaces := [⟨1, some 200⟩, ⟨2, none⟩, ⟨3, some 201⟩], CDROM := none }

/-- A ServerConnector client whose remote side always reports `serverThreeNICs`; every call
succeeds. -/
def connectorThreeNICs : ServerClient Nat :=
  { scriptedServer [] with server := scripted [] serverThreeNICs }

/-- Server 100 with the desired packet filters 101 for NIC 1 and none for NIC 2. -/
def twoFilterIDs : ResourceData :=
  sampleData [] [("server_id", .str "100"), ("packet_filter_ids", .optStrs [some "101", none])]

/-- A search client in zone "is1a" whose search always reports `res`. -/
def scriptedSearch {α : Type} (res : Option (FindResult α)) : SearchClient Nat α :=
  { sakuraCloudClient := fun _ => .ok "is1a"
    filterAttrName := "filter"
    expandSearchFilter := fun v => v
    filterNoResultErr := newErr "Your query returned no results. Please change your filter or selectors and try again"
    idString := sampleStrID
    find := scripted [] res }

/-- An Archive client with the size in GB as the size in MB divided by 1024. -/
def sampleArchiveClient : ArchiveClient Nat :=
  { GetSizeGB := fun a => a.SizeMB / 1024
    flattenTags := fun tags => .strs tags
    getZone := fun _ => "is1a"
    findByOSType := scripted [] none }

/-- Resource data of a data source before its first read: no ID, no attribute. -/
def unsetData : ResourceData :=
  { id := "", state := [], config := [], sets := [], setFails := [] }

/-- Two archives as a search reports them. -/
def sampleArchives : FindResult Archive :=
  { Count := 2
    Items := [{ ID := 100, Name := "first", SizeMB := 20480, IconID := 0, Description := "",
                Tags := [] },
              { ID := 101, Name := "second", SizeMB := 20480, IconID := 0, Description := "",
                Tags := [] }] }

/-! ## Properties of handler code used in the statements -/

namespace Go

variable {κ σ α : Type}

/-- The code registers no deferred unlock, only appends to the trace, and every event it
appends satisfies `P`. -/
structure Emits (P : Event κ → Prop) (m : Go κ σ α) : Prop where
  run : ∀ s, (m s).2.defers = s.defers ∧ ∃ evs, (m s).2.trace = s.trace ++ evs ∧ ∀ e ∈ evs, P e

/-- Every value the code can return satisfies `Q`. -/
def Returns (m : Go κ σ α) (Q : α → Prop) : Prop :=
  ∀ s a s', m s = (Res.ok a, s') → Q a

/-- Fail-stop behaviour of a piece of code.  `T` marks the failed calls after which the code
goes on by design, `F` the failed calls that end it with a nil result.  Either every failed
call among the appended events is one that `T` allows, or the appended events end with a
failed call, nothing before it failed other than as `T` allows, and the code returned an
error that mentions the call's error (or, for a call that `F` allows, returned normally). -/
structure Stops (T : Event κ → Prop) (F : κ → Err → Prop) (m : Go κ σ α) : Prop where
  run : ∀ s, ∃ evs, (m s).2.trace = s.trace ++ evs ∧
    ((∀ x ∈ evs, x.failed = true → T x) ∨
     (∃ pre c e, evs = pre ++ [Event.call c (some e)] ∧
        (∀ x ∈ pre, x.failed = true → T x) ∧
        ((∃ E, (m s).1 = Res.err E ∧ E.Mentions e) ∨ (F c e ∧ ∃ a, (m s).1 = Res.ok a))))

/-- Lock discipline of a piece of code: the events it appends take the locks `ds` (latest
first) and release none, and exactly these locks are registered for the deferred unlock. -/
structure Tidy (m : Go κ σ α) : Prop where
  run : ∀ s, ∃ evs ds, (m s).2.trace = s.trace ++ evs ∧ (m s).2.defers = ds ++ s.defers ∧
    ∀ held, lockStack evs held = some (ds ++ held)

end Go

/-- The trace of a handler that locks `key`: the mutex operations are balanced, and the
trace is empty (the handler returned before locking) or starts with `Lock(key)` and ends
with `Unlock(key)`. -/
def LockedRun {κ : Type} (key : String) (tr : List (Event κ)) : Prop :=
  Balanced tr ∧ (tr = [] ∨ ∃ mid, tr = Event.lock key :: mid ++ [Event.unlock key])

/-- Outcome of a Delete handler whose initial Read `read` failed with `e`: that Read is the
only remote call of the run; when `e` is not-found the handler returns nil and the resource
ID is cleared; otherwise the handler returns an error that carries the text of `e`. -/
structure AbsentOrFailed {κ σ : Type} (d : ResourceData) (read : κ) (e : Err)
    (run : Res Unit × St κ σ) : Prop where
  calls : run.2.trace.filter Event.isCall = [Event.call read (some e)]
  absent : e.isNotFound = true → run.1 = Res.ok () ∧ run.2.d = { d with id := "" }
  failed : e.isNotFound = false → ∃ E, run.1 = Res.err E ∧ E.Mentions e

/-! ## The resource ID across a handler run -/

/-- The call is the `Read` of the DNS zone. -/
def DNSCall.isRead : DNSCall → Bool
  | .Read _ => true
  | _ => false

/-- The call is the `Read` of the note. -/
def NoteCall.isRead : NoteCall → Bool
  | .Read _ => true
  | _ => false

/-- The call is the `Read` of the monitor. -/
def SimpleMonitorCall.isRead : SimpleMonitorCall → Bool
  | .Read _ => true
  | _ => false

/-- The call is the `Read` of the NFS appliance. -/
def NFSCall.isRead : NFSCall → Bool
  | .Read _ => true
  | _ => false

/-- The call is the `Read` of the ProxyLB. -/
def ProxyLBCall.isRead : ProxyLBCall → Bool
  | .Read _ => true
  | _ => false

/-- The call is the `Read` of the SSH key. -/
def SSHKeyCall.isRead : SSHKeyCall → Bool
  | .Read _ => true
  | _ => false

/-- The call is the `Read` of the server. -/
def ServerCall.isRead : ServerCall → Bool
  | .Read _ => true
  | _ => false

/-- The call is the `Read` of the gateway. -/
def MGWCall.isRead : MGWCall → Bool
  | .Read _ => true
  | _ => false

/-- The API reported the resource absent: among the events, a Read of the resource (a call
that `isRead` selects) was answered with not-found. -/
def ReportsAbsent {κ : Type} (isRead : κ → Bool) (evs : List (Event κ)) : Prop :=
  ∃ c e, isRead c = true ∧ e.isNotFound = true ∧ Event.call c (some e) ∈ evs

/-- Boolean form of "no Read of the resource among the events was answered with
not-found". -/
def readsFound {κ : Type} (isRead : κ → Bool) (evs : List (Event κ)) : Bool :=
  evs.all (fun x => match x with
    | .call c (some e) => !(isRead c && e.isNotFound)
    | _ => true)

namespace Go
variable {κ σ α : Type}

/-- The code keeps the resource ID, or clears it (sets it to the empty string); it clears it
only when it returns an error or panics, when `known` holds, or when a Read of the resource
that it issued was answered with not-found. -/
structure KeepsId (isRead : κ → Bool) (known : Prop) (m : Go κ σ α) : Prop where
  run : ∀ s, ∃ evs, (m s).2.trace = s.trace ++ evs ∧
    ((m s).2.d.id = s.d.id ∨
     ((m s).2.d.id = "" ∧ ((∀ a, (m s).1 ≠ Res.ok a) ∨ known ∨ ReportsAbsent isRead evs)))

end Go

/-- The run kept the resource ID: when it returned nil and the resource still exists
remotely, in that no Read of the resource was answered with not-found, the resource ID at
the end is the ID of `d`. -/
def IdKept {κ σ : Type} (isRead : κ → Bool) (d : ResourceData) (run : Res Unit × St κ σ) :
    Prop :=
  run.1 = Res.ok () → ¬ ReportsAbsent isRead run.2.trace → run.2.d.id = d.id

/-! ## Vocabulary of the VPCRouter stop loop -/

/-- The event is a status Read of the router. -/
def isRouterRead : Event VPCRouterCall → Bool
  | .call (.Read _) _ => true
  | _ => false

/-- The event is a shutdown request for the router. -/
def isRouterShutdown : Event VPCRouterCall → Bool
  | .call (.handleShutdown _) _ => true
  | _ => false

/-! ## The connect rule of the MobileGateway update -/

/-- The event is a `ConnectToSwitch` call. -/
def isConnect : Event MGWCall → Bool
  | .call (.ConnectToSwitch _ _) _ => true
  | _ => false

/-- The events start with an `Update` call, which, when it succeeds, is directly followed by
a `Config` call. -/
def StartsWithReconfigure (evs : List (Event MGWCall)) : Prop :=
  ∃ id m r rest, evs = Event.call (.Update id m) r :: rest ∧
    (r = none → ∃ id' r' rest', rest = Event.call (.Config id') r' :: rest')

/-- The connect rule on a list of events: a `ConnectToSwitch` comes after a successful
`DisconnectFromSwitch` when `needsDisconnect` is set; a successful `ConnectToSwitch` is
directly followed by `Update`, and that `Update`, when it succeeds, by `Config`. -/
def ConnectRule (needsDisconnect : Bool) (evs : List (Event MGWCall)) : Prop :=
  ∀ pre id sw r post, evs = pre ++ Event.call (.ConnectToSwitch id sw) r :: post →
    (needsDisconnect = true → ∃ id', Event.call (.DisconnectFromSwitch id') none ∈ pre) ∧
    (r = none → StartsWithReconfigure post)

namespace Go

variable {σ α : Type}

/-- The events appended by the code obey the connect rule. -/
structure Obeys (flag : Bool) (m : Go MGWCall σ α) : Prop where
  run : ∀ s, ∃ evs, (m s).2.trace = s.trace ++ evs ∧ ConnectRule flag evs

/-- The events appended by the code contain no `ConnectToSwitch` and start with the
reconfiguration (`Update`, then `Config`). -/
structure Reconfigures (m : Go MGWCall σ α) : Prop where
  run : ∀ s, ∃ evs, (m s).2.trace = s.trace ++ evs ∧ StartsWithReconfigure evs ∧
    ∀ x ∈ evs, isConnect x = false

end Go

/-! ## Shape of a successful run with a restart -/


/-- Shape of what follows the shutdown in a successful run: reconfiguring calls (`isMid`),
then the boot (`isUp`) when `b` is set and nothing otherwise, then the read-back
(`isTail`). -/
def AfterDown {κ : Type} (b : Prop) [Decidable b] (isUp : List (Event κ) → Prop) (isMid isTail : Event κ → Bool)
    (evs : List (Event κ)) : Prop :=
  ∃ mid up tail, evs = mid ++ up ++ tail ∧ (∀ e ∈ mid, isMid e = true) ∧
    (if b then isUp up else up = []) ∧ (∀ e ∈ tail, isTail e = true)

/-- Shape of a successful run with a restart: the shutdown `down` when `b` is set, then the
reconfiguring calls, the boot when `b` is set, and the read-back. -/
def Sandwich {κ : Type} (b : Prop) [Decidable b] (down : List (Event κ)) (isUp : List (Event κ) → Prop)
    (isMid isTail : Event κ → Bool) (evs : List (Event κ)) : Prop :=
  ∃ rest, evs = (if b then down else []) ++ rest ∧ AfterDown b isUp isMid isTail rest

namespace Go
variable {κ σ α β : Type}

/-- The events appended by every successful run of the code satisfy `L`. -/
structure OnSuccess (L : List (Event κ) → Prop) (m : Go κ σ α) : Prop where
  run : ∀ s a s', m s = (Res.ok a, s') → ∃ evs, s'.trace = s.trace ++ evs ∧ L evs

end Go

/-- The calls of the ServerConnector handlers that change the server: everything but the
Read and the power helpers. -/
def ServerCall.isReconfigure : ServerCall → Bool
  | .Read _ => false
  | .stopServer _ => false
  | .bootServer _ => false
  | _ => true

/-- The event is a reconfiguring call of the ServerConnector handlers. -/
def isServerReconfigure : Event ServerCall → Bool
  | .call c _ => c.isReconfigure
  | _ => false

/-- The event is a Read of the server. -/
def isServerRead : Event ServerCall → Bool
  | .call (.Read _) _ => true
  | _ => false

/-- The event is a reconfiguring call of the MobileGateway handlers: a call that is neither
a power call nor read-only. -/
def isMGWReconfigure : Event MGWCall → Bool
  | .call c _ => !c.isPower && !c.isReadOnly
  | _ => false

/-- The event is a read-only call of the MobileGateway handlers. -/
def isMGWRead : Event MGWCall → Bool
  | .call c _ => c.isReadOnly
  | _ => false

/-- Outcome of a Read handler whose remote Read `read` failed with `e`: that Read is the
only event of the run; when `e` is not-found the handler returns nil and the resource data
is as before with the ID cleared; otherwise the handler returns an error that carries the
text of `e` and the resource data is as before. -/
structure ReadFailed {κ σ : Type} (d : ResourceData) (read : κ) (e : Err)
    (run : Res Unit × St κ σ) : Prop where
  calls : run.2.trace = [Event.call read (some e)]
  absent : e.isNotFound = true → run.1 = Res.ok () ∧ run.2.d = { d with id := "" }
  failed : e.isNotFound = false → (∃ E, run.1 = Res.err E ∧ E.Mentions e) ∧ run.2.d = d

/-! ## The resource ID in Create -/

/-- The event is a `SleepUntilUp` that succeeded. -/
def isBooted : Event MGWCall → Bool
  | .call (.SleepUntilUp _) none => true
  | _ => false

namespace Go
variable {κ σ α : Type}

/-- Code that runs before the resource ID is set: it does not panic, leaves the resource
data and the deferred unlocks as they are, appends events none of which is `isDone`, and
when it returns a value, every call it issued has succeeded. -/
structure Prepares (isDone : Event κ → Bool) (m : Go κ σ α) : Prop where
  run : ∀ s, (m s).1 ≠ Res.panic ∧ (m s).2.d = s.d ∧ (m s).2.defers = s.defers ∧
    ∃ evs, (m s).2.trace = s.trace ++ evs ∧ (∀ e ∈ evs, isDone e = false) ∧
      ((∃ a, (m s).1 = Res.ok a) → ∀ e ∈ evs, e.failed = false)

end Go

section CreateOutcome

variable {σ : Type}

/-- Outcome of a run of `resourceSakuraCloudMobileGatewayCreate` from the state `s`.
Either the handler returned an error, the resource data (the ID included) is as before and
no `SleepUntilUp` has succeeded; or every call up to `SleepUntilUp` succeeded, the run ended
with the 90-second sleep, `Boot` and `SleepUntilUp` of the gateway `id`, the ID was set to
that of `id`, and the outcome is that of the read-back from there. -/
def CreatedOrUnset (cl : MGWClient σ) (s : St MGWCall σ) (run : Res Unit × St MGWCall σ) :
    Prop :=
  ((∃ e, run.1 = Res.err e) ∧ run.2.d = s.d ∧
    ∃ evs, run.2.trace = s.trace ++ evs ∧ ∀ e ∈ evs, isBooted e = false) ∨
  (∃ pre id w1, (∀ e ∈ pre, e.failed = false) ∧
    run = resourceSakuraCloudMobileGatewayRead cl
      { world := w1
        d := { s.d with id := cl.GetStrID id }
        trace := s.trace ++ pre ++ [Event.sleep 90, Event.call (MGWCall.Boot id) none,
          Event.call (MGWCall.SleepUntilUp id) none]
        defers := s.defers })

end CreateOutcome

/-! ## Packet-filter reconciliation as specified -/

/-- The packet-filter calls as the specification words them, for the NICs `n_0, n_1, ...`
of the server and the desired filter IDs `f_0, f_1, ...`: for each NIC in turn, the
disconnect when the NIC has a packet filter, then the connect to `f_i` when there is an
`i`-th filter ID and it is non-empty.  Filter IDs beyond the last NIC cause no call. -/
def specPacketFilterCalls {σ : Type} (cl : ServerClient σ) :
    List ServerNIC → List (Option String) → List ServerCall
  | [], _ => []
  | nic :: nics, ids =>
    (if nic.PacketFilter.isSome then [ServerCall.InterfaceDisconnectFromPacketFilter nic.ID]
      else []) ++
    (match ids.head? with
      | some filterID =>
        if filterID.getD "" ≠ "" then
          [ServerCall.InterfaceConnectToPacketFilter nic.ID
            (cl.toSakuraCloudID (filterID.getD ""))]
        else []
      | none => []) ++
    specPacketFilterCalls cl nics ids.tail

namespace Go
variable {κ σ : Type}

/-- Every run of the code returns normally, appends exactly the successful calls `calls`
and changes nothing but the world and the trace. -/
structure Issues (calls : List κ) (m : Go κ σ Unit) : Prop where
  run : ∀ s, ∃ w, m s =
    (Res.ok (), { s with world := w, trace := s.trace ++ calls.map (fun c => Event.call c none) })

end Go

/-! ## Theorems -/

/-! ### Running handler code -/

namespace Go

variable {κ σ α β : Type}

@[simp] theorem pure_run (a : α) (s : St κ σ) : (pure a : Go κ σ α) s = (Res.ok a, s) := rfl

@[simp] theorem bind_run (m : Go κ σ α) (f : α → Go κ σ β) (s : St κ σ) :
    (m >>= f) s = match m s with
      | (.ok a, s') => f a s'
      | (.err e, s') => (.err e, s')
      | (.panic, s') => (.panic, s') := rfl

theorem pure_bind (a : α) (f : α → Go κ σ β) : (pure a >>= f) = f a := by
  funext s
  simp

theorem bind_ok {m : Go κ σ α} {f : α → Go κ σ β} {s s' : St κ σ} {a : α}
    (h : m s = (Res.ok a, s')) : (m >>= f) s = f a s' := by
  simp [h]

theorem bind_err {m : Go κ σ α} {f : α → Go κ σ β} {s s' : St κ σ} {e : Err}
    (h : m s = (Res.err e, s')) : (m >>= f) s = (Res.err e, s') := by
  simp [h]

theorem bind_panic {m : Go κ σ α} {f : α → Go κ σ β} {s s' : St κ σ}
    (h : m s = (Res.panic, s')) : (m >>= f) s = (Res.panic, s') := by
  simp [h]

@[simp] theorem bind_apply (m : Go κ σ α) (f : α → Go κ σ β) (s : St κ σ) :
    Go.bind m f s = match m s with
      | (.ok a, s') => f a s'
      | (.err e, s') => (.err e, s')
      | (.panic, s') => (.panic, s') := rfl

@[simp] theorem pure_apply (a : α) (s : St κ σ) : (Go.pure a : Go κ σ α) s = (Res.ok a, s) := rfl

@[simp] theorem getData_run (s : St κ σ) : (getData : Go κ σ ResourceData) s = (Res.ok s.d, s) :=
  rfl

@[simp] theorem fail_run (e : Err) (s : St κ σ) : (fail e : Go κ σ α) s = (Res.err e, s) := rfl

@[simp] theorem crash_run (s : St κ σ) : (crash : Go κ σ α) s = (Res.panic, s) := rfl

@[simp] theorem SetId_run (id : String) (s : St κ σ) :
    (SetId id : Go κ σ Unit) s = (Res.ok (), { s with d := { s.d with id := id } }) := rfl

@[simp] theorem Lock_run (key : String) (s : St κ σ) :
    (Lock key : Go κ σ Unit) s = (Res.ok (), { s with trace := s.trace ++ [Event.lock key] }) :=
  rfl

@[simp] theorem deferUnlock_run (key : String) (s : St κ σ) :
    (deferUnlock key : Go κ σ Unit) s = (Res.ok (), { s with defers := key :: s.defers }) := rfl

/-- A function body that ends in `(r, s')` returns `r` after its deferred unlocks ran. -/
theorem func_run {body : Go κ σ α} {s s' : St κ σ} {r : Res α}
    (h : body { s with defers := [] } = (r, s')) :
    func body s =
      (r, { s' with trace := s'.trace ++ s'.defers.map Event.unlock, defers := s.defers }) := by
  simp [func, h]

theorem ok_or_error (x : Except Err α × σ) :
    (∃ a w, x = (Except.ok a, w)) ∨ (∃ e w, x = (Except.error e, w)) := by
  rcases x with ⟨r, w⟩
  cases r with
  | ok a => exact Or.inl ⟨a, w, rfl⟩
  | error e => exact Or.inr ⟨e, w, rfl⟩

theorem call_ok {pfx : String} {c : κ} {f : κ → σ → Except Err α × σ} {s : St κ σ} {a : α}
    {w : σ} (h : f c s.world = (Except.ok a, w)) :
    call pfx c f s = (Res.ok a, { s with world := w, trace := s.trace ++ [Event.call c none] }) := by
  simp [call, h]

theorem call_error {pfx : String} {c : κ} {f : κ → σ → Except Err α × σ} {s : St κ σ} {e : Err}
    {w : σ} (h : f c s.world = (Except.error e, w)) :
    call pfx c f s = (Res.err (wrapErr pfx e),
      { s with world := w, trace := s.trace ++ [Event.call c (some e)] }) := by
  simp [call, h]

theorem callE_ok {c : κ} {f : κ → σ → Except Err α × σ} {s : St κ σ} {a : α}
    {w : σ} (h : f c s.world = (Except.ok a, w)) :
    callE c f s = (Res.ok (Except.ok a),
      { s with world := w, trace := s.trace ++ [Event.call c none] }) := by
  simp [callE, h]

theorem callE_error {c : κ} {f : κ → σ → Except Err α × σ} {s : St κ σ} {e : Err}
    {w : σ} (h : f c s.world = (Except.error e, w)) :
    callE c f s = (Res.ok (Except.error e),
      { s with world := w, trace := s.trace ++ [Event.call c (some e)] }) := by
  simp [callE, h]

/-! ### Events appended by handler code -/

theorem Emits.mono {P Q : Event κ → Prop} {m : Go κ σ α} (h : Emits P m)
    (hPQ : ∀ e, P e → Q e) : Emits Q m := by
  constructor
  intro s
  obtain ⟨h0, evs, h1, h2⟩ := h.run s
  exact ⟨h0, evs, h1, fun e he => hPQ e (h2 e he)⟩

theorem Emits.silent {P : Event κ → Prop} {m : Go κ σ α}
    (h : ∀ s, (m s).2.defers = s.defers ∧ (m s).2.trace = s.trace) : Emits P m :=
  ⟨fun s => ⟨(h s).1, [], by simp [(h s).2], by simp⟩⟩

theorem Emits.pure {P : Event κ → Prop} (a : α) : Emits P (pure a : Go κ σ α) :=
  Emits.silent (fun _ => ⟨rfl, rfl⟩)

theorem Emits.fail {P : Event κ → Prop} (e : Err) : Emits P (fail e : Go κ σ α) :=
  Emits.silent (fun _ => ⟨rfl, rfl⟩)

theorem Emits.crash {P : Event κ → Prop} : Emits P (crash : Go κ σ α) :=
  Emits.silent (fun _ => ⟨rfl, rfl⟩)

theorem Emits.getData {P : Event κ → Prop} : Emits P (getData : Go κ σ ResourceData) :=
  Emits.silent (fun _ => ⟨rfl, rfl⟩)

theorem Emits.SetId {P : Event κ → Prop} (id : String) : Emits P (SetId id : Go κ σ Unit) :=
  Emits.silent (fun _ => ⟨rfl, rfl⟩)

theorem Emits.Set {P : Event κ → Prop} (key : String) (v : Value) :
    Emits P (Set key v : Go κ σ (Option Err)) := by
  apply Emits.silent
  intro s
  unfold Go.Set
  split <;> exact ⟨rfl, rfl⟩

theorem Emits.SetOrReturn {P : Event κ → Prop} (key : String) (v : Value) :
    Emits P (SetOrReturn key v : Go κ σ Unit) := by
  apply Emits.silent
  intro s
  unfold Go.SetOrReturn
  split <;> exact ⟨rfl, rfl⟩

theorem Emits.SetOrWrap {P : Event κ → Prop} (pfx key : String) (v : Value) :
    Emits P (SetOrWrap pfx key v : Go κ σ Unit) := by
  apply Emits.silent
  intro s
  unfold Go.SetOrWrap
  split <;> exact ⟨rfl, rfl⟩

theorem Emits.modify {P : Event κ → Prop} (g : ResourceData → ResourceData) :
    Emits P (fun s => (Res.ok (), { s with d := g s.d }) : Go κ σ Unit) :=
  Emits.silent (fun _ => ⟨rfl, rfl⟩)

theorem Emits.bind_of_returns {P : Event κ → Prop} {Q : α → Prop} {m : Go κ σ α}
    {f : α → Go κ σ β} (hm : Emits P m) (hQ : Returns m Q)
    (hf : ∀ a, Q a → Emits P (f a)) : Emits P (m >>= f) := by
  constructor
  intro s
  obtain ⟨h0, evs, h1, h2⟩ := hm.run s
  rcases hms : m s with ⟨r, s'⟩
  rw [hms] at h1 h0
  simp only at h1 h0
  cases r with
  | ok a =>
    obtain ⟨h5, evs', h3, h4⟩ := (hf a (hQ s a s' hms)).run s'
    refine ⟨by simp [hms, h5, h0], evs ++ evs', ?_, ?_⟩
    · simp [hms, h3, h1, List.append_assoc]
    · intro e he
      rcases List.mem_append.mp he with he | he
      · exact h2 e he
      · exact h4 e he
  | err e => exact ⟨by simp [hms, h0], evs, by simp [hms, h1], h2⟩
  | panic => exact ⟨by simp [hms, h0], evs, by simp [hms, h1], h2⟩

theorem Emits.bind {P : Event κ → Prop} {m : Go κ σ α} {f : α → Go κ σ β}
    (hm : Emits P m) (hf : ∀ a, Emits P (f a)) : Emits P (m >>= f) :=
  Emits.bind_of_returns (Q := fun _ => True) hm (fun _ _ _ _ => trivial) (fun a _ => hf a)

theorem Emits.one {P : Event κ → Prop} {m : Go κ σ α} (ev : St κ σ → Event κ)
    (h : ∀ s, (m s).2.defers = s.defers ∧ (m s).2.trace = s.trace ++ [ev s] ∧ P (ev s)) :
    Emits P m :=
  ⟨fun s => ⟨(h s).1, [ev s], (h s).2.1, by simp [(h s).2.2]⟩⟩

theorem Emits.call {P : Event κ → Prop} (pfx : String) (c : κ)
    (f : κ → σ → Except Err α × σ) (hP : ∀ r, P (Event.call c r)) :
    Emits P (call pfx c f) := by
  constructor
  intro s
  rcases h : f c s.world with ⟨r, w⟩
  cases r with
  | ok a => exact ⟨by simp [call_ok h], [Event.call c none], by simp [call_ok h], by simp [hP]⟩
  | error e =>
    exact ⟨by simp [call_error h], [Event.call c (some e)], by simp [call_error h], by simp [hP]⟩

theorem Emits.callRaw {P : Event κ → Prop} (c : κ)
    (f : κ → σ → Except Err α × σ) (hP : ∀ r, P (Event.call c r)) :
    Emits P (callRaw c f) := by
  constructor
  intro s
  rcases h : f c s.world with ⟨r, w⟩
  cases r with
  | ok a =>
    exact ⟨by simp [Go.callRaw, h], [Event.call c none], by simp [Go.callRaw, h], by simp [hP]⟩
  | error e =>
    exact ⟨by simp [Go.callRaw, h], [Event.call c (some e)], by simp [Go.callRaw, h],
      by simp [hP]⟩

theorem Emits.callE {P : Event κ → Prop} (c : κ)
    (f : κ → σ → Except Err α × σ) (hP : ∀ r, P (Event.call c r)) :
    Emits P (callE c f) := by
  constructor
  intro s
  rcases h : f c s.world with ⟨r, w⟩
  cases r with
  | ok a => exact ⟨by simp [callE_ok h], [Event.call c none], by simp [callE_ok h], by simp [hP]⟩
  | error e =>
    exact ⟨by simp [callE_error h], [Event.call c (some e)], by simp [callE_error h],
      by simp [hP]⟩

/-- A function that takes a lock first and defers its release: the trace is the lock, the
events of the body, and the unlock of the same key, whatever the outcome. -/
theorem func_locked_run (k : ResourceData → String) (body : ResourceData → Go κ σ α)
    {P : Event κ → Prop} (hb : ∀ d, Emits P (body d)) (s : St κ σ) :
    func (do
      let d ← getData
      Lock (k d)
      deferUnlock (k d)
      body d) s =
    ((body s.d { s with trace := s.trace ++ [Event.lock (k s.d)], defers := [k s.d] }).1,
     { (body s.d { s with trace := s.trace ++ [Event.lock (k s.d)], defers := [k s.d] }).2 with
       trace := (body s.d { s with trace := s.trace ++ [Event.lock (k s.d)],
                                   defers := [k s.d] }).2.trace ++ [Event.unlock (k s.d)],
       defers := s.defers }) := by
  have h := ((hb s.d).run
    { s with trace := s.trace ++ [Event.lock (k s.d)], defers := [k s.d] }).1
  simp only at h
  simp [func, h]

end Go

/-! ### Fail-stop behaviour of handler code -/

namespace Go

variable {κ σ α β : Type}

theorem wrapErr_mentions (pfx : String) (e : Err) : (wrapErr pfx e).Mentions e :=
  ⟨pfx, "", by simp [wrapErr]⟩

theorem Err.mentions_self (e : Err) : e.Mentions e := ⟨"", "", by simp⟩

theorem Stops.of_silent {T : Event κ → Prop} {F : κ → Err → Prop} {m : Go κ σ α}
    (h : ∀ s, (m s).2.trace = s.trace) : Stops T F m :=
  ⟨fun s => ⟨[], by simp [h s], Or.inl (by simp)⟩⟩

theorem Stops.of_pure {T : Event κ → Prop} {F : κ → Err → Prop} (a : α) :
    Stops T F (pure a : Go κ σ α) := Stops.of_silent (fun _ => rfl)

theorem Stops.of_fail {T : Event κ → Prop} {F : κ → Err → Prop} (e : Err) :
    Stops T F (fail e : Go κ σ α) := Stops.of_silent (fun _ => rfl)

theorem Stops.of_crash {T : Event κ → Prop} {F : κ → Err → Prop} :
    Stops T F (crash : Go κ σ α) := Stops.of_silent (fun _ => rfl)

theorem Stops.of_getData {T : Event κ → Prop} {F : κ → Err → Prop} :
    Stops T F (getData : Go κ σ ResourceData) := Stops.of_silent (fun _ => rfl)

theorem Stops.of_SetId {T : Event κ → Prop} {F : κ → Err → Prop} (id : String) :
    Stops T F (SetId id : Go κ σ Unit) := Stops.of_silent (fun _ => rfl)

theorem Stops.of_Set {T : Event κ → Prop} {F : κ → Err → Prop} (key : String) (v : Value) :
    Stops T F (Set key v : Go κ σ (Option Err)) := by
  apply Stops.of_silent
  intro s
  unfold Go.Set
  split <;> rfl

theorem Stops.of_modify {T : Event κ → Prop} {F : κ → Err → Prop}
    (g : ResourceData → ResourceData) :
    Stops T F (fun s => (Res.ok (), { s with d := g s.d }) : Go κ σ Unit) :=
  Stops.of_silent (fun _ => rfl)

theorem Stops.of_call {T : Event κ → Prop} {F : κ → Err → Prop} (pfx : String) (c : κ)
    (f : κ → σ → Except Err α × σ) : Stops T F (call pfx c f) := by
  constructor
  intro s
  rcases ok_or_error (f c s.world) with ⟨a, w, h⟩ | ⟨e, w, h⟩
  · exact ⟨[Event.call c none], by simp [call_ok h], Or.inl (by simp [Event.failed])⟩
  · refine ⟨[Event.call c (some e)], by simp [call_error h], Or.inr ⟨[], c, e, rfl, by simp, ?_⟩⟩
    exact Or.inl ⟨wrapErr pfx e, by simp [call_error h], wrapErr_mentions pfx e⟩

theorem Stops.of_callRaw {T : Event κ → Prop} {F : κ → Err → Prop} (c : κ)
    (f : κ → σ → Except Err α × σ) : Stops T F (callRaw c f) := by
  constructor
  intro s
  rcases ok_or_error (f c s.world) with ⟨a, w, h⟩ | ⟨e, w, h⟩
  · exact ⟨[Event.call c none], by simp [Go.callRaw, h], Or.inl (by simp [Event.failed])⟩
  · refine ⟨[Event.call c (some e)], by simp [Go.callRaw, h],
      Or.inr ⟨[], c, e, rfl, by simp, ?_⟩⟩
    exact Or.inl ⟨e, by simp [Go.callRaw, h], Err.mentions_self e⟩

/-- Sequencing keeps the fail-stop behaviour when the first part never ends quietly. -/
theorem Stops.of_bind {T : Event κ → Prop} {F : κ → Err → Prop} {m : Go κ σ α}
    {f : α → Go κ σ β} (hm : Stops T (fun _ _ => False) m) (hf : ∀ a, Stops T F (f a)) :
    Stops T F (m >>= f) := by
  constructor
  intro s
  obtain ⟨evs, h1, h2⟩ := hm.run s
  rcases hms : m s with ⟨r, s'⟩
  rw [hms] at h1 h2
  simp only at h1 h2
  cases r with
  | ok a =>
    obtain ⟨evs', h3, h4⟩ := (hf a).run s'
    have hpre : ∀ x ∈ evs, x.failed = true → T x := by
      rcases h2 with h2 | ⟨pre, c, e, -, -, ⟨E, hE, -⟩ | ⟨hF, -⟩⟩
      · exact h2
      · cases hE
      · exact hF.elim
    refine ⟨evs ++ evs', by simp [hms, h3, h1, List.append_assoc], ?_⟩
    rcases h4 with h4 | ⟨pre, c, e, h5, h6, h7⟩
    · left
      intro x hx
      rcases List.mem_append.mp hx with hx | hx
      · exact hpre x hx
      · exact h4 x hx
    · right
      refine ⟨evs ++ pre, c, e, by simp [h5, List.append_assoc], ?_, by simpa [hms] using h7⟩
      intro x hx
      rcases List.mem_append.mp hx with hx | hx
      · exact hpre x hx
      · exact h6 x hx
  | err e0 =>
    refine ⟨evs, by simp [hms, h1], ?_⟩
    rcases h2 with h2 | ⟨pre, c, e, h5, h6, ⟨E, hE, hM⟩ | ⟨hF, -⟩⟩
    · exact Or.inl h2
    · exact Or.inr ⟨pre, c, e, h5, h6, Or.inl ⟨E, by simpa [hms] using hE, hM⟩⟩
    · exact hF.elim
  | panic =>
    refine ⟨evs, by simp [hms, h1], ?_⟩
    rcases h2 with h2 | ⟨pre, c, e, h5, h6, ⟨E, hE, hM⟩ | ⟨hF, -⟩⟩
    · exact Or.inl h2
    · cases hE
    · exact hF.elim

theorem Stops.strict {T : Event κ → Prop} {F : κ → Err → Prop} {m : Go κ σ α}
    (hm : Stops T (fun _ _ => False) m) : Stops T F m := by
  constructor
  intro s
  obtain ⟨evs, h1, h2⟩ := hm.run s
  refine ⟨evs, h1, ?_⟩
  rcases h2 with h2 | ⟨pre, c, e, h5, h6, h7 | ⟨hF, -⟩⟩
  · exact Or.inl h2
  · exact Or.inr ⟨pre, c, e, h5, h6, Or.inl h7⟩
  · exact hF.elim

/-- A remote call whose outcome is inspected: after a failure the code either goes on (the
failure is one `T` allows), or returns a wrapping error, or ends quietly (`F`). -/
theorem Stops.callE_bind {T : Event κ → Prop} {F : κ → Err → Prop} (c : κ)
    (f : κ → σ → Except Err α × σ) (k : Except Err α → Go κ σ β)
    (hok : ∀ a, Stops T F (k (Except.ok a)))
    (herr : ∀ e, (T (Event.call c (some e)) ∧ Stops T F (k (Except.error e))) ∨
      (∃ E, E.Mentions e ∧ k (Except.error e) = Go.fail E) ∨
      (F c e ∧ ∀ s, (k (Except.error e) s).2.trace = s.trace ∧
        ∃ b, (k (Except.error e) s).1 = Res.ok b)) :
    Stops T F (callE c f >>= k) := by
  constructor
  intro s
  rcases ok_or_error (f c s.world) with ⟨a, w, h⟩ | ⟨e, w, h⟩
  · obtain ⟨evs, h1, h2⟩ := (hok a).run
      { s with world := w, trace := s.trace ++ [Event.call c none] }
    refine ⟨[Event.call c none] ++ evs, by simp [callE_ok h, h1], ?_⟩
    rcases h2 with h2 | ⟨pre, c', e', h5, h6, h7⟩
    · left
      intro x hx
      rcases List.mem_append.mp hx with hx | hx
      · simp at hx
        subst hx
        simp [Event.failed]
      · exact h2 x hx
    · right
      refine ⟨[Event.call c none] ++ pre, c', e', by simp [h5], ?_,
        by simpa [callE_ok h] using h7⟩
      intro x hx
      rcases List.mem_append.mp hx with hx | hx
      · simp at hx
        subst hx
        simp [Event.failed]
      · exact h6 x hx
  · rcases herr e with ⟨hT, hk⟩ | ⟨E, hM, hk⟩ | ⟨hF, hk⟩
    · obtain ⟨evs, h1, h2⟩ := hk.run
        { s with world := w, trace := s.trace ++ [Event.call c (some e)] }
      refine ⟨[Event.call c (some e)] ++ evs, by simp [callE_error h, h1], ?_⟩
      rcases h2 with h2 | ⟨pre, c', e', h5, h6, h7⟩
      · left
        intro x hx
        rcases List.mem_append.mp hx with hx | hx
        · simp at hx
          subst hx
          exact fun _ => hT
        · exact h2 x hx
      · right
        refine ⟨[Event.call c (some e)] ++ pre, c', e', by simp [h5], ?_,
          by simpa [callE_error h] using h7⟩
        intro x hx
        rcases List.mem_append.mp hx with hx | hx
        · simp at hx
          subst hx
          exact fun _ => hT
        · exact h6 x hx
    · refine ⟨[Event.call c (some e)], by simp [callE_error h, hk],
        Or.inr ⟨[], c, e, rfl, by simp, Or.inl ⟨E, by simp [callE_error h, hk], hM⟩⟩⟩
    · obtain ⟨ht, b, hb⟩ := hk { s with world := w, trace := s.trace ++ [Event.call c (some e)] }
      refine ⟨[Event.call c (some e)], by simp [callE_error h, ht],
        Or.inr ⟨[], c, e, rfl, by simp, Or.inr ⟨hF, b, by simp [callE_error h, hb]⟩⟩⟩

end Go



/-! ### Tag lists compared up to order -/

theorem sortStrings_eq_iff_perm (os ns : List String) :
    sortStrings os = sortStrings ns ↔ os.Perm ns := by
  unfold sortStrings
  constructor
  · intro h
    have h1 := List.perm_insertionSort (fun a b : String => a ≤ b) os
    rw [h] at h1
    exact h1.symm.trans (List.perm_insertionSort _ ns)
  · intro h
    apply List.eq_of_perm_of_sorted (r := fun a b : String => a ≤ b)
    · exact ((List.perm_insertionSort _ os).trans h).trans (List.perm_insertionSort _ ns).symm
    · exact List.sorted_insertionSort _ os
    · exact List.sorted_insertionSort _ ns

/-- C1: when `tags` has changed and both the old and the new list are non-nil, the tags
change is cleared (the result and the diff are those of `Clear`) exactly when the new list is
a permutation of the old one, which is the same as the two lists being equal after sorting;
in every other case the diff is unchanged and nil is returned. -/
theorem hasTagResourceCustomizeDiff_clears_iff_perm {Δ : Type} (ops : DiffOps Δ)
    (expandStringList : List String → List String)
    (hexp : ∀ xs, expandStringList xs = xs) (d : Δ) :
    (∀ os ns : List String, ops.HasChange d "tags" = true →
        ops.GetChange d "tags" = (Value.strs os, Value.strs ns) →
        (os.Perm ns ↔ sortStrings os = sortStrings ns) ∧
        (os.Perm ns → hasTagResourceCustomizeDiff ops expandStringList d
            = (Res.ok (ops.Clear d "tags").1, (ops.Clear d "tags").2)) ∧
        (¬ os.Perm ns → hasTagResourceCustomizeDiff ops expandStringList d
            = (Res.ok none, d))) ∧
    (ops.HasChange d "tags" = false ∨ (ops.GetChange d "tags").1 = Value.null ∨
        (ops.GetChange d "tags").2 = Value.null →
        hasTagResourceCustomizeDiff ops expandStringList d = (Res.ok none, d)) := by
  refine ⟨?_, ?_⟩
  · intro os ns hch hget
    refine ⟨(sortStrings_eq_iff_perm os ns).symm, ?_, ?_⟩
    · intro hp
      have hs := (sortStrings_eq_iff_perm os ns).mpr hp
      simp [hasTagResourceCustomizeDiff, hch, hget, asStringList, hexp, hs]
    · intro hp
      have hs : ¬ sortStrings os = sortStrings ns :=
        fun h => hp ((sortStrings_eq_iff_perm os ns).mp h)
      simp [hasTagResourceCustomizeDiff, hch, hget, asStringList, hexp, hs]
  · intro h
    unfold hasTagResourceCustomizeDiff
    rcases h with h | h | h <;> simp [h]

/-- C1 at a concrete diff: tags `a, b` reordered to `b, a` are cleared. -/
theorem hasTagResourceCustomizeDiff_clears_iff_perm_witness :
    (∀ xs : List String, id xs = xs) ∧
    tagDiffOps.HasChange reorderedTags "tags" = true ∧
    hasTagResourceCustomizeDiff tagDiffOps id reorderedTags
      = (Res.ok none, { changed := false, old := .strs ["a", "b"], new := .strs ["a", "b"] }) :=
  ⟨fun _ => rfl, by decide,
   ((hasTagResourceCustomizeDiff_clears_iff_perm tagDiffOps id (fun _ => rfl) reorderedTags).1
      ["a", "b"] ["b", "a"] (by decide) (by decide)).2.1 (List.Perm.swap "b" "a" [])⟩

/-! ### MobileGateway: events of the handlers -/

section MobileGatewayFacts

variable {σ : Type}

open Go

/-- The read-back issues read-only calls only. -/
theorem setMobileGatewayResourceData_emits (cl : MGWClient σ) (data : MobileGateway)
    (P : Event MGWCall → Prop) (hP : ∀ c r, c.isReadOnly = true → P (Event.call c r)) :
    Emits P (setMobileGatewayResourceData cl data) := by
  unfold setMobileGatewayResourceData
  repeat' first
    | exact Emits.pure _
    | exact Emits.fail _
    | exact Emits.crash
    | exact Emits.SetId _
    | exact Emits.Set _ _
    | exact Emits.modify _
    | exact Emits.call _ _ _ (fun r => hP _ r rfl)
    | exact Emits.callE _ _ (fun r => hP _ r rfl)
    | apply Emits.bind
    | intro _
    | split

theorem resourceSakuraCloudMobileGatewayRead_emits (cl : MGWClient σ)
    (P : Event MGWCall → Prop) (hP : ∀ c r, c.isReadOnly = true → P (Event.call c r)) :
    Emits P (resourceSakuraCloudMobileGatewayRead cl) := by
  unfold resourceSakuraCloudMobileGatewayRead
  repeat' first
    | exact setMobileGatewayResourceData_emits cl _ P hP
    | exact Emits.pure _
    | exact Emits.fail _
    | exact Emits.getData
    | exact Emits.SetId _
    | exact Emits.callE _ _ (fun r => hP _ r rfl)
    | apply Emits.bind
    | intro _
    | split

/-- Every event of the update body is a remote call. -/
theorem mgwUpdateBody_emits_calls (cl : MGWClient σ) (d : ResourceData) :
    Emits (fun e => e.isCall = true) (mgwUpdateBody cl d) := by
  unfold mgwUpdateBody mgwUpdateAfterRead mgwUpdateNetwork mgwUpdateTrafficControl mgwUpdateDNS
    mgwUpdateStaticRoute mgwRestart
  repeat' first
    | exact resourceSakuraCloudMobileGatewayRead_emits cl _ (fun _ _ _ => rfl)
    | exact Emits.pure _
    | exact Emits.fail _
    | exact Emits.call _ _ _ (fun _ => rfl)
    | exact Emits.callE _ _ (fun _ => rfl)
    | apply Emits.bind
    | intro _
    | split
    | dsimp only

/-- Without a change of the network attributes the network block does nothing. -/
theorem mgwUpdateNetwork_unchanged (cl : MGWClient σ) (d : ResourceData) (switchID : Int)
    (ip : String) (nwMaskLen : Int) (mgw : MobileGateway)
    (hnet : d.HasChanges ["switch_id", "private_ipaddress", "private_nw_mask_len"] = false) :
    mgwUpdateNetwork cl d switchID ip nwMaskLen mgw = pure (mgw, false) := by
  simp [mgwUpdateNetwork, hnet]

theorem MGWCall.isPower_of_isReadOnly (c : MGWCall) (h : c.isReadOnly = true) :
    c.isPower = false := by
  cases c <;> first | rfl | cases h

/-- Without a change of the network attributes the update body issues no power call. -/
theorem mgwUpdateBody_emits_noPower (cl : MGWClient σ) (d : ResourceData)
    (hnet : d.HasChanges ["switch_id", "private_ipaddress", "private_nw_mask_len"] = false) :
    Emits MGWNoPower (mgwUpdateBody cl d) := by
  have hread : Emits MGWNoPower (resourceSakuraCloudMobileGatewayRead cl) :=
    resourceSakuraCloudMobileGatewayRead_emits cl _
      (fun c _ hc => MGWCall.isPower_of_isReadOnly c hc)
  unfold mgwUpdateBody mgwUpdateAfterRead
  simp only [mgwUpdateNetwork_unchanged cl d _ _ _ _ hnet, Go.pure_bind, mgwRestart]
  unfold mgwUpdateTrafficControl mgwUpdateDNS mgwUpdateStaticRoute
  repeat' first
    | exact hread
    | exact Emits.pure _
    | exact Emits.fail _
    | exact Emits.call _ _ _ (fun _ => rfl)
    | exact Emits.callE _ _ (fun _ => rfl)
    | apply Emits.bind
    | intro _
    | split
    | dsimp only

theorem Value.asString_of_isZero (v : Value) (h : v.isZero = true) : v.asString = "" := by
  cases v <;> simp_all [Value.isZero, Value.asString]

/-- The blocks after the network block do nothing when their attributes are unchanged. -/
theorem mgwUpdate_tail_unchanged (cl : MGWClient σ) (d : ResourceData)
    (htc : d.HasChange "traffic_control" = false) (hdns1 : d.HasChange "dns1" = false)
    (hdns2 : d.HasChange "dns2" = false) (hsr : d.HasChange "static_route" = false)
    (mgw : MobileGateway) :
    mgwUpdateTrafficControl cl d mgw = pure () ∧ mgwUpdateDNS cl d mgw = pure () ∧
      mgwUpdateStaticRoute cl d mgw = pure mgw := by
  simp [mgwUpdateTrafficControl, mgwUpdateDNS, mgwUpdateStaticRoute, ResourceData.HasChanges,
    htc, hdns1, hdns2, hsr]

/-- With only `description` changed, the metadata step rewrites the description only. -/
theorem mgwApplyMetadata_description_only (cl : MGWClient σ) (d : ResourceData)
    (hdesc : d.HasChange "description" = true)
    (hothers : ∀ key, key ≠ "description" → d.HasChange key = false) (mgw : MobileGateway) :
    mgwApplyMetadata cl d mgw = { mgw with Description := (d.Get "description").asString } := by
  have h1 := hothers "name" (by decide)
  have h2 := hothers "icon_id" (by decide)
  have h3 := hothers "tags" (by decide)
  have h4 := hothers "internet_connection" (by decide)
  unfold mgwApplyMetadata
  simp only [h1, h2, h3, h4, hdesc, if_true, if_false, Bool.false_eq_true]
  by_cases hz : (d.Get "description").isZero = true
  · simp [ResourceData.GetOk, hz, Value.asString_of_isZero _ hz]
  · simp [ResourceData.GetOk, hz]

/-- With only `description` changed, a successful update body is: Read, Update with the new
description, then the read-back. -/
theorem mgwUpdateBody_description_only (cl : MGWClient σ) (d : ResourceData)
    (hnet : d.HasChanges ["switch_id", "private_ipaddress", "private_nw_mask_len"] = false)
    (hdesc : d.HasChange "description" = true)
    (hothers : ∀ key, key ≠ "description" → d.HasChange key = false) (s : St MGWCall σ)
    (hok : (mgwUpdateBody cl d s).1 = Res.ok ()) :
    ∃ (m : MobileGateway) (w' : σ),
      mgwUpdateBody cl d s = resourceSakuraCloudMobileGatewayRead cl
        { s with
          world := w'
          trace := s.trace ++ [Event.call (MGWCall.Read (cl.toSakuraCloudID d.id)) none,
            Event.call (MGWCall.Update m.ID
              { m with Description := (d.Get "description").asString }) none] } := by
  have htail := mgwUpdate_tail_unchanged cl d (hothers _ (by decide)) (hothers _ (by decide))
    (hothers _ (by decide)) (hothers _ (by decide))
  unfold mgwUpdateBody mgwUpdateAfterRead at hok ⊢
  simp only [mgwUpdateNetwork_unchanged cl d _ _ _ _ hnet, (htail _).1, (htail _).2.1,
    (htail _).2.2, Go.pure_bind, mgwRestart, mgwApplyMetadata_description_only cl d hdesc hothers,
    Go.bind_run, if_false, Bool.false_eq_true] at hok ⊢
  rcases hR : cl.mgw (MGWCall.Read (cl.toSakuraCloudID d.id)) s.world with ⟨r, w1⟩
  cases r with
  | error e => simp [call_error hR] at hok
  | ok m =>
    simp only [call_ok hR] at hok ⊢
    cases hV : mgwSwitchParams cl d with
    | error e => simp [hV] at hok
    | ok p =>
      obtain ⟨switchID, ip, nwMaskLen⟩ := p
      simp only [hV] at hok ⊢
      rcases hU : cl.mgw (MGWCall.Update m.ID
          { m with Description := (d.Get "description").asString }) w1 with ⟨r, w2⟩
      cases r with
      | error e => simp [Go.call, hU] at hok
      | ok m1 =>
        refine ⟨m, w2, ?_⟩
        simp [Go.call, hU]

/-- The update handler as the lock, its body and the unlock. -/
theorem resourceSakuraCloudMobileGatewayUpdate_run (cl : MGWClient σ) (s : St MGWCall σ) :
    resourceSakuraCloudMobileGatewayUpdate cl s =
    ((mgwUpdateBody cl s.d
        { s with trace := s.trace ++ [Event.lock s.d.id], defers := [s.d.id] }).1,
     { (mgwUpdateBody cl s.d
        { s with trace := s.trace ++ [Event.lock s.d.id], defers := [s.d.id] }).2 with
       trace := (mgwUpdateBody cl s.d { s with trace := s.trace ++ [Event.lock s.d.id],
                                               defers := [s.d.id] }).2.trace
                  ++ [Event.unlock s.d.id],
       defers := s.defers }) :=
  func_locked_run (fun d => d.id) (mgwUpdateBody cl) (mgwUpdateBody_emits_calls cl) s

end MobileGatewayFacts

/-! ### MobileGateway update: connecting a switch (C2) -/

section MobileGatewayConnect

variable {σ : Type}

open Go

theorem Value.isZero_of_asString_ne (v : Value) (h : v.asString ≠ "") : v.isZero = false := by
  cases v <;> simp_all [Value.isZero, Value.asString]

theorem Value.isZero_of_asInt_ne (v : Value) (h : v.asInt ≠ 0) : v.isZero = false := by
  cases v <;> simp_all [Value.isZero, Value.asInt]

/-- A desired state with a switch ID, a private address and a mask length passes the
validation. -/
theorem mgwSwitchParams_ok (cl : MGWClient σ) (d : ResourceData)
    (hsw : (d.Get "switch_id").asString ≠ "")
    (hip : (d.Get "private_ipaddress").asString ≠ "")
    (hlen : (d.Get "private_nw_mask_len").asInt ≠ 0) :
    mgwSwitchParams cl d = Except.ok (cl.toSakuraCloudID (d.Get "switch_id").asString,
      (d.Get "private_ipaddress").asString, (d.Get "private_nw_mask_len").asInt) := by
  simp [mgwSwitchParams, ResourceData.GetOk, Value.isZero_of_asString_ne _ hsw,
    Value.isZero_of_asString_ne _ hip, Value.isZero_of_asInt_ne _ hlen, hsw, hip, hlen]

/-- The events of the read-back contain no power-state wait. -/
theorem resourceSakuraCloudMobileGatewayRead_no_wait (cl : MGWClient σ) (s : St MGWCall σ) :
    ∃ evs, (resourceSakuraCloudMobileGatewayRead cl s).2.trace = s.trace ++ evs ∧
      evs.filter isPowerWait = [] := by
  obtain ⟨-, evs, h1, h2⟩ := (resourceSakuraCloudMobileGatewayRead_emits cl
    (fun e => isPowerWait e = false)
    (fun c r hc => by cases c <;> first | rfl | cases hc)).run s
  exact ⟨evs, h1, List.filter_eq_nil_iff.mpr (fun e he => by simp [h2 e he])⟩

/-- C2: for a gateway that the metadata Update reports up and without a switch on
interface 1, when `switch_id` changes to a non-empty ID (private address and mask length
set, no other field changed) and every remote call succeeds, the trace of the update handler
is: lock, Read, Update, then shutdown, SleepUntilDown, ConnectToSwitch, Update, Config, Boot,
SleepUntilUp, then the calls of the final Read, then the unlock; the power-state waits of
the whole run are exactly the wait for down and the wait for up. -/
theorem mgwUpdate_connect_switch_sequence (cl : MGWClient σ) (w : σ) (d : ResourceData)
    (hchg : d.HasChange "switch_id" = true)
    (hsw : (d.Get "switch_id").asString ≠ "")
    (hid : 0 < cl.toSakuraCloudID (d.Get "switch_id").asString)
    (hip : (d.Get "private_ipaddress").asString ≠ "")
    (hlen : (d.Get "private_nw_mask_len").asInt ≠ 0)
    (hothers : ∀ key, key ∉ ["switch_id", "private_ipaddress", "private_nw_mask_len"] →
      d.HasChange key = false)
    (m0 : MobileGateway) (w1 : σ)
    (hR : cl.mgw (MGWCall.Read (cl.toSakuraCloudID d.id)) w = (Except.ok m0, w1))
    (m1 : MobileGateway) (w2 : σ)
    (hU : cl.mgw (MGWCall.Update m0.ID m0) w1 = (Except.ok m1, w2))
    (hup : cl.IsUp m1 = true)
    (hnosw : (m1.Interfaces.get? 1).any (fun nic => nic.Switch.isSome) = false)
    (hok : ∀ e ∈ (resourceSakuraCloudMobileGatewayUpdate cl (St.init w d)).2.trace,
      e.failed = false) :
    ∃ (m2 m3 : MobileGateway) (s' : St MGWCall σ),
      s'.trace = [Event.lock d.id,
        Event.call (MGWCall.Read (cl.toSakuraCloudID d.id)) none,
        Event.call (MGWCall.Update m0.ID m0) none,
        Event.call (MGWCall.handleShutdown m1.ID) none,
        Event.call (MGWCall.SleepUntilDown m1.ID) none,
        Event.call (MGWCall.ConnectToSwitch m1.ID
          (cl.toSakuraCloudID (d.Get "switch_id").asString)) none,
        Event.call (MGWCall.Update m2.ID m2) none,
        Event.call (MGWCall.Config m3.ID) none,
        Event.call (MGWCall.Boot m3.ID) none,
        Event.call (MGWCall.SleepUntilUp m3.ID) none] ∧
      (resourceSakuraCloudMobileGatewayUpdate cl (St.init w d)).2.trace
        = (resourceSakuraCloudMobileGatewayRead cl s').2.trace ++ [Event.unlock d.id] ∧
      (resourceSakuraCloudMobileGatewayUpdate cl (St.init w d)).2.trace.filter isPowerWait
        = [Event.call (MGWCall.SleepUntilDown m1.ID) none,
           Event.call (MGWCall.SleepUntilUp m3.ID) none] := by
  have hmeta : mgwApplyMetadata cl d m0 = m0 := by
    simp [mgwApplyMetadata, hothers "name" (by decide), hothers "icon_id" (by decide),
      hothers "description" (by decide), hothers "tags" (by decide),
      hothers "internet_connection" (by decide)]
  have htail := mgwUpdate_tail_unchanged cl d (hothers _ (by decide)) (hothers _ (by decide))
    (hothers _ (by decide)) (hothers _ (by decide))
  have hnet : d.HasChanges ["switch_id", "private_ipaddress", "private_nw_mask_len"] = true := by
    simp [ResourceData.HasChanges, hchg]
  generalize hrun : resourceSakuraCloudMobileGatewayUpdate cl (St.init w d) = run at hok ⊢
  rw [resourceSakuraCloudMobileGatewayUpdate_run] at hrun
  simp only [St.init, mgwUpdateBody, mgwUpdateAfterRead, Go.bind_run, Go.call, hR, hmeta,
    mgwSwitchParams_ok cl d hsw hip hlen, hU, mgwUpdateNetwork, hnet, hup, if_true, hchg, hnosw,
    Bool.false_eq_true, and_false, if_false, gt_iff_lt, hid, Go.pure_run] at hrun
  rcases ok_or_error (cl.unit (MGWCall.handleShutdown m1.ID) w2) with
    ⟨u1, w3, h1⟩ | ⟨e, w3, h1⟩
  swap
  · subst hrun
    simp [h1, Event.failed] at hok
  simp only [h1] at hrun
  rcases ok_or_error (cl.unit (MGWCall.SleepUntilDown m1.ID) w3) with
    ⟨u2, w4, h2⟩ | ⟨e, w4, h2⟩
  swap
  · subst hrun
    simp [h2, Event.failed] at hok
  simp only [h2] at hrun
  rcases ok_or_error (cl.unit (MGWCall.ConnectToSwitch m1.ID
      (cl.toSakuraCloudID (d.Get "switch_id").asString)) w4) with
    ⟨u3, w5, h3⟩ | ⟨e, w5, h3⟩
  swap
  · subst hrun
    simp [h3, Event.failed] at hok
  simp only [h3] at hrun
  generalize hm2 : cl.SetPrivateInterface
    (if m1.Settings.Interfaces.length = 0 then
      { m1 with Settings := { m1.Settings with
          Interfaces := m1.Settings.Interfaces ++ [none] } }
    else m1) (d.Get "private_ipaddress").asString (d.Get "private_nw_mask_len").asInt
    = m2 at hrun
  rcases ok_or_error (cl.mgw (MGWCall.Update m2.ID m2) w5) with
    ⟨m3, w6, h4⟩ | ⟨e, w6, h4⟩
  swap
  · subst hrun
    simp [h4, Event.failed] at hok
  simp only [h4] at hrun
  rcases ok_or_error (cl.unit (MGWCall.Config m3.ID) w6) with
    ⟨u5, w7, h5⟩ | ⟨e, w7, h5⟩
  swap
  · subst hrun
    simp [h5, Event.failed] at hok
  simp only [h5, (htail _).1, (htail _).2.1, (htail _).2.2, Go.pure_run, mgwRestart,
    if_true, Go.bind_run, Go.call] at hrun
  rcases ok_or_error (cl.unit (MGWCall.Boot m3.ID) w7) with
    ⟨u6, w8, h6⟩ | ⟨e, w8, h6⟩
  swap
  · subst hrun
    simp [h6, Event.failed] at hok
  simp only [h6] at hrun
  rcases ok_or_error (cl.unit (MGWCall.SleepUntilUp m3.ID) w8) with
    ⟨u7, w9, h7⟩ | ⟨e, w9, h7⟩
  swap
  · subst hrun
    simp [h7, Event.failed] at hok
  simp only [h7, List.nil_append, List.append_assoc, List.singleton_append,
    List.cons_append] at hrun
  subst hrun
  obtain ⟨evs, he1, he2⟩ := resourceSakuraCloudMobileGatewayRead_no_wait cl
    (St.mk w9 d [Event.lock d.id,
      Event.call (MGWCall.Read (cl.toSakuraCloudID d.id)) none,
      Event.call (MGWCall.Update m0.ID m0) none,
      Event.call (MGWCall.handleShutdown m1.ID) none,
      Event.call (MGWCall.SleepUntilDown m1.ID) none,
      Event.call (MGWCall.ConnectToSwitch m1.ID
        (cl.toSakuraCloudID (d.Get "switch_id").asString)) none,
      Event.call (MGWCall.Update m2.ID m2) none,
      Event.call (MGWCall.Config m3.ID) none,
      Event.call (MGWCall.Boot m3.ID) none,
      Event.call (MGWCall.SleepUntilUp m3.ID) none] [d.id])
  refine ⟨m2, m3, _, rfl, rfl, ?_⟩
  simp only [he1, List.filter_append, he2]
  simp [List.filter, isPowerWait]

/-- C2 at a concrete run: gateway 100, up and without a private switch, gets switch 101. -/
theorem mgwUpdate_connect_switch_sequence_witness :
    connectSwitch.HasChange "switch_id" = true ∧
    (∀ e ∈ (resourceSakuraCloudMobileGatewayUpdate (scriptedMGW sampleGateway [])
        (St.init 0 connectSwitch)).2.trace, e.failed = false) ∧
    ∃ (m2 m3 : MobileGateway) (s' : St MGWCall Nat),
      s'.trace = [Event.lock "100",
        Event.call (MGWCall.Read 100) none,
        Event.call (MGWCall.Update 100 sampleGateway) none,
        Event.call (MGWCall.handleShutdown 100) none,
        Event.call (MGWCall.SleepUntilDown 100) none,
        Event.call (MGWCall.ConnectToSwitch 100 101) none,
        Event.call (MGWCall.Update m2.ID m2) none,
        Event.call (MGWCall.Config m3.ID) none,
        Event.call (MGWCall.Boot m3.ID) none,
        Event.call (MGWCall.SleepUntilUp m3.ID) none] ∧
      (resourceSakuraCloudMobileGatewayUpdate (scriptedMGW sampleGateway [])
          (St.init 0 connectSwitch)).2.trace
        = (resourceSakuraCloudMobileGatewayRead (scriptedMGW sampleGateway []) s').2.trace
            ++ [Event.unlock "100"] ∧
      (resourceSakuraCloudMobileGatewayUpdate (scriptedMGW sampleGateway [])
          (St.init 0 connectSwitch)).2.trace.filter isPowerWait
        = [Event.call (MGWCall.SleepUntilDown 100) none,
           Event.call (MGWCall.SleepUntilUp m3.ID) none] :=
  ⟨by decide, by decide,
   mgwUpdate_connect_switch_sequence (scriptedMGW sampleGateway []) 0 connectSwitch
    (by decide) (by decide) (by decide) (by decide) (by decide)
    (by
      intro key hk
      simp only [List.mem_cons, List.mem_singleton, List.not_mem_nil, or_false, not_or] at hk
      have h1 : (key == "switch_id") = false := by simpa using hk.1
      have h2 : (key == "private_ipaddress") = false := by simpa using hk.2.1
      have h3 : (key == "private_nw_mask_len") = false := by simpa using hk.2.2
      simp [ResourceData.HasChange, ResourceData.GetChange, ResourceData.Get, connectSwitch,
        sampleData, List.lookup, h1, h2, h3])
    sampleGateway 1 rfl sampleGateway 2 rfl (by decide) (by decide) (by decide)⟩

end MobileGatewayConnect

/-! ### MobileGateway update: descriptive changes (C3) -/

section MobileGatewayDescriptive

variable {σ : Type}

open Go

/-- C3: when none of `switch_id`, `private_ipaddress` and `private_nw_mask_len` has changed,
every event of the update handler is the lock or unlock keyed by the resource ID or a remote
call that is no shutdown, boot or power-state wait; and when only `description` changed, a
run that returns nil issues exactly Read, Update (with the new description) and then the calls
of the final Read. -/
theorem mgwUpdate_descriptive_change (cl : MGWClient σ) (w : σ) (d : ResourceData)
    (hnet : d.HasChanges ["switch_id", "private_ipaddress", "private_nw_mask_len"] = false) :
    (∀ e ∈ (resourceSakuraCloudMobileGatewayUpdate cl (St.init w d)).2.trace,
      e = Event.lock d.id ∨ e = Event.unlock d.id ∨ MGWNoPower e) ∧
    (d.HasChange "description" = true →
      (∀ key, key ≠ "description" → d.HasChange key = false) →
      (resourceSakuraCloudMobileGatewayUpdate cl (St.init w d)).1 = Res.ok () →
      ∃ (m : MobileGateway) (s' : St MGWCall σ),
        s'.trace = [Event.lock d.id,
          Event.call (MGWCall.Read (cl.toSakuraCloudID d.id)) none,
          Event.call (MGWCall.Update m.ID
            { m with Description := (d.Get "description").asString }) none] ∧
        (resourceSakuraCloudMobileGatewayUpdate cl (St.init w d)).2.trace
          = (resourceSakuraCloudMobileGatewayRead cl s').2.trace ++ [Event.unlock d.id]) := by
  refine ⟨?_, ?_⟩
  · intro e he
    rw [resourceSakuraCloudMobileGatewayUpdate_run] at he
    obtain ⟨-, evs, h1, h2⟩ := (mgwUpdateBody_emits_noPower cl d hnet).run
      { (St.init w d : St MGWCall σ) with
        trace := (St.init w d : St MGWCall σ).trace ++ [Event.lock d.id], defers := [d.id] }
    simp only [St.init] at he h1
    rw [h1] at he
    simp only [List.nil_append, List.mem_append, List.mem_singleton, List.mem_cons,
      List.not_mem_nil, or_false] at he
    rcases he with (he | he) | he
    · exact Or.inl he
    · exact Or.inr (Or.inr (h2 e he))
    · exact Or.inr (Or.inl he)
  · intro hdesc hothers hok
    rw [resourceSakuraCloudMobileGatewayUpdate_run] at hok ⊢
    simp only [St.init] at hok ⊢
    obtain ⟨m, w', hrun⟩ := mgwUpdateBody_description_only cl d hnet hdesc hothers _ hok
    refine ⟨m, St.mk w' d [Event.lock d.id,
      Event.call (MGWCall.Read (cl.toSakuraCloudID d.id)) none,
      Event.call (MGWCall.Update m.ID
        { m with Description := (d.Get "description").asString }) none] [d.id], rfl, ?_⟩
    rw [hrun]
    simp

/-- C3 at a concrete run: gateway 100 with only the description changed. -/
theorem mgwUpdate_descriptive_change_witness :
    descriptionChange.HasChanges ["switch_id", "private_ipaddress", "private_nw_mask_len"]
      = false ∧
    (∀ e ∈ (resourceSakuraCloudMobileGatewayUpdate (scriptedMGW sampleGateway [])
        (St.init 0 descriptionChange)).2.trace,
      e = Event.lock "100" ∨ e = Event.unlock "100" ∨ MGWNoPower e) ∧
    ∃ (m : MobileGateway) (s' : St MGWCall Nat),
      s'.trace = [Event.lock "100", Event.call (MGWCall.Read 100) none,
        Event.call (MGWCall.Update m.ID { m with Description := "after" }) none] ∧
      (resourceSakuraCloudMobileGatewayUpdate (scriptedMGW sampleGateway [])
          (St.init 0 descriptionChange)).2.trace
        = (resourceSakuraCloudMobileGatewayRead (scriptedMGW sampleGateway []) s').2.trace
            ++ [Event.unlock "100"] :=
  ⟨by decide,
   (mgwUpdate_descriptive_change (scriptedMGW sampleGateway []) 0 descriptionChange
      (by decide)).1,
   (mgwUpdate_descriptive_change (scriptedMGW sampleGateway []) 0 descriptionChange
      (by decide)).2 (by decide)
      (by
        intro key hk
        have hb : (key == "description") = false := by simpa using hk
        simp [ResourceData.HasChange, ResourceData.GetChange, ResourceData.Get,
          descriptionChange, sampleData, List.lookup, hb])
      (by rfl)⟩

end MobileGatewayDescriptive

/-! ### MobileGateway update: empty change set (C4) -/

section MobileGatewayUnchanged

variable {σ : Type}

open Go

/-- Without any change the metadata step leaves the gateway value as it was read. -/
theorem mgwApplyMetadata_unchanged (cl : MGWClient σ) (d : ResourceData)
    (hno : ∀ key, d.HasChange key = false) (mgw : MobileGateway) :
    mgwApplyMetadata cl d mgw = mgw := by
  simp [mgwApplyMetadata, hno]

/-- C4 (as stated) fails: with a desired state identical to the prior state the handler still
issues the remote `Update` call. -/
theorem mgwUpdate_unchanged_issues_update :
    (∀ key, unchangedData.HasChange key = false) ∧
    Event.call (MGWCall.Update 100 sampleGateway) none ∈
      (resourceSakuraCloudMobileGatewayUpdate (scriptedMGW sampleGateway [])
        (St.init 0 unchangedData)).2.trace := by
  refine ⟨?_, by decide⟩
  intro key
  simp [ResourceData.HasChange, ResourceData.GetChange, ResourceData.Get, unchangedData,
    sampleData]

/-- C4 (amended): when no field reports a change, every event of the update handler is the
lock or unlock keyed by the resource ID, a read-only call, or the unconditional `Update`
call, whose payload is the gateway exactly as the initial Read returned it; no UpdateSetting,
Config, SetDNS, traffic-control, switch or power call is issued. -/
theorem mgwUpdate_unchanged_only_reads_and_update (cl : MGWClient σ) (w : σ)
    (d : ResourceData) (hno : ∀ key, d.HasChange key = false) :
    ∀ e ∈ (resourceSakuraCloudMobileGatewayUpdate cl (St.init w d)).2.trace,
      e = Event.lock d.id ∨ e = Event.unlock d.id ∨
      (∃ c r, e = Event.call c r ∧ c.isReadOnly = true) ∨
      (∃ m w1 r, cl.mgw (MGWCall.Read (cl.toSakuraCloudID d.id)) w = (Except.ok m, w1) ∧
        e = Event.call (MGWCall.Update m.ID m) r) := by
  intro e he
  have hnet : d.HasChanges ["switch_id", "private_ipaddress", "private_nw_mask_len"]
      = false := by simp [ResourceData.HasChanges, hno]
  have htail := mgwUpdate_tail_unchanged cl d (hno _) (hno _) (hno _) (hno _)
  rw [resourceSakuraCloudMobileGatewayUpdate_run] at he
  simp only [St.init] at he
  unfold mgwUpdateBody mgwUpdateAfterRead at he
  simp only [mgwUpdateNetwork_unchanged cl d _ _ _ _ hnet, (htail _).1, (htail _).2.1,
    (htail _).2.2, Go.pure_bind, mgwRestart, mgwApplyMetadata_unchanged cl d hno,
    Go.bind_run, if_false, Bool.false_eq_true] at he
  rcases hR : cl.mgw (MGWCall.Read (cl.toSakuraCloudID d.id)) w with ⟨r, w1⟩
  cases r with
  | error e0 =>
    simp [Go.call, hR] at he
    rcases he with he | he | he
    · exact Or.inl he
    · exact Or.inr (Or.inr (Or.inl ⟨_, _, he, rfl⟩))
    · exact Or.inr (Or.inl he)
  | ok m =>
    simp only [Go.call, hR] at he
    cases hV : mgwSwitchParams cl d with
    | error e0 =>
      simp [hV] at he
      rcases he with he | he | he
      · exact Or.inl he
      · exact Or.inr (Or.inr (Or.inl ⟨_, _, he, rfl⟩))
      · exact Or.inr (Or.inl he)
    | ok p =>
      simp only [hV] at he
      rcases hU : cl.mgw (MGWCall.Update m.ID m) w1 with ⟨r, w2⟩
      cases r with
      | error e0 =>
        simp [Go.call, hU] at he
        rcases he with he | he | he | he
        · exact Or.inl he
        · exact Or.inr (Or.inr (Or.inl ⟨_, _, he, rfl⟩))
        · exact Or.inr (Or.inr (Or.inr ⟨m, w1, _, rfl, he⟩))
        · exact Or.inr (Or.inl he)
      | ok m1 =>
        simp only [Go.bind_run, Go.call, hU] at he
        obtain ⟨-, evs, h1, h2⟩ := (resourceSakuraCloudMobileGatewayRead_emits cl
          (fun e => ∃ c r, e = Event.call c r ∧ c.isReadOnly = true)
          (fun c r hc => ⟨c, r, rfl, hc⟩)).run
          { world := w2, d := d, trace := [] ++ [Event.lock d.id] ++
              [Event.call (MGWCall.Read (cl.toSakuraCloudID d.id)) none] ++
              [Event.call (MGWCall.Update m.ID m) none], defers := [d.id] }
        rw [h1] at he
        simp at he
        rcases he with he | he | he | he | he
        · exact Or.inl he
        · exact Or.inr (Or.inr (Or.inl ⟨_, _, he, rfl⟩))
        · exact Or.inr (Or.inr (Or.inr ⟨m, w1, _, rfl, he⟩))
        · exact Or.inr (Or.inr (Or.inl (h2 e he)))
        · exact Or.inr (Or.inl he)

/-- C4 (amended) at a concrete run: gateway 100 with nothing changed. -/
theorem mgwUpdate_unchanged_only_reads_and_update_witness :
    (∀ key, unchangedData.HasChange key = false) ∧
    ∀ e ∈ (resourceSakuraCloudMobileGatewayUpdate (scriptedMGW sampleGateway [])
        (St.init 0 unchangedData)).2.trace,
      e = Event.lock "100" ∨ e = Event.unlock "100" ∨
      (∃ c r, e = Event.call c r ∧ c.isReadOnly = true) ∨
      (∃ m w1 r, (scriptedMGW sampleGateway []).mgw (MGWCall.Read 100) 0 = (Except.ok m, w1) ∧
        e = Event.call (MGWCall.Update m.ID m) r) :=
  ⟨fun key => by
      simp [ResourceData.HasChange, ResourceData.GetChange, ResourceData.Get, unchangedData,
        sampleData],
   mgwUpdate_unchanged_only_reads_and_update (scriptedMGW sampleGateway []) 0 unchangedData
    (fun key => by
      simp [ResourceData.HasChange, ResourceData.GetChange, ResourceData.Get, unchangedData,
        sampleData])⟩

end MobileGatewayUnchanged

/-! ### MobileGateway update: first failing call (C5) -/

section MobileGatewayFailStop

variable {σ : Type}

open Go

/-- Where the first failed call of a trace sits, given that the trace ends with a failed
call `g` followed by `rest`, after the events `A`. -/
theorem first_failure_position {κ : Type} (A : List (Event κ)) (g : Event κ)
    (rest pre post : List (Event κ)) (f : Event κ)
    (h : A ++ g :: rest = pre ++ f :: post) (hpre : ∀ x ∈ pre, x.failed = false)
    (hg : g.failed = true) : (pre = A ∧ f = g ∧ post = rest) ∨ f ∈ A := by
  induction A generalizing pre with
  | nil =>
    cases pre with
    | nil =>
      simp only [List.nil_append, List.cons.injEq] at h
      exact Or.inl ⟨rfl, h.1.symm, h.2.symm⟩
    | cons x pre' =>
      simp only [List.nil_append, List.cons_append, List.cons.injEq] at h
      have := hpre x (by simp)
      rw [← h.1, hg] at this
      cases this
  | cons a A' ih =>
    cases pre with
    | nil =>
      simp only [List.nil_append, List.cons_append, List.cons.injEq] at h
      exact Or.inr (by simp [h.1])
    | cons x pre' =>
      simp only [List.cons_append, List.cons.injEq] at h
      rcases ih pre' h.2 (fun y hy => hpre y (by simp [hy])) with ⟨h1, h2, h3⟩ | h1
      · exact Or.inl ⟨by rw [h.1, h1], h2, h3⟩
      · exact Or.inr (by simp [h1])

theorem setMobileGatewayResourceData_stops (cl : MGWClient σ) (data : MobileGateway)
    (F : MGWCall → Err → Prop) :
    Stops mgwGoesOn F (setMobileGatewayResourceData cl data) := by
  have htc : Stops mgwGoesOn (fun _ _ => False) (do
      match ← callE (.GetTrafficMonitoringConfig data.ID) cl.tc with
      | .error e =>
        if e.code.isSome ∧ e.code ≠ some 404 then
          fail (wrapErr
            "Error reading SakuraCloud MobileGateway resource(traffic-control): " e)
        else pure none
      | .ok tc => pure tc : Go MGWCall σ (Option TrafficMonitoringConfig)) := by
    apply Stops.callE_bind
    · intro a
      exact Stops.of_pure _
    · intro e
      by_cases hc : e.code.isSome = true ∧ e.code ≠ some 404
      · exact Or.inr (Or.inl ⟨wrapErr
          "Error reading SakuraCloud MobileGateway resource(traffic-control): " e,
          wrapErr_mentions _ e, by simp only []; rw [if_pos hc]⟩)
      · refine Or.inl ⟨?_, ?_⟩
        · simp only [mgwGoesOn, mgwContinues, mgwSwallowed, Err.isNotFound]
          rcases hcode : e.code with _ | n
          · exact Or.inr rfl
          · left
            simp only [hcode, Option.isSome_some, ne_eq, Option.some.injEq, true_and,
              not_not] at hc
            simp [hc]
        · simp only [hc, if_false]
          exact Stops.of_pure _
  apply Stops.strict
  unfold setMobileGatewayResourceData
  repeat' first
    | exact htc
    | exact Stops.of_pure _
    | exact Stops.of_fail _
    | exact Stops.of_crash
    | exact Stops.of_SetId _
    | exact Stops.of_Set _ _
    | exact Stops.of_modify _
    | exact Stops.of_call _ _ _
    | apply Stops.of_bind
    | intro _
    | split

theorem resourceSakuraCloudMobileGatewayRead_stops (cl : MGWClient σ) :
    Stops mgwGoesOn mgwEndsQuietly (resourceSakuraCloudMobileGatewayRead cl) := by
  unfold resourceSakuraCloudMobileGatewayRead
  apply Stops.of_bind Stops.of_getData
  intro d
  apply Stops.callE_bind
  · intro mgw
    exact setMobileGatewayResourceData_stops cl mgw _
  · intro e
    by_cases hc : e.isNotFound = true
    · refine Or.inr (Or.inr ⟨hc, fun s => ?_⟩)
      simp [hc]
    · exact Or.inr (Or.inl ⟨wrapErr "Couldn't find SakuraCloud MobileGateway resource: " e,
        wrapErr_mentions _ e, by simp only []; rw [if_neg hc]⟩)

theorem mgwUpdateTrafficControl_stops (cl : MGWClient σ) (d : ResourceData)
    (mgw : MobileGateway) :
    Stops mgwGoesOn (fun _ _ => False) (mgwUpdateTrafficControl cl d mgw) := by
  unfold mgwUpdateTrafficControl
  split
  · split
    · exact Stops.of_call _ _ _
    · apply Stops.callE_bind
      · intro a
        exact Stops.of_pure _
      · intro e
        by_cases hc : ¬ e.code.isSome = true ∨ e.code ≠ some 404
        · exact Or.inr (Or.inl ⟨wrapErr
            "Failed to disable traffic-control on SakuraCloud MobileGateway: " e,
            wrapErr_mentions _ e, by simp only []; rw [if_pos hc]⟩)
        · refine Or.inl ⟨?_, ?_⟩
          · simp only [not_or, not_not] at hc
            exact Or.inl (by simp [mgwContinues, Err.isNotFound, hc.2])
          · simp only [hc, if_false]
            exact Stops.of_pure _
  · exact Stops.of_pure _

theorem mgwUpdateAfterRead_stops (cl : MGWClient σ) (d : ResourceData) (mgw : MobileGateway) :
    Stops mgwGoesOn mgwEndsQuietly (mgwUpdateAfterRead cl d mgw) := by
  unfold mgwUpdateAfterRead mgwUpdateNetwork mgwUpdateDNS mgwUpdateStaticRoute mgwRestart
  repeat' first
    | exact resourceSakuraCloudMobileGatewayRead_stops cl
    | exact mgwUpdateTrafficControl_stops cl d _
    | exact Stops.of_pure _
    | exact Stops.of_fail _
    | exact Stops.of_call _ _ _
    | apply Stops.of_bind
    | intro _
    | split
    | dsimp only

/-- C5 (as stated) fails on the not-found replies that the handler tolerates on purpose.
When `traffic_control` is removed and `DisableTrafficMonitoringConfig` answers not-found,
that call is the first one to return an error, yet the handler goes on with the calls of the
final Read and returns nil.  When `GetTrafficMonitoringConfig` of the final Read answers
not-found, the handler goes on with `GetDNS` and `ListSIM` and returns nil.  When the final
Read itself answers not-found, no call follows, and the handler returns nil instead of an
error. -/
theorem mgwUpdate_goes_on_after_not_found :
    ((resourceSakuraCloudMobileGatewayUpdate (scriptedMGW sampleGateway [(2, notFound)])
        (St.init 0 removeTrafficControl)).2.trace =
      [Event.lock "100",
       Event.call (MGWCall.Read 100) none,
       Event.call (MGWCall.Update 100 sampleGateway) none,
       Event.call (MGWCall.DisableTrafficMonitoringConfig 100) (some notFound),
       Event.call (MGWCall.Read 100) none,
       Event.call (MGWCall.GetTrafficMonitoringConfig 100) none,
       Event.call (MGWCall.GetDNS 100) none,
       Event.call (MGWCall.ListSIM 100) none,
       Event.unlock "100"] ∧
     (resourceSakuraCloudMobileGatewayUpdate (scriptedMGW sampleGateway [(2, notFound)])
        (St.init 0 removeTrafficControl)).1 = Res.ok ()) ∧
    ((resourceSakuraCloudMobileGatewayUpdate (scriptedMGW sampleGateway [(3, notFound)])
        (St.init 0 descriptionChange)).2.trace =
      [Event.lock "100",
       Event.call (MGWCall.Read 100) none,
       Event.call (MGWCall.Update 100 { sampleGateway with Description := "after" }) none,
       Event.call (MGWCall.Read 100) none,
       Event.call (MGWCall.GetTrafficMonitoringConfig 100) (some notFound),
       Event.call (MGWCall.GetDNS 100) none,
       Event.call (MGWCall.ListSIM 100) none,
       Event.unlock "100"] ∧
     (resourceSakuraCloudMobileGatewayUpdate (scriptedMGW sampleGateway [(3, notFound)])
        (St.init 0 descriptionChange)).1 = Res.ok ()) ∧
    ((resourceSakuraCloudMobileGatewayUpdate (scriptedMGW sampleGateway [(2, notFound)])
        (St.init 0 descriptionChange)).2.trace =
      [Event.lock "100",
       Event.call (MGWCall.Read 100) none,
       Event.call (MGWCall.Update 100 { sampleGateway with Description := "after" }) none,
       Event.call (MGWCall.Read 100) (some notFound),
       Event.unlock "100"] ∧
     (resourceSakuraCloudMobileGatewayUpdate (scriptedMGW sampleGateway [(2, notFound)])
        (St.init 0 descriptionChange)).1 = Res.ok ()) := by
  refine ⟨⟨rfl, rfl⟩, ⟨rfl, rfl⟩, ⟨rfl, rfl⟩⟩

/-- C5 (amended): in every run of the update handler, if the first remote call to return an
error is not a not-found reply that the handler tolerates on purpose (to
`DisableTrafficMonitoringConfig`, to `GetTrafficMonitoringConfig`, or to the final Read),
then that call is the last remote call (only the unlock of the resource ID follows) and the
handler returns an error whose message contains the text of that call's error.  The
statement leaves out the run in which that first failure is `GetTrafficMonitoringConfig`
failing with an error that is not an API error, which the read-back goes on after
(`mgwSwallowed`). -/
theorem mgwUpdate_stops_at_first_failure (cl : MGWClient σ) (w : σ) (d : ResourceData)
    (pre post : List (Event MGWCall)) (c : MGWCall) (e : Err)
    (hsplit : (resourceSakuraCloudMobileGatewayUpdate cl (St.init w d)).2.trace
      = pre ++ Event.call c (some e) :: post)
    (hfirst : ∀ x ∈ pre, x.failed = false)
    (hnot : ¬ mgwTolerated pre c e)
    (hslip : ¬ mgwSwallowed (Event.call c (some e))) :
    post = [Event.unlock d.id] ∧
    ∃ E, (resourceSakuraCloudMobileGatewayUpdate cl (St.init w d)).1 = Res.err E ∧
      E.Mentions e := by
  have hfailed : (Event.call c (some e)).failed = true := rfl
  have hgo : ¬ mgwGoesOn (Event.call c (some e)) := by
    rintro (h | h)
    · exact hnot (Or.inl h)
    · exact hslip h
  rw [resourceSakuraCloudMobileGatewayUpdate_run] at hsplit ⊢
  simp only [St.init, mgwUpdateBody, Go.bind_run] at hsplit ⊢
  rcases ok_or_error (cl.mgw (MGWCall.Read (cl.toSakuraCloudID d.id)) w) with
    ⟨m, w1, hR⟩ | ⟨e0, w1, hR⟩
  · simp only [Go.call, hR] at hsplit ⊢
    obtain ⟨evs, h1, h2⟩ := (mgwUpdateAfterRead_stops cl d m).run
      { world := w1, d := d,
        trace := [] ++ [Event.lock d.id] ++
          [Event.call (MGWCall.Read (cl.toSakuraCloudID d.id)) none],
        defers := [d.id] }
    rw [h1] at hsplit
    simp only [List.nil_append, List.singleton_append, List.cons_append,
      List.append_assoc] at hsplit
    rcases h2 with hA | ⟨A, c', e', hevs, hA, hres⟩
    · exfalso
      have hmem : Event.call c (some e) ∈ Event.lock d.id ::
          Event.call (MGWCall.Read (cl.toSakuraCloudID d.id)) none ::
          (evs ++ [Event.unlock d.id]) := by
        rw [hsplit]
        simp
      simp only [List.mem_cons, List.mem_append, List.mem_singleton, reduceCtorEq,
        Event.call.injEq, and_false, false_or, or_false, List.not_mem_nil] at hmem
      exact hgo (hA _ hmem hfailed)
    · subst hevs
      have hsplit' : (Event.lock d.id ::
          Event.call (MGWCall.Read (cl.toSakuraCloudID d.id)) none :: A)
          ++ Event.call c' (some e') :: [Event.unlock d.id]
          = pre ++ Event.call c (some e) :: post := by
        rw [← hsplit]
        simp
      rcases first_failure_position _ _ _ _ _ _ hsplit' hfirst rfl with ⟨h3, h4, h5⟩ | h3
      · simp only [Event.call.injEq, Option.some.injEq] at h4
        obtain ⟨rfl, rfl⟩ := h4
        refine ⟨h5, ?_⟩
        rcases hres with hres | ⟨hq, -⟩
        · exact hres
        · exact (hnot (Or.inr ⟨hq,
            Event.call (MGWCall.Read (cl.toSakuraCloudID d.id)) none, by rw [h3]; simp,
            rfl⟩)).elim
      · exfalso
        simp only [List.mem_cons, reduceCtorEq, Event.call.injEq, and_false,
          false_or] at h3
        exact hgo (hA _ h3 hfailed)
  · simp only [Go.call, hR] at hsplit ⊢
    have hsplit' : [Event.lock d.id] ++
        Event.call (MGWCall.Read (cl.toSakuraCloudID d.id)) (some e0) ::
          [Event.unlock d.id] = pre ++ Event.call c (some e) :: post := by
      rw [← hsplit]
      simp
    rcases first_failure_position _ _ _ _ _ _ hsplit' hfirst rfl with ⟨h3, h4, h5⟩ | h3
    · simp only [Event.call.injEq, Option.some.injEq] at h4
      obtain ⟨rfl, rfl⟩ := h4
      exact ⟨h5, _, rfl, wrapErr_mentions _ _⟩
    · simp at h3

/-- C5 (amended) at a concrete run: the metadata Update of gateway 100 fails with 503. -/
theorem mgwUpdate_stops_at_first_failure_witness :
    (∀ x ∈ [Event.lock "100", Event.call (MGWCall.Read 100) none], x.failed = false) ∧
    ¬ mgwTolerated [Event.lock "100", Event.call (MGWCall.Read 100) none]
        (MGWCall.Update 100 { sampleGateway with Description := "after" }) serverError ∧
    ¬ mgwSwallowed (Event.call
        (MGWCall.Update 100 { sampleGateway with Description := "after" }) (some serverError)) ∧
    ([Event.unlock "100"] : List (Event MGWCall)) = [Event.unlock descriptionChange.id] ∧
    ∃ E, (resourceSakuraCloudMobileGatewayUpdate (scriptedMGW sampleGateway [(1, serverError)])
        (St.init 0 descriptionChange)).1 = Res.err E ∧ E.Mentions serverError :=
  ⟨by decide, by simp [mgwTolerated, mgwContinues, mgwEndsQuietly], by simp [mgwSwallowed],
   mgwUpdate_stops_at_first_failure (scriptedMGW sampleGateway [(1, serverError)]) 0
    descriptionChange [Event.lock "100", Event.call (MGWCall.Read 100) none]
    [Event.unlock "100"] (MGWCall.Update 100 { sampleGateway with Description := "after" })
    serverError (by rfl) (by decide) (by simp [mgwTolerated, mgwContinues, mgwEndsQuietly])
    (by simp [mgwSwallowed])⟩

end MobileGatewayFailStop

/-! ### Lock discipline -/

namespace Go

variable {κ σ α β : Type}

theorem lockStack_append (xs ys : List (Event κ)) (held : List String) :
    lockStack (xs ++ ys) held = (lockStack xs held).bind (lockStack ys) := by
  induction xs generalizing held with
  | nil => simp [lockStack]
  | cons x xs ih =>
    cases x with
    | lock k => simp [lockStack, ih]
    | unlock k =>
      cases held with
      | nil => simp [lockStack]
      | cons top below =>
        by_cases h : top = k
        · simp [lockStack, h, ih]
        · simp [lockStack, h]
    | call c r => simp [lockStack, ih]
    | sleep n => simp [lockStack, ih]

theorem lockStack_calls (evs : List (Event κ)) (h : ∀ e ∈ evs, e.isCall = true)
    (held : List String) : lockStack evs held = some held := by
  induction evs with
  | nil => rfl
  | cons x xs ih =>
    have hx := h x (by simp)
    cases x with
    | call c r => simpa [lockStack] using ih (fun e he => h e (by simp [he]))
    | lock k => cases hx
    | unlock k => cases hx
    | sleep n => cases hx

theorem lockStack_unlocks (ds held : List String) :
    lockStack (ds.map (Event.unlock : String → Event κ)) (ds ++ held) = some held := by
  induction ds with
  | nil => rfl
  | cons k ds ih => simp [lockStack, ih]

theorem Tidy.of_emits {m : Go κ σ α} (h : Emits (fun e => e.isCall = true) m) : Tidy m := by
  constructor
  intro s
  obtain ⟨h0, evs, h1, h2⟩ := h.run s
  exact ⟨evs, [], h1, by simpa using h0, fun held => by simpa using lockStack_calls evs h2 held⟩

theorem Tidy.tidy_pure (a : α) : Tidy (pure a : Go κ σ α) := Tidy.of_emits (Emits.pure a)

theorem Tidy.tidy_fail (e : Err) : Tidy (fail e : Go κ σ α) := Tidy.of_emits (Emits.fail e)

theorem Tidy.tidy_bind {m : Go κ σ α} {f : α → Go κ σ β} (hm : Tidy m) (hf : ∀ a, Tidy (f a)) :
    Tidy (m >>= f) := by
  constructor
  intro s
  obtain ⟨evs, ds, h1, h2, h3⟩ := hm.run s
  rcases hms : m s with ⟨r, s'⟩
  rw [hms] at h1 h2
  simp only at h1 h2
  cases r with
  | ok a =>
    obtain ⟨evs', ds', h4, h5, h6⟩ := (hf a).run s'
    refine ⟨evs ++ evs', ds' ++ ds, by simp [hms, h4, h1, List.append_assoc],
      by simp [hms, h5, h2, List.append_assoc], ?_⟩
    intro held
    rw [lockStack_append, h3]
    simp [h6, List.append_assoc]
  | err e => exact ⟨evs, ds, by simp [hms, h1], by simp [hms, h2], h3⟩
  | panic => exact ⟨evs, ds, by simp [hms, h1], by simp [hms, h2], h3⟩

/-- The statement pair `Lock(key); defer Unlock(key)` followed by tidy code is tidy. -/
theorem Tidy.lock_defer (key : String) {rest : Go κ σ α} (hr : Tidy rest) :
    Tidy (do
      Lock key
      deferUnlock key
      rest) := by
  constructor
  intro s
  obtain ⟨evs, ds, h1, h2, h3⟩ := hr.run
    { s with trace := s.trace ++ [Event.lock key], defers := key :: s.defers }
  refine ⟨Event.lock key :: evs, ds ++ [key], by simp [h1], by simp [h2], ?_⟩
  intro held
  simp [lockStack, h3]

/-- A function whose body is tidy leaves a balanced trace: every lock it took is released
exactly once, latest first, when the function returns. -/
theorem func_balanced {body : Go κ σ α} (hb : Tidy body) (w : σ) (d : ResourceData) :
    Balanced (func body (St.init w d)).2.trace := by
  obtain ⟨evs, ds, h1, h2, h3⟩ := hb.run { (St.init w d : St κ σ) with defers := [] }
  simp only [St.init, List.nil_append, List.append_nil] at h1 h2
  unfold Balanced
  simp only [func, St.init, h1, h2]
  rw [lockStack_append, h3]
  simpa using lockStack_unlocks (κ := κ) ds []

/-- A function that starts with `Lock(key); defer Unlock(key)`: its trace starts with the
lock and ends with the unlock of the same key. -/
theorem func_lock_first_last (key : String) {rest : Go κ σ α} (hr : Tidy rest)
    (s : St κ σ) :
    ∃ mid, ((do
      Lock key
      deferUnlock key
      rest : Go κ σ α) { s with trace := [], defers := [] }).2.trace
        ++ ((do
      Lock key
      deferUnlock key
      rest : Go κ σ α) { s with trace := [], defers := [] }).2.defers.map Event.unlock
      = Event.lock key :: mid ++ [Event.unlock key] := by
  obtain ⟨evs, ds, h1, h2, -⟩ := hr.run
    { s with trace := [Event.lock key], defers := [key] }
  refine ⟨evs ++ ds.map Event.unlock, ?_⟩
  simp [h1, h2]

end Go

/-! ### Every event of a handler body is a remote call -/

section OnlyCalls

variable {σ : Type}

open Go

theorem clientOrReturn_emits {κ : Type} (P : Event κ → Prop) (err : Option Err) :
    Emits P (clientOrReturn err : Go κ σ Unit) := by
  unfold clientOrReturn
  split
  · exact Emits.fail _
  · exact Emits.pure _

theorem resourceSakuraCloudDNSRead_calls (cl : DNSClient σ) :
    Emits (fun e => e.isCall = true) (resourceSakuraCloudDNSRead cl) := by
  unfold resourceSakuraCloudDNSRead setDNSResourceData
  repeat' first
    | exact Emits.pure _
    | exact Emits.fail _
    | exact Emits.crash
    | exact Emits.getData
    | exact Emits.SetId _
    | exact Emits.Set _ _
    | exact Emits.SetOrReturn _ _
    | exact Emits.SetOrWrap _ _ _
    | exact Emits.modify _
    | exact Emits.call _ _ _ (fun _ => rfl)
    | exact Emits.callRaw _ _ (fun _ => rfl)
    | exact Emits.callE _ _ (fun _ => rfl)
    | apply Emits.bind
    | intro _
    | split

theorem dnsUpdateBody_calls (cl : DNSClient σ) (d : ResourceData) :
    Emits (fun e => e.isCall = true) (dnsUpdateBody cl d) := by
  unfold dnsUpdateBody
  repeat' first
    | exact resourceSakuraCloudDNSRead_calls cl
    | exact Emits.pure _
    | exact Emits.fail _
    | exact Emits.crash
    | exact Emits.getData
    | exact Emits.SetId _
    | exact Emits.Set _ _
    | exact Emits.SetOrReturn _ _
    | exact Emits.SetOrWrap _ _ _
    | exact Emits.modify _
    | exact Emits.call _ _ _ (fun _ => rfl)
    | exact Emits.callRaw _ _ (fun _ => rfl)
    | exact Emits.callE _ _ (fun _ => rfl)
    | apply Emits.bind
    | intro _

theorem dnsDeleteBody_calls (cl : DNSClient σ) (d : ResourceData) :
    Emits (fun e => e.isCall = true) (dnsDeleteBody cl d) := by
  unfold dnsDeleteBody
  repeat' first
    | exact Emits.pure _
    | exact Emits.fail _
    | exact Emits.crash
    | exact Emits.getData
    | exact Emits.SetId _
    | exact Emits.Set _ _
    | exact Emits.SetOrReturn _ _
    | exact Emits.SetOrWrap _ _ _
    | exact Emits.modify _
    | exact Emits.call _ _ _ (fun _ => rfl)
    | exact Emits.callRaw _ _ (fun _ => rfl)
    | exact Emits.callE _ _ (fun _ => rfl)
    | apply Emits.bind
    | intro _
    | split

theorem resourceSakuraCloudNoteRead_calls (cl : NoteClient σ) :
    Emits (fun e => e.isCall = true) (resourceSakuraCloudNoteRead cl) := by
  unfold resourceSakuraCloudNoteRead setNoteResourceData
  repeat' first
    | exact Emits.pure _
    | exact Emits.fail _
    | exact Emits.crash
    | exact Emits.getData
    | exact Emits.SetId _
    | exact Emits.Set _ _
    | exact Emits.SetOrReturn _ _
    | exact Emits.SetOrWrap _ _ _
    | exact Emits.modify _
    | exact Emits.call _ _ _ (fun _ => rfl)
    | exact Emits.callRaw _ _ (fun _ => rfl)
    | exact Emits.callE _ _ (fun _ => rfl)
    | apply Emits.bind
    | intro _
    | split

theorem resourceSakuraCloudNoteUpdate_calls (cl : NoteClient σ) :
    Emits (fun e => e.isCall = true) (resourceSakuraCloudNoteUpdate cl) := by
  unfold resourceSakuraCloudNoteUpdate
  repeat' first
    | exact resourceSakuraCloudNoteRead_calls cl
    | exact Emits.pure _
    | exact Emits.fail _
    | exact Emits.crash
    | exact Emits.getData
    | exact Emits.SetId _
    | exact Emits.Set _ _
    | exact Emits.SetOrReturn _ _
    | exact Emits.SetOrWrap _ _ _
    | exact Emits.modify _
    | exact Emits.call _ _ _ (fun _ => rfl)
    | exact Emits.callRaw _ _ (fun _ => rfl)
    | exact Emits.callE _ _ (fun _ => rfl)
    | apply Emits.bind
    | intro _

theorem resourceSakuraCloudNoteDelete_calls (cl : NoteClient σ) :
    Emits (fun e => e.isCall = true) (resourceSakuraCloudNoteDelete cl) := by
  unfold resourceSakuraCloudNoteDelete
  repeat' first
    | exact Emits.pure _
    | exact Emits.fail _
    | exact Emits.crash
    | exact Emits.getData
    | exact Emits.SetId _
    | exact Emits.Set _ _
    | exact Emits.SetOrReturn _ _
    | exact Emits.SetOrWrap _ _ _
    | exact Emits.modify _
    | exact Emits.call _ _ _ (fun _ => rfl)
    | exact Emits.callRaw _ _ (fun _ => rfl)
    | exact Emits.callE _ _ (fun _ => rfl)
    | apply Emits.bind
    | intro _
    | split

theorem resourceSakuraCloudSimpleMonitorRead_calls (cl : SimpleMonitorClient σ) :
    Emits (fun e => e.isCall = true) (resourceSakuraCloudSimpleMonitorRead cl) := by
  unfold resourceSakuraCloudSimpleMonitorRead setSimpleMonitorResourceData
  repeat' first
    | exact clientOrReturn_emits _ _
    | exact Emits.pure _
    | exact Emits.fail _
    | exact Emits.crash
    | exact Emits.getData
    | exact Emits.SetId _
    | exact Emits.Set _ _
    | exact Emits.SetOrReturn _ _
    | exact Emits.SetOrWrap _ _ _
    | exact Emits.modify _
    | exact Emits.call _ _ _ (fun _ => rfl)
    | exact Emits.callRaw _ _ (fun _ => rfl)
    | exact Emits.callE _ _ (fun _ => rfl)
    | apply Emits.bind
    | intro _
    | split

theorem resourceSakuraCloudSimpleMonitorUpdate_calls (cl : SimpleMonitorClient σ) :
    Emits (fun e => e.isCall = true) (resourceSakuraCloudSimpleMonitorUpdate cl) := by
  unfold resourceSakuraCloudSimpleMonitorUpdate
  repeat' first
    | exact resourceSakuraCloudSimpleMonitorRead_calls cl
    | exact clientOrReturn_emits _ _
    | exact Emits.pure _
    | exact Emits.fail _
    | exact Emits.crash
    | exact Emits.getData
    | exact Emits.SetId _
    | exact Emits.Set _ _
    | exact Emits.SetOrReturn _ _
    | exact Emits.SetOrWrap _ _ _
    | exact Emits.modify _
    | exact Emits.call _ _ _ (fun _ => rfl)
    | exact Emits.callRaw _ _ (fun _ => rfl)
    | exact Emits.callE _ _ (fun _ => rfl)
    | apply Emits.bind
    | intro _
    | split

theorem resourceSakuraCloudSimpleMonitorDelete_calls (cl : SimpleMonitorClient σ) :
    Emits (fun e => e.isCall = true) (resourceSakuraCloudSimpleMonitorDelete cl) := by
  unfold resourceSakuraCloudSimpleMonitorDelete
  repeat' first
    | exact clientOrReturn_emits _ _
    | exact Emits.pure _
    | exact Emits.fail _
    | exact Emits.crash
    | exact Emits.getData
    | exact Emits.SetId _
    | exact Emits.Set _ _
    | exact Emits.SetOrReturn _ _
    | exact Emits.SetOrWrap _ _ _
    | exact Emits.modify _
    | exact Emits.call _ _ _ (fun _ => rfl)
    | exact Emits.callRaw _ _ (fun _ => rfl)
    | exact Emits.callE _ _ (fun _ => rfl)
    | apply Emits.bind
    | intro _
    | split

theorem resourceSakuraCloudNFSRead_calls (cl : NFSClient σ) :
    Emits (fun e => e.isCall = true) (resourceSakuraCloudNFSRead cl) := by
  unfold resourceSakuraCloudNFSRead setNFSResourceData
  repeat' first
    | exact clientOrReturn_emits _ _
    | exact Emits.pure _
    | exact Emits.fail _
    | exact Emits.crash
    | exact Emits.getData
    | exact Emits.SetId _
    | exact Emits.Set _ _
    | exact Emits.SetOrReturn _ _
    | exact Emits.SetOrWrap _ _ _
    | exact Emits.modify _
    | exact Emits.call _ _ _ (fun _ => rfl)
    | exact Emits.callRaw _ _ (fun _ => rfl)
    | exact Emits.callE _ _ (fun _ => rfl)
    | apply Emits.bind
    | intro _
    | split

theorem resourceSakuraCloudNFSUpdate_calls (cl : NFSClient σ) :
    Emits (fun e => e.isCall = true) (resourceSakuraCloudNFSUpdate cl) := by
  unfold resourceSakuraCloudNFSUpdate
  repeat' first
    | exact resourceSakuraCloudNFSRead_calls cl
    | exact clientOrReturn_emits _ _
    | exact Emits.pure _
    | exact Emits.fail _
    | exact Emits.crash
    | exact Emits.getData
    | exact Emits.SetId _
    | exact Emits.Set _ _
    | exact Emits.SetOrReturn _ _
    | exact Emits.SetOrWrap _ _ _
    | exact Emits.modify _
    | exact Emits.call _ _ _ (fun _ => rfl)
    | exact Emits.callRaw _ _ (fun _ => rfl)
    | exact Emits.callE _ _ (fun _ => rfl)
    | apply Emits.bind
    | intro _

theorem resourceSakuraCloudNFSDelete_calls (cl : NFSClient σ) :
    Emits (fun e => e.isCall = true) (resourceSakuraCloudNFSDelete cl) := by
  unfold resourceSakuraCloudNFSDelete
  repeat' first
    | exact clientOrReturn_emits _ _
    | exact Emits.pure _
    | exact Emits.fail _
    | exact Emits.crash
    | exact Emits.getData
    | exact Emits.SetId _
    | exact Emits.Set _ _
    | exact Emits.SetOrReturn _ _
    | exact Emits.SetOrWrap _ _ _
    | exact Emits.modify _
    | exact Emits.call _ _ _ (fun _ => rfl)
    | exact Emits.callRaw _ _ (fun _ => rfl)
    | exact Emits.callE _ _ (fun _ => rfl)
    | apply Emits.bind
    | intro _
    | split

theorem resourceSakuraCloudProxyLBRead_calls (cl : ProxyLBClient σ) :
    Emits (fun e => e.isCall = true) (resourceSakuraCloudProxyLBRead cl) := by
  unfold resourceSakuraCloudProxyLBRead setProxyLBResourceData
  repeat' first
    | exact clientOrReturn_emits _ _
    | exact Emits.pure _
    | exact Emits.fail _
    | exact Emits.crash
    | exact Emits.getData
    | exact Emits.SetId _
    | exact Emits.Set _ _
    | exact Emits.SetOrReturn _ _
    | exact Emits.SetOrWrap _ _ _
    | exact Emits.modify _
    | exact Emits.call _ _ _ (fun _ => rfl)
    | exact Emits.callRaw _ _ (fun _ => rfl)
    | exact Emits.callE _ _ (fun _ => rfl)
    | apply Emits.bind
    | intro _
    | split

theorem proxyLBUpdateBody_calls (cl : ProxyLBClient σ) (d : ResourceData) :
    Emits (fun e => e.isCall = true) (proxyLBUpdateBody cl d) := by
  unfold proxyLBUpdateBody proxyLBChangePlan proxyLBUpdateCerts
  repeat' first
    | exact resourceSakuraCloudProxyLBRead_calls cl
    | exact Emits.pure _
    | exact Emits.fail _
    | exact Emits.crash
    | exact Emits.getData
    | exact Emits.SetId _
    | exact Emits.Set _ _
    | exact Emits.SetOrReturn _ _
    | exact Emits.SetOrWrap _ _ _
    | exact Emits.modify _
    | exact Emits.call _ _ _ (fun _ => rfl)
    | exact Emits.callRaw _ _ (fun _ => rfl)
    | exact Emits.callE _ _ (fun _ => rfl)
    | apply Emits.bind
    | intro _
    | split

theorem proxyLBDeleteBody_calls (cl : ProxyLBClient σ) (d : ResourceData) :
    Emits (fun e => e.isCall = true) (proxyLBDeleteBody cl d) := by
  unfold proxyLBDeleteBody
  repeat' first
    | exact Emits.pure _
    | exact Emits.fail _
    | exact Emits.crash
    | exact Emits.getData
    | exact Emits.SetId _
    | exact Emits.Set _ _
    | exact Emits.SetOrReturn _ _
    | exact Emits.SetOrWrap _ _ _
    | exact Emits.modify _
    | exact Emits.call _ _ _ (fun _ => rfl)
    | exact Emits.callRaw _ _ (fun _ => rfl)
    | exact Emits.callE _ _ (fun _ => rfl)
    | apply Emits.bind
    | intro _
    | split

theorem resourceSakuraCloudPacketFilterRulesRead_calls (cl : PacketFilterClient σ) :
    Emits (fun e => e.isCall = true) (resourceSakuraCloudPacketFilterRulesRead cl) := by
  unfold resourceSakuraCloudPacketFilterRulesRead setPacketFilterRulesResourceData
  repeat' first
    | exact clientOrReturn_emits _ _
    | exact Emits.pure _
    | exact Emits.fail _
    | exact Emits.crash
    | exact Emits.getData
    | exact Emits.SetId _
    | exact Emits.Set _ _
    | exact Emits.SetOrReturn _ _
    | exact Emits.SetOrWrap _ _ _
    | exact Emits.modify _
    | exact Emits.call _ _ _ (fun _ => rfl)
    | exact Emits.callRaw _ _ (fun _ => rfl)
    | exact Emits.callE _ _ (fun _ => rfl)
    | apply Emits.bind
    | intro _
    | split

theorem packetFilterRulesUpdateBody_calls (cl : PacketFilterClient σ) (d : ResourceData) :
    Emits (fun e => e.isCall = true) (packetFilterRulesUpdateBody cl d) := by
  unfold packetFilterRulesUpdateBody
  repeat' first
    | exact resourceSakuraCloudPacketFilterRulesRead_calls cl
    | exact Emits.pure _
    | exact Emits.fail _
    | exact Emits.crash
    | exact Emits.getData
    | exact Emits.SetId _
    | exact Emits.Set _ _
    | exact Emits.SetOrReturn _ _
    | exact Emits.SetOrWrap _ _ _
    | exact Emits.modify _
    | exact Emits.call _ _ _ (fun _ => rfl)
    | exact Emits.callRaw _ _ (fun _ => rfl)
    | exact Emits.callE _ _ (fun _ => rfl)
    | apply Emits.bind
    | intro _

theorem packetFilterRulesDeleteBody_calls (cl : PacketFilterClient σ) (d : ResourceData) :
    Emits (fun e => e.isCall = true) (packetFilterRulesDeleteBody cl d) := by
  unfold packetFilterRulesDeleteBody
  repeat' first
    | exact Emits.pure _
    | exact Emits.fail _
    | exact Emits.crash
    | exact Emits.getData
    | exact Emits.SetId _
    | exact Emits.Set _ _
    | exact Emits.SetOrReturn _ _
    | exact Emits.SetOrWrap _ _ _
    | exact Emits.modify _
    | exact Emits.call _ _ _ (fun _ => rfl)
    | exact Emits.callRaw _ _ (fun _ => rfl)
    | exact Emits.callE _ _ (fun _ => rfl)
    | apply Emits.bind
    | intro _
    | split

theorem resourceSakuraCloudSSHKeyRead_calls (cl : SSHKeyClient σ) :
    Emits (fun e => e.isCall = true) (resourceSakuraCloudSSHKeyRead cl) := by
  unfold resourceSakuraCloudSSHKeyRead setSSHKeyResourceData
  repeat' first
    | exact Emits.pure _
    | exact Emits.fail _
    | exact Emits.crash
    | exact Emits.getData
    | exact Emits.SetId _
    | exact Emits.Set _ _
    | exact Emits.SetOrReturn _ _
    | exact Emits.SetOrWrap _ _ _
    | exact Emits.modify _
    | exact Emits.call _ _ _ (fun _ => rfl)
    | exact Emits.callRaw _ _ (fun _ => rfl)
    | exact Emits.callE _ _ (fun _ => rfl)
    | apply Emits.bind
    | intro _
    | split

theorem resourceSakuraCloudSSHKeyUpdate_calls (cl : SSHKeyClient σ) :
    Emits (fun e => e.isCall = true) (resourceSakuraCloudSSHKeyUpdate cl) := by
  unfold resourceSakuraCloudSSHKeyUpdate
  repeat' first
    | exact resourceSakuraCloudSSHKeyRead_calls cl
    | exact Emits.pure _
    | exact Emits.fail _
    | exact Emits.crash
    | exact Emits.getData
    | exact Emits.SetId _
    | exact Emits.Set _ _
    | exact Emits.SetOrReturn _ _
    | exact Emits.SetOrWrap _ _ _
    | exact Emits.modify _
    | exact Emits.call _ _ _ (fun _ => rfl)
    | exact Emits.callRaw _ _ (fun _ => rfl)
    | exact Emits.callE _ _ (fun _ => rfl)
    | apply Emits.bind
    | intro _

theorem resourceSakuraCloudSSHKeyDelete_calls (cl : SSHKeyClient σ) :
    Emits (fun e => e.isCall = true) (resourceSakuraCloudSSHKeyDelete cl) := by
  unfold resourceSakuraCloudSSHKeyDelete
  repeat' first
    | exact Emits.pure _
    | exact Emits.fail _
    | exact Emits.crash
    | exact Emits.getData
    | exact Emits.SetId _
    | exact Emits.Set _ _
    | exact Emits.SetOrReturn _ _
    | exact Emits.SetOrWrap _ _ _
    | exact Emits.modify _
    | exact Emits.call _ _ _ (fun _ => rfl)
    | exact Emits.callRaw _ _ (fun _ => rfl)
    | exact Emits.callE _ _ (fun _ => rfl)
    | apply Emits.bind
    | intro _

theorem resourceSakuraCloudServerConnectorRead_calls (cl : ServerClient σ) :
    Emits (fun e => e.isCall = true) (resourceSakuraCloudServerConnectorRead cl) := by
  unfold resourceSakuraCloudServerConnectorRead
  repeat' first
    | exact Emits.pure _
    | exact Emits.fail _
    | exact Emits.crash
    | exact Emits.getData
    | exact Emits.SetId _
    | exact Emits.Set _ _
    | exact Emits.SetOrReturn _ _
    | exact Emits.SetOrWrap _ _ _
    | exact Emits.modify _
    | exact Emits.call _ _ _ (fun _ => rfl)
    | exact Emits.callRaw _ _ (fun _ => rfl)
    | exact Emits.callE _ _ (fun _ => rfl)
    | apply Emits.bind
    | intro _
    | split

theorem serverDisconnectDisks_calls (cl : ServerClient σ) (disks : List Int) :
    Emits (fun e => e.isCall = true) (serverDisconnectDisks cl disks) := by
  induction disks with
  | nil => exact Emits.pure _
  | cons x rest ih =>
    unfold serverDisconnectDisks
    repeat' first
      | exact ih
      | exact Emits.pure _
      | exact Emits.fail _
      | exact Emits.crash
      | exact Emits.getData
      | exact Emits.SetId _
      | exact Emits.Set _ _
      | exact Emits.SetOrReturn _ _
      | exact Emits.SetOrWrap _ _ _
      | exact Emits.modify _
      | exact Emits.call _ _ _ (fun _ => rfl)
      | exact Emits.callRaw _ _ (fun _ => rfl)
      | exact Emits.callE _ _ (fun _ => rfl)
      | apply Emits.bind
      | intro _

theorem serverConnectDisks_calls (cl : ServerClient σ) (server : Server) (ids : List String) :
    Emits (fun e => e.isCall = true) (serverConnectDisks cl server ids) := by
  induction ids with
  | nil => exact Emits.pure _
  | cons x rest ih =>
    unfold serverConnectDisks
    repeat' first
      | exact ih
      | exact Emits.pure _
      | exact Emits.fail _
      | exact Emits.crash
      | exact Emits.getData
      | exact Emits.SetId _
      | exact Emits.Set _ _
      | exact Emits.SetOrReturn _ _
      | exact Emits.SetOrWrap _ _ _
      | exact Emits.modify _
      | exact Emits.call _ _ _ (fun _ => rfl)
      | exact Emits.callRaw _ _ (fun _ => rfl)
      | exact Emits.callE _ _ (fun _ => rfl)
      | apply Emits.bind
      | intro _

theorem serverDisconnectFilters_calls (cl : ServerClient σ) (nics : List ServerNIC) :
    Emits (fun e => e.isCall = true) (serverDisconnectFilters cl nics) := by
  induction nics with
  | nil => exact Emits.pure _
  | cons x rest ih =>
    unfold serverDisconnectFilters
    repeat' first
      | exact ih
      | exact Emits.pure _
      | exact Emits.fail _
      | exact Emits.crash
      | exact Emits.getData
      | exact Emits.SetId _
      | exact Emits.Set _ _
      | exact Emits.SetOrReturn _ _
      | exact Emits.SetOrWrap _ _ _
      | exact Emits.modify _
      | exact Emits.call _ _ _ (fun _ => rfl)
      | exact Emits.callRaw _ _ (fun _ => rfl)
      | exact Emits.callE _ _ (fun _ => rfl)
      | apply Emits.bind
      | intro _
      | split

theorem serverDeleteDiskIDs_calls (cl : ServerClient σ) (disk : Int) (ids : List (Option String)) :
    Emits (fun e => e.isCall = true) (serverDeleteDiskIDs cl disk ids) := by
  induction ids with
  | nil => exact Emits.pure _
  | cons x rest ih =>
    unfold serverDeleteDiskIDs
    repeat' first
      | exact ih
      | exact Emits.pure _
      | exact Emits.fail _
      | exact Emits.crash
      | exact Emits.getData
      | exact Emits.SetId _
      | exact Emits.Set _ _
      | exact Emits.SetOrReturn _ _
      | exact Emits.SetOrWrap _ _ _
      | exact Emits.modify _
      | exact Emits.call _ _ _ (fun _ => rfl)
      | exact Emits.callRaw _ _ (fun _ => rfl)
      | exact Emits.callE _ _ (fun _ => rfl)
      | apply Emits.bind
      | intro _
      | split

theorem serverDeleteFilterIDs_calls (cl : ServerClient σ) (nic : ServerNIC) (ids : List (Option String)) :
    Emits (fun e => e.isCall = true) (serverDeleteFilterIDs cl nic ids) := by
  induction ids with
  | nil => exact Emits.pure _
  | cons x rest ih =>
    unfold serverDeleteFilterIDs
    repeat' first
      | exact ih
      | exact Emits.pure _
      | exact Emits.fail _
      | exact Emits.crash
      | exact Emits.getData
      | exact Emits.SetId _
      | exact Emits.Set _ _
      | exact Emits.SetOrReturn _ _
      | exact Emits.SetOrWrap _ _ _
      | exact Emits.modify _
      | exact Emits.call _ _ _ (fun _ => rfl)
      | exact Emits.callRaw _ _ (fun _ => rfl)
      | exact Emits.callE _ _ (fun _ => rfl)
      | apply Emits.bind
      | intro _
      | split

theorem serverDeleteDisks_calls (cl : ServerClient σ) (ids : List (Option String)) (disks : List Int) :
    Emits (fun e => e.isCall = true) (serverDeleteDisks cl ids disks) := by
  induction disks with
  | nil => exact Emits.pure _
  | cons x rest ih =>
    unfold serverDeleteDisks
    repeat' first
      | exact ih
      | exact serverDeleteDiskIDs_calls cl _ _
      | exact Emits.pure _
      | exact Emits.fail _
      | exact Emits.crash
      | exact Emits.getData
      | exact Emits.SetId _
      | exact Emits.Set _ _
      | exact Emits.SetOrReturn _ _
      | exact Emits.SetOrWrap _ _ _
      | exact Emits.modify _
      | exact Emits.call _ _ _ (fun _ => rfl)
      | exact Emits.callRaw _ _ (fun _ => rfl)
      | exact Emits.callE _ _ (fun _ => rfl)
      | apply Emits.bind
      | intro _

theorem serverDeleteFilters_calls (cl : ServerClient σ) (ids : List (Option String)) (nics : List ServerNIC) :
    Emits (fun e => e.isCall = true) (serverDeleteFilters cl ids nics) := by
  induction nics with
  | nil => exact Emits.pure _
  | cons x rest ih =>
    unfold serverDeleteFilters
    repeat' first
      | exact ih
      | exact serverDeleteFilterIDs_calls cl _ _
      | exact Emits.pure _
      | exact Emits.fail _
      | exact Emits.crash
      | exact Emits.getData
      | exact Emits.SetId _
      | exact Emits.Set _ _
      | exact Emits.SetOrReturn _ _
      | exact Emits.SetOrWrap _ _ _
      | exact Emits.modify _
      | exact Emits.call _ _ _ (fun _ => rfl)
      | exact Emits.callRaw _ _ (fun _ => rfl)
      | exact Emits.callE _ _ (fun _ => rfl)
      | apply Emits.bind
      | intro _

theorem serverPacketFilterLoop_calls (cl : ServerClient σ) (server : Server)
    (ids : List (Option String)) (i : Nat) :
    Emits (fun e => e.isCall = true) (serverPacketFilterLoop cl server ids i) := by
  induction ids generalizing i with
  | nil => exact Emits.pure _
  | cons x rest ih =>
    unfold serverPacketFilterLoop
    repeat' first
      | exact ih _
      | exact Emits.pure _
      | exact Emits.fail _
      | exact Emits.crash
      | exact Emits.getData
      | exact Emits.SetId _
      | exact Emits.Set _ _
      | exact Emits.SetOrReturn _ _
      | exact Emits.SetOrWrap _ _ _
      | exact Emits.modify _
      | exact Emits.call _ _ _ (fun _ => rfl)
      | exact Emits.callRaw _ _ (fun _ => rfl)
      | exact Emits.callE _ _ (fun _ => rfl)
      | apply Emits.bind
      | intro _
      | split

theorem resourceSakuraCloudServerConnectorUpdate_calls (cl : ServerClient σ) :
    Emits (fun e => e.isCall = true) (resourceSakuraCloudServerConnectorUpdate cl) := by
  unfold resourceSakuraCloudServerConnectorUpdate serverReconcilePacketFilters
  repeat' first
    | exact serverDisconnectDisks_calls cl _
    | exact serverConnectDisks_calls cl _ _
    | exact serverDisconnectFilters_calls cl _
    | exact serverPacketFilterLoop_calls cl _ _ _
    | exact serverDeleteDisks_calls cl _ _
    | exact serverDeleteFilters_calls cl _ _
    | exact resourceSakuraCloudServerConnectorRead_calls cl
    | exact Emits.pure _
    | exact Emits.fail _
    | exact Emits.crash
    | exact Emits.getData
    | exact Emits.SetId _
    | exact Emits.Set _ _
    | exact Emits.SetOrReturn _ _
    | exact Emits.SetOrWrap _ _ _
    | exact Emits.modify _
    | exact Emits.call _ _ _ (fun _ => rfl)
    | exact Emits.callRaw _ _ (fun _ => rfl)
    | exact Emits.callE _ _ (fun _ => rfl)
    | apply Emits.bind
    | intro _
    | split

theorem resourceSakuraCloudServerConnectorDelete_calls (cl : ServerClient σ) :
    Emits (fun e => e.isCall = true) (resourceSakuraCloudServerConnectorDelete cl) := by
  unfold resourceSakuraCloudServerConnectorDelete
  repeat' first
    | exact serverDisconnectDisks_calls cl _
    | exact serverConnectDisks_calls cl _ _
    | exact serverDisconnectFilters_calls cl _
    | exact serverPacketFilterLoop_calls cl _ _ _
    | exact serverDeleteDisks_calls cl _ _
    | exact serverDeleteFilters_calls cl _ _
    | exact resourceSakuraCloudServerConnectorRead_calls cl
    | exact Emits.pure _
    | exact Emits.fail _
    | exact Emits.crash
    | exact Emits.getData
    | exact Emits.SetId _
    | exact Emits.Set _ _
    | exact Emits.SetOrReturn _ _
    | exact Emits.SetOrWrap _ _ _
    | exact Emits.modify _
    | exact Emits.call _ _ _ (fun _ => rfl)
    | exact Emits.callRaw _ _ (fun _ => rfl)
    | exact Emits.callE _ _ (fun _ => rfl)
    | apply Emits.bind
    | intro _
    | split

theorem mgwDeleteSIMs_calls (cl : MGWClient σ) (mgw : MobileGateway) (sims : List SIMInfo) :
    Emits (fun e => e.isCall = true) (mgwDeleteSIMs cl mgw sims) := by
  induction sims with
  | nil => exact Emits.pure _
  | cons x rest ih =>
    unfold mgwDeleteSIMs
    repeat' first
      | exact ih
      | exact Emits.pure _
      | exact Emits.fail _
      | exact Emits.crash
      | exact Emits.getData
      | exact Emits.SetId _
      | exact Emits.Set _ _
      | exact Emits.SetOrReturn _ _
      | exact Emits.SetOrWrap _ _ _
      | exact Emits.modify _
      | exact Emits.call _ _ _ (fun _ => rfl)
      | exact Emits.callRaw _ _ (fun _ => rfl)
      | exact Emits.callE _ _ (fun _ => rfl)
      | apply Emits.bind
      | intro _
      | split

theorem mgwDeleteBody_calls (cl : MGWClient σ) (d : ResourceData) :
    Emits (fun e => e.isCall = true) (mgwDeleteBody cl d) := by
  unfold mgwDeleteBody
  repeat' first
    | exact mgwDeleteSIMs_calls cl _ _
    | exact Emits.pure _
    | exact Emits.fail _
    | exact Emits.crash
    | exact Emits.getData
    | exact Emits.SetId _
    | exact Emits.Set _ _
    | exact Emits.SetOrReturn _ _
    | exact Emits.SetOrWrap _ _ _
    | exact Emits.modify _
    | exact Emits.call _ _ _ (fun _ => rfl)
    | exact Emits.callRaw _ _ (fun _ => rfl)
    | exact Emits.callE _ _ (fun _ => rfl)
    | apply Emits.bind
    | intro _
    | split

theorem resourceSakuraCloudVPCRouterInterfaceRead_calls (cl : VPCRouterClient σ) :
    Emits (fun e => e.isCall = true) (resourceSakuraCloudVPCRouterInterfaceRead cl) := by
  unfold resourceSakuraCloudVPCRouterInterfaceRead vpcRouterInterfaceSetData
  repeat' first
    | exact Emits.pure _
    | exact Emits.fail _
    | exact Emits.crash
    | exact Emits.getData
    | exact Emits.SetId _
    | exact Emits.Set _ _
    | exact Emits.SetOrReturn _ _
    | exact Emits.SetOrWrap _ _ _
    | exact Emits.modify _
    | exact Emits.call _ _ _ (fun _ => rfl)
    | exact Emits.callRaw _ _ (fun _ => rfl)
    | exact Emits.callE _ _ (fun _ => rfl)
    | apply Emits.bind
    | intro _
    | split

theorem vpcRouterStopLoop_calls (cl : VPCRouterClient σ) (routerID : String) (n : Nat) :
    Emits (fun e => e.isCall = true) (vpcRouterStopLoop cl routerID n) := by
  induction n with
  | zero => exact Emits.pure _
  | succ n ih =>
    unfold vpcRouterStopLoop
    repeat' first
      | exact ih
      | exact Emits.pure _
      | exact Emits.fail _
      | exact Emits.crash
      | exact Emits.getData
      | exact Emits.SetId _
      | exact Emits.Set _ _
      | exact Emits.SetOrReturn _ _
      | exact Emits.SetOrWrap _ _ _
      | exact Emits.modify _
      | exact Emits.call _ _ _ (fun _ => rfl)
      | exact Emits.callRaw _ _ (fun _ => rfl)
      | exact Emits.callE _ _ (fun _ => rfl)
      | apply Emits.bind
      | intro _
      | split

end OnlyCalls

/-! ### Lock discipline of the locking handlers (C9) -/

section LockDiscipline

variable {σ : Type}

open Go

/-- A handler of the form `Lock(key); defer Unlock(key); body`. -/
theorem locked_handler_run {κ α : Type} (k : ResourceData → String)
    (body : ResourceData → Go κ σ α) (hb : ∀ d, Tidy (body d)) (w : σ) (d : ResourceData) :
    LockedRun (k d) (func (do
      let d ← getData
      Lock (k d)
      deferUnlock (k d)
      body d) (St.init w d)).2.trace := by
  refine ⟨func_balanced (Tidy.tidy_bind (Tidy.of_emits Emits.getData)
    (fun d => Tidy.lock_defer (k d) (hb d))) w d, Or.inr ?_⟩
  simpa [func, St.init] using func_lock_first_last (k d) (hb d) (St.init w d)

/-- A handler that looks up its client first and then has the form
`Lock(key); defer Unlock(key); body`. -/
theorem guarded_locked_handler_run {κ α : Type} (g : ResourceData → Option Err)
    (k : ResourceData → String) (body : ResourceData → Go κ σ α) (hb : ∀ d, Tidy (body d))
    (w : σ) (d : ResourceData) :
    LockedRun (k d) (func (do
      let d ← getData
      match g d with
      | some e => fail e
      | none => do
        Lock (k d)
        deferUnlock (k d)
        body d) (St.init w d)).2.trace := by
  refine ⟨func_balanced (Tidy.tidy_bind (Tidy.of_emits Emits.getData) (fun d => ?_)) w d, ?_⟩
  · split
    · exact Tidy.tidy_fail _
    · exact Tidy.lock_defer (k d) (hb d)
  · cases hg : g d with
    | some e => exact Or.inl (by simp [func, St.init, hg])
    | none =>
      refine Or.inr ?_
      simpa [func, St.init, hg] using func_lock_first_last (k d) (hb d) (St.init w d)

/-- The stop block of the VPCRouterInterface handlers takes the power lock and registers
its release. -/
theorem vpcRouterStop_tidy (cl : VPCRouterClient σ) (routerID : String)
    (vpcRouter : VPCRouter) : Tidy (vpcRouterStop cl routerID vpcRouter) := by
  unfold vpcRouterStop
  split
  · apply Tidy.lock_defer
    exact Tidy.tidy_bind (Tidy.of_emits (vpcRouterStopLoop_calls cl routerID 10))
      (fun _ => Tidy.tidy_pure _)
  · exact Tidy.tidy_pure _

theorem vpcRouterInterfaceCreateBody_tidy (cl : VPCRouterClient σ) (d : ResourceData) :
    Tidy (vpcRouterInterfaceCreateBody cl d) := by
  unfold vpcRouterInterfaceCreateBody vpcRouterRestart
  repeat' first
    | exact Tidy.of_emits (Emits.pure _)
    | exact Tidy.of_emits (Emits.fail _)
    | exact Tidy.of_emits (Emits.SetId _)
    | exact Tidy.of_emits (Emits.call _ _ _ (fun _ => rfl))
    | exact Tidy.of_emits (Emits.callRaw _ _ (fun _ => rfl))
    | exact Tidy.of_emits (resourceSakuraCloudVPCRouterInterfaceRead_calls cl)
    | exact vpcRouterStop_tidy cl _ _
    | apply Tidy.tidy_bind
    | intro _
    | dsimp only
    | split

theorem vpcRouterInterfaceDeleteBody_tidy (cl : VPCRouterClient σ) (d : ResourceData) :
    Tidy (vpcRouterInterfaceDeleteBody cl d) := by
  unfold vpcRouterInterfaceDeleteBody vpcRouterRestart
  repeat' first
    | exact Tidy.of_emits (Emits.pure _)
    | exact Tidy.of_emits (Emits.fail _)
    | exact Tidy.of_emits (Emits.SetId _)
    | exact Tidy.of_emits (Emits.call _ _ _ (fun _ => rfl))
    | exact Tidy.of_emits (Emits.callRaw _ _ (fun _ => rfl))
    | exact Tidy.of_emits (resourceSakuraCloudVPCRouterInterfaceRead_calls cl)
    | exact vpcRouterStop_tidy cl _ _
    | apply Tidy.tidy_bind
    | intro _
    | dsimp only
    | split

/-- C9: in every run of the locking handlers (Update and Delete of DNS, MobileGateway and
ProxyLB, Create and Delete of PacketFilterRules and VPCRouterInterface), success, error or
panic, every `Lock` is matched by exactly one later `Unlock` of the same key; unless the
handler returned before locking, the trace starts with the `Lock` of the key computed from
the resource data at entry and ends with the `Unlock` of that same key, whatever the handler
did to the resource ID in between. -/
theorem locking_handlers_lock_discipline (dns : DNSClient σ) (mgw : MGWClient σ)
    (lb : ProxyLBClient σ) (pf : PacketFilterClient σ) (vpc : VPCRouterClient σ) (w : σ)
    (d : ResourceData) :
    LockedRun d.id (resourceSakuraCloudDNSUpdate dns (St.init w d)).2.trace ∧
    LockedRun d.id (resourceSakuraCloudDNSDelete dns (St.init w d)).2.trace ∧
    LockedRun d.id (resourceSakuraCloudMobileGatewayUpdate mgw (St.init w d)).2.trace ∧
    LockedRun d.id (resourceSakuraCloudMobileGatewayDelete mgw (St.init w d)).2.trace ∧
    LockedRun d.id (resourceSakuraCloudProxyLBUpdate lb (St.init w d)).2.trace ∧
    LockedRun d.id (resourceSakuraCloudProxyLBDelete lb (St.init w d)).2.trace ∧
    LockedRun (d.Get "packet_filter_id").asString
      (resourceSakuraCloudPacketFilterRulesUpdate pf (St.init w d)).2.trace ∧
    LockedRun (d.Get "packet_filter_id").asString
      (resourceSakuraCloudPacketFilterRulesDelete pf (St.init w d)).2.trace ∧
    LockedRun (d.Get "vpc_router_id").asString
      (resourceSakuraCloudVPCRouterInterfaceCreate vpc (St.init w d)).2.trace ∧
    LockedRun (d.Get "vpc_router_id").asString
      (resourceSakuraCloudVPCRouterInterfaceDelete vpc (St.init w d)).2.trace :=
  ⟨locked_handler_run (fun d => d.id) (dnsUpdateBody dns)
      (fun d => Tidy.of_emits (dnsUpdateBody_calls dns d)) w d,
   locked_handler_run (fun d => d.id) (dnsDeleteBody dns)
      (fun d => Tidy.of_emits (dnsDeleteBody_calls dns d)) w d,
   locked_handler_run (fun d => d.id) (mgwUpdateBody mgw)
      (fun d => Tidy.of_emits (mgwUpdateBody_emits_calls mgw d)) w d,
   locked_handler_run (fun d => d.id) (mgwDeleteBody mgw)
      (fun d => Tidy.of_emits (mgwDeleteBody_calls mgw d)) w d,
   guarded_locked_handler_run lb.sakuraCloudClient (fun d => d.id) (proxyLBUpdateBody lb)
      (fun d => Tidy.of_emits (proxyLBUpdateBody_calls lb d)) w d,
   guarded_locked_handler_run lb.sakuraCloudClient (fun d => d.id) (proxyLBDeleteBody lb)
      (fun d => Tidy.of_emits (proxyLBDeleteBody_calls lb d)) w d,
   guarded_locked_handler_run pf.sakuraCloudClient
      (fun d => (d.Get "packet_filter_id").asString) (packetFilterRulesUpdateBody pf)
      (fun d => Tidy.of_emits (packetFilterRulesUpdateBody_calls pf d)) w d,
   guarded_locked_handler_run pf.sakuraCloudClient
      (fun d => (d.Get "packet_filter_id").asString) (packetFilterRulesDeleteBody pf)
      (fun d => Tidy.of_emits (packetFilterRulesDeleteBody_calls pf d)) w d,
   locked_handler_run (fun d => (d.Get "vpc_router_id").asString)
      (vpcRouterInterfaceCreateBody vpc) (vpcRouterInterfaceCreateBody_tidy vpc) w d,
   locked_handler_run (fun d => (d.Get "vpc_router_id").asString)
      (vpcRouterInterfaceDeleteBody vpc) (vpcRouterInterfaceDeleteBody_tidy vpc) w d⟩

end LockDiscipline

/-! ### Handlers that take no lock (C10) -/

section NoLock

variable {σ : Type}

open Go

/-- All events of a run of code that emits `P`-events only satisfy `P`. -/
theorem Go.Emits.all_events {κ α : Type} {P : Event κ → Prop} {m : Go κ σ α}
    (h : Emits P m) (w : σ) (d : ResourceData) :
    ∀ e ∈ (m (St.init w d)).2.trace, P e := by
  obtain ⟨-, evs, h1, h2⟩ := h.run (St.init w d)
  intro e he
  rw [h1] at he
  simpa [St.init] using h2 e (by simpa [St.init] using he)

/-- C10 (as stated) fails: a run of `resourceSakuraCloudNoteUpdate` consists of the remote
calls Read, Update, Read; no `Lock` precedes the first remote call. -/
theorem noteUpdate_takes_no_lock :
    (resourceSakuraCloudNoteUpdate (scriptedNote []) (St.init 0 bareData)).2.trace =
      [Event.call (NoteCall.Read 100) none,
       Event.call (NoteCall.Update 100 Value.null) none,
       Event.call (NoteCall.Read 100) none] := by
  rfl

/-- C10 (amended): the Update and Delete handlers of NFS, Note, SimpleMonitor, SSHKey and
ServerConnector take no lock: every event of every run is a remote call, so neither `Lock`
nor `Unlock` is ever called. -/
theorem unlocked_handlers_only_call (nfs : NFSClient σ) (note : NoteClient σ)
    (monitor : SimpleMonitorClient σ) (key : SSHKeyClient σ) (server : ServerClient σ)
    (w : σ) (d : ResourceData) :
    (∀ e ∈ (resourceSakuraCloudNFSUpdate nfs (St.init w d)).2.trace, e.isCall = true) ∧
    (∀ e ∈ (resourceSakuraCloudNFSDelete nfs (St.init w d)).2.trace, e.isCall = true) ∧
    (∀ e ∈ (resourceSakuraCloudNoteUpdate note (St.init w d)).2.trace, e.isCall = true) ∧
    (∀ e ∈ (resourceSakuraCloudNoteDelete note (St.init w d)).2.trace, e.isCall = true) ∧
    (∀ e ∈ (resourceSakuraCloudSimpleMonitorUpdate monitor (St.init w d)).2.trace,
      e.isCall = true) ∧
    (∀ e ∈ (resourceSakuraCloudSimpleMonitorDelete monitor (St.init w d)).2.trace,
      e.isCall = true) ∧
    (∀ e ∈ (resourceSakuraCloudSSHKeyUpdate key (St.init w d)).2.trace, e.isCall = true) ∧
    (∀ e ∈ (resourceSakuraCloudSSHKeyDelete key (St.init w d)).2.trace, e.isCall = true) ∧
    (∀ e ∈ (resourceSakuraCloudServerConnectorUpdate server (St.init w d)).2.trace,
      e.isCall = true) ∧
    (∀ e ∈ (resourceSakuraCloudServerConnectorDelete server (St.init w d)).2.trace,
      e.isCall = true) :=
  ⟨(resourceSakuraCloudNFSUpdate_calls nfs).all_events w d,
   (resourceSakuraCloudNFSDelete_calls nfs).all_events w d,
   (resourceSakuraCloudNoteUpdate_calls note).all_events w d,
   (resourceSakuraCloudNoteDelete_calls note).all_events w d,
   (resourceSakuraCloudSimpleMonitorUpdate_calls monitor).all_events w d,
   (resourceSakuraCloudSimpleMonitorDelete_calls monitor).all_events w d,
   (resourceSakuraCloudSSHKeyUpdate_calls key).all_events w d,
   (resourceSakuraCloudSSHKeyDelete_calls key).all_events w d,
   (resourceSakuraCloudServerConnectorUpdate_calls server).all_events w d,
   (resourceSakuraCloudServerConnectorDelete_calls server).all_events w d⟩

end NoLock

/-! ### Failed shutdown in the VPCRouterInterface handlers (C6) and Delete of an absent
resource (C8) -/

section Defects

open Go

/-- A Read of router 100 through the refusing client answers `sampleRouter`. -/
theorem scriptedRouter_read (s : St VPCRouterCall Nat) (pfx : String) :
    call pfx (VPCRouterCall.Read 100) (scriptedRouter true []).router s =
      (Res.ok sampleRouter, { s with
        world := s.world + 1
        trace := s.trace ++ [Event.call (VPCRouterCall.Read 100) none] }) := rfl

/-- A shutdown request through the refusing client is rejected. -/
theorem scriptedRouter_shutdown (s : St VPCRouterCall Nat) :
    callE (VPCRouterCall.handleShutdown 100) (scriptedRouter true []).unit s =
      (Res.ok (Except.error shutdownRefused), { s with
        world := s.world + 1
        trace := s.trace ++
          [Event.call (VPCRouterCall.handleShutdown 100) (some shutdownRefused)] }) := rfl

/-- The stop loop against a router that never reports down and rejects every shutdown
request: all `n` iterations run, and the loop ends normally. -/
theorem vpcRouterStopLoop_refused (n : Nat) (s : St VPCRouterCall Nat) :
    vpcRouterStopLoop (scriptedRouter true []) "100" n s =
      (Res.ok (), { s with
        world := s.world + 2 * n
        trace := s.trace ++ (List.replicate n
          [Event.call (VPCRouterCall.Read 100) none,
           Event.call (VPCRouterCall.handleShutdown 100) (some shutdownRefused)]).flatten }) := by
  induction n generalizing s with
  | zero => simp [vpcRouterStopLoop]
  | succ n ih =>
    have hid : (scriptedRouter true []).toSakuraCloudID "100" = 100 := by decide
    have hdown : (scriptedRouter true []).IsDown sampleRouter = false := by decide
    have hID : sampleRouter.ID = 100 := rfl
    simp only [vpcRouterStopLoop, Go.bind_run, hid, scriptedRouter_read, hdown, hID,
      scriptedRouter_shutdown, ih, Bool.false_eq_true, if_false]
    simp [List.replicate_succ]
    omega

/-- The stop block against the refusing router: the power lock is taken, the ten iterations
run, and the block ends normally. -/
theorem vpcRouterStop_refused (s : St VPCRouterCall Nat) :
    vpcRouterStop (scriptedRouter true []) "100" sampleRouter s =
      (Res.ok (), { s with
        world := s.world + 20
        trace := s.trace ++ Event.lock "power:100" :: (List.replicate 10
          [Event.call (VPCRouterCall.Read 100) none,
           Event.call (VPCRouterCall.handleShutdown 100) (some shutdownRefused)]).flatten
        defers := "power:100" :: s.defers }) := by
  have hup : (scriptedRouter true []).IsUp sampleRouter = true := by decide
  have hkey : (scriptedRouter true []).getVPCRouterPowerAPILockKey sampleRouter.ID
      = "power:100" := by decide
  simp only [vpcRouterStop, hup, if_true, Go.bind_run, Go.Lock_run, Go.deferUnlock_run, hkey,
    vpcRouterStopLoop_refused, Go.pure_run]
  simp

/-- C6 at the failing input: router 100 is up, never reports down and rejects every shutdown
request.  Create and Delete both return nil: after ten rejected shutdown requests Create
goes on to add the interface, apply the configuration and boot, and Delete goes on to
delete the interface and boot. -/
theorem vpcRouterInterface_failed_shutdown_is_swallowed :
    resourceSakuraCloudVPCRouterInterfaceCreate (scriptedRouter true [])
        (St.init 0 routerInterfaceData) =
      (Res.ok (),
       { world := 26
         d := { routerInterfaceData with
           sets := [("vpc_router_id", .str "100"), ("index", .int 1),
             ("switch_id", .str "101"), ("vip", .str ""),
             ("ipaddress", .strs ["192.168.1.1"]), ("nw_mask_len", .int 24),
             ("zone", .str "is1a")] }
         trace := [Event.lock "100", Event.call (VPCRouterCall.Read 100) none,
             Event.lock "power:100"] ++
           (List.replicate 10
             [Event.call (VPCRouterCall.Read 100) none,
              Event.call (VPCRouterCall.handleShutdown 100) (some shutdownRefused)]).flatten ++
           [Event.call (VPCRouterCall.AddStandardInterfaceAt 100 101 "192.168.1.1" 24 1) none,
            Event.call (VPCRouterCall.Config 100) none,
            Event.call (VPCRouterCall.Boot 100) none,
            Event.call (VPCRouterCall.SleepUntilUp 100) none,
            Event.call (VPCRouterCall.Read 100) none,
            Event.unlock "power:100", Event.unlock "100"]
         defers := [] }) ∧
    resourceSakuraCloudVPCRouterInterfaceDelete (scriptedRouter true [])
        (St.init 0 routerInterfaceData) =
      (Res.ok (),
       { world := 24
         d := routerInterfaceData
         trace := [Event.lock "100", Event.call (VPCRouterCall.Read 100) none,
             Event.lock "power:100"] ++
           (List.replicate 10
             [Event.call (VPCRouterCall.Read 100) none,
              Event.call (VPCRouterCall.handleShutdown 100) (some shutdownRefused)]).flatten ++
           [Event.call (VPCRouterCall.DeleteInterfaceAt 100 1) none,
            Event.call (VPCRouterCall.Boot 100) none,
            Event.call (VPCRouterCall.SleepUntilUp 100) none,
            Event.unlock "power:100", Event.unlock "100"]
         defers := [] }) := by
  have hkey : (routerInterfaceData.Get "vpc_router_id").asString = "100" := by decide
  have hid : (scriptedRouter true []).toSakuraCloudID "100" = 100 := by decide
  have hcreate : (do
        let d ← getData
        Lock (d.Get "vpc_router_id").asString
        deferUnlock (d.Get "vpc_router_id").asString
        vpcRouterInterfaceCreateBody (scriptedRouter true []) d :
          Go VPCRouterCall Nat Unit)
        { (St.init 0 routerInterfaceData : St VPCRouterCall Nat) with defers := [] } =
      (Res.ok (),
       { world := 26
         d := { routerInterfaceData with
           sets := [("vpc_router_id", .str "100"), ("index", .int 1),
             ("switch_id", .str "101"), ("vip", .str ""),
             ("ipaddress", .strs ["192.168.1.1"]), ("nw_mask_len", .int 24),
             ("zone", .str "is1a")] }
         trace := [Event.lock "100", Event.call (VPCRouterCall.Read 100) none,
             Event.lock "power:100"] ++
           (List.replicate 10
             [Event.call (VPCRouterCall.Read 100) none,
              Event.call (VPCRouterCall.handleShutdown 100) (some shutdownRefused)]).flatten ++
           [Event.call (VPCRouterCall.AddStandardInterfaceAt 100 101 "192.168.1.1" 24 1) none,
            Event.call (VPCRouterCall.Config 100) none,
            Event.call (VPCRouterCall.Boot 100) none,
            Event.call (VPCRouterCall.SleepUntilUp 100) none,
            Event.call (VPCRouterCall.Read 100) none]
         defers := ["power:100", "100"] }) := by
    simp only [St.init, Go.bind_run, Go.getData_run, Go.Lock_run, Go.deferUnlock_run,
      vpcRouterInterfaceCreateBody, hkey, hid, scriptedRouter_read, vpcRouterStop_refused]
    rfl
  have hdelete : (do
        let d ← getData
        Lock (d.Get "vpc_router_id").asString
        deferUnlock (d.Get "vpc_router_id").asString
        vpcRouterInterfaceDeleteBody (scriptedRouter true []) d :
          Go VPCRouterCall Nat Unit)
        { (St.init 0 routerInterfaceData : St VPCRouterCall Nat) with defers := [] } =
      (Res.ok (),
       { world := 24
         d := routerInterfaceData
         trace := [Event.lock "100", Event.call (VPCRouterCall.Read 100) none,
             Event.lock "power:100"] ++
           (List.replicate 10
             [Event.call (VPCRouterCall.Read 100) none,
              Event.call (VPCRouterCall.handleShutdown 100) (some shutdownRefused)]).flatten ++
           [Event.call (VPCRouterCall.DeleteInterfaceAt 100 1) none,
            Event.call (VPCRouterCall.Boot 100) none,
            Event.call (VPCRouterCall.SleepUntilUp 100) none]
         defers := ["power:100", "100"] }) := by
    simp only [St.init, Go.bind_run, Go.getData_run, Go.Lock_run, Go.deferUnlock_run,
      vpcRouterInterfaceDeleteBody, hkey, hid, scriptedRouter_read, vpcRouterStop_refused]
    rfl
  refine ⟨?_, ?_⟩
  · rw [resourceSakuraCloudVPCRouterInterfaceCreate, func_run hcreate]
    rfl
  · rw [resourceSakuraCloudVPCRouterInterfaceDelete, func_run hdelete]
    rfl

/-- C8 at the failing inputs: the remote API answers not-found (404) for the resource to
delete, and each of the three Delete handlers returns an error instead of nil. -/
theorem delete_of_absent_resource_returns_error :
    (resourceSakuraCloudServerConnectorDelete (scriptedServer [(0, notFound)])
        (St.init 0 bareData)).1
      = Res.err (wrapErr "Couldn't find SakuraCloud ServerConnector resource: " notFound) ∧
    (resourceSakuraCloudSSHKeyDelete (scriptedSSHKey [(0, notFound)])
        (St.init 0 bareData)).1
      = Res.err (wrapErr "Error deleting SakuraCloud SSHKey resource: " notFound) ∧
    (resourceSakuraCloudVPCRouterInterfaceDelete (scriptedRouter false [(0, notFound)])
        (St.init 0 routerInterfaceData)).1
      = Res.err (wrapErr "Couldn't find SakuraCloud VPCRouter resource: " notFound) := by
  refine ⟨rfl, rfl, rfl⟩

end Defects

/-! ### Delete after a failed initial Read (C7) -/

section DeleteFailedRead

variable {σ : Type}

open Go

/-- The Delete handler of DNS after a failed initial Read. -/
theorem resourceSakuraCloudDNSDelete_failed_read (cl : DNSClient σ) (w w' : σ)
    (d : ResourceData) (e : Err)
    (h : cl.dns (DNSCall.Read (cl.sakuraCloudID d.id)) w = (Except.error e, w')) :
    AbsentOrFailed d (DNSCall.Read (cl.sakuraCloudID d.id)) e
      (resourceSakuraCloudDNSDelete cl (St.init w d)) := by
  cases hc : e.isNotFound <;>
    simp [resourceSakuraCloudDNSDelete, dnsDeleteBody, func, St.init, callE, h, hc]
  · exact ⟨by simp [Event.isCall], by simp [hc], fun _ => ⟨_, rfl, wrapErr_mentions _ _⟩⟩
  · exact ⟨by simp [Event.isCall], fun _ => ⟨rfl, rfl⟩, by simp [hc]⟩

/-- The Delete handler of NFS after a failed initial Read. -/
theorem resourceSakuraCloudNFSDelete_failed_read (cl : NFSClient σ) (w w' : σ)
    (d : ResourceData) (e : Err)
    (hclient : cl.sakuraCloudClient d = none)
    (h : cl.nfs (NFSCall.Read (cl.sakuraCloudID d.id)) w = (Except.error e, w')) :
    AbsentOrFailed d (NFSCall.Read (cl.sakuraCloudID d.id)) e
      (resourceSakuraCloudNFSDelete cl (St.init w d)) := by
  cases hc : e.isNotFound <;>
    simp [resourceSakuraCloudNFSDelete, clientOrReturn, St.init, callE, h, hc, hclient]
  · exact ⟨by simp [Event.isCall], by simp [hc], fun _ => ⟨_, rfl, wrapErr_mentions _ _⟩⟩
  · exact ⟨by simp [Event.isCall], fun _ => ⟨rfl, rfl⟩, by simp [hc]⟩

/-- The Delete handler of Note after a failed initial Read. -/
theorem resourceSakuraCloudNoteDelete_failed_read (cl : NoteClient σ) (w w' : σ)
    (d : ResourceData) (e : Err)
    (h : cl.note (NoteCall.Read (cl.sakuraCloudID d.id)) w = (Except.error e, w')) :
    AbsentOrFailed d (NoteCall.Read (cl.sakuraCloudID d.id)) e
      (resourceSakuraCloudNoteDelete cl (St.init w d)) := by
  cases hc : e.isNotFound <;>
    simp [resourceSakuraCloudNoteDelete, St.init, callE, h, hc]
  · exact ⟨by simp [Event.isCall], by simp [hc], fun _ => ⟨_, rfl, wrapErr_mentions _ _⟩⟩
  · exact ⟨by simp [Event.isCall], fun _ => ⟨rfl, rfl⟩, by simp [hc]⟩

/-- The Delete handler of ProxyLB after a failed initial Read. -/
theorem resourceSakuraCloudProxyLBDelete_failed_read (cl : ProxyLBClient σ) (w w' : σ)
    (d : ResourceData) (e : Err)
    (hclient : cl.sakuraCloudClient d = none)
    (h : cl.lb (ProxyLBCall.Read (cl.sakuraCloudID d.id)) w = (Except.error e, w')) :
    AbsentOrFailed d (ProxyLBCall.Read (cl.sakuraCloudID d.id)) e
      (resourceSakuraCloudProxyLBDelete cl (St.init w d)) := by
  cases hc : e.isNotFound <;>
    simp [resourceSakuraCloudProxyLBDelete, proxyLBDeleteBody, func, St.init, callE, h, hc, hclient]
  · exact ⟨by simp [Event.isCall], by simp [hc], fun _ => ⟨_, rfl, wrapErr_mentions _ _⟩⟩
  · exact ⟨by simp [Event.isCall], fun _ => ⟨rfl, rfl⟩, by simp [hc]⟩

/-- The Delete handler of SimpleMonitor after a failed initial Read. -/
theorem resourceSakuraCloudSimpleMonitorDelete_failed_read (cl : SimpleMonitorClient σ) (w w' : σ)
    (d : ResourceData) (e : Err)
    (hclient : cl.sakuraCloudClient d = none)
    (h : cl.monitor (SimpleMonitorCall.Read (cl.sakuraCloudID d.id)) w = (Except.error e, w')) :
    AbsentOrFailed d (SimpleMonitorCall.Read (cl.sakuraCloudID d.id)) e
      (resourceSakuraCloudSimpleMonitorDelete cl (St.init w d)) := by
  cases hc : e.isNotFound <;>
    simp [resourceSakuraCloudSimpleMonitorDelete, clientOrReturn, St.init, callE, h, hc, hclient]
  · exact ⟨by simp [Event.isCall], by simp [hc], fun _ => ⟨_, rfl, wrapErr_mentions _ _⟩⟩
  · exact ⟨by simp [Event.isCall], fun _ => ⟨rfl, rfl⟩, by simp [hc]⟩

/-- The Delete handler of MobileGateway after a failed initial Read. -/
theorem resourceSakuraCloudMobileGatewayDelete_failed_read (cl : MGWClient σ) (w w' : σ)
    (d : ResourceData) (e : Err)
    (h : cl.mgw (MGWCall.Read (cl.toSakuraCloudID d.id)) w = (Except.error e, w')) :
    AbsentOrFailed d (MGWCall.Read (cl.toSakuraCloudID d.id)) e
      (resourceSakuraCloudMobileGatewayDelete cl (St.init w d)) := by
  cases hc : e.isNotFound <;>
    simp [resourceSakuraCloudMobileGatewayDelete, mgwDeleteBody, func, St.init, callE, h, hc]
  · exact ⟨by simp [Event.isCall], by simp [hc], fun _ => ⟨_, rfl, wrapErr_mentions _ _⟩⟩
  · exact ⟨by simp [Event.isCall], fun _ => ⟨rfl, rfl⟩, by simp [hc]⟩

/-- The Delete handler of PacketFilterRules after a failed initial Read. -/
theorem resourceSakuraCloudPacketFilterRulesDelete_failed_read (cl : PacketFilterClient σ) (w w' : σ)
    (d : ResourceData) (e : Err)
    (hclient : cl.sakuraCloudClient d = none)
    (h : cl.pf (PacketFilterCall.Read (cl.sakuraCloudID (d.Get "packet_filter_id").asString)) w = (Except.error e, w')) :
    AbsentOrFailed d (PacketFilterCall.Read (cl.sakuraCloudID (d.Get "packet_filter_id").asString)) e
      (resourceSakuraCloudPacketFilterRulesDelete cl (St.init w d)) := by
  cases hc : e.isNotFound <;>
    simp [resourceSakuraCloudPacketFilterRulesDelete, packetFilterRulesDeleteBody, func, St.init, callE, h, hc, hclient]
  · exact ⟨by simp [Event.isCall], by simp [hc], fun _ => ⟨_, rfl, wrapErr_mentions _ _⟩⟩
  · exact ⟨by simp [Event.isCall], fun _ => ⟨rfl, rfl⟩, by simp [hc]⟩

/-- C7: in each of the Delete handlers of DNS, NFS, Note, ProxyLB, SimpleMonitor,
MobileGateway and PacketFilterRules, when the initial remote Read fails with `e`, that Read
is the only remote call of the run; if `e` is not-found the handler returns nil and the
resource ID is the empty string, and otherwise the handler returns an error (carrying the
text of `e`).  For the four handlers that look up their client first, the lookup is assumed
to succeed. -/
theorem delete_handlers_after_failed_read (dns : DNSClient σ) (nfs : NFSClient σ)
    (note : NoteClient σ) (lb : ProxyLBClient σ) (monitor : SimpleMonitorClient σ)
    (mgw : MGWClient σ) (pf : PacketFilterClient σ) (w w' : σ) (d : ResourceData) (e : Err) :
    (dns.dns (DNSCall.Read (dns.sakuraCloudID d.id)) w = (Except.error e, w') →
      AbsentOrFailed d (DNSCall.Read (dns.sakuraCloudID d.id)) e
        (resourceSakuraCloudDNSDelete dns (St.init w d))) ∧
    (nfs.sakuraCloudClient d = none →
      nfs.nfs (NFSCall.Read (nfs.sakuraCloudID d.id)) w = (Except.error e, w') →
      AbsentOrFailed d (NFSCall.Read (nfs.sakuraCloudID d.id)) e
        (resourceSakuraCloudNFSDelete nfs (St.init w d))) ∧
    (note.note (NoteCall.Read (note.sakuraCloudID d.id)) w = (Except.error e, w') →
      AbsentOrFailed d (NoteCall.Read (note.sakuraCloudID d.id)) e
        (resourceSakuraCloudNoteDelete note (St.init w d))) ∧
    (lb.sakuraCloudClient d = none →
      lb.lb (ProxyLBCall.Read (lb.sakuraCloudID d.id)) w = (Except.error e, w') →
      AbsentOrFailed d (ProxyLBCall.Read (lb.sakuraCloudID d.id)) e
        (resourceSakuraCloudProxyLBDelete lb (St.init w d))) ∧
    (monitor.sakuraCloudClient d = none →
      monitor.monitor (SimpleMonitorCall.Read (monitor.sakuraCloudID d.id)) w
        = (Except.error e, w') →
      AbsentOrFailed d (SimpleMonitorCall.Read (monitor.sakuraCloudID d.id)) e
        (resourceSakuraCloudSimpleMonitorDelete monitor (St.init w d))) ∧
    (mgw.mgw (MGWCall.Read (mgw.toSakuraCloudID d.id)) w = (Except.error e, w') →
      AbsentOrFailed d (MGWCall.Read (mgw.toSakuraCloudID d.id)) e
        (resourceSakuraCloudMobileGatewayDelete mgw (St.init w d))) ∧
    (pf.sakuraCloudClient d = none →
      pf.pf (PacketFilterCall.Read (pf.sakuraCloudID (d.Get "packet_filter_id").asString)) w
        = (Except.error e, w') →
      AbsentOrFailed d
        (PacketFilterCall.Read (pf.sakuraCloudID (d.Get "packet_filter_id").asString)) e
        (resourceSakuraCloudPacketFilterRulesDelete pf (St.init w d))) :=
  ⟨resourceSakuraCloudDNSDelete_failed_read dns w w' d e,
   resourceSakuraCloudNFSDelete_failed_read nfs w w' d e,
   resourceSakuraCloudNoteDelete_failed_read note w w' d e,
   resourceSakuraCloudProxyLBDelete_failed_read lb w w' d e,
   resourceSakuraCloudSimpleMonitorDelete_failed_read monitor w w' d e,
   resourceSakuraCloudMobileGatewayDelete_failed_read mgw w w' d e,
   resourceSakuraCloudPacketFilterRulesDelete_failed_read pf w w' d e⟩

/-- C7 on the sample resources: the first remote call, the Read of resource 100, answers
404 Not Found. -/
theorem delete_handlers_after_failed_read_witness :
    AbsentOrFailed packetFilterData (DNSCall.Read 100) notFound
      (resourceSakuraCloudDNSDelete (scriptedDNS [(0, notFound)])
        (St.init 0 packetFilterData)) ∧
    AbsentOrFailed packetFilterData (NFSCall.Read 100) notFound
      (resourceSakuraCloudNFSDelete (scriptedNFS [(0, notFound)])
        (St.init 0 packetFilterData)) ∧
    AbsentOrFailed packetFilterData (NoteCall.Read 100) notFound
      (resourceSakuraCloudNoteDelete (scriptedNote [(0, notFound)])
        (St.init 0 packetFilterData)) ∧
    AbsentOrFailed packetFilterData (ProxyLBCall.Read 100) notFound
      (resourceSakuraCloudProxyLBDelete (scriptedProxyLB [(0, notFound)])
        (St.init 0 packetFilterData)) ∧
    AbsentOrFailed packetFilterData (SimpleMonitorCall.Read 100) notFound
      (resourceSakuraCloudSimpleMonitorDelete (scriptedMonitor [(0, notFound)])
        (St.init 0 packetFilterData)) ∧
    AbsentOrFailed packetFilterData (MGWCall.Read 100) notFound
      (resourceSakuraCloudMobileGatewayDelete (scriptedMGW sampleGateway [(0, notFound)])
        (St.init 0 packetFilterData)) ∧
    AbsentOrFailed packetFilterData (PacketFilterCall.Read 100) notFound
      (resourceSakuraCloudPacketFilterRulesDelete (scriptedPacketFilter [(0, notFound)])
        (St.init 0 packetFilterData)) :=
  have h := delete_handlers_after_failed_read (scriptedDNS [(0, notFound)])
    (scriptedNFS [(0, notFound)]) (scriptedNote [(0, notFound)])
    (scriptedProxyLB [(0, notFound)]) (scriptedMonitor [(0, notFound)])
    (scriptedMGW sampleGateway [(0, notFound)]) (scriptedPacketFilter [(0, notFound)])
    0 1 packetFilterData notFound
  ⟨h.1 rfl, h.2.1 rfl rfl, h.2.2.1 rfl, h.2.2.2.1 rfl rfl, h.2.2.2.2.1 rfl rfl,
   h.2.2.2.2.2.1 rfl, h.2.2.2.2.2.2 rfl rfl⟩

end DeleteFailedRead

/-! ### Validation of the switch parameters (C12) -/

section SwitchValidation
variable {σ : Type}

open Go

/-- A desired state with a switch ID but without a private address or without a mask length
fails the validation. -/
theorem mgwSwitchParams_invalid (cl : MGWClient σ) (d : ResourceData)
    (hsw : (d.Get "switch_id").asString ≠ "")
    (h : (d.Get "private_ipaddress").asString = "" ∨ (d.Get "private_nw_mask_len").asInt = 0) :
    mgwSwitchParams cl d = Except.error (newErr
      "MobileGateway needs private_ipaddress and private_nw_mask_len when switch_id is specified") := by
  have hz := Value.isZero_of_asString_ne _ hsw
  rcases h with h | h
  · simp [mgwSwitchParams, ResourceData.GetOk, hz, hsw, h]
  · simp [mgwSwitchParams, ResourceData.GetOk, hz, hsw, h]

/-- C12 (as stated) fails for Update: with switch 101 and no private address the update
handler returns the validation error after it has read the gateway. -/
theorem mgwUpdate_validates_after_read :
    resourceSakuraCloudMobileGatewayUpdate (scriptedMGW sampleGateway [])
        (St.init 0 switchWithoutAddress) =
      (Res.err (newErr
        "MobileGateway needs private_ipaddress and private_nw_mask_len when switch_id is specified"),
       { world := 1
         d := switchWithoutAddress
         trace := [Event.lock "100", Event.call (MGWCall.Read 100) none, Event.unlock "100"]
         defers := [] }) := by
  rfl

/-- C12 (amended): when `switch_id` is a non-empty ID and `private_ipaddress` is empty or
`private_nw_mask_len` is 0, Create returns the validation error without any event, and
Update returns it right after its initial Read of the gateway: the Read is the only remote
call of the run (and when that Read fails, its error is returned instead). -/
theorem mgw_switch_validation_error (cl : MGWClient σ)
    (CreateNewMobileGateway : CreateMobileGatewayValue → String → Except Err MobileGateway)
    (w : σ) (d : ResourceData)
    (hsw : (d.Get "switch_id").asString ≠ "")
    (h : (d.Get "private_ipaddress").asString = "" ∨ (d.Get "private_nw_mask_len").asInt = 0) :
    resourceSakuraCloudMobileGatewayCreate cl CreateNewMobileGateway (St.init w d) =
      (Res.err (newErr
        "MobileGateway needs private_ipaddress and private_nw_mask_len when switch_id is specified"),
       St.init w d) ∧
    (∀ mgw w', cl.mgw (MGWCall.Read (cl.toSakuraCloudID d.id)) w = (Except.ok mgw, w') →
      resourceSakuraCloudMobileGatewayUpdate cl (St.init w d) =
        (Res.err (newErr
          "MobileGateway needs private_ipaddress and private_nw_mask_len when switch_id is specified"),
         { world := w'
           d := d
           trace := [Event.lock d.id,
             Event.call (MGWCall.Read (cl.toSakuraCloudID d.id)) none, Event.unlock d.id]
           defers := [] })) ∧
    (∀ e w', cl.mgw (MGWCall.Read (cl.toSakuraCloudID d.id)) w = (Except.error e, w') →
      resourceSakuraCloudMobileGatewayUpdate cl (St.init w d) =
        (Res.err (wrapErr "Couldn't find SakuraCloud MobileGateway resource: " e),
         { world := w'
           d := d
           trace := [Event.lock d.id,
             Event.call (MGWCall.Read (cl.toSakuraCloudID d.id)) (some e), Event.unlock d.id]
           defers := [] })) := by
  have hv := mgwSwitchParams_invalid cl d hsw h
  refine ⟨?_, ?_, ?_⟩
  · simp [resourceSakuraCloudMobileGatewayCreate, hv, St.init]
  · intro mgw w' hr
    simp [resourceSakuraCloudMobileGatewayUpdate, func, mgwUpdateBody, mgwUpdateAfterRead, hv,
      St.init, call, hr]
  · intro e w' hr
    simp [resourceSakuraCloudMobileGatewayUpdate, func, mgwUpdateBody, St.init, call, hr]

/-- C12 on gateway 100 with switch 101 and no private address. -/
theorem mgw_switch_validation_error_witness :
    resourceSakuraCloudMobileGatewayCreate (scriptedMGW sampleGateway [])
        sampleCreateNewMobileGateway (St.init 0 switchWithoutAddress) =
      (Res.err (newErr
        "MobileGateway needs private_ipaddress and private_nw_mask_len when switch_id is specified"),
       St.init 0 switchWithoutAddress) ∧
    (resourceSakuraCloudMobileGatewayUpdate (scriptedMGW sampleGateway [])
        (St.init 0 switchWithoutAddress)).2.trace =
      [Event.lock "100", Event.call (MGWCall.Read 100) none, Event.unlock "100"] :=
  have h := mgw_switch_validation_error (scriptedMGW sampleGateway [])
    sampleCreateNewMobileGateway 0 switchWithoutAddress (by decide) (Or.inl (by decide))
  ⟨h.1, congrArg (fun r => r.2.trace) (h.2.1 sampleGateway 1 rfl)⟩

end SwitchValidation

/-! ### The resource ID across handler code -/

section
variable {κ : Type}

theorem ReportsAbsent.append_left {isRead : κ → Bool} {evs : List (Event κ)}
    (h : ReportsAbsent isRead evs) (more : List (Event κ)) :
    ReportsAbsent isRead (evs ++ more) := by
  obtain ⟨c, e, h0, h1, h2⟩ := h
  exact ⟨c, e, h0, h1, List.mem_append_left _ h2⟩

theorem ReportsAbsent.append_right {isRead : κ → Bool} {evs : List (Event κ)}
    (h : ReportsAbsent isRead evs) (pre : List (Event κ)) :
    ReportsAbsent isRead (pre ++ evs) := by
  obtain ⟨c, e, h0, h1, h2⟩ := h
  exact ⟨c, e, h0, h1, List.mem_append_right _ h2⟩

/-- The Boolean test decides that no Read of the resource was answered with not-found. -/
theorem not_reportsAbsent_of_readsFound {isRead : κ → Bool} (tr : List (Event κ))
    (h : readsFound isRead tr = true) : ¬ ReportsAbsent isRead tr := by
  rintro ⟨c, e, h0, h1, hmem⟩
  have := List.all_eq_true.mp h _ hmem
  simp [h0, h1] at this

end

namespace Go
variable {κ σ α β : Type}

theorem KeepsId.of_same {isRead : κ → Bool} {known : Prop} {m : Go κ σ α}
    (h : ∀ s, (∃ evs, (m s).2.trace = s.trace ++ evs) ∧ (m s).2.d.id = s.d.id) :
    KeepsId isRead known m :=
  ⟨fun s => by
    obtain ⟨⟨evs, h1⟩, h2⟩ := h s
    exact ⟨evs, h1, Or.inl h2⟩⟩

theorem KeepsId.keeps_pure {isRead : κ → Bool} {known : Prop} (a : α) : KeepsId isRead known (pure a : Go κ σ α) :=
  KeepsId.of_same (fun s => ⟨⟨[], by simp⟩, by simp⟩)

theorem KeepsId.keeps_fail {isRead : κ → Bool} {known : Prop} (e : Err) : KeepsId isRead known (Go.fail e : Go κ σ α) :=
  KeepsId.of_same (fun s => ⟨⟨[], by simp⟩, by simp⟩)

theorem KeepsId.keeps_crash {isRead : κ → Bool} {known : Prop} : KeepsId isRead known (Go.crash : Go κ σ α) :=
  KeepsId.of_same (fun s => ⟨⟨[], by simp⟩, by simp⟩)

theorem KeepsId.keeps_getData {isRead : κ → Bool} {known : Prop} :
    KeepsId isRead known (Go.getData : Go κ σ ResourceData) :=
  KeepsId.of_same (fun s => ⟨⟨[], by simp⟩, by simp⟩)

theorem KeepsId.keeps_Set {isRead : κ → Bool} {known : Prop} (key : String) (v : Value) :
    KeepsId isRead known (Go.Set key v : Go κ σ (Option Err)) :=
  KeepsId.of_same (fun s => by
    unfold Go.Set
    split <;> exact ⟨⟨[], by simp⟩, rfl⟩)

theorem KeepsId.keeps_SetOrReturn {isRead : κ → Bool} {known : Prop} (key : String) (v : Value) :
    KeepsId isRead known (Go.SetOrReturn key v : Go κ σ Unit) :=
  KeepsId.of_same (fun s => by
    unfold Go.SetOrReturn
    split <;> exact ⟨⟨[], by simp⟩, rfl⟩)

theorem KeepsId.keeps_SetOrWrap {isRead : κ → Bool} {known : Prop} (pfx key : String) (v : Value) :
    KeepsId isRead known (Go.SetOrWrap pfx key v : Go κ σ Unit) :=
  KeepsId.of_same (fun s => by
    unfold Go.SetOrWrap
    split <;> exact ⟨⟨[], by simp⟩, rfl⟩)

theorem KeepsId.keeps_call {isRead : κ → Bool} {known : Prop} (pfx : String) (c : κ)
    (f : κ → σ → Except Err α × σ) : KeepsId isRead known (Go.call pfx c f) :=
  KeepsId.of_same (fun s => by
    rcases ok_or_error (f c s.world) with ⟨a, w, h⟩ | ⟨e, w, h⟩
    · simp [call_ok h]
    · simp [call_error h])

theorem KeepsId.keeps_callRaw {isRead : κ → Bool} {known : Prop} (c : κ) (f : κ → σ → Except Err α × σ) :
    KeepsId isRead known (Go.callRaw c f) :=
  KeepsId.of_same (fun s => by
    rcases ok_or_error (f c s.world) with ⟨a, w, h⟩ | ⟨e, w, h⟩
    · simp [Go.callRaw, h]
    · simp [Go.callRaw, h])

theorem KeepsId.keeps_modify {isRead : κ → Bool} {known : Prop} (g : ResourceData → ResourceData)
    (hg : ∀ d, (g d).id = d.id) :
    KeepsId isRead known (fun s => (Res.ok (), { s with d := g s.d }) : Go κ σ Unit) :=
  KeepsId.of_same (fun s => ⟨⟨[], by simp⟩, hg s.d⟩)

/-- Clearing the ID when the resource is known to be absent. -/
theorem KeepsId.clear {isRead : κ → Bool} {known : Prop} (h : known) : KeepsId isRead known (Go.SetId "" : Go κ σ Unit) :=
  ⟨fun s => ⟨[], by simp, Or.inr ⟨by simp, Or.inr (Or.inl h)⟩⟩⟩

/-- Clearing the ID and returning an error. -/
theorem KeepsId.clear_fail {isRead : κ → Bool} {known : Prop} (e : Err) :
    KeepsId isRead known (Go.SetId "" >>= fun _ => (Go.fail e : Go κ σ α)) :=
  ⟨fun s => ⟨[], by simp, Or.inr ⟨by simp, Or.inl (by simp)⟩⟩⟩

theorem KeepsId.keeps_mono {isRead : κ → Bool} {known known' : Prop} {m : Go κ σ α}
    (h : KeepsId isRead known m) (hk : known → known') : KeepsId isRead known' m :=
  ⟨fun s => by
    obtain ⟨evs, h1, h2⟩ := h.run s
    refine ⟨evs, h1, ?_⟩
    rcases h2 with h2 | ⟨h2, h3 | h3 | h3⟩
    · exact Or.inl h2
    · exact Or.inr ⟨h2, Or.inl h3⟩
    · exact Or.inr ⟨h2, Or.inr (Or.inl (hk h3))⟩
    · exact Or.inr ⟨h2, Or.inr (Or.inr h3)⟩⟩

theorem KeepsId.keeps_bind {isRead : κ → Bool} {known : Prop} {m : Go κ σ α} {f : α → Go κ σ β}
    (hm : KeepsId isRead known m) (hf : ∀ a, KeepsId isRead known (f a)) : KeepsId isRead known (m >>= f) :=
  ⟨fun s => by
    obtain ⟨evs1, h1, h2⟩ := hm.run s
    rcases hms : m s with ⟨r, s1⟩
    rw [hms] at h1 h2
    simp only at h1 h2
    cases r with
    | ok a =>
      obtain ⟨evs2, h3, h4⟩ := (hf a).run s1
      refine ⟨evs1 ++ evs2, by simp [hms, h3, h1], ?_⟩
      simp only [Go.bind_run, hms]
      rcases h4 with h4 | ⟨h4, h5 | h5 | h5⟩
      · rcases h2 with h2 | ⟨h2, h6 | h6 | h6⟩
        · exact Or.inl (h4.trans h2)
        · exact absurd rfl (h6 a)
        · exact Or.inr ⟨h4.trans h2, Or.inr (Or.inl h6)⟩
        · exact Or.inr ⟨h4.trans h2, Or.inr (Or.inr (h6.append_left _))⟩
      · exact Or.inr ⟨h4, Or.inl h5⟩
      · exact Or.inr ⟨h4, Or.inr (Or.inl h5)⟩
      · exact Or.inr ⟨h4, Or.inr (Or.inr (h5.append_right _))⟩
    | err e =>
      refine ⟨evs1, by simp [hms, h1], ?_⟩
      simp only [Go.bind_run, hms]
      rcases h2 with h2 | ⟨h2, h6 | h6 | h6⟩
      · exact Or.inl h2
      · exact Or.inr ⟨h2, Or.inl (by simp)⟩
      · exact Or.inr ⟨h2, Or.inr (Or.inl h6)⟩
      · exact Or.inr ⟨h2, Or.inr (Or.inr h6)⟩
    | panic =>
      refine ⟨evs1, by simp [hms, h1], ?_⟩
      simp only [Go.bind_run, hms]
      rcases h2 with h2 | ⟨h2, h6 | h6 | h6⟩
      · exact Or.inl h2
      · exact Or.inr ⟨h2, Or.inl (by simp)⟩
      · exact Or.inr ⟨h2, Or.inr (Or.inl h6)⟩
      · exact Or.inr ⟨h2, Or.inr (Or.inr h6)⟩⟩

/-- A remote call whose outcome is inspected: after a not-found reply to a Read of the
resource the resource is known to be absent. -/
theorem KeepsId.keeps_callE_bind {isRead : κ → Bool} {known : Prop} (c : κ) (f : κ → σ → Except Err α × σ)
    (k : Except Err α → Go κ σ β) (hok : ∀ a, KeepsId isRead known (k (Except.ok a)))
    (herr : ∀ e, KeepsId isRead (known ∨ (isRead c = true ∧ e.isNotFound = true))
      (k (Except.error e))) :
    KeepsId isRead known (Go.callE c f >>= k) :=
  ⟨fun s => by
    rcases ok_or_error (f c s.world) with ⟨a, w, h⟩ | ⟨e, w, h⟩
    · obtain ⟨evs, h1, h2⟩ := (hok a).run
        { s with world := w, trace := s.trace ++ [Event.call c none] }
      refine ⟨[Event.call c none] ++ evs, by simp [callE_ok h, h1], ?_⟩
      simp only [Go.bind_run, callE_ok h]
      rcases h2 with h2 | ⟨h2, h6 | h6 | h6⟩
      · exact Or.inl h2
      · exact Or.inr ⟨h2, Or.inl h6⟩
      · exact Or.inr ⟨h2, Or.inr (Or.inl h6)⟩
      · exact Or.inr ⟨h2, Or.inr (Or.inr (h6.append_right _))⟩
    · obtain ⟨evs, h1, h2⟩ := (herr e).run
        { s with world := w, trace := s.trace ++ [Event.call c (some e)] }
      refine ⟨[Event.call c (some e)] ++ evs, by simp [callE_error h, h1], ?_⟩
      simp only [Go.bind_run, callE_error h]
      rcases h2 with h2 | ⟨h2, h6 | (h6 | h6) | h6⟩
      · exact Or.inl h2
      · exact Or.inr ⟨h2, Or.inl h6⟩
      · exact Or.inr ⟨h2, Or.inr (Or.inl h6)⟩
      · exact Or.inr ⟨h2, Or.inr (Or.inr ⟨c, e, h6.1, h6.2, by simp⟩)⟩
      · exact Or.inr ⟨h2, Or.inr (Or.inr (h6.append_right _))⟩⟩

theorem KeepsId.keeps_Lock {isRead : κ → Bool} {known : Prop} (key : String) :
    KeepsId isRead known (Go.Lock key : Go κ σ Unit) :=
  KeepsId.of_same (fun s => ⟨⟨[Event.lock key], by simp⟩, by simp⟩)

theorem KeepsId.keeps_deferUnlock {isRead : κ → Bool} {known : Prop} (key : String) :
    KeepsId isRead known (Go.deferUnlock key : Go κ σ Unit) :=
  KeepsId.of_same (fun s => ⟨⟨[], by simp⟩, by simp⟩)

/-- The function boundary only appends the deferred unlocks. -/
theorem KeepsId.keeps_func {isRead : κ → Bool} {known : Prop} {m : Go κ σ α} (h : KeepsId isRead known m) :
    KeepsId isRead known (Go.func m) :=
  ⟨fun s => by
    obtain ⟨evs, h1, h2⟩ := h.run { s with defers := [] }
    refine ⟨evs ++ (m { s with defers := [] }).2.defers.map Event.unlock,
      by simp [Go.func, h1], ?_⟩
    rcases h2 with h2 | ⟨h2, h6 | h6 | h6⟩
    · exact Or.inl h2
    · exact Or.inr ⟨h2, Or.inl h6⟩
    · exact Or.inr ⟨h2, Or.inr (Or.inl h6)⟩
    · exact Or.inr ⟨h2, Or.inr (Or.inr (h6.append_left _))⟩⟩

end Go

/-! ### The resource ID across the Update handlers -/

section KeepsIdHandlers

variable {σ : Type}

open Go

theorem clientOrReturn_keepsId {κ : Type} (isRead : κ → Bool) (known : Prop)
    (err : Option Err) : KeepsId isRead known (clientOrReturn err : Go κ σ Unit) := by
  unfold clientOrReturn
  split
  · exact KeepsId.keeps_fail _
  · exact KeepsId.keeps_pure _

theorem resourceSakuraCloudDNSRead_keepsId (cl : DNSClient σ) (known : Prop) :
    KeepsId DNSCall.isRead known (resourceSakuraCloudDNSRead cl) := by
  unfold resourceSakuraCloudDNSRead setDNSResourceData
  repeat' first
    | exact KeepsId.keeps_pure _
    | exact KeepsId.keeps_fail _
    | exact KeepsId.keeps_crash
    | exact KeepsId.keeps_getData
    | exact KeepsId.keeps_Set _ _
    | exact KeepsId.keeps_SetOrReturn _ _
    | exact KeepsId.keeps_SetOrWrap _ _ _
    | exact KeepsId.keeps_call _ _ _
    | exact KeepsId.keeps_callRaw _ _
    | exact KeepsId.keeps_Lock _
    | exact KeepsId.keeps_deferUnlock _
    | exact KeepsId.clear (Or.inr ⟨rfl, by assumption⟩)
    | exact KeepsId.clear_fail _
    | exact clientOrReturn_keepsId _ _ _
    | apply KeepsId.keeps_func
    | dsimp only
    | apply KeepsId.keeps_callE_bind
    | apply KeepsId.keeps_bind
    | intro _
    | split

theorem resourceSakuraCloudDNSUpdate_keepsId (cl : DNSClient σ) (known : Prop) :
    KeepsId DNSCall.isRead known (resourceSakuraCloudDNSUpdate cl) := by
  unfold resourceSakuraCloudDNSUpdate dnsUpdateBody
  repeat' first
    | exact resourceSakuraCloudDNSRead_keepsId cl _
    | exact KeepsId.keeps_pure _
    | exact KeepsId.keeps_fail _
    | exact KeepsId.keeps_crash
    | exact KeepsId.keeps_getData
    | exact KeepsId.keeps_Set _ _
    | exact KeepsId.keeps_SetOrReturn _ _
    | exact KeepsId.keeps_SetOrWrap _ _ _
    | exact KeepsId.keeps_call _ _ _
    | exact KeepsId.keeps_callRaw _ _
    | exact KeepsId.keeps_Lock _
    | exact KeepsId.keeps_deferUnlock _
    | exact KeepsId.clear_fail _
    | exact clientOrReturn_keepsId _ _ _
    | apply KeepsId.keeps_func
    | dsimp only
    | apply KeepsId.keeps_callE_bind
    | apply KeepsId.keeps_bind
    | intro _

theorem resourceSakuraCloudNoteRead_keepsId (cl : NoteClient σ) (known : Prop) :
    KeepsId NoteCall.isRead known (resourceSakuraCloudNoteRead cl) := by
  unfold resourceSakuraCloudNoteRead setNoteResourceData
  repeat' first
    | exact KeepsId.keeps_pure _
    | exact KeepsId.keeps_fail _
    | exact KeepsId.keeps_crash
    | exact KeepsId.keeps_getData
    | exact KeepsId.keeps_Set _ _
    | exact KeepsId.keeps_SetOrReturn _ _
    | exact KeepsId.keeps_SetOrWrap _ _ _
    | exact KeepsId.keeps_call _ _ _
    | exact KeepsId.keeps_callRaw _ _
    | exact KeepsId.keeps_Lock _
    | exact KeepsId.keeps_deferUnlock _
    | exact KeepsId.clear (Or.inr ⟨rfl, by assumption⟩)
    | exact KeepsId.clear_fail _
    | exact clientOrReturn_keepsId _ _ _
    | apply KeepsId.keeps_func
    | dsimp only
    | apply KeepsId.keeps_callE_bind
    | apply KeepsId.keeps_bind
    | intro _
    | split

theorem resourceSakuraCloudNoteUpdate_keepsId (cl : NoteClient σ) (known : Prop) :
    KeepsId NoteCall.isRead known (resourceSakuraCloudNoteUpdate cl) := by
  unfold resourceSakuraCloudNoteUpdate
  repeat' first
    | exact resourceSakuraCloudNoteRead_keepsId cl _
    | exact KeepsId.keeps_pure _
    | exact KeepsId.keeps_fail _
    | exact KeepsId.keeps_crash
    | exact KeepsId.keeps_getData
    | exact KeepsId.keeps_Set _ _
    | exact KeepsId.keeps_SetOrReturn _ _
    | exact KeepsId.keeps_SetOrWrap _ _ _
    | exact KeepsId.keeps_call _ _ _
    | exact KeepsId.keeps_callRaw _ _
    | exact KeepsId.keeps_Lock _
    | exact KeepsId.keeps_deferUnlock _
    | exact KeepsId.clear_fail _
    | exact clientOrReturn_keepsId _ _ _
    | apply KeepsId.keeps_func
    | dsimp only
    | apply KeepsId.keeps_callE_bind
    | apply KeepsId.keeps_bind
    | intro _

theorem resourceSakuraCloudSimpleMonitorRead_keepsId (cl : SimpleMonitorClient σ) (known : Prop) :
    KeepsId SimpleMonitorCall.isRead known (resourceSakuraCloudSimpleMonitorRead cl) := by
  unfold resourceSakuraCloudSimpleMonitorRead setSimpleMonitorResourceData
  repeat' first
    | exact KeepsId.keeps_pure _
    | exact KeepsId.keeps_fail _
    | exact KeepsId.keeps_crash
    | exact KeepsId.keeps_getData
    | exact KeepsId.keeps_Set _ _
    | exact KeepsId.keeps_SetOrReturn _ _
    | exact KeepsId.keeps_SetOrWrap _ _ _
    | exact KeepsId.keeps_call _ _ _
    | exact KeepsId.keeps_callRaw _ _
    | exact KeepsId.keeps_Lock _
    | exact KeepsId.keeps_deferUnlock _
    | exact KeepsId.clear (Or.inr ⟨rfl, by assumption⟩)
    | exact KeepsId.clear_fail _
    | exact clientOrReturn_keepsId _ _ _
    | apply KeepsId.keeps_func
    | dsimp only
    | apply KeepsId.keeps_callE_bind
    | apply KeepsId.keeps_bind
    | intro _
    | split

theorem resourceSakuraCloudSimpleMonitorUpdate_keepsId (cl : SimpleMonitorClient σ) (known : Prop) :
    KeepsId SimpleMonitorCall.isRead known (resourceSakuraCloudSimpleMonitorUpdate cl) := by
  unfold resourceSakuraCloudSimpleMonitorUpdate
  repeat' first
    | exact resourceSakuraCloudSimpleMonitorRead_keepsId cl _
    | exact KeepsId.keeps_pure _
    | exact KeepsId.keeps_fail _
    | exact KeepsId.keeps_crash
    | exact KeepsId.keeps_getData
    | exact KeepsId.keeps_Set _ _
    | exact KeepsId.keeps_SetOrReturn _ _
    | exact KeepsId.keeps_SetOrWrap _ _ _
    | exact KeepsId.keeps_call _ _ _
    | exact KeepsId.keeps_callRaw _ _
    | exact KeepsId.keeps_Lock _
    | exact KeepsId.keeps_deferUnlock _
    | exact KeepsId.clear_fail _
    | exact clientOrReturn_keepsId _ _ _
    | apply KeepsId.keeps_func
    | dsimp only
    | apply KeepsId.keeps_callE_bind
    | apply KeepsId.keeps_bind
    | intro _

theorem resourceSakuraCloudNFSRead_keepsId (cl : NFSClient σ) (known : Prop) :
    KeepsId NFSCall.isRead known (resourceSakuraCloudNFSRead cl) := by
  unfold resourceSakuraCloudNFSRead setNFSResourceData
  repeat' first
    | exact KeepsId.keeps_pure _
    | exact KeepsId.keeps_fail _
    | exact KeepsId.keeps_crash
    | exact KeepsId.keeps_getData
    | exact KeepsId.keeps_Set _ _
    | exact KeepsId.keeps_SetOrReturn _ _
    | exact KeepsId.keeps_SetOrWrap _ _ _
    | exact KeepsId.keeps_call _ _ _
    | exact KeepsId.keeps_callRaw _ _
    | exact KeepsId.keeps_Lock _
    | exact KeepsId.keeps_deferUnlock _
    | exact KeepsId.clear (Or.inr ⟨rfl, by assumption⟩)
    | exact KeepsId.clear_fail _
    | exact clientOrReturn_keepsId _ _ _
    | apply KeepsId.keeps_func
    | dsimp only
    | apply KeepsId.keeps_callE_bind
    | apply KeepsId.keeps_bind
    | intro _
    | split

theorem resourceSakuraCloudNFSUpdate_keepsId (cl : NFSClient σ) (known : Prop) :
    KeepsId NFSCall.isRead known (resourceSakuraCloudNFSUpdate cl) := by
  unfold resourceSakuraCloudNFSUpdate
  repeat' first
    | exact resourceSakuraCloudNFSRead_keepsId cl _
    | exact KeepsId.keeps_pure _
    | exact KeepsId.keeps_fail _
    | exact KeepsId.keeps_crash
    | exact KeepsId.keeps_getData
    | exact KeepsId.keeps_Set _ _
    | exact KeepsId.keeps_SetOrReturn _ _
    | exact KeepsId.keeps_SetOrWrap _ _ _
    | exact KeepsId.keeps_call _ _ _
    | exact KeepsId.keeps_callRaw _ _
    | exact KeepsId.keeps_Lock _
    | exact KeepsId.keeps_deferUnlock _
    | exact KeepsId.clear_fail _
    | exact clientOrReturn_keepsId _ _ _
    | apply KeepsId.keeps_func
    | dsimp only
    | apply KeepsId.keeps_callE_bind
    | apply KeepsId.keeps_bind
    | intro _

theorem resourceSakuraCloudSSHKeyRead_keepsId (cl : SSHKeyClient σ) (known : Prop) :
    KeepsId SSHKeyCall.isRead known (resourceSakuraCloudSSHKeyRead cl) := by
  unfold resourceSakuraCloudSSHKeyRead
  repeat' first
    | exact KeepsId.keeps_pure _
    | exact KeepsId.keeps_fail _
    | exact KeepsId.keeps_crash
    | exact KeepsId.keeps_getData
    | exact KeepsId.keeps_Set _ _
    | exact KeepsId.keeps_SetOrReturn _ _
    | exact KeepsId.keeps_SetOrWrap _ _ _
    | exact KeepsId.keeps_call _ _ _
    | exact KeepsId.keeps_callRaw _ _
    | exact KeepsId.keeps_Lock _
    | exact KeepsId.keeps_deferUnlock _
    | exact KeepsId.clear (Or.inr ⟨rfl, by assumption⟩)
    | exact KeepsId.clear_fail _
    | exact clientOrReturn_keepsId _ _ _
    | apply KeepsId.keeps_func
    | dsimp only
    | apply KeepsId.keeps_callE_bind
    | apply KeepsId.keeps_bind
    | intro _
    | split

theorem resourceSakuraCloudSSHKeyUpdate_keepsId (cl : SSHKeyClient σ) (known : Prop) :
    KeepsId SSHKeyCall.isRead known (resourceSakuraCloudSSHKeyUpdate cl) := by
  unfold resourceSakuraCloudSSHKeyUpdate
  repeat' first
    | exact resourceSakuraCloudSSHKeyRead_keepsId cl _
    | exact KeepsId.keeps_pure _
    | exact KeepsId.keeps_fail _
    | exact KeepsId.keeps_crash
    | exact KeepsId.keeps_getData
    | exact KeepsId.keeps_Set _ _
    | exact KeepsId.keeps_SetOrReturn _ _
    | exact KeepsId.keeps_SetOrWrap _ _ _
    | exact KeepsId.keeps_call _ _ _
    | exact KeepsId.keeps_callRaw _ _
    | exact KeepsId.keeps_Lock _
    | exact KeepsId.keeps_deferUnlock _
    | exact KeepsId.clear_fail _
    | exact clientOrReturn_keepsId _ _ _
    | apply KeepsId.keeps_func
    | dsimp only
    | apply KeepsId.keeps_callE_bind
    | apply KeepsId.keeps_bind
    | intro _

theorem resourceSakuraCloudProxyLBRead_keepsId (cl : ProxyLBClient σ) (known : Prop) :
    KeepsId ProxyLBCall.isRead known (resourceSakuraCloudProxyLBRead cl) := by
  unfold resourceSakuraCloudProxyLBRead setProxyLBResourceData
  repeat' first
    | exact KeepsId.keeps_pure _
    | exact KeepsId.keeps_fail _
    | exact KeepsId.keeps_crash
    | exact KeepsId.keeps_getData
    | exact KeepsId.keeps_Set _ _
    | exact KeepsId.keeps_SetOrReturn _ _
    | exact KeepsId.keeps_SetOrWrap _ _ _
    | exact KeepsId.keeps_call _ _ _
    | exact KeepsId.keeps_callRaw _ _
    | exact KeepsId.keeps_Lock _
    | exact KeepsId.keeps_deferUnlock _
    | exact KeepsId.clear (Or.inr ⟨rfl, by assumption⟩)
    | exact KeepsId.clear_fail _
    | exact clientOrReturn_keepsId _ _ _
    | apply KeepsId.keeps_func
    | dsimp only
    | apply KeepsId.keeps_callE_bind
    | apply KeepsId.keeps_bind
    | intro _
    | split

theorem proxyLBUpdateCerts_keepsId (cl : ProxyLBClient σ) (d : ResourceData) (proxyLB : ProxyLB) (known : Prop) :
    KeepsId ProxyLBCall.isRead known (proxyLBUpdateCerts cl d proxyLB) := by
  unfold proxyLBUpdateCerts
  repeat' first
    | exact KeepsId.keeps_pure _
    | exact KeepsId.keeps_fail _
    | exact KeepsId.keeps_crash
    | exact KeepsId.keeps_getData
    | exact KeepsId.keeps_Set _ _
    | exact KeepsId.keeps_SetOrReturn _ _
    | exact KeepsId.keeps_SetOrWrap _ _ _
    | exact KeepsId.keeps_call _ _ _
    | exact KeepsId.keeps_callRaw _ _
    | exact KeepsId.keeps_Lock _
    | exact KeepsId.keeps_deferUnlock _
    | exact KeepsId.clear_fail _
    | exact clientOrReturn_keepsId _ _ _
    | apply KeepsId.keeps_func
    | dsimp only
    | apply KeepsId.keeps_callE_bind
    | apply KeepsId.keeps_bind
    | intro _
    | split

theorem resourceSakuraCloudServerConnectorRead_keepsId (cl : ServerClient σ) (known : Prop)
    (hpower : ∀ d, (cl.setPowerManageTimeoutValueToState d).id = d.id) :
    KeepsId ServerCall.isRead known (resourceSakuraCloudServerConnectorRead cl) := by
  unfold resourceSakuraCloudServerConnectorRead
  repeat' first
    | exact KeepsId.keeps_modify _ hpower
    | exact KeepsId.keeps_pure _
    | exact KeepsId.keeps_fail _
    | exact KeepsId.keeps_crash
    | exact KeepsId.keeps_getData
    | exact KeepsId.keeps_Set _ _
    | exact KeepsId.keeps_SetOrReturn _ _
    | exact KeepsId.keeps_SetOrWrap _ _ _
    | exact KeepsId.keeps_call _ _ _
    | exact KeepsId.keeps_callRaw _ _
    | exact KeepsId.keeps_Lock _
    | exact KeepsId.keeps_deferUnlock _
    | exact KeepsId.clear (Or.inr ⟨rfl, by assumption⟩)
    | exact KeepsId.clear_fail _
    | exact clientOrReturn_keepsId _ _ _
    | apply KeepsId.keeps_func
    | dsimp only
    | apply KeepsId.keeps_callE_bind
    | apply KeepsId.keeps_bind
    | intro _
    | split

theorem serverDisconnectDisks_keepsId (cl : ServerClient σ) (disks : List Int) (known : Prop) :
    KeepsId ServerCall.isRead known (serverDisconnectDisks cl disks) := by
  induction disks with
  | nil => exact KeepsId.keeps_pure _
  | cons x rest ih =>
    unfold serverDisconnectDisks
    repeat' first
      | exact ih
      | exact KeepsId.keeps_pure _
      | exact KeepsId.keeps_fail _
      | exact KeepsId.keeps_crash
      | exact KeepsId.keeps_getData
      | exact KeepsId.keeps_Set _ _
      | exact KeepsId.keeps_SetOrReturn _ _
      | exact KeepsId.keeps_SetOrWrap _ _ _
      | exact KeepsId.keeps_call _ _ _
      | exact KeepsId.keeps_callRaw _ _
      | exact KeepsId.keeps_Lock _
      | exact KeepsId.keeps_deferUnlock _
      | exact KeepsId.clear_fail _
      | exact clientOrReturn_keepsId _ _ _
      | apply KeepsId.keeps_func
      | dsimp only
      | apply KeepsId.keeps_callE_bind
      | apply KeepsId.keeps_bind
      | intro _

theorem serverConnectDisks_keepsId (cl : ServerClient σ) (server : Server) (ids : List String) (known : Prop) :
    KeepsId ServerCall.isRead known (serverConnectDisks cl server ids) := by
  induction ids with
  | nil => exact KeepsId.keeps_pure _
  | cons x rest ih =>
    unfold serverConnectDisks
    repeat' first
      | exact ih
      | exact KeepsId.keeps_pure _
      | exact KeepsId.keeps_fail _
      | exact KeepsId.keeps_crash
      | exact KeepsId.keeps_getData
      | exact KeepsId.keeps_Set _ _
      | exact KeepsId.keeps_SetOrReturn _ _
      | exact KeepsId.keeps_SetOrWrap _ _ _
      | exact KeepsId.keeps_call _ _ _
      | exact KeepsId.keeps_callRaw _ _
      | exact KeepsId.keeps_Lock _
      | exact KeepsId.keeps_deferUnlock _
      | exact KeepsId.clear_fail _
      | exact clientOrReturn_keepsId _ _ _
      | apply KeepsId.keeps_func
      | dsimp only
      | apply KeepsId.keeps_callE_bind
      | apply KeepsId.keeps_bind
      | intro _

theorem serverDisconnectFilters_keepsId (cl : ServerClient σ) (nics : List ServerNIC) (known : Prop) :
    KeepsId ServerCall.isRead known (serverDisconnectFilters cl nics) := by
  induction nics with
  | nil => exact KeepsId.keeps_pure _
  | cons x rest ih =>
    unfold serverDisconnectFilters
    repeat' first
      | exact ih
      | exact KeepsId.keeps_pure _
      | exact KeepsId.keeps_fail _
      | exact KeepsId.keeps_crash
      | exact KeepsId.keeps_getData
      | exact KeepsId.keeps_Set _ _
      | exact KeepsId.keeps_SetOrReturn _ _
      | exact KeepsId.keeps_SetOrWrap _ _ _
      | exact KeepsId.keeps_call _ _ _
      | exact KeepsId.keeps_callRaw _ _
      | exact KeepsId.keeps_Lock _
      | exact KeepsId.keeps_deferUnlock _
      | exact KeepsId.clear_fail _
      | exact clientOrReturn_keepsId _ _ _
      | apply KeepsId.keeps_func
      | dsimp only
      | apply KeepsId.keeps_callE_bind
      | apply KeepsId.keeps_bind
      | intro _
      | split

theorem serverPacketFilterLoop_keepsId (cl : ServerClient σ) (server : Server) (ids : List (Option String)) (i : Nat) (known : Prop) :
    KeepsId ServerCall.isRead known (serverPacketFilterLoop cl server ids i) := by
  induction ids generalizing i with
  | nil => exact KeepsId.keeps_pure _
  | cons x rest ih =>
    unfold serverPacketFilterLoop
    repeat' first
      | exact ih _
      | exact KeepsId.keeps_pure _
      | exact KeepsId.keeps_fail _
      | exact KeepsId.keeps_crash
      | exact KeepsId.keeps_getData
      | exact KeepsId.keeps_Set _ _
      | exact KeepsId.keeps_SetOrReturn _ _
      | exact KeepsId.keeps_SetOrWrap _ _ _
      | exact KeepsId.keeps_call _ _ _
      | exact KeepsId.keeps_callRaw _ _
      | exact KeepsId.keeps_Lock _
      | exact KeepsId.keeps_deferUnlock _
      | exact KeepsId.clear_fail _
      | exact clientOrReturn_keepsId _ _ _
      | apply KeepsId.keeps_func
      | dsimp only
      | apply KeepsId.keeps_callE_bind
      | apply KeepsId.keeps_bind
      | intro _
      | split

theorem resourceSakuraCloudServerConnectorUpdate_keepsId (cl : ServerClient σ) (known : Prop)
    (hpower : ∀ d, (cl.setPowerManageTimeoutValueToState d).id = d.id) :
    KeepsId ServerCall.isRead known (resourceSakuraCloudServerConnectorUpdate cl) := by
  unfold resourceSakuraCloudServerConnectorUpdate serverReconcilePacketFilters
  repeat' first
    | exact serverDisconnectDisks_keepsId cl _ _
    | exact serverConnectDisks_keepsId cl _ _ _
    | exact serverDisconnectFilters_keepsId cl _ _
    | exact serverPacketFilterLoop_keepsId cl _ _ _ _
    | exact resourceSakuraCloudServerConnectorRead_keepsId cl _ hpower
    | exact KeepsId.keeps_pure _
    | exact KeepsId.keeps_fail _
    | exact KeepsId.keeps_crash
    | exact KeepsId.keeps_getData
    | exact KeepsId.keeps_Set _ _
    | exact KeepsId.keeps_SetOrReturn _ _
    | exact KeepsId.keeps_SetOrWrap _ _ _
    | exact KeepsId.keeps_call _ _ _
    | exact KeepsId.keeps_callRaw _ _
    | exact KeepsId.keeps_Lock _
    | exact KeepsId.keeps_deferUnlock _
    | exact KeepsId.clear_fail _
    | exact clientOrReturn_keepsId _ _ _
    | apply KeepsId.keeps_func
    | dsimp only
    | apply KeepsId.keeps_callE_bind
    | apply KeepsId.keeps_bind
    | intro _
    | split

theorem resourceSakuraCloudMobileGatewayRead_keepsId (cl : MGWClient σ) (known : Prop)
    (hpower : ∀ d, (cl.setPowerManageTimeoutValueToState d).id = d.id) :
    KeepsId MGWCall.isRead known (resourceSakuraCloudMobileGatewayRead cl) := by
  unfold resourceSakuraCloudMobileGatewayRead setMobileGatewayResourceData
  repeat' first
    | exact KeepsId.keeps_modify _ hpower
    | exact KeepsId.keeps_pure _
    | exact KeepsId.keeps_fail _
    | exact KeepsId.keeps_crash
    | exact KeepsId.keeps_getData
    | exact KeepsId.keeps_Set _ _
    | exact KeepsId.keeps_SetOrReturn _ _
    | exact KeepsId.keeps_SetOrWrap _ _ _
    | exact KeepsId.keeps_call _ _ _
    | exact KeepsId.keeps_callRaw _ _
    | exact KeepsId.keeps_Lock _
    | exact KeepsId.keeps_deferUnlock _
    | exact KeepsId.clear (Or.inr ⟨rfl, by assumption⟩)
    | exact KeepsId.clear_fail _
    | exact clientOrReturn_keepsId _ _ _
    | apply KeepsId.keeps_func
    | dsimp only
    | apply KeepsId.keeps_callE_bind
    | apply KeepsId.keeps_bind
    | intro _
    | split

theorem resourceSakuraCloudMobileGatewayUpdate_keepsId (cl : MGWClient σ) (known : Prop)
    (hpower : ∀ d, (cl.setPowerManageTimeoutValueToState d).id = d.id) :
    KeepsId MGWCall.isRead known (resourceSakuraCloudMobileGatewayUpdate cl) := by
  unfold resourceSakuraCloudMobileGatewayUpdate mgwUpdateBody mgwUpdateAfterRead mgwUpdateNetwork
    mgwUpdateTrafficControl mgwUpdateDNS mgwUpdateStaticRoute mgwRestart
  repeat' first
    | exact resourceSakuraCloudMobileGatewayRead_keepsId cl _ hpower
    | exact KeepsId.keeps_pure _
    | exact KeepsId.keeps_fail _
    | exact KeepsId.keeps_crash
    | exact KeepsId.keeps_getData
    | exact KeepsId.keeps_Set _ _
    | exact KeepsId.keeps_SetOrReturn _ _
    | exact KeepsId.keeps_SetOrWrap _ _ _
    | exact KeepsId.keeps_call _ _ _
    | exact KeepsId.keeps_callRaw _ _
    | exact KeepsId.keeps_Lock _
    | exact KeepsId.keeps_deferUnlock _
    | exact KeepsId.clear_fail _
    | exact clientOrReturn_keepsId _ _ _
    | apply KeepsId.keeps_func
    | dsimp only
    | apply KeepsId.keeps_callE_bind
    | apply KeepsId.keeps_bind
    | intro _
    | split


end KeepsIdHandlers

/-! ### The resource ID after an update (C14) -/

section ResourceId

variable {σ : Type}

open Go

theorem Go.KeepsId.idKept {κ : Type} {isRead : κ → Bool} {m : Go κ σ Unit}
    (h : KeepsId isRead False m) (w : σ) (d : ResourceData) :
    IdKept isRead d (m (St.init w d)) := by
  intro hok habs
  obtain ⟨evs, h1, h2⟩ := h.run (St.init w d)
  simp only [St.init, List.nil_append] at h1 h2
  rcases h2 with h2 | ⟨-, h3 | h3 | h3⟩
  · exact h2
  · exact absurd hok (h3 ())
  · exact absurd h3 id
  · exact absurd (h1 ▸ h3) habs

/-- Without a plan change the ProxyLB update body keeps the resource ID. -/
theorem proxyLBUpdateBody_keepsId (cl : ProxyLBClient σ) (d : ResourceData) (known : Prop)
    (hplan : d.HasChange "plan" = false) :
    KeepsId ProxyLBCall.isRead known (proxyLBUpdateBody cl d) := by
  unfold proxyLBUpdateBody proxyLBChangePlan
  simp only [hplan, Bool.false_eq_true, if_false]
  repeat' first
    | exact resourceSakuraCloudProxyLBRead_keepsId cl _
    | exact proxyLBUpdateCerts_keepsId cl _ _ _
    | exact KeepsId.keeps_pure _
    | exact KeepsId.keeps_call _ _ _
    | apply KeepsId.keeps_bind
    | intro _

theorem resourceSakuraCloudProxyLBUpdate_idKept (cl : ProxyLBClient σ) (w : σ)
    (d : ResourceData) (hplan : d.HasChange "plan" = false) :
    IdKept ProxyLBCall.isRead d (resourceSakuraCloudProxyLBUpdate cl (St.init w d)) := by
  have h : KeepsId ProxyLBCall.isRead False (func (match cl.sakuraCloudClient d with
      | some e => fail e
      | none => do
        Lock d.id
        deferUnlock d.id
        proxyLBUpdateBody cl d) : Go ProxyLBCall σ Unit) := by
    apply KeepsId.keeps_func
    split
    · exact KeepsId.keeps_fail _
    · exact KeepsId.keeps_bind (KeepsId.keeps_Lock _) (fun _ =>
        KeepsId.keeps_bind (KeepsId.keeps_deferUnlock _) (fun _ =>
          proxyLBUpdateBody_keepsId cl d _ hplan))
  exact h.idKept w d

/-- With a plan change, a successful ProxyLB update ends with the ID of the resource that
`ChangePlan` returned. -/
theorem resourceSakuraCloudProxyLBUpdate_new_id (cl : ProxyLBClient σ) (w w1 w2 w3 : σ)
    (d : ResourceData) (lb0 lb1 upd : ProxyLB)
    (hclient : cl.sakuraCloudClient d = none)
    (hplan : d.HasChange "plan" = true)
    (hread : cl.lb (ProxyLBCall.Read (cl.sakuraCloudID d.id)) w = (Except.ok lb0, w1))
    (hupd : cl.lb (ProxyLBCall.Update lb0.ID (cl.expandProxyLBUpdateRequest d)) w1
      = (Except.ok lb1, w2))
    (hchg : cl.lb (ProxyLBCall.ChangePlan lb1.ID (d.Get "plan").asInt) w2
      = (Except.ok upd, w3)) :
    IdKept ProxyLBCall.isRead { d with id := cl.idString upd.ID }
      (resourceSakuraCloudProxyLBUpdate cl (St.init w d)) := by
  have htail : KeepsId ProxyLBCall.isRead False (do
      proxyLBUpdateCerts cl d upd
      resourceSakuraCloudProxyLBRead cl : Go ProxyLBCall σ Unit) :=
    KeepsId.keeps_bind (proxyLBUpdateCerts_keepsId cl d upd _)
      (fun _ => resourceSakuraCloudProxyLBRead_keepsId cl _)
  obtain ⟨evs, h1, h2⟩ := htail.run
    { world := w3
      d := { d with id := cl.idString upd.ID }
      trace := [Event.lock d.id, Event.call (ProxyLBCall.Read (cl.sakuraCloudID d.id)) none,
        Event.call (ProxyLBCall.Update lb0.ID (cl.expandProxyLBUpdateRequest d)) none,
        Event.call (ProxyLBCall.ChangePlan lb1.ID (d.Get "plan").asInt) none]
      defers := [d.id] }
  rcases hT : (do
      proxyLBUpdateCerts cl d upd
      resourceSakuraCloudProxyLBRead cl : Go ProxyLBCall σ Unit)
    { world := w3
      d := { d with id := cl.idString upd.ID }
      trace := [Event.lock d.id, Event.call (ProxyLBCall.Read (cl.sakuraCloudID d.id)) none,
        Event.call (ProxyLBCall.Update lb0.ID (cl.expandProxyLBUpdateRequest d)) none,
        Event.call (ProxyLBCall.ChangePlan lb1.ID (d.Get "plan").asInt) none]
      defers := [d.id] } with ⟨r, s'⟩
  rw [hT] at h1 h2
  simp only at h1 h2
  have hrun : resourceSakuraCloudProxyLBUpdate cl (St.init w d) =
      (r, { s' with trace := s'.trace ++ s'.defers.map Event.unlock, defers := [] }) := by
    unfold resourceSakuraCloudProxyLBUpdate
    refine func_run ?_
    simpa [St.init, hclient, proxyLBUpdateBody, proxyLBChangePlan, hplan, call, hread, hupd,
      hchg] using hT
  intro hok habs
  rw [hrun] at hok habs ⊢
  simp only at hok habs ⊢
  rcases h2 with h2 | ⟨-, h3 | h3 | h3⟩
  · exact h2
  · exact absurd hok (h3 ())
  · exact absurd h3 id
  · refine absurd ?_ habs
    rw [h1]
    exact (h3.append_right _).append_left _

/-- C14 (as stated) fails: a successful ProxyLB update with a changed plan, all of whose
remote calls succeed, ends with the resource ID "101" instead of "100". -/
theorem proxyLBUpdate_plan_change_replaces_id :
    (resourceSakuraCloudProxyLBUpdate (scriptedProxyLB []) (St.init 0 planChange)).1
      = Res.ok () ∧
    (resourceSakuraCloudProxyLBUpdate (scriptedProxyLB []) (St.init 0 planChange)).2.trace
      = [Event.lock "100", Event.call (ProxyLBCall.Read 100) none,
         Event.call (ProxyLBCall.Update 100 Value.null) none,
         Event.call (ProxyLBCall.ChangePlan 100 500) none,
         Event.call (ProxyLBCall.Read 101) none,
         Event.call (ProxyLBCall.GetCertificates 101) none, Event.unlock "100"] ∧
    planChange.id = "100" ∧
    (resourceSakuraCloudProxyLBUpdate (scriptedProxyLB []) (St.init 0 planChange)).2.d.id
      = "101" := by
  refine ⟨rfl, rfl, rfl, rfl⟩

/-- C14 (amended): after a run of an Update handler (DNS, MobileGateway, NFS, Note,
SimpleMonitor, SSHKey, ServerConnector, and ProxyLB without a plan change) that returns nil
and in which the resource still exists remotely, in that no Read of the resource is answered
with not-found, the resource ID is the ID before the run; not-found replies to other calls
do not matter.  After such a run of the ProxyLB update with a changed plan, the resource ID
is the ID of the resource that `ChangePlan` returned.  `setPowerManageTimeoutValueToState`
is assumed to leave the ID alone. -/
theorem update_handlers_resource_id (dns : DNSClient σ) (mgw : MGWClient σ)
    (nfs : NFSClient σ) (note : NoteClient σ) (monitor : SimpleMonitorClient σ)
    (key : SSHKeyClient σ) (server : ServerClient σ) (lb : ProxyLBClient σ)
    (w w1 w2 w3 : σ) (d : ResourceData) (lb0 lb1 upd : ProxyLB)
    (hmgw : ∀ d, (mgw.setPowerManageTimeoutValueToState d).id = d.id)
    (hserver : ∀ d, (server.setPowerManageTimeoutValueToState d).id = d.id) :
    IdKept DNSCall.isRead d (resourceSakuraCloudDNSUpdate dns (St.init w d)) ∧
    IdKept MGWCall.isRead d (resourceSakuraCloudMobileGatewayUpdate mgw (St.init w d)) ∧
    IdKept NFSCall.isRead d (resourceSakuraCloudNFSUpdate nfs (St.init w d)) ∧
    IdKept NoteCall.isRead d (resourceSakuraCloudNoteUpdate note (St.init w d)) ∧
    IdKept SimpleMonitorCall.isRead d
      (resourceSakuraCloudSimpleMonitorUpdate monitor (St.init w d)) ∧
    IdKept SSHKeyCall.isRead d (resourceSakuraCloudSSHKeyUpdate key (St.init w d)) ∧
    IdKept ServerCall.isRead d
      (resourceSakuraCloudServerConnectorUpdate server (St.init w d)) ∧
    (d.HasChange "plan" = false →
      IdKept ProxyLBCall.isRead d (resourceSakuraCloudProxyLBUpdate lb (St.init w d))) ∧
    (lb.sakuraCloudClient d = none → d.HasChange "plan" = true →
      lb.lb (ProxyLBCall.Read (lb.sakuraCloudID d.id)) w = (Except.ok lb0, w1) →
      lb.lb (ProxyLBCall.Update lb0.ID (lb.expandProxyLBUpdateRequest d)) w1
        = (Except.ok lb1, w2) →
      lb.lb (ProxyLBCall.ChangePlan lb1.ID (d.Get "plan").asInt) w2 = (Except.ok upd, w3) →
      IdKept ProxyLBCall.isRead { d with id := lb.idString upd.ID }
        (resourceSakuraCloudProxyLBUpdate lb (St.init w d))) :=
  ⟨(resourceSakuraCloudDNSUpdate_keepsId dns False).idKept w d,
   (resourceSakuraCloudMobileGatewayUpdate_keepsId mgw False hmgw).idKept w d,
   (resourceSakuraCloudNFSUpdate_keepsId nfs False).idKept w d,
   (resourceSakuraCloudNoteUpdate_keepsId note False).idKept w d,
   (resourceSakuraCloudSimpleMonitorUpdate_keepsId monitor False).idKept w d,
   (resourceSakuraCloudSSHKeyUpdate_keepsId key False).idKept w d,
   (resourceSakuraCloudServerConnectorUpdate_keepsId server False hserver).idKept w d,
   resourceSakuraCloudProxyLBUpdate_idKept lb w d,
   resourceSakuraCloudProxyLBUpdate_new_id lb w w1 w2 w3 d lb0 lb1 upd⟩

/-- C14 on the sample resources: a DNS update keeps the ID "100"; the update of gateway 100
that removes the traffic control keeps the ID "100" although
`DisableTrafficMonitoringConfig` is answered with not-found; a ProxyLB update with a changed
plan ends with the ID "101" of the replacement. -/
theorem update_handlers_resource_id_witness :
    (resourceSakuraCloudDNSUpdate (scriptedDNS []) (St.init 0 planChange)).2.d.id = "100" ∧
    (Event.call (MGWCall.DisableTrafficMonitoringConfig 100) (some notFound) ∈
        (resourceSakuraCloudMobileGatewayUpdate (scriptedMGW sampleGateway [(2, notFound)])
          (St.init 0 removeTrafficControl)).2.trace ∧
      (resourceSakuraCloudMobileGatewayUpdate (scriptedMGW sampleGateway [(2, notFound)])
        (St.init 0 removeTrafficControl)).2.d.id = "100") ∧
    (resourceSakuraCloudProxyLBUpdate (scriptedProxyLB []) (St.init 0 planChange)).2.d.id
      = "101" :=
  have h := update_handlers_resource_id (scriptedDNS []) (scriptedMGW sampleGateway [])
    (scriptedNFS []) (scriptedNote []) (scriptedMonitor []) (scriptedSSHKey [])
    (scriptedServer []) (scriptedProxyLB []) 0 1 2 3 planChange
    { sampleProxyLB with ID := 100 } { sampleProxyLB with ID := 100 }
    { sampleProxyLB with ID := 101, Plan := 500 } (fun _ => rfl) (fun _ => rfl)
  ⟨h.1 rfl (not_reportsAbsent_of_readsFound _ (by decide)),
   ⟨by decide,
    (update_handlers_resource_id (scriptedDNS []) (scriptedMGW sampleGateway [(2, notFound)])
      (scriptedNFS []) (scriptedNote []) (scriptedMonitor []) (scriptedSSHKey [])
      (scriptedServer []) (scriptedProxyLB []) 0 1 2 3 removeTrafficControl
      sampleProxyLB sampleProxyLB sampleProxyLB (fun _ => rfl) (fun _ => rfl)).2.1 rfl
      (not_reportsAbsent_of_readsFound _ (by decide))⟩,
   h.2.2.2.2.2.2.2.2 rfl (by decide) rfl rfl rfl rfl
     (not_reportsAbsent_of_readsFound _ (by decide))⟩

end ResourceId

/-! ### DNS reconfiguration on update (C15) and traffic-control read errors (C18) -/

/-- C15 at the failing input: `dns_server1` changes from 8.8.8.8 to 1.1.1.1.  The update
handler returns nil without a `SetDNS` call: its guard asks for changes of `dns1` and `dns2`,
which are not attributes of the resource.  Create, with the same desired values, does
call `SetDNS`. -/
theorem mgwUpdate_dns_change_sets_no_dns :
    dnsChange.HasChange "dns_server1" = true ∧
    (resourceSakuraCloudMobileGatewayUpdate (scriptedMGW sampleGateway [])
        (St.init 0 dnsChange)).1 = Res.ok () ∧
    (resourceSakuraCloudMobileGatewayUpdate (scriptedMGW sampleGateway [])
        (St.init 0 dnsChange)).2.trace =
      [Event.lock "100", Event.call (MGWCall.Read 100) none,
       Event.call (MGWCall.Update 100 sampleGateway) none,
       Event.call (MGWCall.Read 100) none,
       Event.call (MGWCall.GetTrafficMonitoringConfig 100) none,
       Event.call (MGWCall.GetDNS 100) none, Event.call (MGWCall.ListSIM 100) none,
       Event.unlock "100"] ∧
    Event.call (MGWCall.SetDNS 100 ⟨"1.1.1.1", ""⟩) none ∈
      (resourceSakuraCloudMobileGatewayCreate (scriptedMGW sampleGateway [])
        sampleCreateNewMobileGateway (St.init 0 dnsChange)).2.trace := by
  refine ⟨by decide, rfl, rfl, by decide⟩

/-- C18 at the failing input: `GetTrafficMonitoringConfig` fails with an error that is not
an API error.  `setMobileGatewayResourceData` goes on and returns nil, whereas it returns an
error for a 503 API error, and the `DisableTrafficMonitoringConfig` branch of Update returns
an error for the same non-API error. -/
theorem setMobileGatewayResourceData_swallows_plain_error :
    (setMobileGatewayResourceData (scriptedMGW sampleGateway [(0, ioTimeout)]) sampleGateway
        (St.init 0 unchangedData)).1 = Res.ok () ∧
    (setMobileGatewayResourceData (scriptedMGW sampleGateway [(0, ioTimeout)]) sampleGateway
        (St.init 0 unchangedData)).2.trace =
      [Event.call (MGWCall.GetTrafficMonitoringConfig 100) (some ioTimeout),
       Event.call (MGWCall.GetDNS 100) none, Event.call (MGWCall.ListSIM 100) none] ∧
    (setMobileGatewayResourceData (scriptedMGW sampleGateway [(0, serverError)]) sampleGateway
        (St.init 0 unchangedData)).1 =
      Res.err (wrapErr "Error reading SakuraCloud MobileGateway resource(traffic-control): "
        serverError) ∧
    (mgwUpdateTrafficControl (scriptedMGW sampleGateway [(0, ioTimeout)]) removeTrafficControl
        sampleGateway (St.init 0 removeTrafficControl)).1 =
      Res.err (wrapErr "Failed to disable traffic-control on SakuraCloud MobileGateway: "
        ioTimeout) := by
  refine ⟨rfl, rfl, rfl, rfl⟩

/-! ### Resources in the failed state (C19) -/

section FailedState

variable {σ : Type}

open Go

/-- C19: for a gateway and for an NFS appliance that the API reports in the failed state,
`setMobileGatewayResourceData` and `setNFSResourceData` return an error and leave the run
state as it was except for the resource ID, which is the empty string: no remote call is
issued and no attribute is set. -/
theorem failed_state_is_terminal (mgw : MGWClient σ) (nfs : NFSClient σ)
    (gateway : MobileGateway) (appliance : NFS) (s : St MGWCall σ) (t : St NFSCall σ) :
    (mgw.IsFailed gateway = true →
      setMobileGatewayResourceData mgw gateway s =
        (Res.err (newErr ("MobileGateway[" ++ toString gateway.ID ++ "] state is failed")),
         { s with d := { s.d with id := "" } })) ∧
    (nfs.IsFailed appliance = true →
      setNFSResourceData nfs appliance t =
        (Res.err (newErr ("got unexpected state: NFS[" ++ toString appliance.ID ++
          "].Availability is failed")),
         { t with d := { t.d with id := "" } })) := by
  refine ⟨fun h => ?_, fun h => ?_⟩
  · simp [setMobileGatewayResourceData, h]
  · simp [setNFSResourceData, h]

/-- C19 on the failed sample resources. -/
theorem failed_state_is_terminal_witness :
    setMobileGatewayResourceData (scriptedMGW failedGateway []) failedGateway
        (St.init 0 unchangedData) =
      (Res.err (newErr "MobileGateway[100] state is failed"),
       St.init 0 { unchangedData with id := "" }) ∧
    setNFSResourceData (scriptedNFS []) failedNFS (St.init 0 unchangedData) =
      (Res.err (newErr "got unexpected state: NFS[100].Availability is failed"),
       St.init 0 { unchangedData with id := "" }) :=
  have h := failed_state_is_terminal (scriptedMGW failedGateway []) (scriptedNFS [])
    failedGateway failedNFS (St.init 0 unchangedData) (St.init 0 unchangedData)
  ⟨h.1 rfl, h.2 rfl⟩

end FailedState

/-! ### The stop loop of the VPCRouterInterface handlers (C20) -/

section StopLoop

variable {σ : Type}

open Go

/-- The stop loop with `n` iterations left appends status Reads and shutdown requests only,
at most `n` of each. -/
theorem vpcRouterStopLoop_bounded (cl : VPCRouterClient σ) (routerID : String) (n : Nat)
    (s : St VPCRouterCall σ) :
    ∃ evs, (vpcRouterStopLoop cl routerID n s).2.trace = s.trace ++ evs ∧
      (evs.filter isRouterRead).length ≤ n ∧ (evs.filter isRouterShutdown).length ≤ n ∧
      ∀ e ∈ evs, isRouterRead e = true ∨ isRouterShutdown e = true := by
  induction n generalizing s with
  | zero => exact ⟨[], by simp [vpcRouterStopLoop], by simp, by simp, by simp⟩
  | succ n ih =>
    unfold vpcRouterStopLoop
    rcases ok_or_error (cl.router (VPCRouterCall.Read (cl.toSakuraCloudID routerID)) s.world)
      with ⟨r, w, h⟩ | ⟨e, w, h⟩
    · by_cases hd : cl.IsDown r = true
      · refine ⟨[Event.call (VPCRouterCall.Read (cl.toSakuraCloudID routerID)) none], ?_, ?_,
          ?_, ?_⟩ <;> simp [call_ok h, hd, isRouterRead, isRouterShutdown]
      · rcases ok_or_error (cl.unit (VPCRouterCall.handleShutdown r.ID) w)
          with ⟨u, w2, h2⟩ | ⟨e, w2, h2⟩
        · obtain ⟨evs, h3, h4, h5, h6⟩ := ih
            { s with world := w2, trace := s.trace ++
              [Event.call (VPCRouterCall.Read (cl.toSakuraCloudID routerID)) none,
               Event.call (VPCRouterCall.handleShutdown r.ID) none] }
          refine ⟨[Event.call (VPCRouterCall.Read (cl.toSakuraCloudID routerID)) none,
            Event.call (VPCRouterCall.handleShutdown r.ID) none] ++ evs, ?_, ?_, ?_, ?_⟩
          · simpa [call_ok h, hd, callE, h2] using h3
          · simpa [isRouterRead, List.filter_cons] using h4
          · simpa [isRouterShutdown, List.filter_cons] using h5
          · intro e he
            rcases List.mem_append.mp he with he | he
            · simp at he
              rcases he with he | he <;> simp [he, isRouterRead, isRouterShutdown]
            · exact h6 e he
        · obtain ⟨evs, h3, h4, h5, h6⟩ := ih
            { s with world := w2, trace := s.trace ++
              [Event.call (VPCRouterCall.Read (cl.toSakuraCloudID routerID)) none,
               Event.call (VPCRouterCall.handleShutdown r.ID) (some e)] }
          refine ⟨[Event.call (VPCRouterCall.Read (cl.toSakuraCloudID routerID)) none,
            Event.call (VPCRouterCall.handleShutdown r.ID) (some e)] ++ evs, ?_, ?_, ?_, ?_⟩
          · simpa [call_ok h, hd, callE, h2] using h3
          · simpa [isRouterRead, List.filter_cons] using h4
          · simpa [isRouterShutdown, List.filter_cons] using h5
          · intro e he
            rcases List.mem_append.mp he with he | he
            · simp at he
              rcases he with he | he <;> simp [he, isRouterRead, isRouterShutdown]
            · exact h6 e he
    · refine ⟨[Event.call (VPCRouterCall.Read (cl.toSakuraCloudID routerID)) (some e)], ?_, ?_,
          ?_, ?_⟩ <;> simp [call_error h, isRouterRead, isRouterShutdown]

/-- C20: the stop loop of the VPCRouterInterface handlers (ten iterations) is a total
function of the run state; it appends status Reads and shutdown requests only, at most ten
of each.  In every iteration a Read that reports the router down ends the loop, with no
shutdown request in that iteration; after a Read that reports it not down one shutdown
request is issued and the remaining iterations follow. -/
theorem vpcRouterStopLoop_terminates (cl : VPCRouterClient σ) (routerID : String)
    (s : St VPCRouterCall σ) :
    (∃ evs, (vpcRouterStopLoop cl routerID 10 s).2.trace = s.trace ++ evs ∧
      (evs.filter isRouterRead).length ≤ 10 ∧ (evs.filter isRouterShutdown).length ≤ 10 ∧
      ∀ e ∈ evs, isRouterRead e = true ∨ isRouterShutdown e = true) ∧
    (∀ n r w, cl.router (VPCRouterCall.Read (cl.toSakuraCloudID routerID)) s.world
        = (Except.ok r, w) → cl.IsDown r = true →
      vpcRouterStopLoop cl routerID (n + 1) s =
        (Res.ok (), { s with
          world := w
          trace := s.trace ++
            [Event.call (VPCRouterCall.Read (cl.toSakuraCloudID routerID)) none] })) ∧
    (∀ n r w, cl.router (VPCRouterCall.Read (cl.toSakuraCloudID routerID)) s.world
        = (Except.ok r, w) → cl.IsDown r = false →
      vpcRouterStopLoop cl routerID (n + 1) s =
        (do
          let _ ← callE (VPCRouterCall.handleShutdown r.ID) cl.unit
          vpcRouterStopLoop cl routerID n : Go VPCRouterCall σ Unit)
        { s with
          world := w
          trace := s.trace ++
            [Event.call (VPCRouterCall.Read (cl.toSakuraCloudID routerID)) none] }) := by
  refine ⟨vpcRouterStopLoop_bounded cl routerID 10 s, ?_, ?_⟩
  · intro n r w h hd
    simp [vpcRouterStopLoop, call_ok h, hd]
  · intro n r w h hd
    simp [vpcRouterStopLoop, call_ok h, hd]

/-- C20 on a router that already reports down: the loop ends after one Read. -/
theorem vpcRouterStopLoop_terminates_witness :
    vpcRouterStopLoop stoppableRouter "100" 10 (St.init true routerInterfaceData) =
      (Res.ok (), { (St.init true routerInterfaceData : St VPCRouterCall Bool) with
        trace := [Event.call (VPCRouterCall.Read 100) none] }) :=
  (vpcRouterStopLoop_terminates stoppableRouter "100" (St.init true routerInterfaceData)).2.1
    9 { sampleRouter with InstanceStatus := "down" } true rfl rfl

end StopLoop

/-! ### Late validation in VPCRouterInterface Create (C13) -/

/-- C13 at the failing input: an empty `ipaddress` list for a router that is up.  Create
reads the router, takes the power lock, requests the shutdown and sees the router down
before it returns the validation error; the router stays down. -/
theorem vpcRouterInterfaceCreate_validates_after_shutdown :
    resourceSakuraCloudVPCRouterInterfaceCreate stoppableRouter
        (St.init false routerInterfaceNoAddress) =
      (Res.err (newErr "SakuraCloud VPCRouterInterface: ipaddresses is required "),
       { world := true
         d := routerInterfaceNoAddress
         trace := [Event.lock "100", Event.call (VPCRouterCall.Read 100) none,
           Event.lock "power:100", Event.call (VPCRouterCall.Read 100) none,
           Event.call (VPCRouterCall.handleShutdown 100) none,
           Event.call (VPCRouterCall.Read 100) none,
           Event.unlock "power:100", Event.unlock "100"]
         defers := [] }) := by
  rfl

/-! ### Disconnect, connect, reconfigure (C17) -/

theorem ConnectRule.of_noConnect {flag : Bool} {evs : List (Event MGWCall)}
    (h : ∀ x ∈ evs, isConnect x = false) : ConnectRule flag evs := by
  intro pre id sw r post heq
  have := h (Event.call (.ConnectToSwitch id sw) r) (by simp [heq])
  simp [isConnect] at this

theorem ConnectRule.cons_other {flag : Bool} {e : Event MGWCall} {evs : List (Event MGWCall)}
    (he : isConnect e = false) (h : ConnectRule flag evs) : ConnectRule flag (e :: evs) := by
  intro pre id sw r post heq
  rcases List.cons_eq_append_iff.mp heq with ⟨rfl, h2⟩ | ⟨pre', rfl, h2⟩
  · simp at h2
    rw [← h2.1] at he
    simp [isConnect] at he
  · obtain ⟨h3, h4⟩ := h pre' id sw r post h2
    exact ⟨fun hf => (h3 hf).imp (fun _ hm => List.mem_cons_of_mem _ hm), h4⟩

theorem ConnectRule.cons_disconnect {flag : Bool} (id : Int) {evs : List (Event MGWCall)}
    (h : ConnectRule false evs) :
    ConnectRule flag (Event.call (.DisconnectFromSwitch id) none :: evs) := by
  intro pre id' sw r post heq
  rcases List.cons_eq_append_iff.mp heq with ⟨rfl, h2⟩ | ⟨pre', rfl, h2⟩
  · simp at h2
  · exact ⟨fun _ => ⟨id, by simp⟩, (h pre' id' sw r post h2).2⟩

theorem ConnectRule.cons_connect (id sw : Int) (r : Option Err) {evs : List (Event MGWCall)}
    (h1 : ∀ x ∈ evs, isConnect x = false) (h2 : r = none → StartsWithReconfigure evs) :
    ConnectRule false (Event.call (.ConnectToSwitch id sw) r :: evs) := by
  intro pre id' sw' r' post heq
  rcases List.cons_eq_append_iff.mp heq with ⟨rfl, h3⟩ | ⟨pre', rfl, h3⟩
  · simp at h3
    obtain ⟨⟨-, -, rfl⟩, rfl⟩ := h3
    exact ⟨by simp, h2⟩
  · have := h1 (Event.call (.ConnectToSwitch id' sw') r') (by simp [h3])
    simp [isConnect] at this

theorem StartsWithReconfigure.append {evs : List (Event MGWCall)}
    (h : StartsWithReconfigure evs) (more : List (Event MGWCall)) :
    StartsWithReconfigure (evs ++ more) := by
  obtain ⟨id, m, r, rest, rfl, h2⟩ := h
  refine ⟨id, m, r, rest ++ more, by simp, fun hr => ?_⟩
  obtain ⟨id', r', rest', rfl⟩ := h2 hr
  exact ⟨id', r', rest' ++ more, by simp⟩

theorem ConnectRule.then_quiet {flag : Bool} {evs more : List (Event MGWCall)}
    (h : ConnectRule flag evs) (hm : ∀ x ∈ more, isConnect x = false) :
    ConnectRule flag (evs ++ more) := by
  intro pre id sw r post heq
  rcases List.append_eq_append_iff.mp heq with ⟨a', rfl, h2⟩ | ⟨c', rfl, h2⟩
  · have := hm (Event.call (.ConnectToSwitch id sw) r) (by simp [h2])
    simp [isConnect] at this
  · rcases List.cons_eq_append_iff.mp h2 with ⟨rfl, h3⟩ | ⟨post', rfl, rfl⟩
    · have := hm (Event.call (.ConnectToSwitch id sw) r) (by simp [h3])
      simp [isConnect] at this
    · obtain ⟨h3, h4⟩ := h pre id sw r post' rfl
      exact ⟨h3, fun hr => (h4 hr).append _⟩

theorem ConnectRule.weaken_to_false {flag : Bool} {evs : List (Event MGWCall)}
    (h : ConnectRule flag evs) : ConnectRule false evs := by
  intro pre id sw r post heq
  exact ⟨by simp, (h pre id sw r post heq).2⟩


theorem ConnectRule.after_quiet {flag : Bool} {pre evs : List (Event MGWCall)}
    (hp : ∀ x ∈ pre, isConnect x = false) (h : ConnectRule flag evs) :
    ConnectRule flag (pre ++ evs) := by
  induction pre with
  | nil => simpa using h
  | cons x rest ih =>
    exact ConnectRule.cons_other (hp x (by simp))
      (ih (fun y hy => hp y (List.mem_cons_of_mem _ hy)))

namespace Go
variable {σ α β : Type}

theorem bind_bind {κ γ : Type} (m : Go κ σ α) (f : α → Go κ σ β) (g : β → Go κ σ γ) :
    (m >>= f) >>= g = m >>= fun a => f a >>= g := by
  funext s
  simp only [Go.bind_run]
  rcases m s with ⟨r, s1⟩
  cases r <;> rfl

theorem Obeys.of_noConnect_emits {flag : Bool} {m : Go MGWCall σ α}
    (h : Emits (fun e => isConnect e = false) m) : Obeys flag m :=
  ⟨fun s => by
    obtain ⟨-, evs, h1, h2⟩ := h.run s
    exact ⟨evs, h1, ConnectRule.of_noConnect h2⟩⟩

theorem Obeys.to_false {flag : Bool} {m : Go MGWCall σ α} (h : Obeys flag m) :
    Obeys false m :=
  ⟨fun s => by
    obtain ⟨evs, h1, h2⟩ := h.run s
    exact ⟨evs, h1, h2.weaken_to_false⟩⟩

theorem Obeys.bind_left {flag : Bool} {m : Go MGWCall σ α} {f : α → Go MGWCall σ β}
    (hm : Emits (fun e => isConnect e = false) m) (hf : ∀ a, Obeys flag (f a)) :
    Obeys flag (m >>= f) :=
  ⟨fun s => by
    obtain ⟨-, evs1, h1, h2⟩ := hm.run s
    rcases hms : m s with ⟨r, s1⟩
    rw [hms] at h1
    simp only at h1
    cases r with
    | ok a =>
      obtain ⟨evs2, h3, h4⟩ := (hf a).run s1
      exact ⟨evs1 ++ evs2, by simp [hms, h3, h1], ConnectRule.after_quiet h2 h4⟩
    | err e => exact ⟨evs1, by simp [hms, h1], ConnectRule.of_noConnect h2⟩
    | panic => exact ⟨evs1, by simp [hms, h1], ConnectRule.of_noConnect h2⟩⟩

theorem Obeys.bind_right {flag : Bool} {m : Go MGWCall σ α} {f : α → Go MGWCall σ β}
    (hm : Obeys flag m) (hf : ∀ a, Emits (fun e => isConnect e = false) (f a)) :
    Obeys flag (m >>= f) :=
  ⟨fun s => by
    obtain ⟨evs1, h1, h2⟩ := hm.run s
    rcases hms : m s with ⟨r, s1⟩
    rw [hms] at h1
    simp only at h1
    cases r with
    | ok a =>
      obtain ⟨-, evs2, h3, h4⟩ := (hf a).run s1
      exact ⟨evs1 ++ evs2, by simp [hms, h3, h1], h2.then_quiet h4⟩
    | err e => exact ⟨evs1, by simp [hms, h1], h2⟩
    | panic => exact ⟨evs1, by simp [hms, h1], h2⟩⟩

/-- After a successful `DisconnectFromSwitch` nothing more is asked of a later connect. -/
theorem Obeys.disconnect_bind {flag : Bool} (pfx : String) (id : Int)
    (f : MGWCall → σ → Except Err α × σ) (k : α → Go MGWCall σ β)
    (hk : ∀ a, Obeys false (k a)) :
    Obeys flag (Go.call pfx (MGWCall.DisconnectFromSwitch id) f >>= k) :=
  ⟨fun s => by
    rcases ok_or_error (f (MGWCall.DisconnectFromSwitch id) s.world) with ⟨a, w, h⟩ | ⟨e, w, h⟩
    · obtain ⟨evs, h1, h2⟩ := (hk a).run
        { s with world := w
                 trace := s.trace ++ [Event.call (MGWCall.DisconnectFromSwitch id) none] }
      exact ⟨Event.call (MGWCall.DisconnectFromSwitch id) none :: evs,
        by simp [call_ok h, h1], ConnectRule.cons_disconnect id h2⟩
    · exact ⟨[Event.call (MGWCall.DisconnectFromSwitch id) (some e)], by simp [call_error h],
        ConnectRule.of_noConnect (by simp [isConnect])⟩⟩

/-- A `ConnectToSwitch` that is followed by the reconfiguration. -/
theorem Obeys.connect_bind (pfx : String) (id sw : Int)
    (f : MGWCall → σ → Except Err α × σ) (k : α → Go MGWCall σ β)
    (hk : ∀ a, Reconfigures (k a)) :
    Obeys false (Go.call pfx (MGWCall.ConnectToSwitch id sw) f >>= k) :=
  ⟨fun s => by
    rcases ok_or_error (f (MGWCall.ConnectToSwitch id sw) s.world) with ⟨a, w, h⟩ | ⟨e, w, h⟩
    · obtain ⟨evs, h1, h2, h3⟩ := (hk a).run
        { s with world := w
                 trace := s.trace ++ [Event.call (MGWCall.ConnectToSwitch id sw) none] }
      exact ⟨Event.call (MGWCall.ConnectToSwitch id sw) none :: evs,
        by simp [call_ok h, h1], ConnectRule.cons_connect id sw none h3 (fun _ => h2)⟩
    · exact ⟨[Event.call (MGWCall.ConnectToSwitch id sw) (some e)], by simp [call_error h],
        ConnectRule.cons_connect id sw (some e) (by simp) (by simp)⟩⟩

theorem Reconfigures.obeys {flag : Bool} {m : Go MGWCall σ α} (h : Reconfigures m) :
    Obeys flag m :=
  ⟨fun s => by
    obtain ⟨evs, h1, -, h3⟩ := h.run s
    exact ⟨evs, h1, ConnectRule.of_noConnect h3⟩⟩

end Go

section ConnectRuleHandlers

variable {σ : Type}

open Go

/-- Lines 454-462: `Update` and `Config` at the end of the network block. -/
theorem mgwUpdateNetwork_reconfigures (cl : MGWClient σ) (mgw : MobileGateway)
    (needRestart : Bool) :
    Reconfigures (do
      let mgw ← call "MobileGatewayInterfaceConnect is failed: " (.Update mgw.ID mgw) cl.mgw
      call "MobileGatewayInterfaceConnect is failed: " (.Config mgw.ID) cl.unit
      pure (mgw, needRestart) : Go MGWCall σ (MobileGateway × Bool)) :=
  ⟨fun s => by
    rcases ok_or_error (cl.mgw (MGWCall.Update mgw.ID mgw) s.world) with ⟨m, w, h⟩ | ⟨e, w, h⟩
    · rcases ok_or_error (cl.unit (MGWCall.Config m.ID) w) with ⟨u, w2, h2⟩ | ⟨e, w2, h2⟩
      · exact ⟨[Event.call (MGWCall.Update mgw.ID mgw) none,
            Event.call (MGWCall.Config m.ID) none],
          by simp [call, h, h2], ⟨_, _, _, _, rfl, fun _ => ⟨_, _, _, rfl⟩⟩,
          by simp [isConnect]⟩
      · exact ⟨[Event.call (MGWCall.Update mgw.ID mgw) none,
            Event.call (MGWCall.Config m.ID) (some e)],
          by simp [call, h, h2], ⟨_, _, _, _, rfl, fun _ => ⟨_, _, _, rfl⟩⟩,
          by simp [isConnect]⟩
    · exact ⟨[Event.call (MGWCall.Update mgw.ID mgw) (some e)], by simp [call, h],
        ⟨_, _, _, _, rfl, by simp⟩, by simp [isConnect]⟩⟩

/-- The network block obeys the connect rule; a successful disconnect is required when
`switch_id` has changed and interface 1 of the gateway is attached to a switch. -/
theorem mgwUpdateNetwork_obeys (cl : MGWClient σ) (d : ResourceData) (switchID : Int)
    (ip : String) (nwMaskLen : Int) (mgw : MobileGateway) :
    Obeys (d.HasChange "switch_id" && (mgw.Interfaces.get? 1).any (fun nic => nic.Switch.isSome))
      (mgwUpdateNetwork cl d switchID ip nwMaskLen mgw) := by
  unfold mgwUpdateNetwork
  split
  · apply Obeys.bind_left
    · repeat' first
        | exact Emits.pure _
        | exact Emits.call _ _ _ (fun _ => rfl)
        | apply Emits.bind
        | intro _
        | split
    · intro needRestart
      have hrest : Obeys false (do
          let mgw ← (if switchID > 0 then do
              call "Error updating SakuraCloud MobileGateway resource: "
                (.ConnectToSwitch mgw.ID switchID) cl.unit
              let mgw := if mgw.Settings.Interfaces.length = 0
                then { mgw with Settings := { mgw.Settings with
                        Interfaces := mgw.Settings.Interfaces ++ [none] } }
                else mgw
              pure (cl.SetPrivateInterface mgw ip nwMaskLen)
            else pure (cl.ClearPrivateInterface mgw) : Go MGWCall σ MobileGateway)
          let mgw ← call "MobileGatewayInterfaceConnect is failed: " (.Update mgw.ID mgw) cl.mgw
          call "MobileGatewayInterfaceConnect is failed: " (.Config mgw.ID) cl.unit
          pure (mgw, needRestart) : Go MGWCall σ (MobileGateway × Bool)) := by
        split
        · rw [Go.bind_bind]
          apply Obeys.connect_bind
          intro _
          rw [Go.pure_bind]
          exact mgwUpdateNetwork_reconfigures cl _ _
        · rw [Go.pure_bind]
          exact (mgwUpdateNetwork_reconfigures cl _ _).obeys
      split
      · exact Obeys.disconnect_bind _ _ _ _ (fun _ => hrest)
      · rename_i hflag
        rw [Go.pure_bind]
        have : (d.HasChange "switch_id" &&
            (mgw.Interfaces.get? 1).any (fun nic => nic.Switch.isSome)) = false := by
          simpa using hflag
        rw [this]
        exact hrest
  · exact Obeys.of_noConnect_emits (Emits.pure _)

/-- What follows the network block in the update handler issues no `ConnectToSwitch`. -/
theorem mgwUpdate_tail_noConnect (cl : MGWClient σ) (d : ResourceData)
    (r : MobileGateway × Bool) :
    Emits (fun e => isConnect e = false) (do
      mgwUpdateTrafficControl cl d r.1
      mgwUpdateDNS cl d r.1
      let mgw ← mgwUpdateStaticRoute cl d r.1
      mgwRestart cl r.2 mgw
      resourceSakuraCloudMobileGatewayRead cl : Go MGWCall σ Unit) := by
  unfold mgwUpdateTrafficControl mgwUpdateDNS mgwUpdateStaticRoute mgwRestart
  repeat' first
    | exact resourceSakuraCloudMobileGatewayRead_emits cl _
        (fun c _ hc => by cases c <;> first | rfl | cases hc)
    | exact Emits.pure _
    | exact Emits.fail _
    | exact Emits.call _ _ _ (fun _ => rfl)
    | exact Emits.callE _ _ (fun _ => rfl)
    | apply Emits.bind
    | intro _
    | split
    | dsimp only

/-- What follows the metadata Update in the update handler, for the gateway `mgw` that the
Update returned. -/
theorem mgwUpdate_afterMetadata_obeys (cl : MGWClient σ) (d : ResourceData) (switchID : Int)
    (ip : String) (nwMaskLen : Int) (mgw : MobileGateway) :
    Obeys (d.HasChange "switch_id" && (mgw.Interfaces.get? 1).any (fun nic => nic.Switch.isSome))
      (do
        let r ← mgwUpdateNetwork cl d switchID ip nwMaskLen mgw
        mgwUpdateTrafficControl cl d r.1
        mgwUpdateDNS cl d r.1
        let mgw ← mgwUpdateStaticRoute cl d r.1
        mgwRestart cl r.2 mgw
        resourceSakuraCloudMobileGatewayRead cl : Go MGWCall σ Unit) :=
  Obeys.bind_right (mgwUpdateNetwork_obeys cl d switchID ip nwMaskLen mgw)
    (fun r => mgwUpdate_tail_noConnect cl d r)

/-- The update body obeys the connect rule as far as the reconfiguration goes. -/
theorem mgwUpdateBody_obeys (cl : MGWClient σ) (d : ResourceData) :
    Obeys false (mgwUpdateBody cl d) := by
  unfold mgwUpdateBody mgwUpdateAfterRead
  refine Obeys.bind_left (Emits.call _ _ _ (fun _ => rfl)) (fun m0 => ?_)
  split
  · exact Obeys.of_noConnect_emits (Emits.fail _)
  · refine Obeys.bind_left (Emits.call _ _ _ (fun _ => rfl)) (fun m1 => ?_)
    exact (mgwUpdate_afterMetadata_obeys cl d _ _ _ m1).to_false

/-- C17 (as stated) fails: for a gateway attached to switch 101 whose private address
changes while `switch_id` stays, the handler calls `ConnectToSwitch` without an earlier
`DisconnectFromSwitch`; and a `ConnectToSwitch` that fails ends the handler, so that no
`Update` follows it. -/
theorem mgwUpdate_connects_without_disconnect :
    (attachedGateway.Interfaces.get? 1).any (fun nic => nic.Switch.isSome) = true ∧
    (resourceSakuraCloudMobileGatewayUpdate (scriptedMGW attachedGateway [])
        (St.init 0 addressChange)).2.trace =
      [Event.lock "100", Event.call (MGWCall.Read 100) none,
       Event.call (MGWCall.Update 100 attachedGateway) none,
       Event.call (MGWCall.handleShutdown 100) none,
       Event.call (MGWCall.SleepUntilDown 100) none,
       Event.call (MGWCall.ConnectToSwitch 100 101) none,
       Event.call (MGWCall.Update 100
         ((scriptedMGW attachedGateway []).SetPrivateInterface attachedGateway
           "192.168.1.20" 24)) none,
       Event.call (MGWCall.Config 100) none, Event.call (MGWCall.Boot 100) none,
       Event.call (MGWCall.SleepUntilUp 100) none, Event.call (MGWCall.Read 100) none,
       Event.call (MGWCall.GetTrafficMonitoringConfig 100) none,
       Event.call (MGWCall.GetDNS 100) none, Event.call (MGWCall.ListSIM 100) none,
       Event.unlock "100"] ∧
    (resourceSakuraCloudMobileGatewayUpdate (scriptedMGW attachedGateway [(4, serverError)])
        (St.init 0 addressChange)).2.trace =
      [Event.lock "100", Event.call (MGWCall.Read 100) none,
       Event.call (MGWCall.Update 100 attachedGateway) none,
       Event.call (MGWCall.handleShutdown 100) none,
       Event.call (MGWCall.SleepUntilDown 100) none,
       Event.call (MGWCall.ConnectToSwitch 100 101) (some serverError),
       Event.unlock "100"] := by
  refine ⟨rfl, rfl, rfl⟩

/-- C17 (amended): in every run of the update handler a `ConnectToSwitch` that succeeds is
directly followed by `Update`, and that `Update`, when it succeeds, by `Config`.  When the
initial Read and the metadata Update succeed, `switch_id` has changed and interface 1 of the
gateway that the metadata Update returned is attached to a switch, every `ConnectToSwitch`
of the run comes after a successful `DisconnectFromSwitch`. -/
theorem mgwUpdate_connect_rule (cl : MGWClient σ) (w : σ) (d : ResourceData) :
    ConnectRule false (resourceSakuraCloudMobileGatewayUpdate cl (St.init w d)).2.trace ∧
    (∀ m0 w1 m1 w2,
      cl.mgw (MGWCall.Read (cl.toSakuraCloudID d.id)) w = (Except.ok m0, w1) →
      cl.mgw (MGWCall.Update m0.ID (mgwApplyMetadata cl d m0)) w1 = (Except.ok m1, w2) →
      ConnectRule
        (d.HasChange "switch_id" && (m1.Interfaces.get? 1).any (fun nic => nic.Switch.isSome))
        (resourceSakuraCloudMobileGatewayUpdate cl (St.init w d)).2.trace) := by
  have hlock : isConnect (Event.lock d.id : Event MGWCall) = false := rfl
  have hunlock : ∀ x ∈ [(Event.unlock d.id : Event MGWCall)], isConnect x = false := by
    simp [isConnect]
  rw [resourceSakuraCloudMobileGatewayUpdate_run]
  simp only [St.init, List.nil_append]
  refine ⟨?_, ?_⟩
  · obtain ⟨evs, h1, h2⟩ := (mgwUpdateBody_obeys cl d).run
      { world := w, d := d, trace := [Event.lock d.id], defers := [d.id] }
    rw [h1]
    exact (ConnectRule.cons_other hlock h2).then_quiet hunlock
  · intro m0 w1 m1 w2 hread hupd
    unfold mgwUpdateBody mgwUpdateAfterRead
    simp only [Go.bind_run, Go.call, hread]
    cases hV : mgwSwitchParams cl d with
    | error e =>
      exact ConnectRule.of_noConnect (by simp [isConnect])
    | ok p =>
      obtain ⟨switchID, ip, nwMaskLen⟩ := p
      simp only [Go.bind_run, Go.call, hupd]
      obtain ⟨evs, h1, h2⟩ := (mgwUpdate_afterMetadata_obeys cl d switchID ip nwMaskLen m1).run
        { world := w2, d := d
          trace := [Event.lock d.id] ++
            [Event.call (MGWCall.Read (cl.toSakuraCloudID d.id)) none] ++
            [Event.call (MGWCall.Update m0.ID (mgwApplyMetadata cl d m0)) none]
          defers := [d.id] }
      simp only [Go.bind_run] at h1
      rw [h1]
      simp only [List.append_assoc, List.singleton_append]
      exact ConnectRule.cons_other rfl (ConnectRule.cons_other rfl
        (ConnectRule.cons_other rfl (h2.then_quiet hunlock)))

/-- C17 on gateway 100, attached to a switch, that moves from switch 100 to switch 101: the
connect comes after the disconnect and is followed by Update and Config. -/
theorem mgwUpdate_connect_rule_witness :
    ConnectRule true (resourceSakuraCloudMobileGatewayUpdate (scriptedMGW attachedGateway [])
      (St.init 0 switchChange)).2.trace ∧
    Event.call (MGWCall.ConnectToSwitch 100 101) none ∈
      (resourceSakuraCloudMobileGatewayUpdate (scriptedMGW attachedGateway [])
        (St.init 0 switchChange)).2.trace :=
  ⟨(mgwUpdate_connect_rule (scriptedMGW attachedGateway []) 0 switchChange).2
      attachedGateway 1 attachedGateway 2 rfl rfl,
   by decide⟩

end ConnectRuleHandlers

/-! ### Successful runs with a restart -/

section RestartShape

variable {κ σ α β : Type}

open Go

theorem AfterDown.prepend {b : Prop} [Decidable b] {isUp : List (Event κ) → Prop}
    {isMid isTail : Event κ → Bool} {pre evs : List (Event κ)}
    (hp : ∀ e ∈ pre, isMid e = true) (h : AfterDown b isUp isMid isTail evs) :
    AfterDown b isUp isMid isTail (pre ++ evs) := by
  obtain ⟨mid, up, tail, rfl, h1, h2, h3⟩ := h
  refine ⟨pre ++ mid, up, tail, by simp, ?_, h2, h3⟩
  intro e he
  rcases List.mem_append.mp he with he | he
  · exact hp e he
  · exact h1 e he

theorem Go.OnSuccess.on_emits {P : Event κ → Prop} {m : Go κ σ α} (h : Emits P m) :
    OnSuccess (fun evs => ∀ e ∈ evs, P e) m :=
  ⟨fun s a s' hrun => by
    obtain ⟨-, evs, h1, h2⟩ := h.run s
    rw [hrun] at h1
    exact ⟨evs, h1, h2⟩⟩

/-- Reconfiguring code in front of code that has the shape `AfterDown`. -/
theorem Go.OnSuccess.bind_mid {b : Prop} [Decidable b] {isUp : List (Event κ) → Prop}
    {isMid isTail : Event κ → Bool} {m : Go κ σ α} {f : α → Go κ σ β}
    (hm : Emits (fun e => isMid e = true) m)
    (hf : ∀ a, OnSuccess (AfterDown b isUp isMid isTail) (f a)) :
    OnSuccess (AfterDown b isUp isMid isTail) (m >>= f) :=
  ⟨fun s c s' hrun => by
    obtain ⟨-, evs1, h1, h2⟩ := hm.run s
    rcases hms : m s with ⟨r, s1⟩
    rw [hms] at h1
    simp only [Go.bind_run, hms] at hrun h1
    cases r with
    | ok a =>
      obtain ⟨evs2, h3, h4⟩ := (hf a).run s1 c s' hrun
      exact ⟨evs1 ++ evs2, by simp [h3, h1], h4.prepend h2⟩
    | err e => simp at hrun
    | panic => simp at hrun⟩

/-- The end of a run with a restart: the boot when `b` is set, then the read-back. -/
theorem Go.OnSuccess.boot_then_tail {b : Prop} [Decidable b] {isUp : List (Event κ) → Prop}
    {isMid isTail : Event κ → Bool} {boot : Go κ σ α} {f : α → Go κ σ β}
    (hboot : OnSuccess (fun evs => if b then isUp evs else evs = []) boot)
    (hf : ∀ a, Emits (fun e => isTail e = true) (f a)) :
    OnSuccess (AfterDown b isUp isMid isTail) (boot >>= f) :=
  ⟨fun s c s' hrun => by
    rcases hms : boot s with ⟨r, s1⟩
    simp only [Go.bind_run, hms] at hrun
    cases r with
    | ok a =>
      obtain ⟨up, h1, h2⟩ := hboot.run s a s1 hms
      obtain ⟨-, tail, h3, h4⟩ := (hf a).run s1
      have hrun' : f a s1 = (Res.ok c, s') := hrun
      rw [hrun'] at h3
      exact ⟨up ++ tail, by simpa [h1] using h3, [], up, tail, by simp, by simp, h2, h4⟩
    | err e => simp at hrun
    | panic => simp at hrun⟩

/-- A run with a restart: the shutdown when `b` is set, then code of the shape
`AfterDown`. -/
theorem Go.OnSuccess.down_then {b : Prop} [Decidable b] {down : List (Event κ)}
    {isUp : List (Event κ) → Prop} {isMid isTail : Event κ → Bool} {stop : Go κ σ α}
    {f : α → Go κ σ β}
    (hstop : OnSuccess (fun evs => evs = if b then down else []) stop)
    (hf : ∀ a, OnSuccess (AfterDown b isUp isMid isTail) (f a)) :
    OnSuccess (Sandwich b down isUp isMid isTail) (stop >>= f) :=
  ⟨fun s c s' hrun => by
    rcases hms : stop s with ⟨r, s1⟩
    simp only [Go.bind_run, hms] at hrun
    cases r with
    | ok a =>
      obtain ⟨dn, h1, h2⟩ := hstop.run s a s1 hms
      obtain ⟨rest, h3, h4⟩ := (hf a).run s1 c s' hrun
      exact ⟨dn ++ rest, by simp [h3, h1], rest, by rw [h2], h4⟩
    | err e => simp at hrun
    | panic => simp at hrun⟩

/-- A successful remote call appends its event. -/
theorem Go.OnSuccess.on_call (pfx : String) (c : κ) (f : κ → σ → Except Err α × σ) :
    OnSuccess (fun evs => evs = [Event.call c none]) (Go.call pfx c f) :=
  ⟨fun s a s' hrun => by
    rcases ok_or_error (f c s.world) with ⟨a', w, h⟩ | ⟨e, w, h⟩
    · rw [call_ok h] at hrun
      obtain ⟨-, rfl⟩ := Prod.mk.inj hrun
      exact ⟨_, rfl, rfl⟩
    · rw [call_error h] at hrun
      simp at hrun⟩

theorem Go.OnSuccess.on_pure (a : α) :
    OnSuccess (fun evs => evs = []) (pure a : Go κ σ α) :=
  ⟨fun s a' s' hrun => by
    simp at hrun
    exact ⟨[], by simp [← hrun.2], rfl⟩⟩

/-- A call that is issued when `b` is set. -/
theorem Go.OnSuccess.of_opt_call (b : Prop) [Decidable b] (pfx : String) (c : κ)
    (f : κ → σ → Except Err Unit × σ) :
    OnSuccess (fun evs => evs = if b then [Event.call c none] else [])
      (if b then Go.call pfx c f else pure () : Go κ σ Unit) := by
  split
  · exact Go.OnSuccess.on_call pfx c f
  · exact Go.OnSuccess.on_pure ()

/-- A boot call that is issued when `b` is set. -/
theorem Go.OnSuccess.of_opt_boot (b : Prop) [Decidable b] (pfx : String) (c : κ)
    (f : κ → σ → Except Err Unit × σ) :
    OnSuccess (fun evs => if b then evs = [Event.call c none] else evs = [])
      (if b then Go.call pfx c f else pure () : Go κ σ Unit) := by
  split
  · exact Go.OnSuccess.on_call pfx c f
  · exact Go.OnSuccess.on_pure ()

/-- The end of a run with a restart and without a read-back. -/
theorem Go.OnSuccess.boot_last {b : Prop} [Decidable b] {isUp : List (Event κ) → Prop}
    {isMid isTail : Event κ → Bool} {boot : Go κ σ α}
    (hboot : OnSuccess (fun evs => if b then isUp evs else evs = []) boot) :
    OnSuccess (AfterDown b isUp isMid isTail) boot :=
  ⟨fun s a s' hrun => by
    obtain ⟨up, h1, h2⟩ := hboot.run s a s' hrun
    exact ⟨up, h1, [], up, [], by simp, by simp, h2, by simp⟩⟩

/-- Two successful remote calls in a row append their two events. -/
theorem Go.OnSuccess.of_two_calls (p1 p2 : String) (c1 c2 : κ)
    (f1 f2 : κ → σ → Except Err Unit × σ) :
    OnSuccess (fun evs => evs = [Event.call c1 none, Event.call c2 none])
      (Go.call p1 c1 f1 >>= fun _ => Go.call p2 c2 f2) :=
  ⟨fun s a s' hrun => by
    rcases ok_or_error (f1 c1 s.world) with ⟨u, w, h⟩ | ⟨e, w, h⟩
    · rw [Go.bind_ok (call_ok h)] at hrun
      obtain ⟨evs, h1, h2⟩ := (Go.OnSuccess.on_call p2 c2 f2).run _ a s' hrun
      exact ⟨_, by rw [h1, h2]; simp, rfl⟩
    · rw [Go.bind_err (call_error h)] at hrun
      simp at hrun⟩

/-- A shutdown of two calls in front of code of the shape `AfterDown`, when `b` is set. -/
theorem Go.OnSuccess.down_two_then {b : Prop} [Decidable b] (hb : b)
    {isUp : List (Event κ) → Prop} {isMid isTail : Event κ → Bool}
    (p1 p2 : String) (c1 c2 : κ) (f1 f2 : κ → σ → Except Err Unit × σ) {f : Unit → Go κ σ β}
    (hf : ∀ a, OnSuccess (AfterDown b isUp isMid isTail) (f a)) :
    OnSuccess (Sandwich b [Event.call c1 none, Event.call c2 none] isUp isMid isTail)
      (Go.call p1 c1 f1 >>= fun _ => Go.call p2 c2 f2 >>= f) :=
  ⟨fun s a s' hrun => by
    rcases ok_or_error (f1 c1 s.world) with ⟨u, w, h⟩ | ⟨e, w, h⟩
    · rw [Go.bind_ok (call_ok h)] at hrun
      rcases ok_or_error (f2 c2 w) with ⟨u2, w2, h2⟩ | ⟨e, w2, h2⟩
      · rw [Go.bind_ok (call_ok h2)] at hrun
        obtain ⟨rest, h3, h4⟩ := (hf u2).run _ a s' hrun
        exact ⟨Event.call c1 none :: Event.call c2 none :: rest, by rw [h3]; simp, rest,
          by simp [hb], h4⟩
      · rw [Go.bind_err (call_error h2)] at hrun
        simp at hrun
    · rw [Go.bind_err (call_error h)] at hrun
      simp at hrun⟩

/-- Code of the shape `AfterDown` has the shape `Sandwich` when `b` is not set. -/
theorem Go.OnSuccess.without_down {b : Prop} [Decidable b] (hb : ¬ b) (down : List (Event κ))
    {isUp : List (Event κ) → Prop} {isMid isTail : Event κ → Bool} {m : Go κ σ α}
    (h : OnSuccess (AfterDown b isUp isMid isTail) m) :
    OnSuccess (Sandwich b down isUp isMid isTail) m :=
  ⟨fun s a s' hrun => by
    obtain ⟨evs, h1, h2⟩ := h.run s a s' hrun
    exact ⟨evs, h1, evs, by simp [hb], h2⟩⟩

end RestartShape

/-! ### The reconfiguring parts of the ServerConnector handlers -/

section ServerReconfigure

variable {σ : Type}

open Go

theorem serverDisconnectDisks_reconfigure (cl : ServerClient σ) (disks : List Int) :
    Emits (fun e => isServerReconfigure e = true) (serverDisconnectDisks cl disks) := by
  induction disks with
  | nil => exact Emits.pure _
  | cons x rest ih =>
    unfold serverDisconnectDisks
    repeat' first
      | exact ih
      | exact Emits.pure _
      | exact Emits.fail _
      | exact Emits.crash
      | exact Emits.call _ _ _ (fun _ => rfl)
      | apply Emits.bind
      | intro _

theorem serverConnectDisks_reconfigure (cl : ServerClient σ) (server : Server) (ids : List String) :
    Emits (fun e => isServerReconfigure e = true) (serverConnectDisks cl server ids) := by
  induction ids with
  | nil => exact Emits.pure _
  | cons x rest ih =>
    unfold serverConnectDisks
    repeat' first
      | exact ih
      | exact Emits.pure _
      | exact Emits.fail _
      | exact Emits.crash
      | exact Emits.call _ _ _ (fun _ => rfl)
      | apply Emits.bind
      | intro _

theorem serverDisconnectFilters_reconfigure (cl : ServerClient σ) (nics : List ServerNIC) :
    Emits (fun e => isServerReconfigure e = true) (serverDisconnectFilters cl nics) := by
  induction nics with
  | nil => exact Emits.pure _
  | cons x rest ih =>
    unfold serverDisconnectFilters
    repeat' first
      | exact ih
      | exact Emits.pure _
      | exact Emits.fail _
      | exact Emits.crash
      | exact Emits.call _ _ _ (fun _ => rfl)
      | apply Emits.bind
      | intro _
      | split

theorem serverPacketFilterLoop_reconfigure (cl : ServerClient σ) (server : Server) (ids : List (Option String)) (i : Nat) :
    Emits (fun e => isServerReconfigure e = true) (serverPacketFilterLoop cl server ids i) := by
  induction ids generalizing i with
  | nil => exact Emits.pure _
  | cons x rest ih =>
    unfold serverPacketFilterLoop
    repeat' first
      | exact ih _
      | exact Emits.pure _
      | exact Emits.fail _
      | exact Emits.crash
      | exact Emits.call _ _ _ (fun _ => rfl)
      | apply Emits.bind
      | intro _
      | split

theorem serverReconcilePacketFilters_reconfigure (cl : ServerClient σ) (d : ResourceData) (server : Server) :
    Emits (fun e => isServerReconfigure e = true) (serverReconcilePacketFilters cl d server) := by
  unfold serverReconcilePacketFilters
  repeat' first
    | exact serverPacketFilterLoop_reconfigure cl _ _ _
    | exact serverDisconnectFilters_reconfigure cl _
    | exact Emits.pure _
    | exact Emits.fail _
    | exact Emits.crash
    | exact Emits.call _ _ _ (fun _ => rfl)
    | apply Emits.bind
    | intro _
    | split

theorem serverDeleteDiskIDs_reconfigure (cl : ServerClient σ) (disk : Int) (ids : List (Option String)) :
    Emits (fun e => isServerReconfigure e = true) (serverDeleteDiskIDs cl disk ids) := by
  induction ids with
  | nil => exact Emits.pure _
  | cons x rest ih =>
    unfold serverDeleteDiskIDs
    repeat' first
      | exact ih
      | exact Emits.pure _
      | exact Emits.fail _
      | exact Emits.crash
      | exact Emits.call _ _ _ (fun _ => rfl)
      | apply Emits.bind
      | intro _
      | split

theorem serverDeleteDisks_reconfigure (cl : ServerClient σ) (ids : List (Option String)) (disks : List Int) :
    Emits (fun e => isServerReconfigure e = true) (serverDeleteDisks cl ids disks) := by
  induction disks with
  | nil => exact Emits.pure _
  | cons x rest ih =>
    unfold serverDeleteDisks
    repeat' first
      | exact ih
      | exact serverDeleteDiskIDs_reconfigure cl _ _
      | exact Emits.pure _
      | exact Emits.fail _
      | exact Emits.crash
      | exact Emits.call _ _ _ (fun _ => rfl)
      | apply Emits.bind
      | intro _

theorem serverDeleteFilterIDs_reconfigure (cl : ServerClient σ) (nic : ServerNIC) (ids : List (Option String)) :
    Emits (fun e => isServerReconfigure e = true) (serverDeleteFilterIDs cl nic ids) := by
  induction ids with
  | nil => exact Emits.pure _
  | cons x rest ih =>
    unfold serverDeleteFilterIDs
    repeat' first
      | exact ih
      | exact Emits.pure _
      | exact Emits.fail _
      | exact Emits.crash
      | exact Emits.call _ _ _ (fun _ => rfl)
      | apply Emits.bind
      | intro _
      | split

theorem serverDeleteFilters_reconfigure (cl : ServerClient σ) (ids : List (Option String)) (nics : List ServerNIC) :
    Emits (fun e => isServerReconfigure e = true) (serverDeleteFilters cl ids nics) := by
  induction nics with
  | nil => exact Emits.pure _
  | cons x rest ih =>
    unfold serverDeleteFilters
    repeat' first
      | exact ih
      | exact serverDeleteFilterIDs_reconfigure cl _ _
      | exact Emits.pure _
      | exact Emits.fail _
      | exact Emits.crash
      | exact Emits.call _ _ _ (fun _ => rfl)
      | apply Emits.bind
      | intro _

/-- The read-back of the ServerConnector handlers issues the Read only. -/
theorem resourceSakuraCloudServerConnectorRead_reads (cl : ServerClient σ) :
    Emits (fun e => isServerRead e = true) (resourceSakuraCloudServerConnectorRead cl) := by
  unfold resourceSakuraCloudServerConnectorRead
  repeat' first
    | exact Emits.pure _
    | exact Emits.fail _
    | exact Emits.getData
    | exact Emits.SetId _
    | exact Emits.Set _ _
    | exact Emits.SetOrWrap _ _ _
    | exact Emits.modify _
    | exact Emits.callE _ _ (fun _ => rfl)
    | apply Emits.bind
    | intro _
    | split

end ServerReconfigure

/-! ### Successful runs of the handlers that restart -/

section RestartHandlers

variable {σ : Type}

open Go

/-- Lines 533-542: the boot and the wait for it when `needRestart` is set. -/
theorem mgwRestart_shape (cl : MGWClient σ) (b : Prop) [Decidable b] (needRestart : Bool)
    (mgw : MobileGateway) (h : needRestart = true ↔ b) :
    OnSuccess (fun evs => if b then
        (fun up => ∃ id, up = [Event.call (MGWCall.Boot id) none,
          Event.call (MGWCall.SleepUntilUp id) none]) evs
      else evs = []) (mgwRestart cl needRestart mgw) := by
  unfold mgwRestart
  by_cases hb : b
  · rw [if_pos (h.mpr hb)]
    refine ⟨fun s a s' hrun => ?_⟩
    obtain ⟨evs, h1, h2⟩ := (Go.OnSuccess.of_two_calls _ _ _ _ _ _).run s a s' hrun
    exact ⟨evs, h1, by rw [if_pos hb]; exact ⟨_, h2⟩⟩
  · rw [if_neg (fun hn => hb (h.mp hn))]
    refine ⟨fun s a s' hrun => ?_⟩
    obtain ⟨evs, h1, h2⟩ := (Go.OnSuccess.on_pure ()).run s a s' hrun
    exact ⟨evs, h1, by rw [if_neg hb]; exact h2⟩

/-- What follows the metadata Update in a successful run of the update handler, for the
gateway `mgw` that the Update returned. -/
theorem mgwUpdate_afterMetadata_shape (cl : MGWClient σ) (d : ResourceData) (switchID : Int)
    (ip : String) (nwMaskLen : Int) (mgw : MobileGateway) :
    OnSuccess
      (Sandwich
        (d.HasChanges ["switch_id", "private_ipaddress", "private_nw_mask_len"] = true ∧
          cl.IsUp mgw = true)
        [Event.call (MGWCall.handleShutdown mgw.ID) none,
         Event.call (MGWCall.SleepUntilDown mgw.ID) none]
        (fun up => ∃ id, up = [Event.call (MGWCall.Boot id) none,
          Event.call (MGWCall.SleepUntilUp id) none])
        isMGWReconfigure isMGWRead)
      (do
        let r ← mgwUpdateNetwork cl d switchID ip nwMaskLen mgw
        mgwUpdateTrafficControl cl d r.1
        mgwUpdateDNS cl d r.1
        let mgw ← mgwUpdateStaticRoute cl d r.1
        mgwRestart cl r.2 mgw
        resourceSakuraCloudMobileGatewayRead cl : Go MGWCall σ Unit) := by
  unfold mgwUpdateNetwork mgwUpdateTrafficControl mgwUpdateDNS mgwUpdateStaticRoute
  by_cases hc : d.HasChanges ["switch_id", "private_ipaddress", "private_nw_mask_len"] = true
  · rw [if_pos hc]
    by_cases hup : cl.IsUp mgw = true
    · rw [if_pos hup]
      simp only [Go.bind_bind, Go.pure_bind]
      apply Go.OnSuccess.down_two_then ⟨hc, hup⟩
      intro _
      repeat' first
        | exact OnSuccess.boot_then_tail (mgwRestart_shape cl _ _ _ (by simp [hc, hup]))
            (fun _ => resourceSakuraCloudMobileGatewayRead_emits cl _ (fun _ _ hr => hr))
        | apply OnSuccess.bind_mid
        | exact Emits.pure _
        | exact Emits.fail _
        | exact Emits.call _ _ _ (fun _ => rfl)
        | exact Emits.callE _ _ (fun _ => rfl)
        | apply Emits.bind
        | intro _
        | split
    · rw [if_neg hup]
      simp only [Go.bind_bind, Go.pure_bind]
      apply Go.OnSuccess.without_down (fun h => hup h.2)
      repeat' first
        | exact OnSuccess.boot_then_tail (mgwRestart_shape cl _ _ _ (by simp [hc, hup]))
            (fun _ => resourceSakuraCloudMobileGatewayRead_emits cl _ (fun _ _ hr => hr))
        | apply OnSuccess.bind_mid
        | exact Emits.pure _
        | exact Emits.fail _
        | exact Emits.call _ _ _ (fun _ => rfl)
        | exact Emits.callE _ _ (fun _ => rfl)
        | apply Emits.bind
        | intro _
        | split
  · rw [if_neg hc, Go.pure_bind]
    apply Go.OnSuccess.without_down (fun h => hc h.1)
    repeat' first
      | exact OnSuccess.boot_then_tail (mgwRestart_shape cl _ _ _ (by simp [hc]))
          (fun _ => resourceSakuraCloudMobileGatewayRead_emits cl _ (fun _ _ hr => hr))
      | apply OnSuccess.bind_mid
      | exact Emits.pure _
      | exact Emits.fail _
      | exact Emits.call _ _ _ (fun _ => rfl)
      | exact Emits.callE _ _ (fun _ => rfl)
      | apply Emits.bind
      | intro _
      | split
      | dsimp only

/-- A successful run of the MobileGateway update handler, for the gateway `m0` that the
initial Read returned and the gateway `m1` that the metadata Update returned. -/
theorem resourceSakuraCloudMobileGatewayUpdate_shape (cl : MGWClient σ) (w w1 w2 : σ)
    (d : ResourceData) (m0 m1 : MobileGateway)
    (hread : cl.mgw (MGWCall.Read (cl.toSakuraCloudID d.id)) w = (Except.ok m0, w1))
    (hupd : cl.mgw (MGWCall.Update m0.ID (mgwApplyMetadata cl d m0)) w1 = (Except.ok m1, w2))
    (hok : (resourceSakuraCloudMobileGatewayUpdate cl (St.init w d)).1 = Res.ok ()) :
    ∃ evs, (resourceSakuraCloudMobileGatewayUpdate cl (St.init w d)).2.trace =
        [Event.lock d.id, Event.call (MGWCall.Read (cl.toSakuraCloudID d.id)) none,
         Event.call (MGWCall.Update m0.ID (mgwApplyMetadata cl d m0)) none] ++ evs ++
          [Event.unlock d.id] ∧
      Sandwich
        (d.HasChanges ["switch_id", "private_ipaddress", "private_nw_mask_len"] = true ∧
          cl.IsUp m1 = true)
        [Event.call (MGWCall.handleShutdown m1.ID) none,
         Event.call (MGWCall.SleepUntilDown m1.ID) none]
        (fun up => ∃ id, up = [Event.call (MGWCall.Boot id) none,
          Event.call (MGWCall.SleepUntilUp id) none])
        isMGWReconfigure isMGWRead evs := by
  rw [resourceSakuraCloudMobileGatewayUpdate_run] at hok ⊢
  simp only [St.init, List.nil_append] at hok ⊢
  unfold mgwUpdateBody mgwUpdateAfterRead at hok ⊢
  simp only [Go.bind_run, Go.call, hread] at hok ⊢
  cases hV : mgwSwitchParams cl d with
  | error e =>
    rw [hV] at hok
    simp at hok
  | ok p =>
    obtain ⟨switchID, ip, nwMaskLen⟩ := p
    rw [hV] at hok
    simp only [Go.bind_run, Go.call, hupd] at hok ⊢
    rcases hT : (do
        let r ← mgwUpdateNetwork cl d switchID ip nwMaskLen m1
        mgwUpdateTrafficControl cl d r.1
        mgwUpdateDNS cl d r.1
        let mgw ← mgwUpdateStaticRoute cl d r.1
        mgwRestart cl r.2 mgw
        resourceSakuraCloudMobileGatewayRead cl : Go MGWCall σ Unit)
      { world := w2, d := d
        trace := [Event.lock d.id] ++
          [Event.call (MGWCall.Read (cl.toSakuraCloudID d.id)) none] ++
          [Event.call (MGWCall.Update m0.ID (mgwApplyMetadata cl d m0)) none]
        defers := [d.id] } with ⟨r, s'⟩
    simp only [Go.bind_run] at hT
    rw [hT] at hok ⊢
    simp only at hok
    subst hok
    obtain ⟨evs, h1, h2⟩ :=
      (mgwUpdate_afterMetadata_shape cl d switchID ip nwMaskLen m1).run _ _ _
        (by simpa only [Go.bind_run] using hT)
    exact ⟨evs, by simp [h1], h2⟩

/-- A successful run of the ServerConnector update handler, for the server that the initial
Read returned. -/
theorem resourceSakuraCloudServerConnectorUpdate_shape (cl : ServerClient σ) (w w1 : σ)
    (d : ResourceData) (server : Server)
    (hread : cl.server (ServerCall.Read (cl.toSakuraCloudID d.id)) w = (Except.ok server, w1))
    (hok : (resourceSakuraCloudServerConnectorUpdate cl (St.init w d)).1 = Res.ok ()) :
    ∃ evs, (resourceSakuraCloudServerConnectorUpdate cl (St.init w d)).2.trace =
        Event.call (ServerCall.Read (cl.toSakuraCloudID d.id)) none :: evs ∧
      Sandwich (d.HasChange "disks" = true ∧ cl.IsUp server = true)
        [Event.call (ServerCall.stopServer (cl.toSakuraCloudID d.id)) none]
        (fun up => up = [Event.call (ServerCall.bootServer (cl.toSakuraCloudID d.id)) none])
        isServerReconfigure isServerRead evs := by
  rcases hrun : resourceSakuraCloudServerConnectorUpdate cl (St.init w d) with ⟨r, s'⟩
  rw [hrun] at hok
  simp only at hok
  subst hok
  unfold resourceSakuraCloudServerConnectorUpdate at hrun
  rw [Go.bind_ok (Go.getData_run _), Go.bind_ok (call_ok hread)] at hrun
  simp only [St.init] at hrun
  obtain ⟨evs, h1, h2⟩ := (OnSuccess.down_then (OnSuccess.of_opt_call _ _ _ _) (fun _ =>
    OnSuccess.bind_mid (by
      repeat' first
        | exact serverDisconnectDisks_reconfigure cl _
        | exact serverConnectDisks_reconfigure cl _ _
        | exact Emits.pure _
        | apply Emits.bind
        | intro _
        | split) (fun _ =>
    OnSuccess.bind_mid (by
      repeat' first
        | exact serverReconcilePacketFilters_reconfigure cl _ _
        | exact Emits.pure _
        | split) (fun _ =>
    OnSuccess.bind_mid (by
      repeat' first
        | exact Emits.pure _
        | exact Emits.call _ _ _ (fun _ => rfl)
        | apply Emits.bind
        | intro _
        | split) (fun _ =>
    OnSuccess.boot_then_tail (OnSuccess.of_opt_boot _ _ _ _)
      (fun _ => resourceSakuraCloudServerConnectorRead_reads cl)))))).run _ _ _ hrun
  exact ⟨evs, by simpa using h1, h2⟩

/-- A successful run of the ServerConnector create handler, for the server that the initial
Read returned. -/
theorem resourceSakuraCloudServerConnectorCreate_shape (cl : ServerClient σ) (w w1 : σ)
    (d : ResourceData) (server : Server)
    (hread : cl.server (ServerCall.Read (cl.toSakuraCloudID (d.Get "server_id").asString)) w
      = (Except.ok server, w1))
    (hok : (resourceSakuraCloudServerConnectorCreate cl (St.init w d)).1 = Res.ok ()) :
    ∃ evs, (resourceSakuraCloudServerConnectorCreate cl (St.init w d)).2.trace =
        Event.call (ServerCall.Read (cl.toSakuraCloudID (d.Get "server_id").asString)) none
          :: evs ∧
      Sandwich ((d.GetOk "disks").2 = true ∧ cl.IsUp server = true)
        [Event.call (ServerCall.stopServer (cl.toSakuraCloudID (cl.GetStrID server.ID))) none]
        (fun up => up =
          [Event.call (ServerCall.bootServer (cl.toSakuraCloudID (cl.GetStrID server.ID))) none])
        isServerReconfigure isServerRead evs := by
  rcases hrun : resourceSakuraCloudServerConnectorCreate cl (St.init w d) with ⟨r, s'⟩
  rw [hrun] at hok
  simp only at hok
  subst hok
  unfold resourceSakuraCloudServerConnectorCreate at hrun
  rw [Go.bind_ok (Go.getData_run _), Go.bind_ok (call_ok hread),
    Go.bind_ok (Go.SetId_run _ _)] at hrun
  simp only [St.init] at hrun
  obtain ⟨evs, h1, h2⟩ := (OnSuccess.down_then (OnSuccess.of_opt_call _ _ _ _) (fun _ =>
    OnSuccess.bind_mid (by
      repeat' first
        | exact serverDisconnectDisks_reconfigure cl _
        | exact serverConnectDisks_reconfigure cl _ _
        | exact Emits.pure _
        | apply Emits.bind
        | intro _
        | split) (fun _ =>
    OnSuccess.bind_mid (serverReconcilePacketFilters_reconfigure cl _ _) (fun _ =>
    OnSuccess.bind_mid (by
      repeat' first
        | exact Emits.pure _
        | exact Emits.call _ _ _ (fun _ => rfl)
        | apply Emits.bind
        | intro _
        | split) (fun _ =>
    OnSuccess.boot_then_tail (OnSuccess.of_opt_boot _ _ _ _)
      (fun _ => resourceSakuraCloudServerConnectorRead_reads cl)))))).run _ _ _ hrun
  exact ⟨evs, by simpa using h1, h2⟩

/-- A successful run of the ServerConnector delete handler, for the server that the initial
Read returned; there is no read-back. -/
theorem resourceSakuraCloudServerConnectorDelete_shape (cl : ServerClient σ) (w w1 : σ)
    (d : ResourceData) (server : Server)
    (hread : cl.server (ServerCall.Read (cl.toSakuraCloudID d.id)) w = (Except.ok server, w1))
    (hok : (resourceSakuraCloudServerConnectorDelete cl (St.init w d)).1 = Res.ok ()) :
    ∃ evs, (resourceSakuraCloudServerConnectorDelete cl (St.init w d)).2.trace =
        Event.call (ServerCall.Read (cl.toSakuraCloudID d.id)) none :: evs ∧
      Sandwich (cl.IsUp server = true)
        [Event.call (ServerCall.stopServer (cl.toSakuraCloudID d.id)) none]
        (fun up => up = [Event.call (ServerCall.bootServer (cl.toSakuraCloudID d.id)) none])
        isServerReconfigure (fun _ => false) evs := by
  rcases hrun : resourceSakuraCloudServerConnectorDelete cl (St.init w d) with ⟨r, s'⟩
  rw [hrun] at hok
  simp only at hok
  subst hok
  unfold resourceSakuraCloudServerConnectorDelete at hrun
  rw [Go.bind_ok (Go.getData_run _), Go.bind_ok (call_ok hread)] at hrun
  simp only [St.init] at hrun
  obtain ⟨evs, h1, h2⟩ := (OnSuccess.down_then (OnSuccess.of_opt_call _ _ _ _) (fun _ =>
    OnSuccess.bind_mid (by
      repeat' first
        | exact serverDeleteDisks_reconfigure cl _ _
        | exact Emits.pure _
        | split) (fun _ =>
    OnSuccess.bind_mid (by
      repeat' first
        | exact serverDeleteFilters_reconfigure cl _ _
        | exact Emits.pure _
        | split) (fun _ =>
    OnSuccess.bind_mid (by
      repeat' first
        | exact Emits.pure _
        | exact Emits.call _ _ _ (fun _ => rfl)
        | split) (fun _ =>
    OnSuccess.boot_last (OnSuccess.of_opt_boot _ _ _ _)))))).run _ _ _ hrun
  exact ⟨evs, by simpa using h1, h2⟩

end RestartHandlers

/-! ### C16: the restart around the reconfiguration -/

section RestartClaim

variable {σ τ : Type}

open Go

/-- C16 at the failing input: gateway 100, reported up with its interface 1 attached to a
switch, has `switch_id` changed from "100" to "101" while two desired static routes have the
prefix 10.0.0.0/8.  Every remote call of the run
succeeds; the shutdown is issued and waited for, the gateway is reconnected, and the handler
then returns the duplicate-prefix error of line 516: no boot is issued, so the shutdown is
not followed by a boot and the gateway is left down. -/
theorem mgwUpdate_duplicate_route_no_boot :
    (scriptedMGW attachedGateway []).IsUp attachedGateway = true ∧
    (resourceSakuraCloudMobileGatewayUpdate (scriptedMGW attachedGateway [])
        (St.init 0 duplicateRoutes)).1 =
      Res.err (newErr "prefix \"10.0.0.0/8\" already exists") ∧
    (resourceSakuraCloudMobileGatewayUpdate (scriptedMGW attachedGateway [])
        (St.init 0 duplicateRoutes)).2.trace =
      [Event.lock "100", Event.call (MGWCall.Read 100) none,
       Event.call (MGWCall.Update 100 attachedGateway) none,
       Event.call (MGWCall.handleShutdown 100) none,
       Event.call (MGWCall.SleepUntilDown 100) none,
       Event.call (MGWCall.DisconnectFromSwitch 100) none,
       Event.call (MGWCall.ConnectToSwitch 100 101) none,
       Event.call (MGWCall.Update 100 attachedGateway) none,
       Event.call (MGWCall.Config 100) none, Event.unlock "100"] ∧
    (∀ x ∈ (resourceSakuraCloudMobileGatewayUpdate (scriptedMGW attachedGateway [])
        (St.init 0 duplicateRoutes)).2.trace, x.failed = false) ∧
    (∀ id r, Event.call (MGWCall.Boot id) r ∉
      (resourceSakuraCloudMobileGatewayUpdate (scriptedMGW attachedGateway [])
        (St.init 0 duplicateRoutes)).2.trace) := by
  have htrace : (resourceSakuraCloudMobileGatewayUpdate (scriptedMGW attachedGateway [])
        (St.init 0 duplicateRoutes)).2.trace =
      [Event.lock "100", Event.call (MGWCall.Read 100) none,
       Event.call (MGWCall.Update 100 attachedGateway) none,
       Event.call (MGWCall.handleShutdown 100) none,
       Event.call (MGWCall.SleepUntilDown 100) none,
       Event.call (MGWCall.DisconnectFromSwitch 100) none,
       Event.call (MGWCall.ConnectToSwitch 100 101) none,
       Event.call (MGWCall.Update 100 attachedGateway) none,
       Event.call (MGWCall.Config 100) none, Event.unlock "100"] := rfl
  refine ⟨rfl, rfl, htrace, ?_, ?_⟩
  · rw [htrace]
    decide
  · intro id r
    rw [htrace]
    simp

/-- The restart around the reconfiguration on runs that return nil.  In every execution of
`resourceSakuraCloudServerConnectorCreate`, `...Update`, `...Delete` and
`resourceSakuraCloudMobileGatewayUpdate` that returns nil, what
follows the initial Read (in the MobileGateway handler: the lock, the initial Read and the
metadata `Update`) is: the successful shutdown exactly when the restart condition holds,
then reconfiguring calls only, then the successful boot exactly when the restart condition
holds, then read-only calls (none in Delete; in the MobileGateway handler the unlock comes
last).  The restart condition holds only if the resource is reported up: by the initial
Read for the server, by the reply to the metadata `Update` for the gateway. -/
theorem restart_brackets_reconfiguration (scl : ServerClient σ) (mcl : MGWClient τ)
    (w : σ) (v : τ) (d : ResourceData) :
    (∀ server w1,
      scl.server (ServerCall.Read (scl.toSakuraCloudID (d.Get "server_id").asString)) w
        = (Except.ok server, w1) →
      (resourceSakuraCloudServerConnectorCreate scl (St.init w d)).1 = Res.ok () →
      ∃ evs, (resourceSakuraCloudServerConnectorCreate scl (St.init w d)).2.trace =
          Event.call (ServerCall.Read (scl.toSakuraCloudID (d.Get "server_id").asString)) none
            :: evs ∧
        Sandwich ((d.GetOk "disks").2 = true ∧ scl.IsUp server = true)
          [Event.call (ServerCall.stopServer (scl.toSakuraCloudID (scl.GetStrID server.ID)))
            none]
          (fun up => up =
            [Event.call (ServerCall.bootServer (scl.toSakuraCloudID (scl.GetStrID server.ID)))
              none])
          isServerReconfigure isServerRead evs) ∧
    (∀ server w1,
      scl.server (ServerCall.Read (scl.toSakuraCloudID d.id)) w = (Except.ok server, w1) →
      (resourceSakuraCloudServerConnectorUpdate scl (St.init w d)).1 = Res.ok () →
      ∃ evs, (resourceSakuraCloudServerConnectorUpdate scl (St.init w d)).2.trace =
          Event.call (ServerCall.Read (scl.toSakuraCloudID d.id)) none :: evs ∧
        Sandwich (d.HasChange "disks" = true ∧ scl.IsUp server = true)
          [Event.call (ServerCall.stopServer (scl.toSakuraCloudID d.id)) none]
          (fun up => up = [Event.call (ServerCall.bootServer (scl.toSakuraCloudID d.id)) none])
          isServerReconfigure isServerRead evs) ∧
    (∀ server w1,
      scl.server (ServerCall.Read (scl.toSakuraCloudID d.id)) w = (Except.ok server, w1) →
      (resourceSakuraCloudServerConnectorDelete scl (St.init w d)).1 = Res.ok () →
      ∃ evs, (resourceSakuraCloudServerConnectorDelete scl (St.init w d)).2.trace =
          Event.call (ServerCall.Read (scl.toSakuraCloudID d.id)) none :: evs ∧
        Sandwich (scl.IsUp server = true)
          [Event.call (ServerCall.stopServer (scl.toSakuraCloudID d.id)) none]
          (fun up => up = [Event.call (ServerCall.bootServer (scl.toSakuraCloudID d.id)) none])
          isServerReconfigure (fun _ => false) evs) ∧
    (∀ m0 v1 m1 v2,
      mcl.mgw (MGWCall.Read (mcl.toSakuraCloudID d.id)) v = (Except.ok m0, v1) →
      mcl.mgw (MGWCall.Update m0.ID (mgwApplyMetadata mcl d m0)) v1 = (Except.ok m1, v2) →
      (resourceSakuraCloudMobileGatewayUpdate mcl (St.init v d)).1 = Res.ok () →
      ∃ evs, (resourceSakuraCloudMobileGatewayUpdate mcl (St.init v d)).2.trace =
          [Event.lock d.id, Event.call (MGWCall.Read (mcl.toSakuraCloudID d.id)) none,
           Event.call (MGWCall.Update m0.ID (mgwApplyMetadata mcl d m0)) none] ++ evs ++
            [Event.unlock d.id] ∧
        Sandwich
          (d.HasChanges ["switch_id", "private_ipaddress", "private_nw_mask_len"] = true ∧
            mcl.IsUp m1 = true)
          [Event.call (MGWCall.handleShutdown m1.ID) none,
           Event.call (MGWCall.SleepUntilDown m1.ID) none]
          (fun up => ∃ id, up = [Event.call (MGWCall.Boot id) none,
            Event.call (MGWCall.SleepUntilUp id) none])
          isMGWReconfigure isMGWRead evs) :=
  ⟨fun server w1 hread hok => resourceSakuraCloudServerConnectorCreate_shape scl w w1 d server
      hread hok,
   fun server w1 hread hok => resourceSakuraCloudServerConnectorUpdate_shape scl w w1 d server
      hread hok,
   fun server w1 hread hok => resourceSakuraCloudServerConnectorDelete_shape scl w w1 d server
      hread hok,
   fun m0 v1 m1 v2 hread hupd hok =>
     resourceSakuraCloudMobileGatewayUpdate_shape mcl v v1 v2 d m0 m1 hread hupd hok⟩

/-- Gateway 100, up, that moves from switch 100 to switch 101: the restart condition holds
and the run is shutdown, reconfiguration, boot, read-back. -/
theorem restart_brackets_reconfiguration_witness :
    (switchChange.HasChanges ["switch_id", "private_ipaddress", "private_nw_mask_len"] = true ∧
      (scriptedMGW attachedGateway []).IsUp attachedGateway = true) ∧
    ∃ evs, (resourceSakuraCloudMobileGatewayUpdate (scriptedMGW attachedGateway [])
        (St.init 0 switchChange)).2.trace =
        [Event.lock switchChange.id,
         Event.call (MGWCall.Read ((scriptedMGW attachedGateway []).toSakuraCloudID
           switchChange.id)) none,
         Event.call (MGWCall.Update attachedGateway.ID
           (mgwApplyMetadata (scriptedMGW attachedGateway []) switchChange attachedGateway))
           none] ++ evs ++ [Event.unlock switchChange.id] ∧
      Sandwich
        (switchChange.HasChanges ["switch_id", "private_ipaddress", "private_nw_mask_len"]
            = true ∧
          (scriptedMGW attachedGateway []).IsUp attachedGateway = true)
        [Event.call (MGWCall.handleShutdown attachedGateway.ID) none,
         Event.call (MGWCall.SleepUntilDown attachedGateway.ID) none]
        (fun up => ∃ id, up = [Event.call (MGWCall.Boot id) none,
          Event.call (MGWCall.SleepUntilUp id) none])
        isMGWReconfigure isMGWRead evs :=
  ⟨by decide,
   (restart_brackets_reconfiguration (scriptedServer []) (scriptedMGW attachedGateway [])
      0 0 switchChange).2.2.2 attachedGateway 1 attachedGateway 2 rfl rfl rfl⟩

end RestartClaim

/-! ### Attributes written by the read-back -/

section WrittenValues

variable {κ σ α β : Type}

open Go

theorem written_append_other (d : ResourceData) (key k : String) (v : Value) (h : k ≠ key) :
    ({ d with sets := d.sets ++ [(k, v)] } : ResourceData).written key = d.written key := by
  have : (key == k) = false := by simpa using Ne.symm h
  simp [ResourceData.written, List.lookup, this]

theorem written_append_self (d : ResourceData) (key : String) (v : Value) :
    ({ d with sets := d.sets ++ [(key, v)] } : ResourceData).written key = some v := by
  simp [ResourceData.written, List.lookup]

theorem Go.Quiet.quiet_pure (noCall : Bool) (a : α) : Quiet noCall (pure a : Go κ σ α) :=
  ⟨fun _ => ⟨rfl, fun _ => rfl⟩⟩

theorem Go.Quiet.quiet_fail (noCall : Bool) (e : Err) : Quiet noCall (fail e : Go κ σ α) :=
  ⟨fun _ => ⟨rfl, fun _ => rfl⟩⟩

theorem Go.Quiet.quiet_crash (noCall : Bool) : Quiet noCall (crash : Go κ σ α) :=
  ⟨fun _ => ⟨rfl, fun _ => rfl⟩⟩

theorem Go.Quiet.quiet_Set (noCall : Bool) (key : String) (v : Value) :
    Quiet noCall (Go.Set key v : Go κ σ (Option Err)) :=
  ⟨fun s => by
    unfold Go.Set
    split <;> exact ⟨rfl, fun _ => rfl⟩⟩

theorem Go.Quiet.quiet_call (pfx : String) (c : κ) (f : κ → σ → Except Err α × σ) :
    Quiet false (Go.call pfx c f) :=
  ⟨fun s => by
    rcases ok_or_error (f c s.world) with ⟨a, w, h⟩ | ⟨e, w, h⟩
    · rw [call_ok h]
      exact ⟨rfl, by simp⟩
    · rw [call_error h]
      exact ⟨rfl, by simp⟩⟩

theorem Go.Quiet.quiet_callE (c : κ) (f : κ → σ → Except Err α × σ) :
    Quiet false (Go.callE c f) :=
  ⟨fun s => by
    rcases ok_or_error (f c s.world) with ⟨a, w, h⟩ | ⟨e, w, h⟩
    · rw [callE_ok h]
      exact ⟨rfl, by simp⟩
    · rw [callE_error h]
      exact ⟨rfl, by simp⟩⟩

theorem Go.Quiet.quiet_bind {noCall : Bool} {m : Go κ σ α} {f : α → Go κ σ β}
    (hm : Quiet noCall m) (hf : ∀ a, Quiet noCall (f a)) : Quiet noCall (m >>= f) :=
  ⟨fun s => by
    obtain ⟨h1, h2⟩ := hm.run s
    rcases hms : m s with ⟨r, s1⟩
    rw [hms] at h1 h2
    simp only [Go.bind_run, hms]
    cases r with
    | ok a =>
      obtain ⟨h3, h4⟩ := (hf a).run s1
      exact ⟨h3.trans h1, fun hn => (h4 hn).trans (h2 hn)⟩
    | err e => exact ⟨h1, h2⟩
    | panic => exact ⟨h1, h2⟩⟩

theorem Go.Keeps.kept_pure (key : String) (a : α) : Keeps key (pure a : Go κ σ α) :=
  ⟨fun _ => rfl⟩

theorem Go.Keeps.kept_fail (key : String) (e : Err) : Keeps key (fail e : Go κ σ α) :=
  ⟨fun _ => rfl⟩

theorem Go.Keeps.kept_Set (key k : String) (v : Value) (h : k ≠ key) :
    Keeps key (Go.Set k v : Go κ σ (Option Err)) :=
  ⟨fun s => by
    unfold Go.Set
    split
    · rfl
    · exact written_append_other s.d key k v h⟩

theorem Go.Keeps.kept_call (key pfx : String) (c : κ) (f : κ → σ → Except Err α × σ) :
    Keeps key (Go.call pfx c f) :=
  ⟨fun s => by
    rcases ok_or_error (f c s.world) with ⟨a, w, h⟩ | ⟨e, w, h⟩
    · rw [call_ok h]
    · rw [call_error h]⟩

theorem Go.Keeps.kept_bind {key : String} {m : Go κ σ α} {f : α → Go κ σ β}
    (hm : Keeps key m) (hf : ∀ a, Keeps key (f a)) : Keeps key (m >>= f) :=
  ⟨fun s => by
    have h1 := hm.run s
    rcases hms : m s with ⟨r, s1⟩
    rw [hms] at h1
    simp only [Go.bind_run, hms]
    cases r with
    | ok a => exact ((hf a).run s1).trans h1
    | err e => exact h1
    | panic => exact h1⟩

/-- A prefix that writes nothing for `key`. -/
theorem Go.Writes.skip {W : σ → Prop} {key : String} {v : Value}
    {m : Go κ σ α} {f : α → Go κ σ β}
    (hm : Quiet false m) (hf : ∀ a, Writes (fun _ => True) key v (f a)) :
    Writes W key v (m >>= f) :=
  ⟨fun s b s' _ hk hrun => by
    obtain ⟨h1, -⟩ := hm.run s
    rcases hms : m s with ⟨r, s1⟩
    rw [hms] at h1
    simp only [Go.bind_run, hms] at hrun
    cases r with
    | ok a => exact (hf a).run s1 b s' trivial (by rw [h1]; exact hk) hrun
    | err e => simp at hrun
    | panic => simp at hrun⟩

/-- A prefix without a remote call that writes nothing for `key`. -/
theorem Go.Writes.skip_local {W : σ → Prop} {key : String} {v : Value}
    {m : Go κ σ α} {f : α → Go κ σ β}
    (hm : Quiet true m) (hf : ∀ a, Writes W key v (f a)) :
    Writes W key v (m >>= f) :=
  ⟨fun s b s' hW hk hrun => by
    obtain ⟨h1, h2⟩ := hm.run s
    rcases hms : m s with ⟨r, s1⟩
    rw [hms] at h1 h2
    simp only [Go.bind_run, hms] at hrun
    cases r with
    | ok a =>
      exact (hf a).run s1 b s' (by rw [h2 rfl]; exact hW) (by rw [h1]; exact hk) hrun
    | err e => simp at hrun
    | panic => simp at hrun⟩

/-- The `Set` of `key`, followed by code that leaves `key` alone. -/
theorem Go.Writes.set_bind {W : σ → Prop} (key : String) (v : Value)
    {f : Option Err → Go κ σ β} (hf : ∀ a, Keeps key (f a)) :
    Writes W key v (Go.Set key v >>= f) :=
  ⟨fun s b s' _ hk hrun => by
    have hset : (Go.Set key v : Go κ σ (Option Err)) s =
        (Res.ok none, { s with d := { s.d with sets := s.d.sets ++ [(key, v)] } }) := by
      simp [Go.Set, hk]
    rw [Go.bind_ok hset] at hrun
    have h := (hf none).run { s with d := { s.d with sets := s.d.sets ++ [(key, v)] } }
    rw [hrun] at h
    exact h.trans (written_append_self s.d key v)⟩

/-- A remote call whose answer in the start world is known. -/
theorem Go.Writes.after_callE {key : String} {v : Value} {w w1 : σ} {c : κ}
    {f : κ → σ → Except Err α × σ} {a : α} {g : Except Err α → Go κ σ β}
    (h : f c w = (Except.ok a, w1))
    (hg : Writes (fun _ => True) key v (g (Except.ok a))) :
    Writes (fun x => x = w) key v (Go.callE c f >>= g) :=
  ⟨fun s b s' hW hk hrun => by
    have hw : s.world = w := hW
    rw [← hw] at h
    rw [Go.bind_ok (callE_ok h)] at hrun
    exact hg.run { s with world := w1, trace := s.trace ++ [Event.call c none] } b s'
      trivial hk hrun⟩

end WrittenValues

section WrittenByReadBack

variable {σ : Type}

open Go

/-- The read-back writes the flattened static routes of the gateway as `static_route`. -/
theorem setMobileGatewayResourceData_static_route (cl : MGWClient σ) (data : MobileGateway)
    (hpower : ∀ d, (cl.setPowerManageTimeoutValueToState d).written "static_route"
      = d.written "static_route") :
    Writes (fun _ => True) "static_route" (.recs (flattenStaticRoutes cl data))
      (setMobileGatewayResourceData cl data) := by
  unfold setMobileGatewayResourceData
  split
  · exact ⟨fun s a s' _ _ hrun => by simp at hrun⟩
  · split
    · exact ⟨fun s a s' _ _ hrun => by simp at hrun⟩
    · refine Writes.skip (Quiet.quiet_Set _ _ _) (fun _ => ?_)
      split
      · exact ⟨fun s a s' _ _ hrun => by simp at hrun⟩
      · repeat' first
          | exact Keeps.kept_pure _ _
          | exact Keeps.kept_fail _ _
          | exact Keeps.kept_Set _ _ _ (by decide)
          | exact Keeps.kept_call _ _ _ _
          | exact ⟨fun s => hpower s.d⟩
          | exact Quiet.quiet_pure _ _
          | exact Quiet.quiet_fail _ _
          | exact Quiet.quiet_crash _
          | exact Quiet.quiet_Set _ _ _
          | exact Quiet.quiet_call _ _ _
          | exact Quiet.quiet_callE _ _
          | apply Writes.set_bind
          | apply Writes.skip
          | apply Keeps.kept_bind
          | apply Quiet.quiet_bind
          | intro _
          | split

/-- The read-back writes the flattened reply of `GetTrafficMonitoringConfig` as the single
entry of `traffic_control`. -/
theorem setMobileGatewayResourceData_traffic_control (cl : MGWClient σ)
    (data : MobileGateway) (w w1 : σ) (tc : TrafficMonitoringConfig)
    (hpower : ∀ d, (cl.setPowerManageTimeoutValueToState d).written "traffic_control"
      = d.written "traffic_control")
    (h : cl.tc (MGWCall.GetTrafficMonitoringConfig data.ID) w = (Except.ok (some tc), w1)) :
    Writes (fun x => x = w) "traffic_control" (.recs [flattenTrafficControl tc])
      (setMobileGatewayResourceData cl data) := by
  unfold setMobileGatewayResourceData
  split
  · exact ⟨fun s a s' _ _ hrun => by simp at hrun⟩
  · split
    · exact ⟨fun s a s' _ _ hrun => by simp at hrun⟩
    · refine Writes.skip_local (Quiet.quiet_Set _ _ _) (fun _ => ?_)
      split
      · exact ⟨fun s a s' _ _ hrun => by simp at hrun⟩
      · refine Writes.skip_local (Quiet.quiet_Set _ _ _) (fun _ => ?_)
        refine Writes.skip_local (Quiet.quiet_Set _ _ _) (fun _ => ?_)
        refine Writes.skip_local ?_ (fun _ => ?_)
        · repeat' first
            | exact Quiet.quiet_pure _ _
            | exact Quiet.quiet_crash _
            | exact Quiet.quiet_Set _ _ _
            | apply Quiet.quiet_bind
            | intro _
            | split
        · rw [Go.bind_bind]
          refine Writes.after_callE h ?_
          dsimp only
          rw [Go.pure_bind]
          dsimp only
          rw [Go.bind_bind]
          refine Writes.set_bind _ _ (fun _ => ?_)
          repeat' first
            | exact Keeps.kept_pure _ _
            | exact Keeps.kept_Set _ _ _ (by decide)
            | exact Keeps.kept_call _ _ _ _
            | exact ⟨fun s => hpower s.d⟩
            | apply Keeps.kept_bind
            | intro _

end WrittenByReadBack

/-! ### C21, C22: traffic control and static routes in the read-back -/

section ReadBackValues

variable {σ : Type}

open Go

/-- C21: the traffic-control round trip.  Flattening the config that Create and Update
build from a `traffic_control` block gives the block back, field for field; for every
block the six fields of the flattened entry are read back as they were read from the block.
A config without `EMailConfig` flattens to `enable_email` false, one without `SlackConfig`
to `enable_slack` false and an empty `slack_webhook`.  In a run of
`setMobileGatewayResourceData` that returns nil, the value written for `traffic_control` is
the one-element list of the flattened reply of `GetTrafficMonitoringConfig`; the SDK is
assumed to accept the attribute and `setPowerManageTimeoutValueToState` to leave it
alone. -/
theorem traffic_control_round_trip (cl : MGWClient σ) (data : MobileGateway) (w w1 : σ)
    (d : ResourceData) (values : List (String × Prim))
    (hfails : d.setFails.lookup "traffic_control" = none)
    (hpower : ∀ d, (cl.setPowerManageTimeoutValueToState d).written "traffic_control"
      = d.written "traffic_control")
    (htc : cl.tc (MGWCall.GetTrafficMonitoringConfig data.ID) w
      = (Except.ok (some (expandTrafficControl values)), w1))
    (hok : (setMobileGatewayResourceData cl data (St.init w d)).1 = Res.ok ()) :
    (∀ quota bandWidthLimit enableEmail enableSlack slackWebhook autoTrafficShaping,
      (flattenTrafficControl (expandTrafficControl (trafficControlBlock quota bandWidthLimit
        enableEmail enableSlack slackWebhook autoTrafficShaping))).Perm
        (trafficControlBlock quota bandWidthLimit enableEmail enableSlack slackWebhook
          autoTrafficShaping)) ∧
    (rowInt (flattenTrafficControl (expandTrafficControl values)) "quota"
        = rowInt values "quota" ∧
      rowInt (flattenTrafficControl (expandTrafficControl values)) "band_width_limit"
        = rowInt values "band_width_limit" ∧
      rowBool (flattenTrafficControl (expandTrafficControl values)) "enable_email"
        = rowBool values "enable_email" ∧
      rowBool (flattenTrafficControl (expandTrafficControl values)) "enable_slack"
        = rowBool values "enable_slack" ∧
      rowStr (flattenTrafficControl (expandTrafficControl values)) "slack_webhook"
        = rowStr values "slack_webhook" ∧
      rowBool (flattenTrafficControl (expandTrafficControl values)) "auto_traffic_shaping"
        = rowBool values "auto_traffic_shaping") ∧
    (∀ tc : TrafficMonitoringConfig,
      (tc.EMailConfig = none → rowBool (flattenTrafficControl tc) "enable_email" = false) ∧
      (tc.SlackConfig = none → rowBool (flattenTrafficControl tc) "enable_slack" = false ∧
        rowStr (flattenTrafficControl tc) "slack_webhook" = "")) ∧
    (setMobileGatewayResourceData cl data (St.init w d)).2.d.written "traffic_control" =
      some (.recs [flattenTrafficControl (expandTrafficControl values)]) := by
  refine ⟨?_, ?_, ?_, ?_⟩
  · intro quota bandWidthLimit enableEmail enableSlack slackWebhook autoTrafficShaping
    have hflat : flattenTrafficControl (expandTrafficControl (trafficControlBlock quota
        bandWidthLimit enableEmail enableSlack slackWebhook autoTrafficShaping)) =
        [("quota", .int quota), ("band_width_limit", .int bandWidthLimit)] ++
          ([("auto_traffic_shaping", .bool autoTrafficShaping)] ++
            [("enable_email", .bool enableEmail), ("enable_slack", .bool enableSlack),
             ("slack_webhook", .str slackWebhook)]) := rfl
    rw [hflat]
    exact List.Perm.append_left _ List.perm_append_comm
  · simp [flattenTrafficControl, expandTrafficControl, rowInt, rowBool, rowStr, List.lookup]
  · intro tc
    constructor
    · intro h
      simp [flattenTrafficControl, rowBool, List.lookup, h]
    · intro h
      simp [flattenTrafficControl, rowBool, rowStr, List.lookup, h]
  · rcases hrun : setMobileGatewayResourceData cl data (St.init w d) with ⟨r, s'⟩
    rw [hrun] at hok
    simp only at hok
    subst hok
    exact (setMobileGatewayResourceData_traffic_control cl data w w1 _ hpower htc).run
      (St.init w d) () s' rfl hfails hrun

/-- C21 on the block of the acceptance test: the read-back writes one entry with the values
of the block. -/
theorem traffic_control_round_trip_witness :
    (setMobileGatewayResourceData monitoredMGW routedGateway
      (St.init 0 bareData)).2.d.written "traffic_control" =
      some (.recs [[("quota", .int 256), ("band_width_limit", .int 64),
        ("auto_traffic_shaping", .bool true), ("enable_email", .bool true),
        ("enable_slack", .bool true),
        ("slack_webhook", .str "https://hooks.slack.com/services/xxx/xxx/xxx")]]) :=
  (traffic_control_round_trip monitoredMGW routedGateway 0 1 bareData sampleTrafficControl
    rfl (fun _ => rfl) rfl rfl).2.2.2

/-- C22: in a run of `setMobileGatewayResourceData` that returns nil, the value written for
`static_route` is, for a gateway that has static routes, the list of the entries
{prefix, next_hop} of the routes in the settings, in their order; it is the empty list for a
gateway that has none.  The SDK is assumed to accept the attribute and
`setPowerManageTimeoutValueToState` to leave it alone. -/
theorem static_route_read_back (cl : MGWClient σ) (data : MobileGateway) (w : σ)
    (d : ResourceData)
    (hfails : d.setFails.lookup "static_route" = none)
    (hpower : ∀ d, (cl.setPowerManageTimeoutValueToState d).written "static_route"
      = d.written "static_route")
    (hok : (setMobileGatewayResourceData cl data (St.init w d)).1 = Res.ok ()) :
    (cl.HasStaticRoutes data = true →
      (setMobileGatewayResourceData cl data (St.init w d)).2.d.written "static_route" =
        some (.recs (data.Settings.StaticRoutes.map staticRouteEntry))) ∧
    (cl.HasStaticRoutes data = false ∨ data.Settings.StaticRoutes = [] →
      (setMobileGatewayResourceData cl data (St.init w d)).2.d.written "static_route" =
        some (.recs [])) := by
  rcases hrun : setMobileGatewayResourceData cl data (St.init w d) with ⟨r, s'⟩
  rw [hrun] at hok
  simp only at hok
  subst hok
  have h := (setMobileGatewayResourceData_static_route cl data hpower).run
    (St.init w d) () s' trivial hfails hrun
  simp only
  rw [h]
  constructor
  · intro hhas
    simp [flattenStaticRoutes, hhas, staticRouteEntry]
  · intro hnone
    rcases hnone with hnone | hnone
    · simp [flattenStaticRoutes, hnone]
    · simp [flattenStaticRoutes, hnone]

/-- C22 on the gateway of the acceptance test: three routes, in the order of the remote
list. -/
theorem static_route_read_back_witness :
    (setMobileGatewayResourceData monitoredMGW routedGateway
      (St.init 0 bareData)).2.d.written "static_route" =
      some (.recs [[("prefix", .str "192.168.10.0/24"), ("next_hop", .str "192.168.11.1")],
        [("prefix", .str "192.168.10.0/25"), ("next_hop", .str "192.168.11.2")],
        [("prefix", .str "192.168.10.0/26"), ("next_hop", .str "192.168.11.3")]]) :=
  (static_route_read_back monitoredMGW routedGateway 0 bareData rfl (fun _ => rfl) rfl).1 rfl

end ReadBackValues

/-! ### C26, C27, C30: the SSH key update, the router interface read-back, disk plans -/

section SmallClaims

variable {σ : Type}

open Go

/-- C30: with distinct IDs for the SSD and the HDD plan, `flattenDiskPlan` and
`expandDiskPlan` are inverse to each other on the known plans: the desired plan "ssd" or
"hdd" comes back from the disk that carries the expanded ID, and the ID of the SSD or HDD
plan comes back from resource data that carries the flattened plan.  Every other plan
string expands to the zero ID and every other plan ID flattens to the empty string. -/
theorem diskPlan_round_trip (plans : DiskPlans) (hne : plans.SSD ≠ plans.HDD) :
    (∀ d, (d.Get "plan").asString = "ssd" ∨ (d.Get "plan").asString = "hdd" →
      flattenDiskPlan plans { DiskPlanID := expandDiskPlan plans d } =
        (d.Get "plan").asString) ∧
    (∀ data d, data.DiskPlanID = plans.SSD ∨ data.DiskPlanID = plans.HDD →
      (d.Get "plan").asString = flattenDiskPlan plans data →
      expandDiskPlan plans d = data.DiskPlanID) ∧
    (∀ d, (d.Get "plan").asString ≠ "ssd" → (d.Get "plan").asString ≠ "hdd" →
      expandDiskPlan plans d = 0) ∧
    (∀ data, data.DiskPlanID ≠ plans.SSD → data.DiskPlanID ≠ plans.HDD →
      flattenDiskPlan plans data = "") := by
  refine ⟨?_, ?_, ?_, ?_⟩
  · intro d h
    rcases h with h | h
    · simp [flattenDiskPlan, expandDiskPlan, h]
    · simp [flattenDiskPlan, expandDiskPlan, h, Ne.symm hne]
  · intro data d h hp
    rcases h with h | h
    · simp [flattenDiskPlan, h] at hp
      simp [expandDiskPlan, hp, h]
    · simp [flattenDiskPlan, h, Ne.symm hne] at hp
      simp [expandDiskPlan, hp, h]
  · intro d h1 h2
    simp [expandDiskPlan, h1, h2]
  · intro data h1 h2
    simp [flattenDiskPlan, h1, h2]

/-- C30 with the plan IDs of the API library, for the plan "hdd". -/
theorem diskPlan_round_trip_witness :
    flattenDiskPlan sampleDiskPlans
      { DiskPlanID := expandDiskPlan sampleDiskPlans (diskData "hdd") } = "hdd" ∧
    expandDiskPlan sampleDiskPlans (diskData "hdd") = 2 :=
  ⟨(diskPlan_round_trip sampleDiskPlans (by decide)).1 (diskData "hdd") (Or.inr rfl),
   (diskPlan_round_trip sampleDiskPlans (by decide)).2.1 { DiskPlanID := 2 } (diskData "hdd")
     (Or.inr rfl) rfl⟩

/-- The Read handler of SSHKey issues no remote call other than Read. -/
theorem resourceSakuraCloudSSHKeyRead_reads (cl : SSHKeyClient σ) :
    Emits (fun e => ∃ id r, e = Event.call (SSHKeyCall.Read id) r)
      (resourceSakuraCloudSSHKeyRead cl) := by
  unfold resourceSakuraCloudSSHKeyRead setSSHKeyResourceData
  repeat' first
    | exact Emits.pure _
    | exact Emits.fail _
    | exact Emits.getData
    | exact Emits.SetId _
    | exact Emits.Set _ _
    | exact Emits.callE _ _ (fun r => ⟨_, r, rfl⟩)
    | apply Emits.bind
    | intro _
    | split

/-- C26: `resourceSakuraCloudSSHKeyUpdate` changes only what changed.  `public_key` is
ForceNew in the schema (lines 42-46), so the SDK replaces the resource on a change of it and
the Update handler runs only on resource data in which `public_key` has no change.  On every
such run whose initial Read returns `key`, the second remote call is Update with the ID as
read and a key object whose `Name` is the desired name if `name` changed and the name as read
otherwise, whose `Description` is the desired description (empty when unset) if `description`
changed and the description as read otherwise, and whose `ID`, `PublicKey` and `Fingerprint`
are as read; every later remote call of the run is a Read, so this is the only Update. -/
theorem sshKeyUpdate_changes_only_what_changed (cl : SSHKeyClient σ) (w w1 : σ)
    (d : ResourceData) (key : SSHKey)
    (hforce : d.HasChange "public_key" = false)
    (hread : cl.key (SSHKeyCall.Read (cl.toSakuraCloudID d.id)) w = (Except.ok key, w1)) :
    ∃ r rest, (resourceSakuraCloudSSHKeyUpdate cl (St.init w d)).2.trace =
        Event.call (SSHKeyCall.Read (cl.toSakuraCloudID d.id)) none ::
        Event.call (SSHKeyCall.Update key.ID
          { ID := key.ID,
            Name := if d.HasChange "name" then (d.Get "name").asString else key.Name,
            PublicKey := key.PublicKey,
            Fingerprint := key.Fingerprint,
            Description :=
              if d.HasChange "description" then
                (if (d.GetOk "description").2 then (d.GetOk "description").1.asString else "")
              else key.Description }) r :: rest ∧
      ∀ x ∈ rest, ∃ id r, x = Event.call (SSHKeyCall.Read id) r := by
  have hsent : sshKeyApplyChanges d key =
      { ID := key.ID,
            Name := if d.HasChange "name" then (d.Get "name").asString else key.Name,
            PublicKey := key.PublicKey,
            Fingerprint := key.Fingerprint,
            Description :=
              if d.HasChange "description" then
                (if (d.GetOk "description").2 then (d.GetOk "description").1.asString else "")
              else key.Description } := by
    unfold sshKeyApplyChanges
    simp only [hforce]
    repeat' split
    all_goals simp_all
  unfold resourceSakuraCloudSSHKeyUpdate
  rw [Go.bind_ok (getData_run _)]
  have h1 : call "Couldn't find SakuraCloud SSHKey resource: "
      (SSHKeyCall.Read (cl.toSakuraCloudID (St.init w d : St SSHKeyCall σ).d.id)) cl.key
      (St.init w d) = _ := call_ok hread
  rw [Go.bind_ok h1]
  simp only [St.init]
  rw [hsent]
  rcases ok_or_error (cl.key (SSHKeyCall.Update key.ID
      { ID := key.ID,
            Name := if d.HasChange "name" then (d.Get "name").asString else key.Name,
            PublicKey := key.PublicKey,
            Fingerprint := key.Fingerprint,
            Description :=
              if d.HasChange "description" then
                (if (d.GetOk "description").2 then (d.GetOk "description").1.asString else "")
              else key.Description }) w1) with ⟨a, w2, h⟩ | ⟨e, w2, h⟩
  · have h2 : call "Error updating SakuraCloud SSHKey resource: " (SSHKeyCall.Update key.ID _)
        cl.key ({ world := w1, d := d,
                  trace := [] ++ [Event.call (SSHKeyCall.Read (cl.toSakuraCloudID d.id)) none],
                  defers := [] } : St SSHKeyCall σ) = _ := call_ok h
    rw [Go.bind_ok h2]
    obtain ⟨-, evs, htr, hev⟩ := (resourceSakuraCloudSSHKeyRead_reads cl).run
      { world := w2, d := d, defers := [],
        trace := [Event.call (SSHKeyCall.Read (cl.toSakuraCloudID d.id)) none,
          Event.call (SSHKeyCall.Update key.ID
          { ID := key.ID,
            Name := if d.HasChange "name" then (d.Get "name").asString else key.Name,
            PublicKey := key.PublicKey,
            Fingerprint := key.Fingerprint,
            Description :=
              if d.HasChange "description" then
                (if (d.GetOk "description").2 then (d.GetOk "description").1.asString else "")
              else key.Description }) none] }
    exact ⟨none, evs, htr, hev⟩
  · have h2 : call "Error updating SakuraCloud SSHKey resource: " (SSHKeyCall.Update key.ID _)
        cl.key ({ world := w1, d := d,
                  trace := [] ++ [Event.call (SSHKeyCall.Read (cl.toSakuraCloudID d.id)) none],
                  defers := [] } : St SSHKeyCall σ) = _ := call_error h
    rw [Go.bind_err h2]
    exact ⟨some e, [], rfl, by simp⟩

/-- C26 on SSH key 100, renamed from "key" to "renamed" and given the description
"deploy key" while the public key stays: the key sent to Update carries the new name and
description and the public key and fingerprint as read. -/
theorem sshKeyUpdate_changes_only_what_changed_witness :
    keyRename.HasChange "public_key" = false ∧
    ∃ r rest,
      (resourceSakuraCloudSSHKeyUpdate (scriptedSSHKey []) (St.init 0 keyRename)).2.trace =
        Event.call (SSHKeyCall.Read 100) none ::
        Event.call (SSHKeyCall.Update 100
          { ID := 100, Name := "renamed", PublicKey := "ssh-rsa AAAA", Fingerprint := "00:11",
            Description := "deploy key" }) r :: rest ∧
      ∀ x ∈ rest, ∃ id r, x = Event.call (SSHKeyCall.Read id) r :=
  ⟨by decide, sshKeyUpdate_changes_only_what_changed (scriptedSSHKey []) 0 1 keyRename
    sampleSSHKey (by decide) rfl⟩

/-- C27 at the failing inputs: interface 1 of router 100.  The Read handler ends in a
runtime panic when the API reports fewer NICs than the settings list interfaces, when the
settings entry of the interface is nil, and when the router has no settings; it returns nil
for a router that lists the interface in both places. -/
theorem vpcRouterInterfaceRead_panics :
    (resourceSakuraCloudVPCRouterInterfaceRead (routerReporting routerOneNIC)
      (St.init 0 routerInterfaceData)).1 = Res.panic ∧
    (resourceSakuraCloudVPCRouterInterfaceRead (routerReporting routerNilSetting)
      (St.init 0 routerInterfaceData)).1 = Res.panic ∧
    (resourceSakuraCloudVPCRouterInterfaceRead (routerReporting routerNoSettings)
      (St.init 0 routerInterfaceData)).1 = Res.panic ∧
    (resourceSakuraCloudVPCRouterInterfaceRead (routerReporting sampleRouter)
      (St.init 0 routerInterfaceData)).1 = Res.ok () := by
  refine ⟨rfl, rfl, rfl, rfl⟩

end SmallClaims

/-! ### C23: the duplicate check of the static routes -/

section StaticRouteCheck

variable {σ : Type}

open Go

/-- The static-route loop, started with routes of pairwise distinct prefixes: it returns the
collected routes followed by the desired ones when all prefixes are pairwise distinct, and
otherwise the error that names a prefix that occurs twice. -/
theorem appendStaticRoutes_spec (cl : MGWClient σ) (rows : List (List (String × Prim))) :
    ∀ acc : List MGWStaticRoute, (acc.map (fun sr => sr.Prefix)).Nodup →
      (((acc ++ rows.map cl.expandMobileGatewayStaticRoute).map (fun sr => sr.Prefix)).Nodup →
        appendStaticRoutes cl rows acc =
          .ok (acc ++ rows.map cl.expandMobileGatewayStaticRoute)) ∧
      (¬ ((acc ++ rows.map cl.expandMobileGatewayStaticRoute).map
            (fun sr => sr.Prefix)).Nodup →
        ∃ p, p ∈ (acc ++ rows.map cl.expandMobileGatewayStaticRoute).map (fun sr => sr.Prefix) ∧
          appendStaticRoutes cl rows acc =
            .error (newErr ("prefix " ++ cl.Quote p ++ " already exists"))) := by
  induction rows with
  | nil =>
    intro acc hacc
    simp [appendStaticRoutes, hacc]
  | cons row rest ih =>
    intro acc hacc
    cases hfind : acc.find? (fun sr => sr.Prefix == (cl.expandMobileGatewayStaticRoute row).Prefix) with
    | some x =>
      have hx := List.find?_some hfind
      have hmem := List.mem_of_find?_eq_some hfind
      have hdup : ¬ ((acc ++ (row :: rest).map cl.expandMobileGatewayStaticRoute).map
          (fun sr => sr.Prefix)).Nodup := by
        intro hnd
        simp only [List.map_append, List.map_cons] at hnd
        have := (List.nodup_append.mp hnd).2.2
        exact this (List.mem_map_of_mem _ hmem)
          (List.mem_cons.mpr (Or.inl (by simpa using hx)))
      refine ⟨fun hnd => absurd hnd hdup, fun _ => ⟨x.Prefix, ?_, ?_⟩⟩
      · simp only [List.map_append, List.mem_append]
        exact Or.inl (List.mem_map_of_mem _ hmem)
      · simp only [appendStaticRoutes, hfind]
    | none =>
      have hnone := List.find?_eq_none.mp hfind
      have hacc' : ((acc ++ [cl.expandMobileGatewayStaticRoute row]).map
          (fun sr => sr.Prefix)).Nodup := by
        simp only [List.map_append, List.map_cons, List.map_nil]
        refine List.Nodup.append hacc (List.nodup_singleton _) ?_
        intro p hp hq
        simp only [List.mem_singleton] at hq
        obtain ⟨y, hy, rfl⟩ := List.mem_map.mp hp
        exact hnone y hy (by simpa using hq)
      have heq : acc ++ [cl.expandMobileGatewayStaticRoute row] ++
          rest.map cl.expandMobileGatewayStaticRoute =
          acc ++ (row :: rest).map cl.expandMobileGatewayStaticRoute := by simp
      have h := ih (acc ++ [cl.expandMobileGatewayStaticRoute row]) hacc'
      rw [heq] at h
      simp only [appendStaticRoutes, hfind]
      exact h

/-- An error with the wording of the duplicate-prefix error is none of the errors that the
static-route block makes of a failed remote call. -/
theorem wrapErr_ne_duplicate (e : Err) (q : String) :
    wrapErr "Failed to enable SakuraCloud MobileGatewayStaticRoute resource: " e ≠
        newErr ("prefix " ++ q ++ " already exists") ∧
    wrapErr "Couldn'd apply SakuraCloud MobileGateway config: " e ≠
        newErr ("prefix " ++ q ++ " already exists") := by
  constructor <;>
  · intro h
    have h2 := congrArg (fun x => x.msg.data.head?) h
    simp [wrapErr, newErr, String.data_append] at h2

/-- C23: the duplicate check of the static-route block of the update handler, with
`static_route` changed and the desired list handed over by `getListFromResource`.  When two
desired entries have the same prefix, the block returns the error `prefix ... already
exists`, which names one of the desired prefixes as the verb `%q` renders it (`cl.Quote`),
and leaves the run state as it was: no remote call is issued.  When the prefixes are pairwise distinct, the first call of the block is
`UpdateSetting` with the gateway whose `StaticRoutes` are exactly the desired entries in
their order, and the block does not return the duplicate error.  When no list is handed
over, `UpdateSetting` is called with the gateway without static routes. -/
theorem mgwUpdate_static_route_check (cl : MGWClient σ) (d : ResourceData)
    (mgw : MobileGateway) (s : St MGWCall σ) (hchange : d.HasChange "static_route" = true) :
    ((cl.getListFromResource d "static_route").2 = true →
      ¬ (((cl.getListFromResource d "static_route").1.map
          cl.expandMobileGatewayStaticRoute).map (fun sr => sr.Prefix)).Nodup →
      ∃ p, p ∈ ((cl.getListFromResource d "static_route").1.map
          cl.expandMobileGatewayStaticRoute).map (fun sr => sr.Prefix) ∧
        mgwUpdateStaticRoute cl d mgw s =
          (Res.err (newErr ("prefix " ++ cl.Quote p ++ " already exists")), s)) ∧
    ((cl.getListFromResource d "static_route").2 = true →
      (((cl.getListFromResource d "static_route").1.map
          cl.expandMobileGatewayStaticRoute).map (fun sr => sr.Prefix)).Nodup →
      (∃ r rest, (mgwUpdateStaticRoute cl d mgw s).2.trace = s.trace ++
        Event.call (MGWCall.UpdateSetting mgw.ID
          { mgw with Settings := { mgw.Settings with
              StaticRoutes := (cl.getListFromResource d "static_route").1.map
                cl.expandMobileGatewayStaticRoute } }) r :: rest) ∧
      ∀ p, (mgwUpdateStaticRoute cl d mgw s).1 ≠
        Res.err (newErr ("prefix " ++ cl.Quote p ++ " already exists"))) ∧
    ((cl.getListFromResource d "static_route").2 = false →
      ∃ r rest, (mgwUpdateStaticRoute cl d mgw s).2.trace = s.trace ++
        Event.call (MGWCall.UpdateSetting mgw.ID
          { mgw with Settings := { mgw.Settings with StaticRoutes := [] } }) r :: rest) := by
  have hspec := appendStaticRoutes_spec cl (cl.getListFromResource d "static_route").1 []
    List.nodup_nil
  simp only [List.nil_append] at hspec
  have htail : ∀ m : MobileGateway,
      (∃ r rest, ((do
        let mgw ← call "Failed to enable SakuraCloud MobileGatewayStaticRoute resource: "
          (.UpdateSetting m.ID m) cl.mgw
        call "Couldn'd apply SakuraCloud MobileGateway config: " (.Config mgw.ID) cl.unit
        pure mgw : Go MGWCall σ MobileGateway) s).2.trace = s.trace ++
          Event.call (MGWCall.UpdateSetting m.ID m) r :: rest) ∧
      ∀ p, ((do
        let mgw ← call "Failed to enable SakuraCloud MobileGatewayStaticRoute resource: "
          (.UpdateSetting m.ID m) cl.mgw
        call "Couldn'd apply SakuraCloud MobileGateway config: " (.Config mgw.ID) cl.unit
        pure mgw : Go MGWCall σ MobileGateway) s).1 ≠
          Res.err (newErr ("prefix " ++ cl.Quote p ++ " already exists")) := by
    intro m
    rcases ok_or_error (cl.mgw (MGWCall.UpdateSetting m.ID m) s.world) with
      ⟨m2, w, h⟩ | ⟨e, w, h⟩
    · rw [Go.bind_ok (call_ok h)]
      rcases ok_or_error (cl.unit (MGWCall.Config m2.ID) w) with ⟨u, w2, h2⟩ | ⟨e, w2, h2⟩
      · rw [Go.bind_ok (call_ok h2)]
        exact ⟨⟨none, [Event.call (MGWCall.Config m2.ID) none], by simp⟩, fun p => by simp⟩
      · rw [Go.bind_err (call_error h2)]
        refine ⟨⟨none, [Event.call (MGWCall.Config m2.ID) (some e)], by simp⟩, fun p hp => ?_⟩
        exact (wrapErr_ne_duplicate e (cl.Quote p)).2 (Res.err.inj hp)
    · rw [Go.bind_err (call_error h)]
      refine ⟨⟨some e, [], by simp⟩, fun p hp => ?_⟩
      exact (wrapErr_ne_duplicate e (cl.Quote p)).1 (Res.err.inj hp)
  unfold mgwUpdateStaticRoute
  simp only [hchange, if_true]
  refine ⟨fun hlist hdup => ?_, fun hlist hnd => ?_, fun hlist => ?_⟩
  · obtain ⟨p, hp, herr⟩ := hspec.2 hdup
    have hlen : (cl.getListFromResource d "static_route").1.length > 0 := by
      rcases hrows : (cl.getListFromResource d "static_route").1 with _ | ⟨row, rest⟩
      · rw [hrows] at hdup
        simp at hdup
      · simp
    refine ⟨p, hp, ?_⟩
    simp [hlist, hlen, herr]
  · by_cases hlen : (cl.getListFromResource d "static_route").1.length > 0
    · simp only [hlist, hlen, and_self, if_true, hspec.1 hnd, Go.pure_bind]
      exact htail { mgw with Settings := { mgw.Settings with
        StaticRoutes := (cl.getListFromResource d "static_route").1.map
          cl.expandMobileGatewayStaticRoute } }
    · have hrows : (cl.getListFromResource d "static_route").1 = [] := by
        simpa using hlen
      simp only [hlist, hrows, List.length_nil, gt_iff_lt, lt_self_iff_false, and_false,
        if_false, Go.pure_bind, List.map_nil]
      exact htail { mgw with Settings := { mgw.Settings with StaticRoutes := [] } }
  · simp only [hlist, Bool.false_eq_true, false_and, if_false, Go.pure_bind]
    exact (htail { mgw with Settings := { mgw.Settings with StaticRoutes := [] } }).1

/-- C23 on gateway 100: two desired routes with the prefix 10.0.0.0/8 end the block with the
duplicate error and without a remote call; the three routes of the acceptance test are sent
to `UpdateSetting` in their order; and the update handler on the two routes with the same
prefix returns the duplicate error without an `UpdateSetting` call. -/
theorem mgwUpdate_static_route_check_witness :
    (∃ p, p ∈ ["10.0.0.0/8", "10.0.0.0/8"] ∧
      mgwUpdateStaticRoute (scriptedMGW attachedGateway []) duplicateRoutes attachedGateway
        (St.init 0 duplicateRoutes) =
        (Res.err (newErr ("prefix " ++ sampleQuote p ++ " already exists")),
         St.init 0 duplicateRoutes)) ∧
    (∃ r rest, (mgwUpdateStaticRoute (scriptedMGW attachedGateway []) distinctRoutes
        attachedGateway (St.init 0 distinctRoutes)).2.trace = [] ++
        Event.call (MGWCall.UpdateSetting 100
          { attachedGateway with Settings := { attachedGateway.Settings with
              StaticRoutes := [⟨"192.168.10.0/24", "192.168.11.1"⟩,
                ⟨"192.168.10.0/25", "192.168.11.2"⟩, ⟨"192.168.10.0/26", "192.168.11.3"⟩] } })
          r :: rest) ∧
    (resourceSakuraCloudMobileGatewayUpdate (scriptedMGW attachedGateway [])
        (St.init 0 duplicateRoutes)).1 =
      Res.err (newErr "prefix \"10.0.0.0/8\" already exists") ∧
    (∀ e ∈ (resourceSakuraCloudMobileGatewayUpdate (scriptedMGW attachedGateway [])
        (St.init 0 duplicateRoutes)).2.trace, isSettingUpdate e = false) :=
  ⟨(mgwUpdate_static_route_check (scriptedMGW attachedGateway []) duplicateRoutes
      attachedGateway (St.init 0 duplicateRoutes) (by decide)).1 rfl (by decide),
   ((mgwUpdate_static_route_check (scriptedMGW attachedGateway []) distinctRoutes
      attachedGateway (St.init 0 distinctRoutes) (by decide)).2.1 rfl (by decide)).1,
   rfl, by decide⟩

end StaticRouteCheck

/-! ### C24: the Read handlers after a failed remote Read -/

section ReadFailedRead

variable {σ : Type}

open Go

/-- The Read handler of DNS after a failed remote Read. -/
theorem resourceSakuraCloudDNSRead_failed_read (cl : DNSClient σ) (w w' : σ)
    (d : ResourceData) (e : Err)
    (h : cl.dns (DNSCall.Read (cl.sakuraCloudID d.id)) w = (Except.error e, w')) :
    ReadFailed d (DNSCall.Read (cl.sakuraCloudID d.id)) e
      (resourceSakuraCloudDNSRead cl (St.init w d)) := by
  cases hc : e.isNotFound <;>
    simp [resourceSakuraCloudDNSRead, St.init, callE, h, hc]
  · exact ⟨rfl, by simp [hc], fun _ => ⟨⟨_, rfl, wrapErr_mentions _ _⟩, rfl⟩⟩
  · exact ⟨rfl, fun _ => ⟨rfl, rfl⟩, by simp [hc]⟩

/-- The Read handler of NFS after a failed remote Read. -/
theorem resourceSakuraCloudNFSRead_failed_read (cl : NFSClient σ) (w w' : σ)
    (d : ResourceData) (e : Err)
    (hclient : cl.sakuraCloudClient d = none)
    (h : cl.nfs (NFSCall.Read (cl.sakuraCloudID d.id)) w = (Except.error e, w')) :
    ReadFailed d (NFSCall.Read (cl.sakuraCloudID d.id)) e
      (resourceSakuraCloudNFSRead cl (St.init w d)) := by
  cases hc : e.isNotFound <;>
    simp [resourceSakuraCloudNFSRead, St.init, callE, h, hc, clientOrReturn, hclient]
  · exact ⟨rfl, by simp [hc], fun _ => ⟨⟨_, rfl, wrapErr_mentions _ _⟩, rfl⟩⟩
  · exact ⟨rfl, fun _ => ⟨rfl, rfl⟩, by simp [hc]⟩

/-- The Read handler of Note after a failed remote Read. -/
theorem resourceSakuraCloudNoteRead_failed_read (cl : NoteClient σ) (w w' : σ)
    (d : ResourceData) (e : Err)
    (h : cl.note (NoteCall.Read (cl.sakuraCloudID d.id)) w = (Except.error e, w')) :
    ReadFailed d (NoteCall.Read (cl.sakuraCloudID d.id)) e
      (resourceSakuraCloudNoteRead cl (St.init w d)) := by
  cases hc : e.isNotFound <;>
    simp [resourceSakuraCloudNoteRead, St.init, callE, h, hc]
  · exact ⟨rfl, by simp [hc], fun _ => ⟨⟨_, rfl, wrapErr_mentions _ _⟩, rfl⟩⟩
  · exact ⟨rfl, fun _ => ⟨rfl, rfl⟩, by simp [hc]⟩

/-- The Read handler of ProxyLB after a failed remote Read. -/
theorem resourceSakuraCloudProxyLBRead_failed_read (cl : ProxyLBClient σ) (w w' : σ)
    (d : ResourceData) (e : Err)
    (hclient : cl.sakuraCloudClient d = none)
    (h : cl.lb (ProxyLBCall.Read (cl.sakuraCloudID d.id)) w = (Except.error e, w')) :
    ReadFailed d (ProxyLBCall.Read (cl.sakuraCloudID d.id)) e
      (resourceSakuraCloudProxyLBRead cl (St.init w d)) := by
  cases hc : e.isNotFound <;>
    simp [resourceSakuraCloudProxyLBRead, St.init, callE, h, hc, clientOrReturn, hclient]
  · exact ⟨rfl, by simp [hc], fun _ => ⟨⟨_, rfl, wrapErr_mentions _ _⟩, rfl⟩⟩
  · exact ⟨rfl, fun _ => ⟨rfl, rfl⟩, by simp [hc]⟩

/-- The Read handler of SimpleMonitor after a failed remote Read. -/
theorem resourceSakuraCloudSimpleMonitorRead_failed_read (cl : SimpleMonitorClient σ) (w w' : σ)
    (d : ResourceData) (e : Err)
    (hclient : cl.sakuraCloudClient d = none)
    (h : cl.monitor (SimpleMonitorCall.Read (cl.sakuraCloudID d.id)) w = (Except.error e, w')) :
    ReadFailed d (SimpleMonitorCall.Read (cl.sakuraCloudID d.id)) e
      (resourceSakuraCloudSimpleMonitorRead cl (St.init w d)) := by
  cases hc : e.isNotFound <;>
    simp [resourceSakuraCloudSimpleMonitorRead, St.init, callE, h, hc, clientOrReturn, hclient]
  · exact ⟨rfl, by simp [hc], fun _ => ⟨⟨_, rfl, wrapErr_mentions _ _⟩, rfl⟩⟩
  · exact ⟨rfl, fun _ => ⟨rfl, rfl⟩, by simp [hc]⟩

/-- The Read handler of SSHKey after a failed remote Read. -/
theorem resourceSakuraCloudSSHKeyRead_failed_read (cl : SSHKeyClient σ) (w w' : σ)
    (d : ResourceData) (e : Err)
    (h : cl.key (SSHKeyCall.Read (cl.toSakuraCloudID d.id)) w = (Except.error e, w')) :
    ReadFailed d (SSHKeyCall.Read (cl.toSakuraCloudID d.id)) e
      (resourceSakuraCloudSSHKeyRead cl (St.init w d)) := by
  cases hc : e.isNotFound <;>
    simp [resourceSakuraCloudSSHKeyRead, St.init, callE, h, hc]
  · exact ⟨rfl, by simp [hc], fun _ => ⟨⟨_, rfl, wrapErr_mentions _ _⟩, rfl⟩⟩
  · exact ⟨rfl, fun _ => ⟨rfl, rfl⟩, by simp [hc]⟩

/-- The Read handler of MobileGateway after a failed remote Read. -/
theorem resourceSakuraCloudMobileGatewayRead_failed_read (cl : MGWClient σ) (w w' : σ)
    (d : ResourceData) (e : Err)
    (h : cl.mgw (MGWCall.Read (cl.toSakuraCloudID d.id)) w = (Except.error e, w')) :
    ReadFailed d (MGWCall.Read (cl.toSakuraCloudID d.id)) e
      (resourceSakuraCloudMobileGatewayRead cl (St.init w d)) := by
  cases hc : e.isNotFound <;>
    simp [resourceSakuraCloudMobileGatewayRead, St.init, callE, h, hc]
  · exact ⟨rfl, by simp [hc], fun _ => ⟨⟨_, rfl, wrapErr_mentions _ _⟩, rfl⟩⟩
  · exact ⟨rfl, fun _ => ⟨rfl, rfl⟩, by simp [hc]⟩

/-- The Read handler of ServerConnector after a failed remote Read. -/
theorem resourceSakuraCloudServerConnectorRead_failed_read (cl : ServerClient σ) (w w' : σ)
    (d : ResourceData) (e : Err)
    (h : cl.server (ServerCall.Read (cl.toSakuraCloudID d.id)) w = (Except.error e, w')) :
    ReadFailed d (ServerCall.Read (cl.toSakuraCloudID d.id)) e
      (resourceSakuraCloudServerConnectorRead cl (St.init w d)) := by
  cases hc : e.isNotFound <;>
    simp [resourceSakuraCloudServerConnectorRead, St.init, callE, h, hc]
  · exact ⟨rfl, by simp [hc], fun _ => ⟨⟨_, rfl, wrapErr_mentions _ _⟩, rfl⟩⟩
  · exact ⟨rfl, fun _ => ⟨rfl, rfl⟩, by simp [hc]⟩

/-- C24: in each of the Read handlers of DNS, NFS, Note, ProxyLB, SimpleMonitor, SSHKey,
MobileGateway and ServerConnector, when the remote Read fails with `e`, that Read is the
only event of the run.  If `e` is not-found the handler returns nil, the resource ID is the
empty string and nothing else of the resource data has changed: no attribute is set.
Otherwise the handler returns an error that carries the text of `e`, and the resource data,
the ID included, is unchanged.  For the three handlers that look up their client first, the
lookup is assumed to succeed. -/
theorem read_handlers_after_failed_read (dns : DNSClient σ)
    (nfs : NFSClient σ)
    (note : NoteClient σ)
    (lb : ProxyLBClient σ) (monitor : SimpleMonitorClient σ) (key : SSHKeyClient σ)
    (mgw : MGWClient σ) (server : ServerClient σ)
    (w w' : σ) (d : ResourceData) (e : Err) :
    (dns.dns (DNSCall.Read (dns.sakuraCloudID d.id)) w = (Except.error e, w') →
      ReadFailed d (DNSCall.Read (dns.sakuraCloudID d.id)) e
        (resourceSakuraCloudDNSRead dns (St.init w d))) ∧
    (nfs.sakuraCloudClient d = none →
      nfs.nfs (NFSCall.Read (nfs.sakuraCloudID d.id)) w = (Except.error e, w') →
      ReadFailed d (NFSCall.Read (nfs.sakuraCloudID d.id)) e
        (resourceSakuraCloudNFSRead nfs (St.init w d))) ∧
    (note.note (NoteCall.Read (note.sakuraCloudID d.id)) w = (Except.error e, w') →
      ReadFailed d (NoteCall.Read (note.sakuraCloudID d.id)) e
        (resourceSakuraCloudNoteRead note (St.init w d))) ∧
    (lb.sakuraCloudClient d = none →
      lb.lb (ProxyLBCall.Read (lb.sakuraCloudID d.id)) w = (Except.error e, w') →
      ReadFailed d (ProxyLBCall.Read (lb.sakuraCloudID d.id)) e
        (resourceSakuraCloudProxyLBRead lb (St.init w d))) ∧
    (monitor.sakuraCloudClient d = none →
      monitor.monitor (SimpleMonitorCall.Read (monitor.sakuraCloudID d.id)) w = (Except.error e, w') →
      ReadFailed d (SimpleMonitorCall.Read (monitor.sakuraCloudID d.id)) e
        (resourceSakuraCloudSimpleMonitorRead monitor (St.init w d))) ∧
    (key.key (SSHKeyCall.Read (key.toSakuraCloudID d.id)) w = (Except.error e, w') →
      ReadFailed d (SSHKeyCall.Read (key.toSakuraCloudID d.id)) e
        (resourceSakuraCloudSSHKeyRead key (St.init w d))) ∧
    (mgw.mgw (MGWCall.Read (mgw.toSakuraCloudID d.id)) w = (Except.error e, w') →
      ReadFailed d (MGWCall.Read (mgw.toSakuraCloudID d.id)) e
        (resourceSakuraCloudMobileGatewayRead mgw (St.init w d))) ∧
    (server.server (ServerCall.Read (server.toSakuraCloudID d.id)) w = (Except.error e, w') →
      ReadFailed d (ServerCall.Read (server.toSakuraCloudID d.id)) e
        (resourceSakuraCloudServerConnectorRead server (St.init w d))) :=
  ⟨resourceSakuraCloudDNSRead_failed_read dns w w' d e,
   resourceSakuraCloudNFSRead_failed_read nfs w w' d e,
   resourceSakuraCloudNoteRead_failed_read note w w' d e,
   resourceSakuraCloudProxyLBRead_failed_read lb w w' d e,
   resourceSakuraCloudSimpleMonitorRead_failed_read monitor w w' d e,
   resourceSakuraCloudSSHKeyRead_failed_read key w w' d e,
   resourceSakuraCloudMobileGatewayRead_failed_read mgw w w' d e,
   resourceSakuraCloudServerConnectorRead_failed_read server w w' d e⟩

/-- C24 on the sample resources: the Read of resource 100 answers 404 Not Found. -/
theorem read_handlers_after_failed_read_witness :
    ReadFailed bareData (DNSCall.Read 100) notFound
      (resourceSakuraCloudDNSRead (scriptedDNS [(0, notFound)]) (St.init 0 bareData)) ∧
    ReadFailed bareData (NFSCall.Read 100) notFound
      (resourceSakuraCloudNFSRead (scriptedNFS [(0, notFound)]) (St.init 0 bareData)) ∧
    ReadFailed bareData (NoteCall.Read 100) notFound
      (resourceSakuraCloudNoteRead (scriptedNote [(0, notFound)]) (St.init 0 bareData)) ∧
    ReadFailed bareData (ProxyLBCall.Read 100) notFound
      (resourceSakuraCloudProxyLBRead (scriptedProxyLB [(0, notFound)]) (St.init 0 bareData)) ∧
    ReadFailed bareData (SimpleMonitorCall.Read 100) notFound
      (resourceSakuraCloudSimpleMonitorRead (scriptedMonitor [(0, notFound)]) (St.init 0 bareData)) ∧
    ReadFailed bareData (SSHKeyCall.Read 100) notFound
      (resourceSakuraCloudSSHKeyRead (scriptedSSHKey [(0, notFound)]) (St.init 0 bareData)) ∧
    ReadFailed bareData (MGWCall.Read 100) notFound
      (resourceSakuraCloudMobileGatewayRead (scriptedMGW sampleGateway [(0, notFound)]) (St.init 0 bareData)) ∧
    ReadFailed bareData (ServerCall.Read 100) notFound
      (resourceSakuraCloudServerConnectorRead (scriptedServer [(0, notFound)]) (St.init 0 bareData)) :=
  have h := read_handlers_after_failed_read (scriptedDNS [(0, notFound)])
    (scriptedNFS [(0, notFound)]) (scriptedNote [(0, notFound)])
    (scriptedProxyLB [(0, notFound)]) (scriptedMonitor [(0, notFound)])
    (scriptedSSHKey [(0, notFound)]) (scriptedMGW sampleGateway [(0, notFound)])
    (scriptedServer [(0, notFound)]) 0 1 bareData notFound
  ⟨h.1 rfl, h.2.1 rfl rfl, h.2.2.1 rfl, h.2.2.2.1 rfl rfl, h.2.2.2.2.1 rfl rfl, h.2.2.2.2.2.1 rfl, h.2.2.2.2.2.2.1 rfl, h.2.2.2.2.2.2.2 rfl⟩

end ReadFailedRead

/-! ### C25: the resource ID in Create -/

section Prepares

variable {κ σ α β : Type}

open Go

theorem Go.Prepares.prep_pure (isDone : Event κ → Bool) (a : α) :
    Prepares isDone (pure a : Go κ σ α) :=
  ⟨fun s => ⟨by simp, rfl, rfl, [], by simp, by simp, by simp⟩⟩

theorem Go.Prepares.prep_fail (isDone : Event κ → Bool) (e : Err) :
    Prepares isDone (fail e : Go κ σ α) :=
  ⟨fun s => ⟨by simp, rfl, rfl, [], by simp, by simp, by simp⟩⟩

theorem Go.Prepares.prep_call (isDone : Event κ → Bool) (pfx : String) (c : κ)
    (f : κ → σ → Except Err α × σ) (h : ∀ r, isDone (Event.call c r) = false) :
    Prepares isDone (Go.call pfx c f) :=
  ⟨fun s => by
    rcases ok_or_error (f c s.world) with ⟨a, w, hc⟩ | ⟨e, w, hc⟩
    · rw [call_ok hc]
      exact ⟨by simp, rfl, rfl, [Event.call c none], rfl, by simp [h], by simp [Event.failed]⟩
    · rw [call_error hc]
      exact ⟨by simp, rfl, rfl, [Event.call c (some e)], rfl, by simp [h], by simp⟩⟩

theorem Go.Prepares.prep_bind {isDone : Event κ → Bool} {m : Go κ σ α} {f : α → Go κ σ β}
    (hm : Prepares isDone m) (hf : ∀ a, Prepares isDone (f a)) :
    Prepares isDone (m >>= f) :=
  ⟨fun s => by
    obtain ⟨h1, h2, h3, evs, h4, h5, h6⟩ := hm.run s
    rcases hms : m s with ⟨r, s1⟩
    rw [hms] at h1 h2 h3 h4 h6
    simp only [Go.bind_run, hms]
    cases r with
    | ok a =>
      obtain ⟨g1, g2, g3, evs2, g4, g5, g6⟩ := (hf a).run s1
      refine ⟨g1, g2.trans h2, g3.trans h3, evs ++ evs2, ?_, ?_, ?_⟩
      · simp only at h4
        rw [g4, h4, List.append_assoc]
      · intro e he
        rcases List.mem_append.mp he with he | he
        · exact h5 e he
        · exact g5 e he
      · intro hok e he
        rcases List.mem_append.mp he with he | he
        · exact h6 ⟨a, rfl⟩ e he
        · exact g6 hok e he
    | err e => exact ⟨by simp, h2, h3, evs, h4, h5, by simp⟩
    | panic => exact absurd rfl h1⟩

end Prepares

section CreateOutcomeFacts

variable {σ : Type}

open Go

/-- Code that prepares, in front of code with the outcome `CreatedOrUnset`. -/
theorem CreatedOrUnset.after {α : Type} (cl : MGWClient σ) {m : Go MGWCall σ α}
    {f : α → Go MGWCall σ Unit} (hm : Prepares isBooted m)
    (hf : ∀ a s, CreatedOrUnset cl s (f a s)) :
    ∀ s, CreatedOrUnset cl s ((m >>= f) s) := by
  intro s
  obtain ⟨h1, h2, h3, evs, h4, h5, h6⟩ := hm.run s
  rcases hms : m s with ⟨r, s1⟩
  rw [hms] at h1 h2 h3 h4 h6
  simp only at h1 h2 h3 h4 h6
  simp only [Go.bind_run, hms]
  cases r with
  | ok a =>
    rcases hf a s1 with ⟨he, hd, evs2, ht, hb⟩ | ⟨pre, id, w1, hpre, hrun⟩
    · refine Or.inl ⟨he, hd.trans h2, evs ++ evs2, ?_, ?_⟩
      · rw [ht, h4, List.append_assoc]
      · intro e hmem
        rcases List.mem_append.mp hmem with hmem | hmem
        · exact h5 e hmem
        · exact hb e hmem
    · refine Or.inr ⟨evs ++ pre, id, w1, ?_, ?_⟩
      · intro e hmem
        rcases List.mem_append.mp hmem with hmem | hmem
        · exact h6 ⟨a, rfl⟩ e hmem
        · exact hpre e hmem
      · show f a s1 = _
        rw [hrun, h2, h3, h4]
        simp only [List.append_assoc]
  | err e => exact Or.inl ⟨⟨e, rfl⟩, h2, evs, h4, h5⟩
  | panic => exact absurd rfl h1

/-- Lines 313-327: the 90-second sleep, the boot, the wait for it, `SetId` and the
read-back. -/
theorem mgwCreate_boot_outcome (cl : MGWClient σ) (mgw : MobileGateway) :
    ∀ s, CreatedOrUnset cl s ((do
      Sleep 90
      call "Failed to wait SakuraCloud MobileGateway boot: " (.Boot mgw.ID) cl.unit
      call "Failed to wait SakuraCloud MobileGateway boot: " (.SleepUntilUp mgw.ID) cl.unit
      SetId (cl.GetStrID mgw.ID)
      resourceSakuraCloudMobileGatewayRead cl : Go MGWCall σ Unit) s) := by
  intro s
  have hsleep : (Sleep 90 : Go MGWCall σ Unit) s =
      (Res.ok (), { s with trace := s.trace ++ [Event.sleep 90] }) := rfl
  rw [Go.bind_ok hsleep]
  rcases ok_or_error (cl.unit (MGWCall.Boot mgw.ID)
    ({ s with trace := s.trace ++ [Event.sleep 90] } : St MGWCall σ).world)
    with ⟨u, w, h⟩ | ⟨e, w, h⟩
  · rw [Go.bind_ok (call_ok h)]
    rcases ok_or_error (cl.unit (MGWCall.SleepUntilUp mgw.ID)
      ({ world := w, d := s.d, trace := s.trace ++ [Event.sleep 90] ++
          [Event.call (MGWCall.Boot mgw.ID) none], defers := s.defers } : St MGWCall σ).world)
      with ⟨u2, w2, h2⟩ | ⟨e, w2, h2⟩
    · rw [Go.bind_ok (call_ok h2), Go.bind_ok (Go.SetId_run _ _)]
      exact Or.inr ⟨[], mgw.ID, w2, by simp, by simp⟩
    · rw [Go.bind_err (call_error h2)]
      exact Or.inl ⟨⟨_, rfl⟩, rfl,
        [Event.sleep 90, Event.call (MGWCall.Boot mgw.ID) none,
          Event.call (MGWCall.SleepUntilUp mgw.ID) (some e)], by simp, by simp [isBooted]⟩
  · rw [Go.bind_err (call_error h)]
    exact Or.inl ⟨⟨_, rfl⟩, rfl,
      [Event.sleep 90, Event.call (MGWCall.Boot mgw.ID) (some e)], by simp, by simp [isBooted]⟩

/-- The steps of Create between `SleepWhileCopying` and the 90-second sleep prepare. -/
theorem mgwCreateConnect_prepares (cl : MGWClient σ) (switchID : Int) (ip : String)
    (nwMaskLen : Int) (mgw : MobileGateway) :
    Prepares isBooted (mgwCreateConnect cl switchID ip nwMaskLen mgw) := by
  unfold mgwCreateConnect
  repeat' first
    | exact Prepares.prep_pure _ _
    | exact Prepares.prep_call _ _ _ _ (fun _ => rfl)
    | apply Prepares.prep_bind
    | intro _
    | split

theorem mgwCreateTrafficControl_prepares (cl : MGWClient σ) (d : ResourceData)
    (mgw : MobileGateway) : Prepares isBooted (mgwCreateTrafficControl cl d mgw) := by
  unfold mgwCreateTrafficControl
  repeat' first
    | exact Prepares.prep_pure _ _
    | exact Prepares.prep_call _ _ _ _ (fun _ => rfl)
    | apply Prepares.prep_bind
    | intro _
    | split

theorem mgwCreateDNS_prepares (cl : MGWClient σ) (d : ResourceData) (mgw : MobileGateway) :
    Prepares isBooted (mgwCreateDNS cl d mgw) := by
  unfold mgwCreateDNS
  dsimp only
  split
  · exact Prepares.prep_call _ _ _ _ (fun _ => rfl)
  · exact Prepares.prep_pure _ _

theorem mgwCreateStaticRoute_prepares (cl : MGWClient σ) (d : ResourceData)
    (mgw : MobileGateway) : Prepares isBooted (mgwCreateStaticRoute cl d mgw) := by
  unfold mgwCreateStaticRoute
  repeat' first
    | exact Prepares.prep_pure _ _
    | exact Prepares.prep_fail _ _
    | exact Prepares.prep_call _ _ _ _ (fun _ => rfl)
    | apply Prepares.prep_bind
    | intro _
    | split

/-- C25 (as stated) fails: with every step up to `SleepUntilUp` successful and the `GetDNS`
call of the read-back answered with an error, Create returns an error and the resource ID
is "100". -/
theorem mgwCreate_error_after_id_is_set :
    newGateway.id = "" ∧
    (resourceSakuraCloudMobileGatewayCreate (scriptedMGW sampleGateway [(8, serverError)])
      sampleCreateNewMobileGateway (St.init 0 newGateway)).1 =
      Res.err (wrapErr "Error reading SakuraCloud MobileGateway resource(dns-resolver): "
        serverError) ∧
    (resourceSakuraCloudMobileGatewayCreate (scriptedMGW sampleGateway [(8, serverError)])
      sampleCreateNewMobileGateway (St.init 0 newGateway)).2.d.id = "100" ∧
    (resourceSakuraCloudMobileGatewayCreate (scriptedMGW sampleGateway [(8, serverError)])
      sampleCreateNewMobileGateway (St.init 0 newGateway)).2.trace =
      [Event.call (MGWCall.Create
          { sampleGateway with Description := "", InstanceStatus := "down" }) none,
       Event.call (MGWCall.SleepWhileCopying 100) none,
       Event.call (MGWCall.UpdateSetting 100 sampleGateway) none,
       Event.call (MGWCall.Config 100) none, Event.sleep 90,
       Event.call (MGWCall.Boot 100) none, Event.call (MGWCall.SleepUntilUp 100) none,
       Event.call (MGWCall.Read 100) none,
       Event.call (MGWCall.GetTrafficMonitoringConfig 100) none,
       Event.call (MGWCall.GetDNS 100) (some serverError)] := by
  refine ⟨rfl, rfl, rfl, rfl⟩

/-- C25 (amended): every run of `resourceSakuraCloudMobileGatewayCreate` has one of two
outcomes.  Either the handler returns an error, no `SleepUntilUp` has succeeded and the
resource data, the ID included, is as before the run.  Or every remote call up to and
including `SleepUntilUp` succeeded, the last three events before the ID is set are the
90-second sleep, `Boot` and `SleepUntilUp`, in this order, the ID is set to that of the new
gateway, and the outcome of the run is that of the read-back that follows. -/
theorem mgwCreate_sets_id_after_boot (cl : MGWClient σ)
    (CreateNewMobileGateway : CreateMobileGatewayValue → String → Except Err MobileGateway)
    (w : σ) (d : ResourceData) :
    CreatedOrUnset cl (St.init w d)
      (resourceSakuraCloudMobileGatewayCreate cl CreateNewMobileGateway (St.init w d)) := by
  unfold resourceSakuraCloudMobileGatewayCreate
  rw [Go.bind_ok (Go.getData_run _)]
  simp only [St.init]
  cases hV : mgwSwitchParams cl d with
  | error e => exact Or.inl ⟨⟨e, rfl⟩, rfl, [], by simp [Go.fail], by simp⟩
  | ok p =>
    obtain ⟨switchID, ip, nwMaskLen⟩ := p
    simp only
    unfold mgwCreateAfterValidation
    cases hC : CreateNewMobileGateway (mgwCreateOpts cl d)
        (if (d.Get "internet_connection").asBool then "True" else "False") with
    | error e => exact Or.inl ⟨⟨_, rfl⟩, rfl, [], by simp [Go.fail], by simp⟩
    | ok createMgw =>
      simp only
      exact CreatedOrUnset.after cl
        (Prepares.prep_call isBooted _ (MGWCall.Create createMgw) cl.mgw (fun _ => rfl))
        (fun mgw =>
        CreatedOrUnset.after cl
          (Prepares.prep_call isBooted _ (MGWCall.SleepWhileCopying mgw.ID) cl.unit
            (fun _ => rfl)) (fun _ =>
        CreatedOrUnset.after cl (mgwCreateConnect_prepares cl _ _ _ _) (fun mgw =>
        CreatedOrUnset.after cl (mgwCreateTrafficControl_prepares cl _ _) (fun _ =>
        CreatedOrUnset.after cl (mgwCreateDNS_prepares cl _ _) (fun _ =>
        CreatedOrUnset.after cl (mgwCreateStaticRoute_prepares cl _ _) (fun mgw =>
        mgwCreate_boot_outcome cl mgw)))))) _

end CreateOutcomeFacts

/-! ### C28: the packet-filter reconciliation -/

section Issues

variable {κ σ : Type}

open Go

theorem Go.Issues.issues_pure : Issues ([] : List κ) (pure () : Go κ σ Unit) :=
  ⟨fun s => ⟨s.world, by simp⟩⟩

theorem Go.Issues.issues_call (pfx : String) (c : κ) (f : κ → σ → Except Err Unit × σ)
    (hok : ∀ c w, (f c w).1 = Except.ok ()) : Issues [c] (Go.call pfx c f) :=
  ⟨fun s => by
    have h : f c s.world = (Except.ok (), (f c s.world).2) := Prod.ext (hok c s.world) rfl
    exact ⟨(f c s.world).2, by rw [call_ok h]; rfl⟩⟩

theorem Go.Issues.issues_bind {xs ys : List κ} {m : Go κ σ Unit} {f : Unit → Go κ σ Unit}
    (hm : Issues xs m) (hf : Issues ys (f ())) : Issues (xs ++ ys) (m >>= f) :=
  ⟨fun s => by
    obtain ⟨w, h⟩ := hm.run s
    obtain ⟨w2, h2⟩ := hf.run { s with world := w, trace := s.trace ++ xs.map (fun c => Event.call c none) }
    exact ⟨w2, by rw [Go.bind_ok h, h2]; simp⟩⟩

theorem Go.Issues.issues_opt (b : Prop) [Decidable b] (pfx : String) (c : κ)
    (f : κ → σ → Except Err Unit × σ) (hok : ∀ c w, (f c w).1 = Except.ok ()) :
    Issues (if b then [c] else []) (if b then Go.call pfx c f else pure () : Go κ σ Unit) := by
  split
  · exact Go.Issues.issues_call pfx c f hok
  · exact Go.Issues.issues_pure

end Issues

section PacketFilterReconciliation

variable {σ : Type}

open Go

/-- The loop over the NICs beyond the last filter ID issues the calls of the specification
for these NICs. -/
theorem serverDisconnectFilters_issues (cl : ServerClient σ)
    (hok : ∀ c w, (cl.unit c w).1 = Except.ok ()) (nics : List ServerNIC) :
    Issues (specPacketFilterCalls cl nics []) (serverDisconnectFilters cl nics) := by
  induction nics with
  | nil => exact Issues.issues_pure
  | cons nic rest ih =>
    unfold serverDisconnectFilters specPacketFilterCalls
    simp only [List.head?_nil, List.tail_nil, List.append_nil]
    exact Issues.issues_bind (Issues.issues_opt _ _ _ _ hok) ih

/-- The loop over the filter IDs from index `i` on, followed by the loop over the remaining
NICs, issues the calls of the specification for the NICs from `i` on. -/
theorem serverPacketFilterLoop_issues (cl : ServerClient σ)
    (hok : ∀ c w, (cl.unit c w).1 = Except.ok ()) (server : Server) :
    ∀ (ids : List (Option String)) (i : Nat),
      Issues (specPacketFilterCalls cl (server.Interfaces.drop i) ids)
        (do
          serverPacketFilterLoop cl server ids i
          serverDisconnectFilters cl ((server.Interfaces.drop i).drop ids.length)) := by
  intro ids
  induction ids with
  | nil =>
    intro i
    unfold serverPacketFilterLoop
    rw [Go.pure_bind]
    exact serverDisconnectFilters_issues cl hok _
  | cons filterID rest ih =>
    intro i
    unfold serverPacketFilterLoop
    rw [Go.bind_bind]
    have hrest := ih (i + 1)
    cases hget : server.Interfaces.get? i with
    | none =>
      have hdrop : server.Interfaces.drop i = [] :=
        List.drop_eq_nil_of_le (List.get?_eq_none.mp hget)
      have hdrop' : server.Interfaces.drop (i + 1) = [] :=
        List.drop_eq_nil_of_le (Nat.le_succ_of_le (List.get?_eq_none.mp hget))
      rw [hdrop, List.drop_nil]
      rw [hdrop', List.drop_nil] at hrest
      simp only [Go.pure_bind]
      unfold specPacketFilterCalls at hrest ⊢
      exact hrest
    | some nic =>
      have hdrop : server.Interfaces.drop i = nic :: server.Interfaces.drop (i + 1) := by
        rw [List.get?_eq_some] at hget
        obtain ⟨hlt, hnic⟩ := hget
        rw [← hnic]
        exact List.drop_eq_getElem_cons hlt
      rw [hdrop]
      simp only [List.length_cons, List.drop_succ_cons]
      unfold specPacketFilterCalls
      simp only [List.head?_cons, List.tail_cons, List.append_assoc]
      rw [Go.bind_bind]
      refine Issues.issues_bind (Issues.issues_opt _ _ _ _ hok) ?_
      refine Issues.issues_bind (Issues.issues_opt _ _ _ _ hok) ?_
      exact hrest

/-- C28: the packet-filter reconciliation of Create, with `packet_filter_ids` set and every
remote call successful.  The block returns normally (both loops end) and the calls it
issues are exactly those of the specification, in the order of the NICs: for each NIC the
disconnect when it has a packet filter, then the connect when there is a non-empty filter
ID for it; filter IDs beyond the last NIC cause no call. -/
theorem serverReconcilePacketFilters_as_specified (cl : ServerClient σ) (d : ResourceData)
    (server : Server) (s : St ServerCall σ)
    (hset : (d.GetOk "packet_filter_ids").2 = true)
    (hok : ∀ c w, (cl.unit c w).1 = Except.ok ()) :
    ∃ w, serverReconcilePacketFilters cl d server s =
      (Res.ok (), { s with
        world := w
        trace := s.trace ++
          (specPacketFilterCalls cl server.Interfaces
            (d.GetOk "packet_filter_ids").1.asOptStrings).map
            (fun c => Event.call c none) }) := by
  unfold serverReconcilePacketFilters
  rw [if_pos hset]
  have h := serverPacketFilterLoop_issues cl hok server
    (d.GetOk "packet_filter_ids").1.asOptStrings 0
  simp only [List.drop_zero] at h
  exact h.run s

/-- C28 on a server with three NICs, of which NIC 1 and NIC 3 have a packet filter, and the
filter IDs "101" and nil: NIC 1 is disconnected and then connected to filter 101, NIC 2
gets no call, NIC 3 is disconnected; the Create handler issues these calls between its
Read and the read-back. -/
theorem serverReconcilePacketFilters_as_specified_witness :
    (∃ w, serverReconcilePacketFilters connectorThreeNICs twoFilterIDs serverThreeNICs
        (St.init 0 twoFilterIDs) =
      (Res.ok (), { (St.init 0 twoFilterIDs : St ServerCall Nat) with
        world := w
        trace := [] ++
          [ServerCall.InterfaceDisconnectFromPacketFilter 1,
           ServerCall.InterfaceConnectToPacketFilter 1 101,
           ServerCall.InterfaceDisconnectFromPacketFilter 3].map
            (fun c => Event.call c none) })) ∧
    (resourceSakuraCloudServerConnectorCreate connectorThreeNICs
        (St.init 0 twoFilterIDs)).2.trace =
      [Event.call (ServerCall.Read 100) none,
       Event.call (ServerCall.InterfaceDisconnectFromPacketFilter 1) none,
       Event.call (ServerCall.InterfaceConnectToPacketFilter 1 101) none,
       Event.call (ServerCall.InterfaceDisconnectFromPacketFilter 3) none,
       Event.call (ServerCall.Read 100) none] :=
  ⟨serverReconcilePacketFilters_as_specified connectorThreeNICs twoFilterIDs serverThreeNICs
      (St.init 0 twoFilterIDs) (by decide) (fun _ _ => rfl),
   by decide⟩

end PacketFilterReconciliation

/-! ### C29: the selection of the data sources -/

section DataSourceSelection

variable {σ : Type}

open Go

/-- The Server data source after a successful search. -/
theorem dataSourceSakuraCloudServerRead_selects (cl : SearchClient σ ServerInfo)
    (setServerResourceData : ServerInfo → Go SearchCall σ Unit) (w w' : σ) (d : ResourceData)
    (zone : String) (res : Option (FindResult ServerInfo))
    (hclient : cl.sakuraCloudClient d = .ok zone)
    (hfind : cl.find (.Find (some zone) (findCondition cl d)) w = (.ok res, w')) :
    FirstSelected cl.filterNoResultErr (.Find (some zone) (findCondition cl d)) res w'
      (fun target => do
        SetId (cl.idString target.ID)
        setServerResourceData target)
      (St.init w d) (dataSourceSakuraCloudServerRead cl setServerResourceData (St.init w d)) := by
  unfold dataSourceSakuraCloudServerRead
  rw [Go.bind_ok (Go.getData_run _)]
  simp only [St.init, hclient]
  have hcall : (Go.call "could not find SakuraCloud Server resource: "
      (SearchCall.Find (some zone) (findCondition cl d)) cl.find)
      ({ world := w, d := d, trace := [], defers := [] } : St SearchCall σ) =
      (Res.ok res, { world := w', d := d, trace := [] ++ [Event.call
        (SearchCall.Find (some zone) (findCondition cl d)) none], defers := [] }) := by
    simp [Go.call, hfind]
  rw [Go.bind_ok hcall]
  constructor
  · rintro (rfl | ⟨r, rfl, hr⟩)
    · rfl
    · rcases hr with hr | hr <;> simp [hr, Go.fail]
  · rintro r target rest rfl hcount hitems
    simp [hcount, hitems]

/-- The SimpleMonitor data source after a successful search. -/
theorem dataSourceSakuraCloudSimpleMonitorRead_selects (cl : SearchClient σ SimpleMonitor)
    (monitor : SimpleMonitorClient σ) (w w' : σ) (d : ResourceData)
    (zone : String) (res : Option (FindResult SimpleMonitor))
    (hclient : cl.sakuraCloudClient d = .ok zone)
    (hfind : cl.find (.Find none (findCondition cl d)) w = (.ok res, w')) :
    FirstSelected cl.filterNoResultErr (.Find none (findCondition cl d)) res w'
      (fun target => do
        SetId (cl.idString target.ID)
        setSimpleMonitorResourceData monitor target)
      (St.init w d) (dataSourceSakuraCloudSimpleMonitorRead cl monitor (St.init w d)) := by
  unfold dataSourceSakuraCloudSimpleMonitorRead
  rw [Go.bind_ok (Go.getData_run _)]
  simp only [St.init, hclient]
  have hcall : (Go.call "could not find SakuraCloud SimpleMonitor resource: "
      (SearchCall.Find none (findCondition cl d)) cl.find)
      ({ world := w, d := d, trace := [], defers := [] } : St SearchCall σ) =
      (Res.ok res, { world := w', d := d, trace := [] ++ [Event.call
        (SearchCall.Find none (findCondition cl d)) none], defers := [] }) := by
    simp [Go.call, hfind]
  rw [Go.bind_ok hcall]
  constructor
  · rintro (rfl | ⟨r, rfl, hr⟩)
    · rfl
    · rcases hr with hr | hr <;> simp [hr, Go.fail]
  · rintro r target rest rfl hcount hitems
    simp [hcount, hitems]

/-- The Archive data source after a successful search in the filter branch. -/
theorem dataSourceSakuraCloudArchiveRead_selects (cl : SearchClient σ Archive)
    (archive : ArchiveClient σ) (w w' : σ) (d : ResourceData)
    (zone : String) (res : Option (FindResult Archive))
    (hclient : cl.sakuraCloudClient d = .ok zone)
    (hos : (d.GetOk "os_type").2 = false)
    (hfind : cl.find (.Find (some zone) (findCondition cl d)) w = (.ok res, w')) :
    FirstSelected cl.filterNoResultErr (.Find (some zone) (findCondition cl d)) res w'
      (fun target => archiveSetData cl archive (some target))
      (St.init w d) (dataSourceSakuraCloudArchiveRead cl archive (St.init w d)) := by
  unfold dataSourceSakuraCloudArchiveRead
  rw [Go.bind_ok (Go.getData_run _)]
  simp only [St.init, hclient, hos, Bool.false_eq_true, if_false]
  rw [Go.bind_bind]
  have hcall : (Go.call "could not find SakuraCloud Archive resource: "
      (SearchCall.Find (some zone) (findCondition cl d)) cl.find)
      ({ world := w, d := d, trace := [], defers := [] } : St SearchCall σ) =
      (Res.ok res, { world := w', d := d, trace := [] ++ [Event.call
        (SearchCall.Find (some zone) (findCondition cl d)) none], defers := [] }) := by
    simp [Go.call, hfind]
  rw [Go.bind_ok hcall]
  constructor
  · rintro (rfl | ⟨r, rfl, hr⟩)
    · rfl
    · rcases hr with hr | hr
      · simp [hr, Go.fail]
      · by_cases hcount : r.Count = 0 <;> simp [hr, hcount, Go.fail]
  · rintro r target rest rfl hcount hitems
    simp [hcount, hitems]

/-- C29: the selection of the data sources of Server, SimpleMonitor and Archive (filter
branch: `os_type` is not set), when the client lookup and the search succeed.  If the
search result is nil, has count 0 or has no element, the handler returns the no-result
error and the resource data, the ID included, is as before.  Otherwise the handler sets the
ID to that of the first element and its outcome is that of populating the state from the
first element: the other elements and the count do not enter. -/
theorem data_sources_select_first (server : SearchClient σ ServerInfo)
    (setServerResourceData : ServerInfo → Go SearchCall σ Unit)
    (monitors : SearchClient σ SimpleMonitor) (monitor : SimpleMonitorClient σ)
    (archives : SearchClient σ Archive) (archive : ArchiveClient σ)
    (w w' : σ) (d : ResourceData) (zone : String) :
    (∀ res, server.sakuraCloudClient d = .ok zone →
      server.find (.Find (some zone) (findCondition server d)) w = (.ok res, w') →
      FirstSelected server.filterNoResultErr (.Find (some zone) (findCondition server d))
        res w'
        (fun target => do
          SetId (server.idString target.ID)
          setServerResourceData target)
        (St.init w d)
        (dataSourceSakuraCloudServerRead server setServerResourceData (St.init w d))) ∧
    (∀ res, monitors.sakuraCloudClient d = .ok zone →
      monitors.find (.Find none (findCondition monitors d)) w = (.ok res, w') →
      FirstSelected monitors.filterNoResultErr (.Find none (findCondition monitors d)) res w'
        (fun target => do
          SetId (monitors.idString target.ID)
          setSimpleMonitorResourceData monitor target)
        (St.init w d) (dataSourceSakuraCloudSimpleMonitorRead monitors monitor (St.init w d))) ∧
    (∀ res, archives.sakuraCloudClient d = .ok zone → (d.GetOk "os_type").2 = false →
      archives.find (.Find (some zone) (findCondition archives d)) w = (.ok res, w') →
      FirstSelected archives.filterNoResultErr (.Find (some zone) (findCondition archives d))
        res w'
        (fun target => archiveSetData archives archive (some target))
        (St.init w d) (dataSourceSakuraCloudArchiveRead archives archive (St.init w d))) :=
  ⟨fun res h1 h2 =>
     dataSourceSakuraCloudServerRead_selects server setServerResourceData w w' d zone res h1 h2,
   fun res h1 h2 =>
     dataSourceSakuraCloudSimpleMonitorRead_selects monitors monitor w w' d zone res h1 h2,
   fun res h1 h2 h3 =>
     dataSourceSakuraCloudArchiveRead_selects archives archive w w' d zone res h1 h2 h3⟩

/-- C29 on a search that reports two archives: the outcome is that of populating the state
from the first archive, and the ID is its ID, 100; and on a search for servers that reports
a result without elements: the no-result error, with the ID unset. -/
theorem data_sources_select_first_witness :
    dataSourceSakuraCloudArchiveRead (scriptedSearch (some sampleArchives))
        sampleArchiveClient (St.init 0 unsetData) =
      archiveSetData (scriptedSearch (some sampleArchives)) sampleArchiveClient
        (some { ID := 100, Name := "first", SizeMB := 20480, IconID := 0, Description := "",
                Tags := [] })
        { world := 1, d := unsetData
          trace := [Event.call (SearchCall.Find (some "is1a") none) none], defers := [] } ∧
    (dataSourceSakuraCloudArchiveRead (scriptedSearch (some sampleArchives))
        sampleArchiveClient (St.init 0 unsetData)).2.d.id = "100" ∧
    dataSourceSakuraCloudServerRead (scriptedSearch (some ⟨0, []⟩))
        (fun _ => pure ()) (St.init 0 unsetData) =
      (Res.err (newErr
        "Your query returned no results. Please change your filter or selectors and try again"),
       { world := 1, d := unsetData
         trace := [Event.call (SearchCall.Find (some "is1a") none) none], defers := [] }) :=
  have h := data_sources_select_first (scriptedSearch (some ⟨0, []⟩)) (fun _ => pure ())
    (scriptedSearch none) (scriptedMonitor []) (scriptedSearch (some sampleArchives))
    sampleArchiveClient 0 1 unsetData "is1a"
  ⟨(h.2.2 (some sampleArchives) rfl rfl rfl).2 sampleArchives _ _ rfl (by decide) rfl,
   rfl,
   (h.1 (some ⟨0, []⟩) rfl rfl).1 (Or.inr ⟨_, rfl, Or.inl rfl⟩)⟩

end DataSourceSelection

end Sakura
